import Mathlib

/-! # Semantic analyzer of the SQL front end (`parTranslater.c`)

A shallow embedding of the translator of `source/libs/parser/src/parTranslater.c` (the
translation of a select, the rewriter and the finalizer) and theorems about it.

Conventions of the embedding

* The C code mutates the syntax tree and the translation context in place.  Here every
  function takes the context (and the node it works on) and returns the new ones together
  with its result code.
* Collaborators that live outside the translator (function manager, catalog, the C library
  number parsers, the time parsers, node comparison and classification) are fields of `Env`.
* The translator is recursive through its subqueries.  The functions take the translator of
  subqueries (`translateQuery` of the source) as an argument; `translateQueryDepth` closes
  the recursion for statements of bounded nesting.
* The statement a clause translator works on is the current statement of the context; the
  embedding stores the statement in the context after each change of it.
* Memory allocation is taken to succeed, so the `TSDB_CODE_OUT_OF_MEMORY` branches that
  guard a failed allocation are not represented.
* The rewriter, the dispatcher of the statements and the finalizer work on the root of
  a query (`Stmt`) and on the query envelope (`SQuery`); their collaborators and constants
  are fields of `RewriteEnv`.  Where the C code can read through a NULL pointer the function
  returns an `Option`, and `none` is that read.
* The translators of CREATE DATABASE and ALTER TABLE stand on their own, outside `Stmt`; the
  sizing calls of the serializers of their requests are fields of `SerializeEnv`, and the
  envelope keeps the request in place of its serialized bytes.
* The reverse edge `pAssociationList` of an expression (the columns that refer to it) is
  not represented; the forward edge `pProjectRef` is the position of the referenced
  expression in the projection list it belongs to.
-/

namespace ParTranslater

/-! ## Result codes and enumerations -/

/-- Result codes.  `TSDB_CODE_SUCCESS` is the only success value; `external n` stands for a
failure code produced by a collaborator (catalog, function manager). -/
inductive Code where
  | TSDB_CODE_SUCCESS
  | TSDB_CODE_OUT_OF_MEMORY
  | TSDB_CODE_PAR_INVALID_COLUMN
  | TSDB_CODE_PAR_TABLE_NOT_EXIST
  | TSDB_CODE_PAR_AMBIGUOUS_COLUMN
  | TSDB_CODE_PAR_WRONG_VALUE_TYPE
  | TSDB_CODE_PAR_INVALID_FUNTION
  | TSDB_CODE_PAR_ILLEGAL_USE_AGG_FUNCTION
  | TSDB_CODE_PAR_GROUPBY_LACK_EXPRESSION
  | TSDB_CODE_PAR_NOT_SELECTED_EXPRESSION
  | TSDB_CODE_PAR_NOT_SINGLE_GROUP
  | TSDB_CODE_PAR_WRONG_NUMBER_OF_SELECT
  | TSDB_CODE_PAR_INTERVAL_VALUE_TOO_SMALL
  | TSDB_CODE_PAR_INVALID_TAG_NAME
  | TSDB_CODE_PAR_TAGS_NOT_MATCHED
  | external (n : Nat)
  deriving DecidableEq, Repr

open Code

/-- Outcome of a walker callback. -/
inductive EDealRes where
  | DEAL_RES_CONTINUE
  | DEAL_RES_IGNORE_CHILD
  | DEAL_RES_ERROR
  deriving DecidableEq, Repr

open EDealRes

/-- Modelled from the spec: the enumeration `ESqlClause` is declared outside the translator;
its labels and their order are those of the clause order of section 4.4
(FROM, WHERE, PARTITION BY, WINDOW, GROUP BY, HAVING, SELECT, ORDER BY). -/
inductive ESqlClause where
  | SQL_CLAUSE_FROM
  | SQL_CLAUSE_WHERE
  | SQL_CLAUSE_PARTITION_BY
  | SQL_CLAUSE_WINDOW
  | SQL_CLAUSE_GROUP_BY
  | SQL_CLAUSE_HAVING
  | SQL_CLAUSE_SELECT
  | SQL_CLAUSE_ORDER_BY
  deriving DecidableEq, Repr

open ESqlClause

/-- Numeric value of a clause label (the enumeration starts at 1). -/
def ESqlClause.toNat : ESqlClause → Nat
  | SQL_CLAUSE_FROM => 1
  | SQL_CLAUSE_WHERE => 2
  | SQL_CLAUSE_PARTITION_BY => 3
  | SQL_CLAUSE_WINDOW => 4
  | SQL_CLAUSE_GROUP_BY => 5
  | SQL_CLAUSE_HAVING => 6
  | SQL_CLAUSE_SELECT => 7
  | SQL_CLAUSE_ORDER_BY => 8

/-- The data types the translator distinguishes (`TSDB_DATA_TYPE_*`). -/
inductive DataType where
  | TSDB_DATA_TYPE_NULL
  | TSDB_DATA_TYPE_BOOL
  | TSDB_DATA_TYPE_TINYINT
  | TSDB_DATA_TYPE_SMALLINT
  | TSDB_DATA_TYPE_INT
  | TSDB_DATA_TYPE_BIGINT
  | TSDB_DATA_TYPE_FLOAT
  | TSDB_DATA_TYPE_DOUBLE
  | TSDB_DATA_TYPE_VARCHAR
  | TSDB_DATA_TYPE_TIMESTAMP
  | TSDB_DATA_TYPE_NCHAR
  | TSDB_DATA_TYPE_UTINYINT
  | TSDB_DATA_TYPE_USMALLINT
  | TSDB_DATA_TYPE_UINT
  | TSDB_DATA_TYPE_UBIGINT
  | TSDB_DATA_TYPE_JSON
  | TSDB_DATA_TYPE_VARBINARY
  | TSDB_DATA_TYPE_DECIMAL
  | TSDB_DATA_TYPE_BLOB
  deriving DecidableEq, Repr

open DataType

/-- Role of a column: ordinary column or tag. -/
inductive EColumnType where
  | COLUMN_TYPE_COLUMN
  | COLUMN_TYPE_TAG
  deriving DecidableEq, Repr

open EColumnType

/-- Kind of a table in the catalog. -/
inductive ETableType where
  | TSDB_SUPER_TABLE
  | TSDB_CHILD_TABLE
  | TSDB_NORMAL_TABLE
  | TSDB_SYSTEM_TABLE
  deriving DecidableEq, Repr

open ETableType

/-! ## Data model -/

/-- Result type of an expression: data type, byte width, precision. -/
structure SDataType where
  type : DataType := TSDB_DATA_TYPE_NULL
  bytes : Nat := 0
  precision : Nat := 0
  deriving DecidableEq, Repr

/-- Header shared by all expression nodes. -/
structure SExprNode where
  resType : SDataType := {}
  aliasName : String := ""
  deriving DecidableEq, Repr

/-- A column reference. `pProjectRef` is the position, in its projection list, of the
projection expression the column is bound to. -/
structure SColumnNode where
  node : SExprNode := {}
  tableId : Nat := 0
  colId : Int := 0
  colType : EColumnType := COLUMN_TYPE_COLUMN
  dbName : String := ""
  tableName : String := ""
  tableAlias : String := ""
  colName : String := ""
  pProjectRef : Option Nat := none
  deriving DecidableEq, Repr

/-- What the translator observes of a floating point datum: its integer part (a C conversion
to an integer type truncates toward zero) and whether a fractional part is present. -/
structure SDouble where
  intPart : Int := 0
  hasFraction : Bool := false
  deriving DecidableEq, Repr

/-- The typed datum of a value node.  The C union is kept as separate fields; each path of the
translator reads the field it wrote. -/
structure SDatum where
  b : Bool := false
  i : Int := 0
  u : Nat := 0
  d : SDouble := {}
  p : Option (Nat × String) := none
  deriving DecidableEq, Repr

/-- A literal. -/
structure SValueNode where
  node : SExprNode := {}
  literal : String := ""
  isDuration : Bool := false
  translate : Bool := false
  unit : Nat := 0
  datum : SDatum := {}
  deriving DecidableEq, Repr

/-- One entry of a table schema. -/
structure SSchema where
  type : DataType := TSDB_DATA_TYPE_NULL
  colId : Int := 0
  bytes : Nat := 0
  name : String := ""
  deriving DecidableEq, Repr

/-- Column and tag counts of a table. -/
structure STableComInfo where
  numOfTags : Nat := 0
  numOfColumns : Nat := 0
  deriving DecidableEq, Repr

/-- Table descriptor returned by the catalog. -/
structure STableMeta where
  tableType : ETableType := TSDB_NORMAL_TABLE
  uid : Nat := 0
  tableInfo : STableComInfo := {}
  schema : List SSchema := []
  deriving DecidableEq, Repr

/-- One vgroup descriptor. -/
structure SVgroupInfo where
  vgId : Int := 0
  deriving DecidableEq, Repr

/-- Header shared by all table nodes. -/
structure STableNode where
  node : SExprNode := {}
  dbName : String := ""
  tableName : String := ""
  tableAlias : String := ""
  deriving DecidableEq, Repr

/-- A table of the catalog. `pVgroupList` is `none` while no vgroup list is attached. -/
structure SRealTableNode where
  table : STableNode := {}
  pMeta : Option STableMeta := none
  pVgroupList : Option (List SVgroupInfo) := none
  useDbName : String := ""
  deriving DecidableEq, Repr

/-- Fields of a select statement over a node type. A list field is `none` for a NULL list. -/
structure SSelectStmtOf (α : Type) where
  isDistinct : Bool := false
  pProjectionList : Option (List α) := none
  pFromTable : Option α := none
  pWhere : Option α := none
  pPartitionByList : Option (List α) := none
  pWindow : Option α := none
  pGroupByList : Option (List α) := none
  pHaving : Option α := none
  pOrderByList : Option (List α) := none

/-- Nodes of the syntax tree. A pointer that may be NULL is an `Option`. -/
inductive Node where
  | column (c : SColumnNode)
  | value (v : SValueNode)
  | operator (e : SExprNode) (opType : Nat) (pLeft pRight : Option Node)
  | function (e : SExprNode) (functionName : String) (funcId funcType : Int)
      (pParameterList : List Node)
  | logicCondition (e : SExprNode) (condType : Nat) (pParameterList : List Node)
  | realTable (t : SRealTableNode)
  | tempTable (t : STableNode) (pSubquery : Option Node)
  | joinTable (t : STableNode) (joinType : Nat) (pLeft pRight pOnCond : Option Node)
  | groupingSet (groupingSetType : Nat) (pParameterList : List Node)
  | orderByExpr (pExpr : Option Node) (order nullOrder : Nat)
  | intervalWindow (pCol pInterval pOffset pSliding pFill : Option Node)
  | selectStmt (s : SSelectStmtOf Node)
  | otherStmt (kind : Nat)

/-- A select statement. -/
abbrev SSelectStmt := SSelectStmtOf Node

/-- A qualified table name. -/
structure SName where
  type : Nat := 0
  acctId : Int := 0
  dbname : String := ""
  tname : String := ""
  deriving DecidableEq, Repr

/-- The part of the parse context the translator reads. -/
structure SParseContext where
  acctId : Int := 0
  db : String := ""
  topicQuery : Bool := false
  deriving DecidableEq, Repr

/-- Message types of the requests the translator prepares (constants `TDMT_*`). -/
inductive TMsgType where
  | TDMT_VND_QUERY
  | TDMT_VND_CREATE_TABLE
  | TDMT_VND_SHOW_TABLES
  | TDMT_VND_DROP_SMA
  | TDMT_MND_CREATE_DB
  | TDMT_MND_DROP_DB
  | TDMT_MND_ALTER_DB
  | TDMT_MND_USE_DB
  | TDMT_MND_CREATE_STB
  | TDMT_MND_DROP_STB
  | TDMT_MND_ALTER_STB
  | TDMT_MND_CREATE_USER
  | TDMT_MND_ALTER_USER
  | TDMT_MND_DROP_USER
  | TDMT_MND_CREATE_DNODE
  | TDMT_MND_DROP_DNODE
  | TDMT_MND_CONFIG_DNODE
  | TDMT_MND_SHOW
  | TDMT_MND_CREATE_SMA
  | TDMT_MND_CREATE_TOPIC
  | TDMT_MND_DROP_TOPIC
  | TDMT_DND_CREATE_QNODE
  | TDMT_DND_DROP_QNODE
  deriving DecidableEq, Repr

open TMsgType

/-- The end points a command message is addressed to: the management nodes of the parse
context (`pParseCxt->mgmtEpSet`) or the nodes of a vgroup (`info->epSet`). -/
inductive SEpSet where
  | mgmtEpSet
  | vgroupEpSet (info : SVgroupInfo)
  deriving DecidableEq, Repr

/-- One retention of a request to create a database (`SRetention`). -/
structure SRetention where
  freq : Int := 0
  freqUnit : Nat := 0
  keep : Int := 0
  keepUnit : Nat := 0
  deriving DecidableEq, Repr

/-- The request to create a database (`SCreateDbReq`); `pRetensions` is `none` for a NULL
array. The defaults are those of the initializer `{0}`. -/
structure SCreateDbReq where
  db : String := ""
  numOfVgroups : Int := 0
  cacheBlockSize : Int := 0
  totalBlocks : Int := 0
  daysPerFile : Int := 0
  daysToKeep0 : Int := 0
  daysToKeep1 : Int := 0
  daysToKeep2 : Int := 0
  minRows : Int := 0
  maxRows : Int := 0
  commitTime : Int := 0
  fsyncPeriod : Int := 0
  walLevel : Int := 0
  precision : Int := 0
  compression : Int := 0
  replications : Int := 0
  quorum : Int := 0
  update : Int := 0
  cacheLastRow : Int := 0
  ignoreExist : Bool := false
  streamMode : Int := 0
  pRetensions : Option (List SRetention) := none
  deriving DecidableEq

instance : Repr SCreateDbReq where
  reprPrec r _ :=
    repr ((r.db, r.numOfVgroups, r.cacheBlockSize, r.totalBlocks, r.daysPerFile),
      (r.daysToKeep0, r.daysToKeep1, r.daysToKeep2, r.minRows, r.maxRows, r.commitTime),
      (r.fsyncPeriod, r.walLevel, r.precision, r.compression, r.replications, r.quorum),
      (r.update, r.cacheLastRow, r.ignoreExist, r.streamMode, r.pRetensions))

/-- One field of a request to alter a table (`TAOS_FIELD`). The defaults are those of the
initializer `{0}`. -/
structure TAOS_FIELD where
  name : String := ""
  type : DataType := TSDB_DATA_TYPE_NULL
  bytes : Nat := 0
  deriving DecidableEq, Repr

/-- The kinds of change of an ALTER TABLE statement (constants `TSDB_ALTER_TABLE_*`). -/
inductive EAlterTableType where
  | TSDB_ALTER_TABLE_ADD_TAG
  | TSDB_ALTER_TABLE_DROP_TAG
  | TSDB_ALTER_TABLE_UPDATE_TAG_NAME
  | TSDB_ALTER_TABLE_UPDATE_TAG_VAL
  | TSDB_ALTER_TABLE_ADD_COLUMN
  | TSDB_ALTER_TABLE_DROP_COLUMN
  | TSDB_ALTER_TABLE_UPDATE_COLUMN_BYTES
  | TSDB_ALTER_TABLE_UPDATE_TAG_BYTES
  | TSDB_ALTER_TABLE_UPDATE_OPTIONS
  | TSDB_ALTER_TABLE_UPDATE_COLUMN_NAME
  deriving DecidableEq, Repr

open EAlterTableType

/-- The request to alter a table (`SMAltertbReq`); `pFields` is `none` for a NULL array. The
defaults are those of the initializer `{0}`, but for `alterType`, which `translateAlterTable`
always sets. -/
structure SMAltertbReq where
  name : String := ""
  alterType : EAlterTableType := TSDB_ALTER_TABLE_UPDATE_OPTIONS
  numOfFields : Int := 0
  pFields : Option (List TAOS_FIELD) := none
  deriving DecidableEq, Repr

/-- The request a command message carries, for the requests that are part of the model. The
bytes of `pMsg` are the serialization of the request; the model keeps the request. -/
inductive SCmdReq where
  | createDbReq (req : SCreateDbReq)
  | alterStbReq (req : SMAltertbReq)
  deriving DecidableEq, Repr

/-- The envelope of a command message (`SCmdMsgInfo`): its type and where it goes, and, for
CREATE DATABASE and ALTER TABLE, whose requests are part of the model, the length `msgLen` and
the request serialized into `pMsg`; for the other statements these two are left out (`none`). -/
structure SCmdMsgInfo where
  msgType : TMsgType
  epSet : SEpSet := SEpSet.mgmtEpSet
  msgLen : Option Int := none
  pMsg : Option SCmdReq := none
  deriving DecidableEq, Repr

/-- The translation context. `currClause` is `none` for the initial value 0 that
`doTranslate` gives it; `msgBuf` is the sequence of diagnostics generated so far; `pCmdMsg`
is `none` for a NULL pointer. -/
structure STranslateContext where
  pParseCxt : SParseContext := {}
  errCode : Code := TSDB_CODE_SUCCESS
  msgBuf : List Code := []
  pNsLevel : List (List Node) := []
  currLevel : Nat := 0
  currClause : Option ESqlClause := none
  pCurrStmt : Option SSelectStmt := none
  pDbs : List String := []
  pTables : List SName := []
  pCmdMsg : Option SCmdMsgInfo := none

/-- Collaborators of the translator that are not part of `parTranslater.c`. -/
structure Env where
  /-- `fmGetFuncInfo`: function id and function type of a name, `none` when it fails. -/
  fmGetFuncInfo : String → Option (Int × Int)
  /-- `fmGetFuncResultType`: the result code and the result type given to the function node. -/
  fmGetFuncResultType : Node → Code × SDataType
  /-- `fmIsAggFunc`. -/
  fmIsAggFunc : Int → Bool
  /-- `nodesIsExprNode`. -/
  nodesIsExprNode : Node → Bool
  /-- `nodesEqualNode`, on two pointers that may be NULL. -/
  nodesEqualNode : Option Node → Option Node → Bool
  /-- `nodesIsArithmeticOp`, by operator type. -/
  nodesIsArithmeticOp : Nat → Bool
  /-- `nodesIsComparisonOp`, by operator type. -/
  nodesIsComparisonOp : Nat → Bool
  /-- Byte width of a data type in the table `tDataTypes`. -/
  tDataTypeBytes : DataType → Nat
  /-- C library `strtoll` in radix 10; the value is a 64 bit signed integer. -/
  strtoll : String → Int
  /-- C library `strtoull` in radix 10; the value is a 64 bit unsigned integer. -/
  strtoull : String → Nat
  /-- C library `strtold`, narrowed to the datum. -/
  strtold : String → SDouble
  /-- `parseNatualDuration literal precision`: value and unit, `none` when it fails. -/
  parseNatualDuration : String → Nat → Option (Int × Nat)
  /-- `taosParseTime literal len precision`: the timestamp, `none` when it fails. -/
  taosParseTime : String → Nat → Nat → Option Int
  /-- `catalogGetTableMeta`: result code and the descriptor it stores. -/
  catalogGetTableMeta : SName → Code × Option STableMeta
  /-- `catalogGetTableDistVgInfo`. -/
  catalogGetTableDistVgInfo : SName → Code × List SVgroupInfo
  /-- `catalogGetTableHashVgroup`. -/
  catalogGetTableHashVgroup : SName → Code × SVgroupInfo
  /-- `catalogGetDBVgInfo`, by full database name. -/
  catalogGetDBVgInfo : String → Code × List SVgroupInfo
  /-- `tNameGetFullDbName`. -/
  tNameGetFullDbName : SName → String
  /-- `tNameExtractFullName`. -/
  tNameExtractFullName : SName → String
  /-- Value of the constant `PRIMARYKEY_TIMESTAMP_COL_ID`. -/
  PRIMARYKEY_TIMESTAMP_COL_ID : Int
  /-- Value of the constant `PK_TS_COL_INTERNAL_NAME`. -/
  PK_TS_COL_INTERNAL_NAME : String
  /-- Value of the constant `TSDB_INS_TABLE_USER_TABLES`. -/
  TSDB_INS_TABLE_USER_TABLES : String

/-! ## Small helpers of the node library -/

/-- The expression header of a node, as read through the cast `(SExprNode*)pNode`. Nodes
without such a header give the empty header. -/
def Node.exprNode : Node → SExprNode
  | .column c => c.node
  | .value v => v.node
  | .operator e _ _ _ => e
  | .function e _ _ _ _ => e
  | .logicCondition e _ _ => e
  | .realTable t => t.table.node
  | .tempTable t _ => t.node
  | .joinTable t _ _ _ _ => t.node
  | _ => {}

/-- The `STableNode` header of a table node. -/
def Node.tableNode : Node → STableNode
  | .realTable t => t.table
  | .tempTable t _ => t
  | .joinTable t _ _ _ _ => t
  | _ => {}

/-- `generateSyntaxErrMsg` on the message buffer of the context: the diagnostic is written and
the code is returned; the error code of the context is not touched. -/
def generateSyntaxErrMsg (pCxt : STranslateContext) (errCode : Code) :
    Code × STranslateContext :=
  (errCode, { pCxt with msgBuf := pCxt.msgBuf ++ [errCode] })

/-- Source lines 52-59. -/
def generateDealNodeErrMsg (pCxt : STranslateContext) (errCode : Code) :
    EDealRes × STranslateContext :=
  (DEAL_RES_ERROR, { pCxt with msgBuf := pCxt.msgBuf ++ [errCode], errCode := errCode })

/-- Source lines 44-46. -/
def afterGroupBy (clause : Option ESqlClause) : Bool :=
  decide ((clause.map ESqlClause.toNat).getD 0 > SQL_CLAUSE_GROUP_BY.toNat)

/-- Source lines 48-50. -/
def beforeHaving (clause : Option ESqlClause) : Bool :=
  decide ((clause.map ESqlClause.toNat).getD 0 < SQL_CLAUSE_HAVING.toNat)

/-- The tables registered at the current namespace level
(`taosArrayGetP(pCxt->pNsLevel, pCxt->currLevel)`); a level that does not exist has none. -/
def currTables (pCxt : STranslateContext) : List Node :=
  pCxt.pNsLevel.getD pCxt.currLevel []

/-- Source lines 61-77. The levels between the present number of levels and the current level are
created empty, the table goes into the current level. -/
def addNamespace (pCxt : STranslateContext) (pTable : Node) : Code × STranslateContext :=
  let currTotalLevel := pCxt.pNsLevel.length
  if currTotalLevel > pCxt.currLevel then
    (TSDB_CODE_SUCCESS,
      { pCxt with pNsLevel := pCxt.pNsLevel.modify (fun pTables => pTables ++ [pTable])
                                pCxt.currLevel })
  else
    (TSDB_CODE_SUCCESS,
      { pCxt with pNsLevel := pCxt.pNsLevel ++
          List.replicate (pCxt.currLevel - currTotalLevel) [] ++ [[pTable]] })

/-- Source lines 198-209. -/
def belongTable (currentDb : String) (pCol : SColumnNode) (pTable : Node) : Bool :=
  let t := pTable.tableNode
  let cmp : Bool :=
    if pCol.dbName ≠ "" then decide (pCol.dbName = t.dbName)
    else match pTable with
      | .realTable _ => decide (currentDb = t.dbName)
      | _ => true
  if cmp then decide (pCol.tableAlias = t.tableAlias) else false

/-- Source lines 211-216. -/
def getProjectList (pNode : Option Node) : Option (List Node) :=
  match pNode with
  | some (.selectStmt s) => s.pProjectionList
  | _ => none

/-- Source lines 218-231. -/
def setColumnInfoBySchema (pTable : SRealTableNode) (uid : Nat) (pColSchema : SSchema)
    (isTag : Bool) (pCol : SColumnNode) : SColumnNode :=
  { pCol with
    dbName := pTable.table.dbName
    tableAlias := pTable.table.tableAlias
    tableName := pTable.table.tableName
    colName := pColSchema.name
    tableId := uid
    colId := pColSchema.colId
    colType := if isTag then COLUMN_TYPE_TAG else COLUMN_TYPE_COLUMN
    node := { aliasName := if pCol.node.aliasName = "" then pColSchema.name
                           else pCol.node.aliasName
              resType := { pCol.node.resType with type := pColSchema.type
                                                  bytes := pColSchema.bytes } } }

/-- Source lines 233-241. `idx` is the position of `pExpr` in its projection list. -/
def setColumnInfoByExpr (pTable : Option STableNode) (idx : Nat) (pExpr : SExprNode)
    (pCol : SColumnNode) : SColumnNode :=
  { pCol with
    pProjectRef := some idx
    tableAlias := match pTable with
      | some t => t.tableAlias
      | none => pCol.tableAlias
    colName := pExpr.aliasName
    node := { pCol.node with resType := pExpr.resType } }

/-- The loop of lines 279-285: the first schema entry at an index below `nums`, counted from
`i`, whose name is `colName`. -/
def findSchema (colName : String) : List SSchema → Nat → Nat → Option (Nat × SSchema)
  | [], _, _ => none
  | s :: rest, i, nums =>
    if i < nums then
      if colName = s.name then some (i, s) else findSchema colName rest (i + 1) nums
    else none

/-- The loops of lines 289-296 and 343-349: the first expression, counted from `i`, whose
alias is `colName`. -/
def findAlias (colName : String) : List Node → Nat → Option (Nat × SExprNode)
  | [], _ => none
  | n :: rest, i =>
    if colName = n.exprNode.aliasName then some (i, n.exprNode)
    else findAlias colName rest (i + 1)

/-- Source lines 270-299. A real table is registered with its descriptor; without one nothing
is found. Only real tables and subquery tables are registered at a namespace level. -/
def findAndSetColumn (env : Env) (pCol : SColumnNode) (pTable : Node) : Bool × SColumnNode :=
  match pTable with
  | .realTable t =>
    match t.pMeta with
    | none => (false, pCol)
    | some pMeta =>
      if env.PRIMARYKEY_TIMESTAMP_COL_ID = pCol.colId ∧
          pCol.colName = env.PK_TS_COL_INTERNAL_NAME then
        (true, setColumnInfoBySchema t pMeta.uid (pMeta.schema.headD {}) false pCol)
      else
        let nums := pMeta.tableInfo.numOfTags + pMeta.tableInfo.numOfColumns
        match findSchema pCol.colName pMeta.schema 0 nums with
        | some (i, s) =>
          (true, setColumnInfoBySchema t pMeta.uid s
            (decide (i ≥ pMeta.tableInfo.numOfColumns)) pCol)
        | none => (false, pCol)
  | .tempTable t pSubquery =>
    match findAlias pCol.colName ((getProjectList pSubquery).getD []) 0 with
    | some (i, pExpr) => (true, setColumnInfoByExpr (some t) i pExpr pCol)
    | none => (false, pCol)
  | _ => (false, pCol)

/-- The loop of lines 305-314 over the tables that remain. -/
def translateColumnWithPrefixLoop (env : Env) (pCxt : STranslateContext) :
    List Node → Bool → SColumnNode → EDealRes × SColumnNode × STranslateContext
  | [], foundTable, pCol =>
    if !foundTable then
      let r := generateDealNodeErrMsg pCxt TSDB_CODE_PAR_TABLE_NOT_EXIST
      (r.1, pCol, r.2)
    else (DEAL_RES_CONTINUE, pCol, pCxt)
  | pTable :: rest, foundTable, pCol =>
    if belongTable pCxt.pParseCxt.db pCol pTable then
      let r := findAndSetColumn env pCol pTable
      if r.1 then (DEAL_RES_CONTINUE, r.2, pCxt)
      else
        let e := generateDealNodeErrMsg pCxt TSDB_CODE_PAR_INVALID_COLUMN
        (e.1, r.2, e.2)
    else translateColumnWithPrefixLoop env pCxt rest foundTable pCol

/-- Source lines 301-319. -/
def translateColumnWithPrefix (env : Env) (pCxt : STranslateContext) (pCol : SColumnNode) :
    EDealRes × SColumnNode × STranslateContext :=
  translateColumnWithPrefixLoop env pCxt (currTables pCxt) false pCol

/-- The loop of lines 325-333 over the tables that remain. -/
def translateColumnWithoutPrefixLoop (env : Env) (pCxt : STranslateContext) :
    List Node → Bool → SColumnNode → EDealRes × SColumnNode × STranslateContext
  | [], found, pCol =>
    if !found then
      let r := generateDealNodeErrMsg pCxt TSDB_CODE_PAR_INVALID_COLUMN
      (r.1, pCol, r.2)
    else (DEAL_RES_CONTINUE, pCol, pCxt)
  | pTable :: rest, found, pCol =>
    let r := findAndSetColumn env pCol pTable
    if r.1 then
      if found then
        let e := generateDealNodeErrMsg pCxt TSDB_CODE_PAR_AMBIGUOUS_COLUMN
        (e.1, r.2, e.2)
      else translateColumnWithoutPrefixLoop env pCxt rest true r.2
    else translateColumnWithoutPrefixLoop env pCxt rest found r.2

/-- Source lines 321-338. -/
def translateColumnWithoutPrefix (env : Env) (pCxt : STranslateContext) (pCol : SColumnNode) :
    EDealRes × SColumnNode × STranslateContext :=
  translateColumnWithoutPrefixLoop env pCxt (currTables pCxt) false pCol

/-- The projection list of the current statement (`pCxt->pCurrStmt->pProjectionList`); empty
when there is none. -/
def currProjectionList (pCxt : STranslateContext) : List Node :=
  ((pCxt.pCurrStmt.map fun s => s.pProjectionList).getD none).getD []

/-- Source lines 340-351. -/
def translateColumnUseAlias (pCxt : STranslateContext) (pCol : SColumnNode) :
    Bool × SColumnNode :=
  let pProjectionList := currProjectionList pCxt
  match findAlias pCol.colName pProjectionList 0 with
  | some (i, pExpr) => (true, setColumnInfoByExpr none i pExpr pCol)
  | none => (false, pCol)

/-- Source lines 353-366. -/
def translateColumn (env : Env) (pCxt : STranslateContext) (pCol : SColumnNode) :
    EDealRes × SColumnNode × STranslateContext :=
  if pCol.colName = "*" then (DEAL_RES_CONTINUE, pCol, pCxt)
  else if pCol.tableAlias ≠ "" then translateColumnWithPrefix env pCxt pCol
  else
    let r : Bool × SColumnNode :=
      if pCxt.currClause = some SQL_CLAUSE_ORDER_BY then translateColumnUseAlias pCxt pCol
      else (false, pCol)
    if r.1 then (DEAL_RES_CONTINUE, r.2, pCxt)
    else translateColumnWithoutPrefix env pCxt r.2

/-! ## Column resolution: what a table offers -/

/-- The column names a registered table offers: the names of the first
`numOfTags + numOfColumns` schema entries of a real table, the projection aliases of a
subquery table. -/
def tableColumnNames : Node → List String
  | .realTable t =>
    match t.pMeta with
    | some m =>
      (m.schema.take (m.tableInfo.numOfTags + m.tableInfo.numOfColumns)).map fun s => s.name
    | none => []
  | .tempTable _ pSubquery =>
    ((getProjectList pSubquery).getD []).map fun n => n.exprNode.aliasName
  | _ => []

/-- The table has a column, or a projection alias, with that name. -/
def hasColumn (pTable : Node) (name : String) : Bool :=
  decide (name ∈ tableColumnNames pTable)

/-- Number of tables of a level that have a column with that name. -/
def matchCount (tables : List Node) (name : String) : Nat :=
  (tables.filter fun t => hasColumn t name).length

/-- The column is the internal reference to the primary-key timestamp and the table is a real
table with a descriptor. -/
def isPrimaryKeyRef (env : Env) (pCol : SColumnNode) (pTable : Node) : Bool :=
  match pTable with
  | .realTable t =>
    t.pMeta.isSome && decide (env.PRIMARYKEY_TIMESTAMP_COL_ID = pCol.colId) &&
      decide (pCol.colName = env.PK_TS_COL_INTERNAL_NAME)
  | _ => false

/-- The column is found in the table: the table has a column of that name, or the column is
the internal primary-key timestamp reference of a real table. -/
def columnFound (env : Env) (pCol : SColumnNode) (pTable : Node) : Bool :=
  isPrimaryKeyRef env pCol pTable || hasColumn pTable pCol.colName


/-! ## A concrete instance of the collaborators, used by the examples -/

/-- Value of a run of decimal digits, read from the left, on top of `acc`. -/
def digitsValue : List Char → Nat → Nat
  | [], acc => acc
  | c :: cs, acc =>
    if c.isDigit then digitsValue cs (acc * 10 + (c.toNat - 48)) else acc

/-- Radix 10 `strtoll` on an optional minus sign followed by digits, saturating at the
bounds of a 64 bit signed integer. -/
def demoStrtoll (s : String) : Int :=
  match s.data with
  | '-' :: cs => max (-(digitsValue cs 0 : Int)) (-(2 ^ 63 : Int))
  | cs => min (digitsValue cs 0 : Int) (2 ^ 63 - 1)

/-- Radix 10 `strtoull` on digits, saturating at the bound of a 64 bit unsigned integer. -/
def demoStrtoull (s : String) : Nat :=
  min (digitsValue s.data 0) (2 ^ 64 - 1)

mutual
/-- Comparison of two nodes by the fields that identify them: names of a column, literal of
a value, kind and operands of an operator, name and parameters of a function. -/
def demoEqualNode : Node → Node → Bool
  | .column a, .column b =>
    decide (a.dbName = b.dbName) && decide (a.tableName = b.tableName) &&
      decide (a.colName = b.colName)
  | .value a, .value b => decide (a.literal = b.literal)
  | .operator _ o1 l1 r1, .operator _ o2 l2 r2 =>
    decide (o1 = o2) && demoEqualOpt l1 l2 && demoEqualOpt r1 r2
  | .function _ n1 _ _ p1, .function _ n2 _ _ p2 => decide (n1 = n2) && demoEqualList p1 p2
  | .logicCondition _ c1 p1, .logicCondition _ c2 p2 =>
    decide (c1 = c2) && demoEqualList p1 p2
  | _, _ => false
/-- Comparison of two optional nodes. -/
def demoEqualOpt : Option Node → Option Node → Bool
  | some a, some b => demoEqualNode a b
  | none, none => true
  | _, _ => false
/-- Comparison of two node lists. -/
def demoEqualList : List Node → List Node → Bool
  | [], [] => true
  | a :: as, b :: bs => demoEqualNode a b && demoEqualList as bs
  | _, _ => false
end

/-- An instance of the collaborators: `count` and `sum` are aggregate functions, `abs` is a
scalar function, the primary-key timestamp has column id 1 and internal name `_rowts`; the
catalog knows no table. -/
def demoEnv : Env where
  fmGetFuncInfo := fun name =>
    if name = "count" then some (1, 1)
    else if name = "sum" then some (2, 1)
    else if name = "abs" then some (3, 2)
    else none
  fmGetFuncResultType := fun _ => (TSDB_CODE_SUCCESS, { type := TSDB_DATA_TYPE_BIGINT, bytes := 8 })
  fmIsAggFunc := fun funcId => decide (funcId = 1) || decide (funcId = 2)
  nodesIsExprNode := fun n =>
    match n with
    | .column _ => true
    | .value _ => true
    | .operator _ _ _ _ => true
    | .function _ _ _ _ _ => true
    | _ => false
  nodesEqualNode := fun a b =>
    match a, b with
    | some x, some y => demoEqualNode x y
    | _, _ => false
  nodesIsArithmeticOp := fun op => decide (op < 10)
  nodesIsComparisonOp := fun op => decide (10 ≤ op) && decide (op < 30)
  tDataTypeBytes := fun t =>
    match t with
    | TSDB_DATA_TYPE_BOOL => 1
    | TSDB_DATA_TYPE_DOUBLE => 8
    | _ => 0
  strtoll := demoStrtoll
  strtoull := demoStrtoull
  strtold := fun s => { intPart := demoStrtoll s, hasFraction := false }
  parseNatualDuration := fun _ _ => none
  taosParseTime := fun _ _ _ => none
  catalogGetTableMeta := fun _ => (external 1, none)
  catalogGetTableDistVgInfo := fun _ => (external 1, [])
  catalogGetTableHashVgroup := fun _ => (external 1, {})
  catalogGetDBVgInfo := fun _ => (external 1, [])
  tNameGetFullDbName := fun n => n.dbname
  tNameExtractFullName := fun n => n.dbname ++ "." ++ n.tname
  PRIMARYKEY_TIMESTAMP_COL_ID := 1
  PK_TS_COL_INTERNAL_NAME := "_rowts"
  TSDB_INS_TABLE_USER_TABLES := "user_tables"

/-- The descriptor of a normal table with the columns `ts` (primary-key timestamp) and `a`. -/
def demoMeta : STableMeta :=
  { tableType := TSDB_NORMAL_TABLE, uid := 7,
    tableInfo := { numOfTags := 0, numOfColumns := 2 },
    schema := [{ type := TSDB_DATA_TYPE_TIMESTAMP, colId := 1, bytes := 8, name := "ts" },
               { type := TSDB_DATA_TYPE_INT, colId := 2, bytes := 4, name := "a" }] }

/-- The real table `db1.t`, registered under its own name. -/
def demoTable : Node :=
  .realTable { table := { dbName := "db1", tableName := "t", tableAlias := "t" },
               pMeta := some demoMeta }

/-- The real table `db2.t` of another database, registered under its own name. -/
def demoTableOtherDb : Node :=
  .realTable { table := { dbName := "db2", tableName := "t", tableAlias := "t" },
               pMeta := some demoMeta }

/-- A context whose current database is `db1` and whose only table in scope is `db1.t`. -/
def demoCxt : STranslateContext :=
  { pParseCxt := { db := "db1" }, pNsLevel := [[demoTable]],
    currClause := some SQL_CLAUSE_WHERE }

/-- A context whose current database is `db1` and whose only table in scope is `db2.t`. -/
def demoCxtOtherDb : STranslateContext :=
  { pParseCxt := { db := "db1" }, pNsLevel := [[demoTableOtherDb]],
    currClause := some SQL_CLAUSE_WHERE }

/-- A select `SELECT t.ts AS x, t.a AS y` whose projections are resolved. -/
def demoSelectXY : SSelectStmt :=
  { pProjectionList := some [
      .column { node := { resType := { type := TSDB_DATA_TYPE_TIMESTAMP, bytes := 8 },
                          aliasName := "x" },
                tableAlias := "t", tableName := "t", dbName := "db1", colName := "ts", colId := 1 },
      .column { node := { resType := { type := TSDB_DATA_TYPE_INT, bytes := 4 },
                          aliasName := "y" },
                tableAlias := "t", tableName := "t", dbName := "db1", colName := "a", colId := 2 }] }

/-- The context of the ORDER BY clause of `demoSelectXY` over the table `db1.t`. -/
def demoCxtOrderBy : STranslateContext :=
  { pParseCxt := { db := "db1" }, pNsLevel := [[demoTable]],
    currClause := some SQL_CLAUSE_ORDER_BY, pCurrStmt := some demoSelectXY }

/-! ## Values and ORDER BY positions -/

/-- `strcasecmp(literal, "true") == 0`. -/
def isTrueLiteral (literal : String) : Bool :=
  decide (literal.data.map Char.toLower = "true".data)

/-- Source lines 368-429. A failing duration or time parser leaves the node as it is. -/
def translateValue (env : Env) (pCxt : STranslateContext) (pVal : SValueNode) :
    EDealRes × SValueNode × STranslateContext :=
  if pVal.isDuration then
    match env.parseNatualDuration pVal.literal pVal.node.resType.precision with
    | none =>
      let e := generateDealNodeErrMsg pCxt TSDB_CODE_PAR_WRONG_VALUE_TYPE
      (e.1, pVal, e.2)
    | some (i, unit) =>
      (DEAL_RES_CONTINUE,
        { pVal with datum := { pVal.datum with i := i }, unit := unit, translate := true }, pCxt)
  else
    match pVal.node.resType.type with
    | TSDB_DATA_TYPE_NULL => (DEAL_RES_CONTINUE, { pVal with translate := true }, pCxt)
    | TSDB_DATA_TYPE_BOOL =>
      (DEAL_RES_CONTINUE,
        { pVal with datum := { pVal.datum with b := isTrueLiteral pVal.literal },
                    translate := true }, pCxt)
    | TSDB_DATA_TYPE_TINYINT | TSDB_DATA_TYPE_SMALLINT | TSDB_DATA_TYPE_INT
    | TSDB_DATA_TYPE_BIGINT =>
      (DEAL_RES_CONTINUE,
        { pVal with datum := { pVal.datum with i := env.strtoll pVal.literal },
                    translate := true }, pCxt)
    | TSDB_DATA_TYPE_UTINYINT | TSDB_DATA_TYPE_USMALLINT | TSDB_DATA_TYPE_UINT
    | TSDB_DATA_TYPE_UBIGINT =>
      (DEAL_RES_CONTINUE,
        { pVal with datum := { pVal.datum with u := env.strtoull pVal.literal },
                    translate := true }, pCxt)
    | TSDB_DATA_TYPE_FLOAT | TSDB_DATA_TYPE_DOUBLE =>
      (DEAL_RES_CONTINUE,
        { pVal with datum := { pVal.datum with d := env.strtold pVal.literal },
                    translate := true }, pCxt)
    | TSDB_DATA_TYPE_NCHAR | TSDB_DATA_TYPE_VARCHAR | TSDB_DATA_TYPE_VARBINARY =>
      (DEAL_RES_CONTINUE,
        { pVal with
          datum := { pVal.datum with
            p := some (pVal.node.resType.bytes,
                       String.mk (pVal.literal.data.take pVal.node.resType.bytes)) },
          translate := true }, pCxt)
    | TSDB_DATA_TYPE_TIMESTAMP =>
      match env.taosParseTime pVal.literal pVal.node.resType.bytes
          pVal.node.resType.precision with
      | none =>
        let e := generateDealNodeErrMsg pCxt TSDB_CODE_PAR_WRONG_VALUE_TYPE
        (e.1, pVal, e.2)
      | some i =>
        (DEAL_RES_CONTINUE,
          { pVal with datum := { pVal.datum with i := i }, translate := true }, pCxt)
    | TSDB_DATA_TYPE_JSON | TSDB_DATA_TYPE_DECIMAL | TSDB_DATA_TYPE_BLOB =>
      (DEAL_RES_CONTINUE, { pVal with translate := true }, pCxt)

/-- Conversion of an integer to `int32_t`: the value modulo 2^32 in the signed range. -/
def toInt32 (x : Int) : Int := (x + 2 ^ 31) % 2 ^ 32 - 2 ^ 31

/-- Source lines 737-765; the result type is `int32_t`. The conversion of a floating point
datum outside the `int32_t` range is undefined in C; the model converts its integer part. -/
def getPositionValue (pVal : SValueNode) : Int :=
  match pVal.node.resType.type with
  | TSDB_DATA_TYPE_NULL | TSDB_DATA_TYPE_TIMESTAMP | TSDB_DATA_TYPE_NCHAR
  | TSDB_DATA_TYPE_VARCHAR | TSDB_DATA_TYPE_VARBINARY | TSDB_DATA_TYPE_JSON => -1
  | TSDB_DATA_TYPE_BOOL => if pVal.datum.b then 1 else 0
  | TSDB_DATA_TYPE_TINYINT | TSDB_DATA_TYPE_SMALLINT | TSDB_DATA_TYPE_INT
  | TSDB_DATA_TYPE_BIGINT => toInt32 pVal.datum.i
  | TSDB_DATA_TYPE_FLOAT | TSDB_DATA_TYPE_DOUBLE => toInt32 pVal.datum.d.intPart
  | TSDB_DATA_TYPE_UTINYINT | TSDB_DATA_TYPE_USMALLINT | TSDB_DATA_TYPE_UINT
  | TSDB_DATA_TYPE_UBIGINT => toInt32 pVal.datum.u
  | TSDB_DATA_TYPE_DECIMAL | TSDB_DATA_TYPE_BLOB => -1

/-- The loop of lines 770-795 over the keys that remain; `other` is `*pOther` so far. The
result is the code, the ORDER BY list as the loop leaves it, `*pOther` and the context. A
node of the list that is not an ORDER BY key with a value expression counts as another
expression. -/
def translateOrderByPositionLoop (env : Env) (pProjectionList : List Node) :
    List Node → STranslateContext → Bool → Code × List Node × Bool × STranslateContext
  | [], pCxt, other => (TSDB_CODE_SUCCESS, [], other, pCxt)
  | .orderByExpr (some (.value pVal)) order nullOrder :: rest, pCxt, other =>
    let r := translateValue env pCxt pVal
    if r.1 = DEAL_RES_ERROR then
      (r.2.2.errCode, .orderByExpr (some (.value r.2.1)) order nullOrder :: rest, other, r.2.2)
    else
      let pos := getPositionValue r.2.1
      if pos < 0 then
        translateOrderByPositionLoop env pProjectionList rest r.2.2 other
      else if pos = 0 ∨ pos > (pProjectionList.length : Int) then
        let e := generateSyntaxErrMsg r.2.2 TSDB_CODE_PAR_WRONG_NUMBER_OF_SELECT
        (e.1, .orderByExpr (some (.value r.2.1)) order nullOrder :: rest, other, e.2)
      else
        let pCol := setColumnInfoByExpr none (pos.toNat - 1)
          (pProjectionList.getD (pos.toNat - 1) (.otherStmt 0)).exprNode {}
        let t := translateOrderByPositionLoop env pProjectionList rest r.2.2 other
        (t.1, .orderByExpr (some (.column pCol)) order nullOrder :: t.2.1, t.2.2.1, t.2.2.2)
  | pNode :: rest, pCxt, _ =>
    let t := translateOrderByPositionLoop env pProjectionList rest pCxt true
    (t.1, pNode :: t.2.1, t.2.2.1, t.2.2.2)

/-- Source lines 767-797. A NULL list is an empty list for `FOREACH` and `LIST_LENGTH`. -/
def translateOrderByPosition (env : Env) (pCxt : STranslateContext)
    (pProjectionList pOrderByList : Option (List Node)) :
    Code × Option (List Node) × Bool × STranslateContext :=
  match pOrderByList with
  | none => (TSDB_CODE_SUCCESS, none, false, pCxt)
  | some keys =>
    let t := translateOrderByPositionLoop env (pProjectionList.getD []) keys pCxt false
    (t.1, some t.2.1, t.2.2.1, t.2.2.2)

/-- A key `ORDER BY <literal>` of integer type `BIGINT`. -/
def demoPositionKey (literal : String) : Node :=
  .orderByExpr (some (.value { node := { resType := { type := TSDB_DATA_TYPE_BIGINT, bytes := 8 } },
                               literal := literal })) 1 1

/-- The integer value of a numeric literal: the radix 10 value of a literal of a signed or
unsigned integer type, the value of a floating point literal without fractional part; `none`
for every other literal. -/
def literalValue (env : Env) (pVal : SValueNode) : Option Int :=
  if pVal.isDuration then none
  else
    match pVal.node.resType.type with
    | TSDB_DATA_TYPE_TINYINT | TSDB_DATA_TYPE_SMALLINT | TSDB_DATA_TYPE_INT
    | TSDB_DATA_TYPE_BIGINT => some (env.strtoll pVal.literal)
    | TSDB_DATA_TYPE_UTINYINT | TSDB_DATA_TYPE_USMALLINT | TSDB_DATA_TYPE_UINT
    | TSDB_DATA_TYPE_UBIGINT => some (env.strtoull pVal.literal : Int)
    | TSDB_DATA_TYPE_FLOAT | TSDB_DATA_TYPE_DOUBLE =>
      if (env.strtold pVal.literal).hasFraction then none
      else some (env.strtold pVal.literal).intPart
    | _ => none

/-- A new alias-only column that refers to the projection `p` at position `idx` (0-based) of
the projection list: back-reference, name and result type come from the projection. -/
def positionColumn (p : Node) (idx : Nat) : SColumnNode :=
  { pProjectRef := some idx, colName := p.exprNode.aliasName,
    node := { resType := p.exprNode.resType } }

/-- The ORDER BY key is a numeric literal whose integer value is a position `1..N` of the
projection list. -/
def isPositionKey (env : Env) (pProjectionList : List Node) : Node → Prop
  | .orderByExpr (some (.value pVal)) _ _ =>
    ∃ v : Int, literalValue env pVal = some v ∧ 1 ≤ v ∧ v ≤ (pProjectionList.length : Int)
  | _ => False

/-- The ORDER BY key by position rewritten: its expression is the column that refers to the
projection at that position; its ordering attributes stay. Other nodes are left alone. -/
def rewritePositionKey (env : Env) (pProjectionList : List Node) : Node → Node
  | .orderByExpr (some (.value pVal)) order nullOrder =>
    match literalValue env pVal with
    | some v =>
      .orderByExpr (some (.column
        (positionColumn (pProjectionList.getD (v.toNat - 1) (.otherStmt 0)) (v.toNat - 1))))
        order nullOrder
    | none => .orderByExpr (some (.value pVal)) order nullOrder
  | k => k

/-! ## Tree walkers -/

mutual
/-- Modelled from the spec: `nodesWalkNode` of the node library is not part of the translator.
It visits a node before its children (section 4.4, "walk E"); the callback answers
`DEAL_RES_CONTINUE` to go on into the children, `DEAL_RES_IGNORE_CHILD` to skip them and
`DEAL_RES_ERROR` to stop the whole walk. The children are the operands of an operator, the
parameters of a function, logic condition or grouping set, the expression of an ORDER BY key,
the tables and the ON condition of a join and the parts of an interval window; a subquery is
not entered. The callbacks of the checks do not change the tree. -/
def nodesWalkNode {σ : Type} (walker : Node → σ → EDealRes × σ) : Node → σ → EDealRes × σ
  | n, s =>
    let r := walker n s
    if r.1 ≠ DEAL_RES_CONTINUE then r
    else
      match n with
      | .operator _ _ pLeft pRight =>
        let a := nodesWalkOpt walker pLeft r.2
        if a.1 ≠ DEAL_RES_ERROR then nodesWalkOpt walker pRight a.2 else a
      | .function _ _ _ _ pParameterList => nodesWalkList walker pParameterList r.2
      | .logicCondition _ _ pParameterList => nodesWalkList walker pParameterList r.2
      | .joinTable _ _ pLeft pRight pOnCond =>
        let a := nodesWalkOpt walker pLeft r.2
        if a.1 ≠ DEAL_RES_ERROR then
          let b := nodesWalkOpt walker pRight a.2
          if b.1 ≠ DEAL_RES_ERROR then nodesWalkOpt walker pOnCond b.2 else b
        else a
      | .groupingSet _ pParameterList => nodesWalkList walker pParameterList r.2
      | .orderByExpr pExpr _ _ => nodesWalkOpt walker pExpr r.2
      | .intervalWindow pCol pInterval pOffset pSliding pFill =>
        let a := nodesWalkOpt walker pInterval r.2
        if a.1 ≠ DEAL_RES_ERROR then
          let b := nodesWalkOpt walker pOffset a.2
          if b.1 ≠ DEAL_RES_ERROR then
            let c := nodesWalkOpt walker pSliding b.2
            if c.1 ≠ DEAL_RES_ERROR then
              let d := nodesWalkOpt walker pFill c.2
              if d.1 ≠ DEAL_RES_ERROR then nodesWalkOpt walker pCol d.2 else d
            else c
          else b
        else a
      | _ => r
/-- The walk of a pointer that may be NULL: nothing is visited for NULL. -/
def nodesWalkOpt {σ : Type} (walker : Node → σ → EDealRes × σ) :
    Option Node → σ → EDealRes × σ
  | none, s => (DEAL_RES_CONTINUE, s)
  | some n, s => nodesWalkNode walker n s
/-- Modelled from the spec: `nodesWalkList` walks the nodes of a list in order and stops at
the first one whose walk ends in `DEAL_RES_ERROR`. -/
def nodesWalkList {σ : Type} (walker : Node → σ → EDealRes × σ) :
    List Node → σ → EDealRes × σ
  | [], s => (DEAL_RES_CONTINUE, s)
  | n :: rest, s =>
    let a := nodesWalkNode walker n s
    if a.1 = DEAL_RES_ERROR then a else nodesWalkList walker rest a.2
end

mutual
/-- Modelled from the spec: `nodesWalkNodePostOrder` of the node library is not part of the
translator. It visits the children of a node, in the order of `nodesWalkNode`, before the node
itself (section 4.2, "post-order traversal"); a `DEAL_RES_ERROR` stops the whole walk. The
callback may change the node it is given; the walk returns the tree so changed. -/
def nodesWalkNodePostOrder {σ : Type} (walker : Node → σ → EDealRes × Node × σ) :
    Node → σ → EDealRes × Node × σ
  | .operator e opType pLeft pRight, s =>
    let a := nodesWalkOptPostOrder walker pLeft s
    if a.1 = DEAL_RES_ERROR then (a.1, .operator e opType a.2.1 pRight, a.2.2)
    else
      let b := nodesWalkOptPostOrder walker pRight a.2.2
      if b.1 = DEAL_RES_ERROR then (b.1, .operator e opType a.2.1 b.2.1, b.2.2)
      else walker (.operator e opType a.2.1 b.2.1) b.2.2
  | .function e functionName funcId funcType pParameterList, s =>
    let a := nodesWalkListPostOrder walker pParameterList s
    if a.1 = DEAL_RES_ERROR then (a.1, .function e functionName funcId funcType a.2.1, a.2.2)
    else walker (.function e functionName funcId funcType a.2.1) a.2.2
  | .logicCondition e condType pParameterList, s =>
    let a := nodesWalkListPostOrder walker pParameterList s
    if a.1 = DEAL_RES_ERROR then (a.1, .logicCondition e condType a.2.1, a.2.2)
    else walker (.logicCondition e condType a.2.1) a.2.2
  | .joinTable t joinType pLeft pRight pOnCond, s =>
    let a := nodesWalkOptPostOrder walker pLeft s
    if a.1 = DEAL_RES_ERROR then (a.1, .joinTable t joinType a.2.1 pRight pOnCond, a.2.2)
    else
      let b := nodesWalkOptPostOrder walker pRight a.2.2
      if b.1 = DEAL_RES_ERROR then (b.1, .joinTable t joinType a.2.1 b.2.1 pOnCond, b.2.2)
      else
        let c := nodesWalkOptPostOrder walker pOnCond b.2.2
        if c.1 = DEAL_RES_ERROR then (c.1, .joinTable t joinType a.2.1 b.2.1 c.2.1, c.2.2)
        else walker (.joinTable t joinType a.2.1 b.2.1 c.2.1) c.2.2
  | .groupingSet groupingSetType pParameterList, s =>
    let a := nodesWalkListPostOrder walker pParameterList s
    if a.1 = DEAL_RES_ERROR then (a.1, .groupingSet groupingSetType a.2.1, a.2.2)
    else walker (.groupingSet groupingSetType a.2.1) a.2.2
  | .orderByExpr pExpr order nullOrder, s =>
    let a := nodesWalkOptPostOrder walker pExpr s
    if a.1 = DEAL_RES_ERROR then (a.1, .orderByExpr a.2.1 order nullOrder, a.2.2)
    else walker (.orderByExpr a.2.1 order nullOrder) a.2.2
  | .intervalWindow pCol pInterval pOffset pSliding pFill, s =>
    let a := nodesWalkOptPostOrder walker pInterval s
    if a.1 = DEAL_RES_ERROR then
      (a.1, .intervalWindow pCol a.2.1 pOffset pSliding pFill, a.2.2)
    else
      let b := nodesWalkOptPostOrder walker pOffset a.2.2
      if b.1 = DEAL_RES_ERROR then
        (b.1, .intervalWindow pCol a.2.1 b.2.1 pSliding pFill, b.2.2)
      else
        let c := nodesWalkOptPostOrder walker pSliding b.2.2
        if c.1 = DEAL_RES_ERROR then
          (c.1, .intervalWindow pCol a.2.1 b.2.1 c.2.1 pFill, c.2.2)
        else
          let d := nodesWalkOptPostOrder walker pFill c.2.2
          if d.1 = DEAL_RES_ERROR then
            (d.1, .intervalWindow pCol a.2.1 b.2.1 c.2.1 d.2.1, d.2.2)
          else
            let f := nodesWalkOptPostOrder walker pCol d.2.2
            if f.1 = DEAL_RES_ERROR then
              (f.1, .intervalWindow f.2.1 a.2.1 b.2.1 c.2.1 d.2.1, f.2.2)
            else walker (.intervalWindow f.2.1 a.2.1 b.2.1 c.2.1 d.2.1) f.2.2
  | n, s => walker n s
/-- The post-order walk of a pointer that may be NULL. -/
def nodesWalkOptPostOrder {σ : Type} (walker : Node → σ → EDealRes × Node × σ) :
    Option Node → σ → EDealRes × Option Node × σ
  | none, s => (DEAL_RES_CONTINUE, none, s)
  | some n, s =>
    let a := nodesWalkNodePostOrder walker n s
    (a.1, some a.2.1, a.2.2)
/-- Modelled from the spec: `nodesWalkListPostOrder` walks the nodes of a list in order and
stops at the first one whose walk ends in `DEAL_RES_ERROR`. -/
def nodesWalkListPostOrder {σ : Type} (walker : Node → σ → EDealRes × Node × σ) :
    List Node → σ → EDealRes × List Node × σ
  | [], s => (DEAL_RES_CONTINUE, [], s)
  | n :: rest, s =>
    let a := nodesWalkNodePostOrder walker n s
    if a.1 = DEAL_RES_ERROR then (a.1, a.2.1 :: rest, a.2.2)
    else
      let b := nodesWalkListPostOrder walker rest a.2.2
      (b.1, a.2.1 :: b.2.1, b.2.2)
end

/-! ## Expression translation -/

/-- A translator of statements: `translateQuery`, which the translation of a subquery calls
back into. It takes the context and the statement and returns the code, the statement as
translated and the new context. -/
abbrev QueryTranslator := STranslateContext → Node → Code × Node × STranslateContext

/-- Source lines 1901-1910. -/
def translateSubquery (translateQuery : QueryTranslator) (pCxt : STranslateContext)
    (pNode : Node) : Code × Node × STranslateContext :=
  let currClause := pCxt.currClause
  let pCurrStmt := pCxt.pCurrStmt
  let r := translateQuery { pCxt with currLevel := pCxt.currLevel + 1 } pNode
  (r.1, r.2.1,
    { r.2.2 with currLevel := r.2.2.currLevel - 1, currClause := currClause,
                 pCurrStmt := pCurrStmt })

/-- Source lines 431-452. The header of an operand that is NULL reads as the empty header. -/
def translateOperator (env : Env) (pCxt : STranslateContext) (e : SExprNode) (opType : Nat)
    (pLeft pRight : Option Node) : EDealRes × SExprNode × STranslateContext :=
  let ldt := ((pLeft.map Node.exprNode).getD {}).resType
  let rdt := ((pRight.map Node.exprNode).getD {}).resType
  let bad : Bool :=
    decide (ldt.type = TSDB_DATA_TYPE_JSON) || decide (ldt.type = TSDB_DATA_TYPE_BLOB) ||
    decide (rdt.type = TSDB_DATA_TYPE_JSON) || decide (rdt.type = TSDB_DATA_TYPE_BLOB)
  if env.nodesIsArithmeticOp opType then
    if bad then
      let r := generateDealNodeErrMsg pCxt TSDB_CODE_PAR_WRONG_VALUE_TYPE
      (r.1, e, r.2)
    else
      (DEAL_RES_CONTINUE,
        { e with resType := { e.resType with
            type := TSDB_DATA_TYPE_DOUBLE
            bytes := env.tDataTypeBytes TSDB_DATA_TYPE_DOUBLE } }, pCxt)
  else if env.nodesIsComparisonOp opType then
    if bad then
      let r := generateDealNodeErrMsg pCxt TSDB_CODE_PAR_WRONG_VALUE_TYPE
      (r.1, e, r.2)
    else
      (DEAL_RES_CONTINUE,
        { e with resType := { e.resType with
            type := TSDB_DATA_TYPE_BOOL
            bytes := env.tDataTypeBytes TSDB_DATA_TYPE_BOOL } }, pCxt)
  else (DEAL_RES_CONTINUE, e, pCxt)

/-- Source lines 454-466, on the fields of a function node. -/
def translateFunction (env : Env) (pCxt : STranslateContext) (e : SExprNode)
    (functionName : String) (funcId funcType : Int) (pParameterList : List Node) :
    EDealRes × Node × STranslateContext :=
  match env.fmGetFuncInfo functionName with
  | none =>
    let r := generateDealNodeErrMsg pCxt TSDB_CODE_PAR_INVALID_FUNTION
    (r.1, .function e functionName funcId funcType pParameterList, r.2)
  | some (id, ty) =>
    let t := env.fmGetFuncResultType (.function e functionName id ty pParameterList)
    let pFunc := Node.function { e with resType := t.2 } functionName id ty pParameterList
    if t.1 ≠ TSDB_CODE_SUCCESS then
      let r := generateDealNodeErrMsg pCxt t.1
      (r.1, pFunc, r.2)
    else if env.fmIsAggFunc id && beforeHaving pCxt.currClause then
      let r := generateDealNodeErrMsg pCxt TSDB_CODE_PAR_ILLEGAL_USE_AGG_FUNCTION
      (r.1, pFunc, r.2)
    else (DEAL_RES_CONTINUE, pFunc, pCxt)

/-- Source lines 468-470. A subquery table without a subquery is left alone. -/
def translateExprSubquery (translateQuery : QueryTranslator) (pCxt : STranslateContext)
    (pNode : Option Node) : EDealRes × Option Node × STranslateContext :=
  match pNode with
  | none => (DEAL_RES_CONTINUE, none, pCxt)
  | some q =>
    let r := translateSubquery translateQuery pCxt q
    (if r.1 = TSDB_CODE_SUCCESS then DEAL_RES_CONTINUE else DEAL_RES_ERROR, some r.2.1, r.2.2)

/-- Source lines 472-476. -/
def translateLogicCond (env : Env) (pCxt : STranslateContext) (e : SExprNode) :
    EDealRes × SExprNode × STranslateContext :=
  (DEAL_RES_CONTINUE,
    { e with resType := { e.resType with
        type := TSDB_DATA_TYPE_BOOL
        bytes := env.tDataTypeBytes TSDB_DATA_TYPE_BOOL } }, pCxt)

/-- Source lines 478-497; the context comes second as in a walker callback. -/
def doTranslateExpr (env : Env) (translateQuery : QueryTranslator) (pNode : Node)
    (pCxt : STranslateContext) : EDealRes × Node × STranslateContext :=
  match pNode with
  | .column c =>
    let r := translateColumn env pCxt c
    (r.1, .column r.2.1, r.2.2)
  | .value v =>
    let r := translateValue env pCxt v
    (r.1, .value r.2.1, r.2.2)
  | .operator e opType pLeft pRight =>
    let r := translateOperator env pCxt e opType pLeft pRight
    (r.1, .operator r.2.1 opType pLeft pRight, r.2.2)
  | .function e functionName funcId funcType pParameterList =>
    translateFunction env pCxt e functionName funcId funcType pParameterList
  | .logicCondition e condType pParameterList =>
    let r := translateLogicCond env pCxt e
    (r.1, .logicCondition r.2.1 condType pParameterList, r.2.2)
  | .tempTable t pSubquery =>
    let r := translateExprSubquery translateQuery pCxt pSubquery
    (r.1, .tempTable t r.2.1, r.2.2)
  | n => (DEAL_RES_CONTINUE, n, pCxt)

/-- Source lines 499-502. -/
def translateExpr (env : Env) (translateQuery : QueryTranslator) (pCxt : STranslateContext)
    (pNode : Option Node) : Code × Option Node × STranslateContext :=
  let r := nodesWalkOptPostOrder (doTranslateExpr env translateQuery) pNode pCxt
  (r.2.2.errCode, r.2.1, r.2.2)

/-- Source lines 504-507. -/
def translateExprList (env : Env) (translateQuery : QueryTranslator)
    (pCxt : STranslateContext) (pList : Option (List Node)) :
    Code × Option (List Node) × STranslateContext :=
  match pList with
  | none => (pCxt.errCode, none, pCxt)
  | some l =>
    let r := nodesWalkListPostOrder (doTranslateExpr env translateQuery) l pCxt
    (r.2.2.errCode, some r.2.1, r.2.2)

/-! ## The GROUP BY closure check and the aggregate/column check -/

/-- Source lines 509-511. -/
def isAliasColumn (pCol : SColumnNode) : Bool := decide (pCol.tableAlias = "")

/-- Source lines 513-515. Without a current statement the answer is no. -/
def isDistinctOrderBy (pCxt : STranslateContext) : Bool :=
  decide (pCxt.currClause = some SQL_CLAUSE_ORDER_BY) &&
    (pCxt.pCurrStmt.map fun s => s.isDistinct).getD false

/-- Source lines 517-522. -/
def getGroupByList (pCxt : STranslateContext) : Option (List Node) :=
  if isDistinctOrderBy pCxt then (pCxt.pCurrStmt.map fun s => s.pProjectionList).getD none
  else (pCxt.pCurrStmt.map fun s => s.pGroupByList).getD none

/-- Source lines 524-529. -/
def getGroupByNode (pNode : Node) : Option Node :=
  match pNode with
  | .groupingSet _ pParameterList => pParameterList.head?
  | n => some n

/-- Source lines 531-536. -/
def getGroupByErrorCode (pCxt : STranslateContext) : Code :=
  if isDistinctOrderBy pCxt then TSDB_CODE_PAR_NOT_SELECTED_EXPRESSION
  else TSDB_CODE_PAR_GROUPBY_LACK_EXPRESSION

/-- The node is a call of an aggregate function. -/
def isAggFuncNode (env : Env) : Node → Bool
  | .function _ _ funcId _ _ => env.fmIsAggFunc funcId
  | _ => false

/-- The node is a column. -/
def isColumnNode : Node → Bool
  | .column _ => true
  | _ => false

/-- The node is a column without table alias. -/
def isAliasColumnNode : Node → Bool
  | .column c => isAliasColumn c
  | _ => false

/-- Source lines 538-557. -/
def doCheckExprForGroupBy (env : Env) (pNode : Node) (pCxt : STranslateContext) :
    EDealRes × STranslateContext :=
  if !env.nodesIsExprNode pNode || isAliasColumnNode pNode then (DEAL_RES_CONTINUE, pCxt)
  else if isAggFuncNode env pNode && !isDistinctOrderBy pCxt then
    (DEAL_RES_IGNORE_CHILD, pCxt)
  else if ((getGroupByList pCxt).getD []).any
      (fun pGroupNode => env.nodesEqualNode (getGroupByNode pGroupNode) (some pNode)) then
    (DEAL_RES_IGNORE_CHILD, pCxt)
  else if isColumnNode pNode || (isAggFuncNode env pNode && isDistinctOrderBy pCxt) then
    generateDealNodeErrMsg pCxt (getGroupByErrorCode pCxt)
  else (DEAL_RES_CONTINUE, pCxt)

/-- Source lines 559-562. -/
def checkExprForGroupBy (env : Env) (pCxt : STranslateContext) (pNode : Option Node) :
    Code × STranslateContext :=
  let r := nodesWalkOpt (doCheckExprForGroupBy env) pNode pCxt
  (r.2.errCode, r.2)

/-- Source lines 564-570. -/
def checkExprListForGroupBy (env : Env) (pCxt : STranslateContext)
    (pList : Option (List Node)) : Code × STranslateContext :=
  if (getGroupByList pCxt).isNone then (TSDB_CODE_SUCCESS, pCxt)
  else
    let r := nodesWalkList (doCheckExprForGroupBy env) (pList.getD []) pCxt
    (r.2.errCode, r.2)

/-- Source lines 572-576, without the pointer to the translation context, which the callback
does not use. -/
structure CheckAggColCoexistCxt where
  existAggFunc : Bool := false
  existCol : Bool := false
  deriving DecidableEq, Repr

/-- Source lines 578-588. -/
def doCheckAggColCoexist (env : Env) (pNode : Node) (pCxt : CheckAggColCoexistCxt) :
    EDealRes × CheckAggColCoexistCxt :=
  if isAggFuncNode env pNode then (DEAL_RES_IGNORE_CHILD, { pCxt with existAggFunc := true })
  else if isColumnNode pNode then (DEAL_RES_CONTINUE, { pCxt with existCol := true })
  else (DEAL_RES_CONTINUE, pCxt)

/-- Source lines 590-603. -/
def checkAggColCoexist (env : Env) (pCxt : STranslateContext) (pSelect : SSelectStmt) :
    Code × STranslateContext :=
  if pSelect.pGroupByList.isSome then (TSDB_CODE_SUCCESS, pCxt)
  else
    let cxt : CheckAggColCoexistCxt := {}
    let a := nodesWalkList (doCheckAggColCoexist env) (pSelect.pProjectionList.getD []) cxt
    let b :=
      if !pSelect.isDistinct then
        nodesWalkList (doCheckAggColCoexist env) (pSelect.pOrderByList.getD []) a.2
      else a
    if b.2.existAggFunc && b.2.existCol then
      generateSyntaxErrMsg pCxt TSDB_CODE_PAR_NOT_SINGLE_GROUP
    else (TSDB_CODE_SUCCESS, pCxt)

/-! ## Subterms of an expression -/

/-- The children of a node, in the order in which a walk visits them: the operands of an
operator, the parameters of a function, logic condition or grouping set, the expression of
an ORDER BY key, the tables and the ON condition of a join, the parts of an interval window.
A subquery is not a child. -/
def Node.children : Node → List Node
  | .operator _ _ pLeft pRight => pLeft.toList ++ pRight.toList
  | .function _ _ _ _ pParameterList => pParameterList
  | .logicCondition _ _ pParameterList => pParameterList
  | .joinTable _ _ pLeft pRight pOnCond => pLeft.toList ++ pRight.toList ++ pOnCond.toList
  | .groupingSet _ pParameterList => pParameterList
  | .orderByExpr pExpr _ _ => pExpr.toList
  | .intervalWindow pCol pInterval pOffset pSliding pFill =>
    pInterval.toList ++ pOffset.toList ++ pSliding.toList ++ pFill.toList ++ pCol.toList
  | _ => []

/-- The node contains a call of an aggregate function. -/
inductive HasAggCall (env : Env) : Node → Prop where
  | here (n : Node) : isAggFuncNode env n = true → HasAggCall env n
  | child (n c : Node) : c ∈ n.children → HasAggCall env c → HasAggCall env n

/-- The node contains a bare column: a column node that is not inside a call of an aggregate
function. -/
inductive HasBareColumn (env : Env) : Node → Prop where
  | here (n : Node) : isColumnNode n = true → HasBareColumn env n
  | child (n c : Node) : isAggFuncNode env n = false → c ∈ n.children →
      HasBareColumn env c → HasBareColumn env n

/-- The expressions `checkAggColCoexist` looks at: the projection list, followed by the
ORDER BY list unless the select is DISTINCT. -/
def coexistExprs (pSelect : SSelectStmt) : List Node :=
  pSelect.pProjectionList.getD [] ++
    (if pSelect.isDistinct then [] else pSelect.pOrderByList.getD [])

/-- The translated projections of `SELECT a, count(*) FROM t`: the column `t.a` and the call
of the aggregate function `count` on the wildcard column. -/
def demoSelectAggCol : SSelectStmt :=
  { pProjectionList := some [
      .column { node := { resType := { type := TSDB_DATA_TYPE_INT, bytes := 4 },
                          aliasName := "a" },
                tableAlias := "t", tableName := "t", dbName := "db1", colName := "a", colId := 2 },
      .function { resType := { type := TSDB_DATA_TYPE_BIGINT, bytes := 8 },
                  aliasName := "count(*)" } "count" 1 1 [.column { colName := "*" }]],
    pFromTable := some demoTable }

/-! ## The GROUP BY closure, in the words of the specification -/

/-- The node is an expression that `nodesEqualNode` finds equal to some key of the GROUP BY
list, a grouping set standing for its first parameter. -/
def matchesGroupByKey (env : Env) (keys : List Node) (n : Node) : Bool :=
  env.nodesIsExprNode n &&
    keys.any fun pGroupNode => env.nodesEqualNode (getGroupByNode pGroupNode) (some n)

/-- The node contains a column that carries a table alias and lies neither inside a subtree
equal to a GROUP BY key nor inside a call of an aggregate function. -/
inductive HasUngroupedColumn (env : Env) (keys : List Node) : Node → Prop where
  | column (c : SColumnNode) : c.tableAlias ≠ "" →
      matchesGroupByKey env keys (.column c) = false →
      HasUngroupedColumn env keys (.column c)
  | child (n c : Node) : matchesGroupByKey env keys n = false →
      isAggFuncNode env n = false → c ∈ n.children → HasUngroupedColumn env keys c →
      HasUngroupedColumn env keys n

/-- The resolved column `t.a` of the table `db1.t`. -/
def demoColA : Node :=
  .column { node := { resType := { type := TSDB_DATA_TYPE_INT, bytes := 4 }, aliasName := "a" },
            tableAlias := "t", tableName := "t", dbName := "db1", colName := "a", colId := 2 }

/-- The resolved column `t.ts` of the table `db1.t`. -/
def demoColTs : Node :=
  .column { node := { resType := { type := TSDB_DATA_TYPE_TIMESTAMP, bytes := 8 },
                      aliasName := "ts" },
            tableAlias := "t", tableName := "t", dbName := "db1", colName := "ts", colId := 1 }

/-- The translated call `count(*)`. -/
def demoCountStar : Node :=
  .function { resType := { type := TSDB_DATA_TYPE_BIGINT, bytes := 8 },
              aliasName := "count(*)" } "count" 1 1 [.column { colName := "*" }]

/-- The context of the SELECT clause of `SELECT ... FROM t GROUP BY t.a`. -/
def demoCxtGroupBy : STranslateContext :=
  { pParseCxt := { db := "db1" }, pNsLevel := [[demoTable]],
    currClause := some SQL_CLAUSE_SELECT,
    pCurrStmt := some { pFromTable := some demoTable, pGroupByList := some [demoColA] } }

/-! ## Tables -/

/-- Source lines 79-85. -/
def toName (acctId : Int) (pDbName pTableName : String) : SName :=
  { type := 0, acctId := acctId, dbname := pDbName, tname := pTableName }

/-- Source lines 87-91. The set of databases is a list without repetition; putting into it
succeeds. -/
def collectUseDatabaseImpl (pFullDbName : String) (pDbs : List String) : Code × List String :=
  (TSDB_CODE_SUCCESS, if pFullDbName ∈ pDbs then pDbs else pDbs ++ [pFullDbName])

/-- Source lines 93-97. -/
def collectUseDatabase (env : Env) (pName : SName) (pDbs : List String) : Code × List String :=
  collectUseDatabaseImpl (env.tNameGetFullDbName pName) pDbs

/-- Source lines 99-103. The set of tables is keyed by the full name of the table. -/
def collectUseTable (env : Env) (pName : SName) (pTables : List SName) : Code × List SName :=
  (TSDB_CODE_SUCCESS,
    if (pTables.map env.tNameExtractFullName).contains (env.tNameExtractFullName pName) then
      pTables.map fun n =>
        if env.tNameExtractFullName n = env.tNameExtractFullName pName then pName else n
    else pTables ++ [pName])

/-- Source lines 105-118. -/
def getTableMetaImpl (env : Env) (pCxt : STranslateContext) (pName : SName) :
    Code × Option STableMeta × STranslateContext :=
  let a := collectUseDatabase env pName pCxt.pDbs
  let c1 := { pCxt with pDbs := a.2 }
  if a.1 ≠ TSDB_CODE_SUCCESS then (a.1, none, c1)
  else
    let b := collectUseTable env pName c1.pTables
    let c2 := { c1 with pTables := b.2 }
    if b.1 ≠ TSDB_CODE_SUCCESS then (b.1, none, c2)
    else
      let m := env.catalogGetTableMeta pName
      (m.1, m.2, c2)

/-- Source lines 127-140. -/
def getTableDistVgInfo (env : Env) (pCxt : STranslateContext) (pName : SName) :
    Code × List SVgroupInfo × STranslateContext :=
  let a := collectUseDatabase env pName pCxt.pDbs
  let c1 := { pCxt with pDbs := a.2 }
  if a.1 ≠ TSDB_CODE_SUCCESS then (a.1, [], c1)
  else
    let b := collectUseTable env pName c1.pTables
    let c2 := { c1 with pTables := b.2 }
    if b.1 ≠ TSDB_CODE_SUCCESS then (b.1, [], c2)
    else
      let m := env.catalogGetTableDistVgInfo pName
      (m.1, m.2, c2)

/-- Source lines 142-154. -/
def getDBVgInfoImpl (env : Env) (pCxt : STranslateContext) (pName : SName) :
    Code × List SVgroupInfo × STranslateContext :=
  let fullDbName := env.tNameGetFullDbName pName
  let a := collectUseDatabaseImpl fullDbName pCxt.pDbs
  let c1 := { pCxt with pDbs := a.2 }
  if a.1 ≠ TSDB_CODE_SUCCESS then (a.1, [], c1)
  else
    let m := env.catalogGetDBVgInfo fullDbName
    (m.1, m.2, c1)

/-- Source lines 156-162; `tNameSetDbName` fills the account and the database of the name. -/
def getDBVgInfo (env : Env) (pCxt : STranslateContext) (pDbName : String) :
    Code × List SVgroupInfo × STranslateContext :=
  getDBVgInfoImpl env pCxt { acctId := pCxt.pParseCxt.acctId, dbname := pDbName }

/-- Source lines 164-177. -/
def getTableHashVgroupImpl (env : Env) (pCxt : STranslateContext) (pName : SName) :
    Code × SVgroupInfo × STranslateContext :=
  let a := collectUseDatabase env pName pCxt.pDbs
  let c1 := { pCxt with pDbs := a.2 }
  if a.1 ≠ TSDB_CODE_SUCCESS then (a.1, {}, c1)
  else
    let b := collectUseTable env pName c1.pTables
    let c2 := { c1 with pTables := b.2 }
    if b.1 ≠ TSDB_CODE_SUCCESS then (b.1, {}, c2)
    else
      let m := env.catalogGetTableHashVgroup pName
      (m.1, m.2, c2)

/-- Source lines 605-617. -/
def toVgroupsInfo (pVgs : List SVgroupInfo) : Code × Option (List SVgroupInfo) :=
  (TSDB_CODE_SUCCESS, some pVgs)

/-- Source lines 619-644. -/
def setSysTableVgroupList (env : Env) (pCxt : STranslateContext) (pName : SName)
    (pRealTable : SRealTableNode) : Code × SRealTableNode × STranslateContext :=
  if pRealTable.table.tableName ≠ env.TSDB_INS_TABLE_USER_TABLES then
    (TSDB_CODE_SUCCESS, pRealTable, pCxt)
  else
    let r :=
      if pRealTable.useDbName ≠ "" then getDBVgInfo env pCxt pRealTable.useDbName
      else getDBVgInfoImpl env pCxt pName
    if r.1 = TSDB_CODE_SUCCESS then
      let v := toVgroupsInfo r.2.1
      (v.1, { pRealTable with pVgroupList := v.2 }, r.2.2)
    else (r.1, pRealTable, r.2.2)

/-- Source lines 646-670. A real table without descriptor is treated as a normal table. -/
def setTableVgroupList (env : Env) (pCxt : STranslateContext) (pName : SName)
    (pRealTable : SRealTableNode) : Code × SRealTableNode × STranslateContext :=
  if pCxt.pParseCxt.topicQuery then (TSDB_CODE_SUCCESS, pRealTable, pCxt)
  else
    match (pRealTable.pMeta.map fun m => m.tableType).getD TSDB_NORMAL_TABLE with
    | TSDB_SUPER_TABLE =>
      let r := getTableDistVgInfo env pCxt pName
      if r.1 = TSDB_CODE_SUCCESS then
        let v := toVgroupsInfo r.2.1
        (v.1, { pRealTable with pVgroupList := v.2 }, r.2.2)
      else (r.1, pRealTable, r.2.2)
    | TSDB_SYSTEM_TABLE => setSysTableVgroupList env pCxt pName pRealTable
    | _ =>
      let r := getTableHashVgroupImpl env pCxt pName
      (r.1, { pRealTable with pVgroupList := some [r.2.1] }, r.2.2)

mutual
/-- Source lines 672-713. -/
def translateTable (env : Env) (translateQuery : QueryTranslator) :
    Node → STranslateContext → Code × Node × STranslateContext
  | .realTable pRealTable, pCxt =>
    let name := toName pCxt.pParseCxt.acctId pRealTable.table.dbName pRealTable.table.tableName
    let m := getTableMetaImpl env pCxt name
    let t1 := { pRealTable with pMeta := m.2.1 }
    if m.1 ≠ TSDB_CODE_SUCCESS then
      let e := generateSyntaxErrMsg m.2.2 TSDB_CODE_PAR_TABLE_NOT_EXIST
      (e.1, .realTable t1, e.2)
    else
      let v := setTableVgroupList env m.2.2 name t1
      if v.1 ≠ TSDB_CODE_SUCCESS then (v.1, .realTable v.2.1, v.2.2)
      else
        let a := addNamespace v.2.2 (.realTable v.2.1)
        (a.1, .realTable v.2.1, a.2)
  | .tempTable t pSubquery, pCxt =>
    match pSubquery with
    | none => (TSDB_CODE_SUCCESS, .tempTable t none, pCxt)
    | some q =>
      let r := translateSubquery translateQuery pCxt q
      if r.1 = TSDB_CODE_SUCCESS then
        let a := addNamespace r.2.2 (.tempTable t (some r.2.1))
        (a.1, .tempTable t (some r.2.1), a.2)
      else (r.1, .tempTable t (some r.2.1), r.2.2)
  | .joinTable t joinType pLeft pRight pOnCond, pCxt =>
    let a := translateTableOpt env translateQuery pLeft pCxt
    if a.1 ≠ TSDB_CODE_SUCCESS then (a.1, .joinTable t joinType a.2.1 pRight pOnCond, a.2.2)
    else
      let b := translateTableOpt env translateQuery pRight a.2.2
      if b.1 ≠ TSDB_CODE_SUCCESS then (b.1, .joinTable t joinType a.2.1 b.2.1 pOnCond, b.2.2)
      else
        let c := translateExpr env translateQuery b.2.2 pOnCond
        (c.1, .joinTable t joinType a.2.1 b.2.1 c.2.1, c.2.2)
  | n, pCxt => (TSDB_CODE_SUCCESS, n, pCxt)
/-- `translateTable` on a pointer; a missing table is left alone. -/
def translateTableOpt (env : Env) (translateQuery : QueryTranslator) :
    Option Node → STranslateContext → Code × Option Node × STranslateContext
  | none, pCxt => (TSDB_CODE_SUCCESS, none, pCxt)
  | some n, pCxt =>
    let r := translateTable env translateQuery n pCxt
    (r.1, some r.2.1, r.2.2)
end

/-! ## The clauses of a select -/

/-- The loop of lines 247-254 over the schema entries at the indices `i .. nums - 1`. -/
def createColumnsBySchema (pTable : SRealTableNode) (pMeta : STableMeta) :
    List SSchema → Nat → Nat → List Node
  | [], _, _ => []
  | s :: rest, i, nums =>
    if i < nums then
      .column (setColumnInfoBySchema pTable pMeta.uid s
        (decide (i ≥ pMeta.tableInfo.numOfColumns)) {}) ::
        createColumnsBySchema pTable pMeta rest (i + 1) nums
    else []

/-- The loop of lines 258-265 over the projections from position `i` on. -/
def createColumnsByExpr (pTable : STableNode) : List Node → Nat → List Node
  | [], _ => []
  | n :: rest, i =>
    .column (setColumnInfoByExpr (some pTable) i n.exprNode {}) ::
      createColumnsByExpr pTable rest (i + 1)

/-- Source lines 243-268: the columns appended to the list. -/
def createColumnNodeByTable (pTable : Node) : List Node :=
  match pTable with
  | .realTable t =>
    match t.pMeta with
    | none => []
    | some pMeta =>
      let nums := pMeta.tableInfo.numOfColumns +
        (if pMeta.tableType = TSDB_SUPER_TABLE then pMeta.tableInfo.numOfTags else 0)
      createColumnsBySchema t pMeta pMeta.schema 0 nums
  | .tempTable t pSubquery => createColumnsByExpr t ((getProjectList pSubquery).getD []) 0
  | _ => []

/-- Source lines 715-735: the statement with its projection list and `*pIsSelectStar`. -/
def translateStar (pCxt : STranslateContext) (pSelect : SSelectStmt) :
    Code × SSelectStmt × Bool :=
  match pSelect.pProjectionList with
  | none =>
    (TSDB_CODE_SUCCESS,
      { pSelect with
        pProjectionList := some ((currTables pCxt).map createColumnNodeByTable).flatten }, true)
  | some _ => (TSDB_CODE_SUCCESS, pSelect, false)

/-- The statement a clause translator works on is the current statement of the context
(`translateSelect` sets `pCxt->pCurrStmt` first), so the context sees every change of it. -/
def setCurrStmt (pCxt : STranslateContext) (pSelect : SSelectStmt) : STranslateContext :=
  { pCxt with pCurrStmt := some pSelect }

/-- Source lines 799-814. -/
def translateOrderBy (env : Env) (translateQuery : QueryTranslator)
    (pCxt : STranslateContext) (pSelect : SSelectStmt) :
    Code × SSelectStmt × STranslateContext :=
  let p := translateOrderByPosition env pCxt pSelect.pProjectionList pSelect.pOrderByList
  let s1 := { pSelect with pOrderByList := p.2.1 }
  let c1 := setCurrStmt p.2.2.2 s1
  if p.1 ≠ TSDB_CODE_SUCCESS then (p.1, s1, c1)
  else if !p.2.2.1 then (TSDB_CODE_SUCCESS, s1, c1)
  else
    let c2 := { c1 with currClause := some SQL_CLAUSE_ORDER_BY }
    let t := translateExprList env translateQuery c2 s1.pOrderByList
    let s2 := { s1 with pOrderByList := t.2.1 }
    let c3 := setCurrStmt t.2.2 s2
    if t.1 = TSDB_CODE_SUCCESS then
      let k := checkExprListForGroupBy env c3 s2.pOrderByList
      (k.1, s2, k.2)
    else (t.1, s2, c3)

/-- Source lines 816-827. -/
def translateSelectList (env : Env) (translateQuery : QueryTranslator)
    (pCxt : STranslateContext) (pSelect : SSelectStmt) :
    Code × SSelectStmt × STranslateContext :=
  let st := translateStar pCxt pSelect
  let s1 := st.2.1
  let c1 := setCurrStmt pCxt s1
  let t : Code × SSelectStmt × STranslateContext :=
    if st.1 = TSDB_CODE_SUCCESS ∧ st.2.2 = false then
      let c2 := { c1 with currClause := some SQL_CLAUSE_SELECT }
      let r := translateExprList env translateQuery c2 s1.pProjectionList
      let s2 := { s1 with pProjectionList := r.2.1 }
      (r.1, s2, setCurrStmt r.2.2 s2)
    else (st.1, s1, c1)
  if t.1 = TSDB_CODE_SUCCESS then
    let k := checkExprListForGroupBy env t.2.2 t.2.1.pProjectionList
    (k.1, t.2.1, k.2)
  else t

/-- Source lines 829-839. -/
def translateHaving (env : Env) (translateQuery : QueryTranslator)
    (pCxt : STranslateContext) (pSelect : SSelectStmt) :
    Code × SSelectStmt × STranslateContext :=
  if pSelect.pGroupByList.isNone ∧ pSelect.pHaving.isSome then
    let e := generateSyntaxErrMsg pCxt TSDB_CODE_PAR_GROUPBY_LACK_EXPRESSION
    (e.1, pSelect, e.2)
  else
    let c1 := { pCxt with currClause := some SQL_CLAUSE_HAVING }
    let t := translateExpr env translateQuery c1 pSelect.pHaving
    let s1 := { pSelect with pHaving := t.2.1 }
    let c2 := setCurrStmt t.2.2 s1
    if t.1 = TSDB_CODE_SUCCESS then
      let k := checkExprForGroupBy env c2 s1.pHaving
      (k.1, s1, k.2)
    else (t.1, s1, c2)

/-- Source lines 841-844. -/
def translateGroupBy (env : Env) (translateQuery : QueryTranslator)
    (pCxt : STranslateContext) (pGroupByList : Option (List Node)) :
    Code × Option (List Node) × STranslateContext :=
  translateExprList env translateQuery
    { pCxt with currClause := some SQL_CLAUSE_GROUP_BY } pGroupByList

/-- Source lines 846-854. An interval that is not a value node is not checked. -/
def translateIntervalWindow (pCxt : STranslateContext) (pInterval : Option Node) :
    Code × STranslateContext :=
  match pInterval with
  | some (.value pIntervalVal) =>
    if pIntervalVal.datum.i ≤ 0 then
      generateSyntaxErrMsg pCxt TSDB_CODE_PAR_INTERVAL_VALUE_TOO_SMALL
    else (TSDB_CODE_SUCCESS, pCxt)
  | _ => (TSDB_CODE_SUCCESS, pCxt)

/-- Source lines 856-864. -/
def doTranslateWindow (pCxt : STranslateContext) (pWindow : Node) : Code × STranslateContext :=
  match pWindow with
  | .intervalWindow _ pInterval _ _ _ => translateIntervalWindow pCxt pInterval
  | _ => (TSDB_CODE_SUCCESS, pCxt)

/-- Source lines 866-876. -/
def translateWindow (env : Env) (translateQuery : QueryTranslator)
    (pCxt : STranslateContext) (pWindow : Option Node) :
    Code × Option Node × STranslateContext :=
  match pWindow with
  | none => (TSDB_CODE_SUCCESS, none, pCxt)
  | some w =>
    let t := translateExpr env translateQuery
      { pCxt with currClause := some SQL_CLAUSE_WINDOW } (some w)
    if t.1 = TSDB_CODE_SUCCESS then
      let d := doTranslateWindow t.2.2 (t.2.1.getD w)
      (d.1, t.2.1, d.2)
    else t

/-- Source lines 878-881. -/
def translatePartitionBy (env : Env) (translateQuery : QueryTranslator)
    (pCxt : STranslateContext) (pPartitionByList : Option (List Node)) :
    Code × Option (List Node) × STranslateContext :=
  translateExprList env translateQuery
    { pCxt with currClause := some SQL_CLAUSE_PARTITION_BY } pPartitionByList

/-- Source lines 883-886. -/
def translateWhere (env : Env) (translateQuery : QueryTranslator)
    (pCxt : STranslateContext) (pWhere : Option Node) :
    Code × Option Node × STranslateContext :=
  translateExpr env translateQuery { pCxt with currClause := some SQL_CLAUSE_WHERE } pWhere

/-- Source lines 888-891. -/
def translateFrom (env : Env) (translateQuery : QueryTranslator)
    (pCxt : STranslateContext) (pTable : Option Node) :
    Code × Option Node × STranslateContext :=
  translateTableOpt env translateQuery pTable
    { pCxt with currClause := some SQL_CLAUSE_FROM }

/-! ## The select translator -/

/-- What the steps of `translateSelect` work on: the context and the statement. -/
structure SelectState where
  pCxt : STranslateContext
  pSelect : SSelectStmt

/-- A step of `translateSelect`: its result code and the state it leaves. -/
abbrev SelectStep := SelectState → Code × SelectState

/-- The call `translateFrom(pCxt, pSelect->pFromTable)`. -/
def stepFrom (env : Env) (translateQuery : QueryTranslator) : SelectStep := fun s =>
  let r := translateFrom env translateQuery s.pCxt s.pSelect.pFromTable
  let sel := { s.pSelect with pFromTable := r.2.1 }
  (r.1, ⟨setCurrStmt r.2.2 sel, sel⟩)

/-- The call `translateWhere(pCxt, pSelect->pWhere)`. -/
def stepWhere (env : Env) (translateQuery : QueryTranslator) : SelectStep := fun s =>
  let r := translateWhere env translateQuery s.pCxt s.pSelect.pWhere
  let sel := { s.pSelect with pWhere := r.2.1 }
  (r.1, ⟨setCurrStmt r.2.2 sel, sel⟩)

/-- The call `translatePartitionBy(pCxt, pSelect->pPartitionByList)`. -/
def stepPartitionBy (env : Env) (translateQuery : QueryTranslator) : SelectStep := fun s =>
  let r := translatePartitionBy env translateQuery s.pCxt s.pSelect.pPartitionByList
  let sel := { s.pSelect with pPartitionByList := r.2.1 }
  (r.1, ⟨setCurrStmt r.2.2 sel, sel⟩)

/-- The call `translateWindow(pCxt, pSelect->pWindow)`. -/
def stepWindow (env : Env) (translateQuery : QueryTranslator) : SelectStep := fun s =>
  let r := translateWindow env translateQuery s.pCxt s.pSelect.pWindow
  let sel := { s.pSelect with pWindow := r.2.1 }
  (r.1, ⟨setCurrStmt r.2.2 sel, sel⟩)

/-- The call `translateGroupBy(pCxt, pSelect->pGroupByList)`. -/
def stepGroupBy (env : Env) (translateQuery : QueryTranslator) : SelectStep := fun s =>
  let r := translateGroupBy env translateQuery s.pCxt s.pSelect.pGroupByList
  let sel := { s.pSelect with pGroupByList := r.2.1 }
  (r.1, ⟨setCurrStmt r.2.2 sel, sel⟩)

/-- The call `translateHaving(pCxt, pSelect)`. -/
def stepHaving (env : Env) (translateQuery : QueryTranslator) : SelectStep := fun s =>
  let r := translateHaving env translateQuery s.pCxt s.pSelect
  (r.1, ⟨r.2.2, r.2.1⟩)

/-- The call `translateSelectList(pCxt, pSelect)`. -/
def stepSelectList (env : Env) (translateQuery : QueryTranslator) : SelectStep := fun s =>
  let r := translateSelectList env translateQuery s.pCxt s.pSelect
  (r.1, ⟨r.2.2, r.2.1⟩)

/-- The call `translateOrderBy(pCxt, pSelect)`. -/
def stepOrderBy (env : Env) (translateQuery : QueryTranslator) : SelectStep := fun s =>
  let r := translateOrderBy env translateQuery s.pCxt s.pSelect
  (r.1, ⟨r.2.2, r.2.1⟩)

/-- The call `checkAggColCoexist(pCxt, pSelect)`. -/
def stepAggColCoexist (env : Env) : SelectStep := fun s =>
  let r := checkAggColCoexist env s.pCxt s.pSelect
  (r.1, ⟨r.2, s.pSelect⟩)

/-- Source lines 893-921, as a run over the state: each `if (TSDB_CODE_SUCCESS == code)`
guards the next call. -/
def translateSelectRun (env : Env) (translateQuery : QueryTranslator) (s : SelectState) :
    Code × SelectState :=
  let r := stepFrom env translateQuery s
  let r := if r.1 = TSDB_CODE_SUCCESS then stepWhere env translateQuery r.2 else r
  let r := if r.1 = TSDB_CODE_SUCCESS then stepPartitionBy env translateQuery r.2 else r
  let r := if r.1 = TSDB_CODE_SUCCESS then stepWindow env translateQuery r.2 else r
  let r := if r.1 = TSDB_CODE_SUCCESS then stepGroupBy env translateQuery r.2 else r
  let r := if r.1 = TSDB_CODE_SUCCESS then stepHaving env translateQuery r.2 else r
  let r := if r.1 = TSDB_CODE_SUCCESS then stepSelectList env translateQuery r.2 else r
  let r := if r.1 = TSDB_CODE_SUCCESS then stepOrderBy env translateQuery r.2 else r
  let r := if r.1 = TSDB_CODE_SUCCESS then stepAggColCoexist env r.2 else r
  r

/-- Source lines 893-921. -/
def translateSelect (env : Env) (translateQuery : QueryTranslator)
    (pCxt : STranslateContext) (pSelect : SSelectStmt) :
    Code × SSelectStmt × STranslateContext :=
  let r := translateSelectRun env translateQuery ⟨setCurrStmt pCxt pSelect, pSelect⟩
  (r.1, r.2.pSelect, r.2.pCxt)

/-- Source lines 1809-1899, restricted to the case of a select statement. The cases of the
administrative statements are not part of this embedding; a statement of another kind is
passed through with success, as in the default branch. -/
def translateQuery (env : Env) (translateSubqueries : QueryTranslator) : QueryTranslator :=
  fun pCxt pNode =>
    match pNode with
    | .selectStmt pSelect =>
      let r := translateSelect env translateSubqueries pCxt pSelect
      (r.1, .selectStmt r.2.1, r.2.2)
    | n => (TSDB_CODE_SUCCESS, n, pCxt)

/-- `translateQuery` for statements whose subqueries are nested at most `depth` levels deep:
the recursion of the translator through its subqueries, unfolded `depth` times. A subquery
below that depth is reported with the code `external 0`. -/
def translateQueryDepth (env : Env) : Nat → QueryTranslator
  | 0 => translateQuery env fun pCxt pNode => (external 0, pNode, pCxt)
  | depth + 1 => translateQuery env (translateQueryDepth env depth)

/-! ## The order of the clauses, in the words of the specification -/

/-- Run the steps in the order of the list: the result is that of the first step that does
not return success, and no later step is run; it is success when every step returned
success. -/
def runInOrder : List SelectStep → SelectState → Code × SelectState
  | [], s => (TSDB_CODE_SUCCESS, s)
  | [f], s => f s
  | f :: g :: rest, s =>
    if (f s).1 = TSDB_CODE_SUCCESS then runInOrder (g :: rest) (f s).2 else f s

/-- Every step of the list, run on the state its predecessors leave, returns success. -/
def allSucceed : List SelectStep → SelectState → Prop
  | [], _ => True
  | f :: rest, s => (f s).1 = TSDB_CODE_SUCCESS ∧ allSucceed rest (f s).2

/-- The steps of a select in the order of section 4.4: FROM, WHERE, PARTITION BY, WINDOW,
GROUP BY, HAVING, SELECT list, ORDER BY, aggregate/column coexistence check. -/
def selectSteps (env : Env) (translateQuery : QueryTranslator) : List SelectStep :=
  [stepFrom env translateQuery, stepWhere env translateQuery,
   stepPartitionBy env translateQuery, stepWindow env translateQuery,
   stepGroupBy env translateQuery, stepHaving env translateQuery,
   stepSelectList env translateQuery, stepOrderBy env translateQuery,
   stepAggColCoexist env]

/-! ## A catalog and parsed statements for the examples -/

/-- The collaborators of `demoEnv` with a catalog that knows the normal table `t` (columns
`ts` and `a`) in every database and routes every table to vgroup 2. -/
def demoCatalogEnv : Env :=
  { demoEnv with
    catalogGetTableMeta := fun n =>
      if n.tname = "t" then (TSDB_CODE_SUCCESS, some demoMeta) else (external 1, none)
    catalogGetTableHashVgroup := fun _ => (TSDB_CODE_SUCCESS, { vgId := 2 }) }

/-- The context `doTranslate` starts with, for the current database `db1`. -/
def demoInitCxt : STranslateContext := { pParseCxt := { db := "db1" } }

/-- The table `db1.t` as the parser delivers it. -/
def parsedTable : Node :=
  .realTable { table := { dbName := "db1", tableName := "t", tableAlias := "t" } }

/-- A column without table alias as the parser delivers it. -/
def parsedCol (colName : String) : Node := .column { colName := colName }

/-- A function call as the parser delivers it. -/
def parsedFunc (functionName : String) (pParameterList : List Node) : Node :=
  .function {} functionName 0 0 pParameterList

/-- The statement `SELECT a, count(*) FROM t` as the parser delivers it. -/
def parsedSelectAggCol : Node :=
  .selectStmt { pProjectionList := some [parsedCol "a", parsedFunc "count" [parsedCol "*"]],
                pFromTable := some parsedTable }

/-- The statement `SELECT a FROM t WHERE (SELECT a, count(*) FROM t) > count(a)` as the parser
delivers it; the operator type 10 is a comparison for `demoEnv`. -/
def parsedSelectAggInWhere : Node :=
  .selectStmt { pProjectionList := some [parsedCol "a"],
                pFromTable := some parsedTable,
                pWhere := some (.operator {} 10
                  (some (.tempTable {} (some parsedSelectAggCol)))
                  (some (parsedFunc "count" [parsedCol "a"]))) }

/-- The WHERE clause of a statement node. -/
def Node.whereOf : Node → Option Node
  | .selectStmt s => s.pWhere
  | _ => none

/-- The right operand of an operator node. -/
def Node.rightOperand : Node → Option Node
  | .operator _ _ _ pRight => pRight
  | _ => none

/-- The function is known to the function manager as an aggregate function. -/
def isAggFuncName (env : Env) (functionName : String) : Bool :=
  match env.fmGetFuncInfo functionName with
  | some (funcId, _) => env.fmIsAggFunc funcId
  | none => false

/-- The name of a function node. -/
def Node.functionNameOf : Node → Option String
  | .function _ functionName _ _ _ => some functionName
  | _ => none

/-- The function id of a function node. -/
def Node.funcIdOf : Node → Option Int
  | .function _ _ funcId _ _ => some funcId
  | _ => none

/-- What one walk of `doCheckAggColCoexist` from a node records. -/
def CoexistWalkSpec (env : Env) (n : Node) : Prop :=
  ∀ s : CheckAggColCoexistCxt,
    (nodesWalkNode (doCheckAggColCoexist env) n s).1 ≠ DEAL_RES_ERROR ∧
    ((nodesWalkNode (doCheckAggColCoexist env) n s).2.existAggFunc = true ↔
      s.existAggFunc = true ∨ HasAggCall env n) ∧
    ((nodesWalkNode (doCheckAggColCoexist env) n s).2.existCol = true ↔
      s.existCol = true ∨ HasBareColumn env n)

/-- What the walk of `doCheckExprForGroupBy` from a node does in a context: it stops with the
error of the closure check when the node has an ungrouped column, and otherwise leaves the
context as it is. -/
def GroupByWalkSpec (env : Env) (keys : List Node) (pCxt : STranslateContext) (n : Node) :
    Prop :=
  (HasUngroupedColumn env keys n →
    (nodesWalkNode (doCheckExprForGroupBy env) n pCxt).1 = DEAL_RES_ERROR ∧
    (nodesWalkNode (doCheckExprForGroupBy env) n pCxt).2 =
      (generateDealNodeErrMsg pCxt TSDB_CODE_PAR_GROUPBY_LACK_EXPRESSION).2) ∧
  (¬ HasUngroupedColumn env keys n →
    (nodesWalkNode (doCheckExprForGroupBy env) n pCxt).1 ≠ DEAL_RES_ERROR ∧
    (nodesWalkNode (doCheckExprForGroupBy env) n pCxt).2 = pCxt)

/-! ## `SELECT *`, in the words of the specification -/

/-- The column that stands for the schema entry `s` of the real table `t` with descriptor
`pMeta` in the role `colType`: it is qualified by the table, named after the entry and
carries its id and type. -/
def starSchemaColumn (t : SRealTableNode) (pMeta : STableMeta) (colType : EColumnType)
    (s : SSchema) : Node :=
  .column { node := { resType := { type := s.type, bytes := s.bytes }, aliasName := s.name }
            tableId := pMeta.uid
            colId := s.colId
            colType := colType
            dbName := t.table.dbName
            tableName := t.table.tableName
            tableAlias := t.table.tableAlias
            colName := s.name }

/-- The column that stands for the projection `p`, at position `idx` of the projection list of
the subquery table `t`: it is named by the alias of the projection, bound to it and has its
result type. -/
def starProjectionColumn (t : STableNode) (idx : Nat) (p : Node) : Node :=
  .column { node := { resType := p.exprNode.resType }
            tableAlias := t.tableAlias
            colName := p.exprNode.aliasName
            pProjectRef := some idx }

/-- The columns of a real table with descriptor `pMeta` in a `SELECT *`: the first
`numOfColumns` schema entries as columns, followed, for a super table only, by the next
`numOfTags` entries as tags. -/
def starRealTableColumns (t : SRealTableNode) (pMeta : STableMeta) : List Node :=
  (pMeta.schema.take pMeta.tableInfo.numOfColumns).map
      (starSchemaColumn t pMeta COLUMN_TYPE_COLUMN) ++
    (if pMeta.tableType = TSDB_SUPER_TABLE then
      ((pMeta.schema.drop pMeta.tableInfo.numOfColumns).take pMeta.tableInfo.numOfTags).map
        (starSchemaColumn t pMeta COLUMN_TYPE_TAG)
    else [])

/-- The columns of a subquery table in a `SELECT *`: one per projection of the subquery, in
the order of the projections. -/
def starTempTableColumns (t : STableNode) (pProjectionList : List Node) : List Node :=
  (pProjectionList.enumFrom 0).map fun p => starProjectionColumn t p.1 p.2

/-! ## The DISTINCT-order-by rule, in the words of the specification -/

/-- The node contains a column that carries a table alias, or a call of an aggregate
function, that does not lie inside a subtree equal to one of the expressions `keys`: the node
itself and every node on the way down to that column or call is different from every key. -/
inductive HasUnselectedNode (env : Env) (keys : List Node) : Node → Prop where
  | column (c : SColumnNode) : c.tableAlias ≠ "" →
      matchesGroupByKey env keys (.column c) = false →
      HasUnselectedNode env keys (.column c)
  | aggFunc (n : Node) : isAggFuncNode env n = true →
      matchesGroupByKey env keys n = false →
      HasUnselectedNode env keys n
  | child (n c : Node) : matchesGroupByKey env keys n = false → c ∈ n.children →
      HasUnselectedNode env keys c → HasUnselectedNode env keys n

/-- What the walk of `doCheckExprForGroupBy` from a node does in a context that is in the
DISTINCT-order-by mode: it stops with `TSDB_CODE_PAR_NOT_SELECTED_EXPRESSION` when the node has
an unselected column or aggregate call, and otherwise leaves the context as it is. -/
def DistinctWalkSpec (env : Env) (keys : List Node) (pCxt : STranslateContext) (n : Node) :
    Prop :=
  (HasUnselectedNode env keys n →
    (nodesWalkNode (doCheckExprForGroupBy env) n pCxt).1 = DEAL_RES_ERROR ∧
    (nodesWalkNode (doCheckExprForGroupBy env) n pCxt).2 =
      (generateDealNodeErrMsg pCxt TSDB_CODE_PAR_NOT_SELECTED_EXPRESSION).2) ∧
  (¬ HasUnselectedNode env keys n →
    (nodesWalkNode (doCheckExprForGroupBy env) n pCxt).1 ≠ DEAL_RES_ERROR ∧
    (nodesWalkNode (doCheckExprForGroupBy env) n pCxt).2 = pCxt)

/-- The context of the ORDER BY clause of `SELECT DISTINCT t.a FROM t GROUP BY t.ts`. -/
def demoCxtDistinctOrderBy : STranslateContext :=
  { pParseCxt := { db := "db1" }, pNsLevel := [[demoTable]],
    currClause := some SQL_CLAUSE_ORDER_BY,
    pCurrStmt := some { isDistinct := true, pProjectionList := some [demoColA],
                        pFromTable := some demoTable, pGroupByList := some [demoColTs] } }

/-! ## Sibling subqueries, for the examples -/

/-- The statement `SELECT a FROM t` as the parser delivers it. -/
def parsedSelectA : Node :=
  .selectStmt { pProjectionList := some [parsedCol "a"], pFromTable := some parsedTable }

/-- The statement `SELECT * FROM (SELECT a FROM t) x` as the parser delivers it. -/
def parsedSelectOneSubquery : Node :=
  .selectStmt { pFromTable := some (.tempTable { tableAlias := "x" } (some parsedSelectA)) }

/-- The statement `SELECT * FROM (SELECT a FROM t) x JOIN (SELECT a FROM t) y` as the parser
delivers it. -/
def parsedSelectSiblingSubqueries : Node :=
  .selectStmt { pFromTable := some (.joinTable {} 0
    (some (.tempTable { tableAlias := "x" } (some parsedSelectA)))
    (some (.tempTable { tableAlias := "y" } (some parsedSelectA))) none) }

/-! ## Statements, the rewriter and the finalizer -/

/-- Node types of the statements (`QUERY_NODE_*_STMT`) that `rewriteQuery`, `translateQuery`
and `setQuery` tell apart. -/
inductive ENodeType where
  | QUERY_NODE_SELECT_STMT
  | QUERY_NODE_VNODE_MODIF_STMT
  | QUERY_NODE_CREATE_DATABASE_STMT
  | QUERY_NODE_DROP_DATABASE_STMT
  | QUERY_NODE_ALTER_DATABASE_STMT
  | QUERY_NODE_CREATE_TABLE_STMT
  | QUERY_NODE_CREATE_MULTI_TABLE_STMT
  | QUERY_NODE_DROP_TABLE_STMT
  | QUERY_NODE_DROP_SUPER_TABLE_STMT
  | QUERY_NODE_ALTER_TABLE_STMT
  | QUERY_NODE_CREATE_USER_STMT
  | QUERY_NODE_ALTER_USER_STMT
  | QUERY_NODE_DROP_USER_STMT
  | QUERY_NODE_USE_DATABASE_STMT
  | QUERY_NODE_CREATE_DNODE_STMT
  | QUERY_NODE_DROP_DNODE_STMT
  | QUERY_NODE_ALTER_DNODE_STMT
  | QUERY_NODE_CREATE_INDEX_STMT
  | QUERY_NODE_DROP_INDEX_STMT
  | QUERY_NODE_CREATE_QNODE_STMT
  | QUERY_NODE_DROP_QNODE_STMT
  | QUERY_NODE_CREATE_TOPIC_STMT
  | QUERY_NODE_DROP_TOPIC_STMT
  | QUERY_NODE_ALTER_LOCAL_STMT
  | QUERY_NODE_SHOW_DATABASES_STMT
  | QUERY_NODE_SHOW_TABLES_STMT
  | QUERY_NODE_SHOW_STABLES_STMT
  | QUERY_NODE_SHOW_USERS_STMT
  | QUERY_NODE_SHOW_DNODES_STMT
  | QUERY_NODE_SHOW_VGROUPS_STMT
  | QUERY_NODE_SHOW_MNODES_STMT
  | QUERY_NODE_SHOW_MODULES_STMT
  | QUERY_NODE_SHOW_QNODES_STMT
  | QUERY_NODE_SHOW_FUNCTIONS_STMT
  | QUERY_NODE_SHOW_INDEXES_STMT
  | QUERY_NODE_SHOW_STREAMS_STMT
  deriving DecidableEq, Repr

open ENodeType

/-- Kinds of the tables of a create request (constants `TD_*`). -/
inductive ETdTableType where
  | TD_CHILD_TABLE
  | TD_NORMAL_TABLE
  deriving DecidableEq, Repr

open ETdTableType

/-- A column definition of a CREATE TABLE statement. -/
structure SColumnDefNode where
  colName : String := ""
  dataType : SDataType := {}
  deriving DecidableEq, Repr

/-- The options of a CREATE TABLE statement that `checkCreateTable` reads; the other options
only go into the request. -/
structure STableOptions where
  pSma : Option (List SColumnNode) := none
  pFuncs : Option (List Node) := none

/-- A CREATE TABLE statement. `pTags` is `none` for a table without tag list. -/
structure SCreateTableStmt where
  dbName : String := ""
  tableName : String := ""
  ignoreExists : Bool := false
  pCols : List SColumnDefNode := []
  pTags : Option (List SColumnDefNode) := none
  pOptions : STableOptions := {}

/-- One clause `<table> USING <super table> [(<tags>)] TAGS (<values>)` of a CREATE TABLE
statement for sub-tables. -/
structure SCreateSubTableClause where
  dbName : String := ""
  tableName : String := ""
  useDbName : String := ""
  useTableName : String := ""
  ignoreExists : Bool := false
  pSpecificTags : Option (List SColumnNode) := none
  pValsOfTags : List SValueNode := []
  deriving DecidableEq, Repr

/-- A CREATE TABLE statement for several sub-tables. -/
structure SCreateMultiTableStmt where
  pSubTables : List SCreateSubTableClause := []
  deriving DecidableEq, Repr

/-- A SHOW statement; its kind is its node type. -/
structure SShowStmt where
  pDbName : Option Node := none
  pTbNamePattern : Option Node := none

/-- One column of a KV row: column id, type and the dumped value. -/
structure SKVCol where
  colId : Int := 0
  type : DataType := TSDB_DATA_TYPE_NULL
  value : String := ""
  deriving DecidableEq, Repr

/-- A KV row, and the builder of one: the columns added so far. -/
abbrev SKVRow := List SKVCol

/-- The configuration of a normal table in a create request (`ntbCfg`). -/
structure SNtbCfg where
  nCols : Nat := 0
  pSchema : List SSchema := []
  deriving DecidableEq, Repr

/-- The configuration of a child table in a create request (`ctbCfg`). -/
structure SCtbCfg where
  suid : Nat := 0
  pTag : SKVRow := []
  deriving DecidableEq, Repr

/-- The request to create one table (`SVCreateTbReq`); the C union of the two configurations
is kept as two fields. -/
structure SVCreateTbReq where
  type : ETdTableType
  dbFName : String := ""
  name : String := ""
  ntbCfg : SNtbCfg := {}
  ctbCfg : SCtbCfg := {}
  deriving DecidableEq, Repr

/-- A batch of create requests (`SVCreateTbBatchReq`). -/
structure SVCreateTbBatchReq where
  pArray : List SVCreateTbReq := []
  deriving DecidableEq, Repr

/-- Source lines 2097-2101. -/
structure SVgroupTablesBatch where
  req : SVCreateTbBatchReq := {}
  info : SVgroupInfo := {}
  dbName : String := ""
  deriving DecidableEq, Repr

/-- The header of a message to a vnode (`SMsgHead`). -/
structure SMsgHead where
  contLen : Int := 0
  vgId : Int := 0
  deriving DecidableEq, Repr

/-- The buffer of a data block: the header, followed by the serialized batch, which is
represented by the batch it encodes. -/
structure SVgDataBuf where
  head : SMsgHead := {}
  req : SVCreateTbBatchReq := {}
  deriving DecidableEq, Repr

/-- The descriptor of the data block for one vgroup (`SVgDataBlocks`). -/
structure SVgDataBlocks where
  vg : SVgroupInfo := {}
  numOfTables : Nat := 0
  size : Nat := 0
  pData : SVgDataBuf := {}
  deriving DecidableEq, Repr

/-- The statement that carries the data blocks of a rewritten statement. -/
structure SVnodeModifOpStmt where
  sqlNodeType : ENodeType
  pDataBlocks : List SVgDataBlocks := []
  deriving DecidableEq, Repr

/-- The value of a literal as `taosVariantDump` takes it (`SVariant`); the C union is kept as
separate fields. -/
structure SVariant where
  nType : DataType := TSDB_DATA_TYPE_NULL
  nLen : Nat := 0
  i : Int := 0
  u : Nat := 0
  d : SDouble := {}
  pz : Option (Nat × String) := none
  deriving DecidableEq, Repr

/-- The root of a query. The statements are those the rewriter and the finalizer work on,
and the administrative statements whose translators only store a request of a fixed message
type; the fields of the latter go into the serialized request alone and are left out. The
statements CREATE DATABASE, DROP TABLE, ALTER TABLE, USE DATABASE, CREATE INDEX and
CREATE TOPIC are not roots of this model. -/
inductive Stmt where
  | selectStmt (pSelect : SSelectStmt)
  | vnodeModifStmt (s : SVnodeModifOpStmt)
  | showStmt (type : ENodeType) (s : SShowStmt)
  | createTableStmt (s : SCreateTableStmt)
  | createMultiTableStmt (s : SCreateMultiTableStmt)
  | dropDatabaseStmt
  | alterDatabaseStmt
  | dropSuperTableStmt
  | createUserStmt
  | alterUserStmt
  | dropUserStmt
  | createDnodeStmt
  | dropDnodeStmt
  | alterDnodeStmt
  | dropIndexStmt
  | createQnodeStmt
  | dropQnodeStmt
  | dropTopicStmt
  | alterLocalStmt

/-- The node type of a statement (`nodeType`). -/
def Stmt.nodeType : Stmt → ENodeType
  | .selectStmt _ => QUERY_NODE_SELECT_STMT
  | .vnodeModifStmt _ => QUERY_NODE_VNODE_MODIF_STMT
  | .showStmt type _ => type
  | .createTableStmt _ => QUERY_NODE_CREATE_TABLE_STMT
  | .createMultiTableStmt _ => QUERY_NODE_CREATE_MULTI_TABLE_STMT
  | .dropDatabaseStmt => QUERY_NODE_DROP_DATABASE_STMT
  | .alterDatabaseStmt => QUERY_NODE_ALTER_DATABASE_STMT
  | .dropSuperTableStmt => QUERY_NODE_DROP_SUPER_TABLE_STMT
  | .createUserStmt => QUERY_NODE_CREATE_USER_STMT
  | .alterUserStmt => QUERY_NODE_ALTER_USER_STMT
  | .dropUserStmt => QUERY_NODE_DROP_USER_STMT
  | .createDnodeStmt => QUERY_NODE_CREATE_DNODE_STMT
  | .dropDnodeStmt => QUERY_NODE_DROP_DNODE_STMT
  | .alterDnodeStmt => QUERY_NODE_ALTER_DNODE_STMT
  | .dropIndexStmt => QUERY_NODE_DROP_INDEX_STMT
  | .createQnodeStmt => QUERY_NODE_CREATE_QNODE_STMT
  | .dropQnodeStmt => QUERY_NODE_DROP_QNODE_STMT
  | .dropTopicStmt => QUERY_NODE_DROP_TOPIC_STMT
  | .alterLocalStmt => QUERY_NODE_ALTER_LOCAL_STMT

/-- The query envelope (`SQuery`). `msgType` is `none` as long as none is set; a pointer
that may be NULL is an `Option`. -/
structure SQuery where
  pRoot : Stmt
  haveResultSet : Bool := false
  directRpc : Bool := false
  showRewrite : Bool := false
  msgType : Option TMsgType := none
  numOfResCols : Nat := 0
  pResSchema : Option (List SSchema) := none
  pCmdMsg : Option SCmdMsgInfo := none
  pDbList : Option (List String) := none
  pTableList : Option (List SName) := none

/-- Collaborators and constants of the rewriter and of the finalizer that are not part of
`parTranslater.c`. -/
structure RewriteEnv where
  /-- `fmFuncMgtInit`. -/
  fmFuncMgtInit : Code
  /-- The sizing call `tSerializeSVCreateTbBatchReq(NULL, req)`: the length of the serialized
  batch. -/
  tSerializeSVCreateTbBatchReq : SVCreateTbBatchReq → Nat
  /-- C library `htonl`. -/
  htonl : Int → Int
  /-- `sizeof(SMsgHead)`. -/
  sizeofSMsgHead : Nat
  /-- `taosVariantDump(var, tagVal, type, true)`: the result code and the dumped value. -/
  taosVariantDump : SVariant → DataType → Code × String
  /-- `tdSortKVRowByColIdx`. -/
  tdSortKVRowByColIdx : SKVRow → SKVRow
  /-- The enumerator `DEAL_RES_ERROR` read as a result code. -/
  DEAL_RES_ERROR : Nat
  /-- Value of the constant `TSDB_INFORMATION_SCHEMA_DB`. -/
  TSDB_INFORMATION_SCHEMA_DB : String
  /-- Value of the constant `TSDB_INS_TABLE_USER_DATABASES`. -/
  TSDB_INS_TABLE_USER_DATABASES : String
  /-- Value of the constant `TSDB_INS_TABLE_USER_STABLES`. -/
  TSDB_INS_TABLE_USER_STABLES : String
  /-- Value of the constant `TSDB_INS_TABLE_USER_USERS`. -/
  TSDB_INS_TABLE_USER_USERS : String
  /-- Value of the constant `TSDB_INS_TABLE_DNODES`. -/
  TSDB_INS_TABLE_DNODES : String
  /-- Value of the constant `TSDB_INS_TABLE_VGROUPS`. -/
  TSDB_INS_TABLE_VGROUPS : String
  /-- Value of the constant `TSDB_INS_TABLE_MNODES`. -/
  TSDB_INS_TABLE_MNODES : String
  /-- Value of the constant `TSDB_INS_TABLE_MODULES`. -/
  TSDB_INS_TABLE_MODULES : String
  /-- Value of the constant `TSDB_INS_TABLE_QNODES`. -/
  TSDB_INS_TABLE_QNODES : String
  /-- Value of the constant `TSDB_INS_TABLE_USER_FUNCTIONS`. -/
  TSDB_INS_TABLE_USER_FUNCTIONS : String
  /-- Value of the constant `TSDB_INS_TABLE_USER_INDEXES`. -/
  TSDB_INS_TABLE_USER_INDEXES : String
  /-- Value of the constant `TSDB_INS_TABLE_USER_STREAMS`. -/
  TSDB_INS_TABLE_USER_STREAMS : String
  /-- Value of the constant `OP_TYPE_EQUAL`. -/
  OP_TYPE_EQUAL : Nat
  /-- Value of the constant `OP_TYPE_LIKE`. -/
  OP_TYPE_LIKE : Nat
  /-- Value of the constant `LOGIC_COND_TYPE_AND`. -/
  LOGIC_COND_TYPE_AND : Nat

/-- Source lines 120-125. -/
def getTableMeta (env : Env) (pCxt : STranslateContext) (pDbName pTableName : String) :
    Code × Option STableMeta × STranslateContext :=
  getTableMetaImpl env pCxt (toName pCxt.pParseCxt.acctId pDbName pTableName)

/-- Source lines 179-184. -/
def getTableHashVgroup (env : Env) (pCxt : STranslateContext) (pDbName pTableName : String) :
    Code × SVgroupInfo × STranslateContext :=
  getTableHashVgroupImpl env pCxt (toName pCxt.pParseCxt.acctId pDbName pTableName)

/-! ### SHOW statements -/

/-- Source lines 1954-1984; `none` is the NULL of the default branch. -/
def getSysTableName (env : Env) (renv : RewriteEnv) : ENodeType → Option String
  | QUERY_NODE_SHOW_DATABASES_STMT => some renv.TSDB_INS_TABLE_USER_DATABASES
  | QUERY_NODE_SHOW_TABLES_STMT => some env.TSDB_INS_TABLE_USER_TABLES
  | QUERY_NODE_SHOW_STABLES_STMT => some renv.TSDB_INS_TABLE_USER_STABLES
  | QUERY_NODE_SHOW_USERS_STMT => some renv.TSDB_INS_TABLE_USER_USERS
  | QUERY_NODE_SHOW_DNODES_STMT => some renv.TSDB_INS_TABLE_DNODES
  | QUERY_NODE_SHOW_VGROUPS_STMT => some renv.TSDB_INS_TABLE_VGROUPS
  | QUERY_NODE_SHOW_MNODES_STMT => some renv.TSDB_INS_TABLE_MNODES
  | QUERY_NODE_SHOW_MODULES_STMT => some renv.TSDB_INS_TABLE_MODULES
  | QUERY_NODE_SHOW_QNODES_STMT => some renv.TSDB_INS_TABLE_QNODES
  | QUERY_NODE_SHOW_FUNCTIONS_STMT => some renv.TSDB_INS_TABLE_USER_FUNCTIONS
  | QUERY_NODE_SHOW_INDEXES_STMT => some renv.TSDB_INS_TABLE_USER_INDEXES
  | QUERY_NODE_SHOW_STREAMS_STMT => some renv.TSDB_INS_TABLE_USER_STREAMS
  | _ => none

/-- Source lines 1986-2006. The result is `none` when the kind has no system table: the
code then copies a string from a NULL pointer. The name of the statement (`stmtName`) is not
part of the model. -/
def createSelectStmtForShow (env : Env) (renv : RewriteEnv) (showType : ENodeType) :
    Option (Code × SSelectStmt) :=
  match getSysTableName env renv showType with
  | none => none
  | some tableName =>
    some (TSDB_CODE_SUCCESS,
      { pFromTable := some (.realTable
          { table := { dbName := renv.TSDB_INFORMATION_SCHEMA_DB
                       tableName := tableName
                       tableAlias := tableName } }) })

/-- Source lines 2008-2029; `pOp` is `*pOp` before the call, the result holds it after the
call. The clone of a node is the node. -/
def createOperatorNode (opType : Nat) (pColName : String) (pRight : Option Node)
    (pOp : Option Node) : Code × Option Node :=
  match pRight with
  | none => (TSDB_CODE_SUCCESS, pOp)
  | some r =>
    (TSDB_CODE_SUCCESS,
      some (.operator {} opType (some (.column { colName := pColName })) (some r)))

/-- Source lines 2031-2033. -/
def getTbNameColName (type : ENodeType) : String :=
  if type = QUERY_NODE_SHOW_STABLES_STMT then "stable_name" else "table_name"

/-- Source lines 2035-2054. -/
def createLogicCondNode (renv : RewriteEnv) (pCond1 pCond2 : Node) : Code × Node :=
  (TSDB_CODE_SUCCESS, .logicCondition {} renv.LOGIC_COND_TYPE_AND [pCond1, pCond2])

/-- The literal of a node read as a value node (`((SValueNode*)pNode)->literal`); a node of
another kind gives the empty string. -/
def Node.literalOf : Node → String
  | .value v => v.literal
  | _ => ""

/-- Source lines 2056-2081; `type` is the node type of the SHOW statement. -/
def createShowCondition (renv : RewriteEnv) (type : ENodeType) (pShow : SShowStmt)
    (pSelect : SSelectStmt) : Code × SSelectStmt :=
  let d := createOperatorNode renv.OP_TYPE_EQUAL "db_name" pShow.pDbName none
  let t := createOperatorNode renv.OP_TYPE_LIKE (getTbNameColName type) pShow.pTbNamePattern
    none
  if d.1 ≠ TSDB_CODE_SUCCESS ∨ t.1 ≠ TSDB_CODE_SUCCESS then (TSDB_CODE_OUT_OF_MEMORY, pSelect)
  else
    let s1 : SSelectStmt :=
      match d.2, t.2 with
      | some pDbCond, some pTbCond =>
        { pSelect with pWhere := some (createLogicCondNode renv pDbCond pTbCond).2 }
      | pDbCond, pTbCond =>
        { pSelect with pWhere := if pDbCond.isNone then pTbCond else pDbCond }
    let s2 : SSelectStmt :=
      match pShow.pDbName with
      | none => s1
      | some pDbName =>
        match s1.pFromTable with
        | some (.realTable pTable) =>
          { s1 with
            pFromTable := some (.realTable { pTable with useDbName := pDbName.literalOf }) }
        | _ => s1
    (TSDB_CODE_SUCCESS, s2)

/-- Source lines 2083-2095, for a root that is the SHOW statement `pShow` of node type
`type`. -/
def rewriteShow (env : Env) (renv : RewriteEnv) (pQuery : SQuery) (type : ENodeType)
    (pShow : SShowStmt) : Option (Code × SQuery) :=
  match createSelectStmtForShow env renv type with
  | none => none
  | some a =>
    if a.1 = TSDB_CODE_SUCCESS then
      let b := createShowCondition renv type pShow a.2
      if b.1 = TSDB_CODE_SUCCESS then
        some (TSDB_CODE_SUCCESS, { pQuery with showRewrite := true, pRoot := .selectStmt b.2 })
      else some (b.1, pQuery)
    else some (a.1, pQuery)

/-! ### CREATE TABLE -/

/-- Source lines 2103-2108. -/
def toSchema (pCol : SColumnDefNode) (colId : Int) : SSchema :=
  { colId := colId, type := pCol.dataType.type, bytes := pCol.dataType.bytes,
    name := pCol.colName }

/-- The loop of lines 2133-2138 over the columns from position `index` on. -/
def buildNormalTableSchema : List SColumnDefNode → Nat → List SSchema
  | [], _ => []
  | pCol :: rest, index => toSchema pCol (index + 1) :: buildNormalTableSchema rest (index + 1)

/-- Source lines 2116-2150. The name given to `tNameGetFullDbName` holds the account and the
database. -/
def buildNormalTableBatchReq (env : Env) (acctId : Int) (pDbName pTableName : String)
    (pColumns : List SColumnDefNode) (pVgroupInfo : SVgroupInfo) :
    Code × SVgroupTablesBatch :=
  let dbFName := env.tNameGetFullDbName { acctId := acctId, dbname := pDbName }
  let req : SVCreateTbReq :=
    { type := TD_NORMAL_TABLE, dbFName := dbFName, name := pTableName,
      ntbCfg := { nCols := pColumns.length, pSchema := buildNormalTableSchema pColumns 0 } }
  (TSDB_CODE_SUCCESS, { info := pVgroupInfo, dbName := pDbName, req := { pArray := [req] } })

/-- Source lines 2152-2174: the array of blocks with the block of the batch pushed to it. -/
def serializeVgroupTablesBatch (renv : RewriteEnv) (pTbBatch : SVgroupTablesBatch)
    (pBufArray : List SVgDataBlocks) : Code × List SVgDataBlocks :=
  let tlen := renv.sizeofSMsgHead + renv.tSerializeSVCreateTbBatchReq pTbBatch.req
  let buf : SVgDataBuf :=
    { head := { vgId := renv.htonl pTbBatch.info.vgId, contLen := renv.htonl tlen },
      req := pTbBatch.req }
  (TSDB_CODE_SUCCESS,
    pBufArray ++ [{ vg := pTbBatch.info, pData := buf, size := tlen,
                    numOfTables := pTbBatch.req.pArray.length }])

/-- Source lines 2193-2203. -/
def rewriteToVnodeModifOpStmt (pQuery : SQuery) (pBufArray : List SVgDataBlocks) :
    Code × SQuery :=
  (TSDB_CODE_SUCCESS,
    { pQuery with
      pRoot := .vnodeModifStmt { sqlNodeType := pQuery.pRoot.nodeType,
                                 pDataBlocks := pBufArray } })

/-- Source lines 2215-2232. -/
def buildCreateTableDataBlock (env : Env) (renv : RewriteEnv) (acctId : Int)
    (pStmt : SCreateTableStmt) (pInfo : SVgroupInfo) : Code × List SVgDataBlocks :=
  let b := buildNormalTableBatchReq env acctId pStmt.dbName pStmt.tableName pStmt.pCols pInfo
  if b.1 = TSDB_CODE_SUCCESS then serializeVgroupTablesBatch renv b.2 []
  else (b.1, [])

/-- Source lines 2234-2251, for a root that is the CREATE TABLE statement `pStmt`. -/
def rewriteCreateTable (env : Env) (renv : RewriteEnv) (pCxt : STranslateContext)
    (pQuery : SQuery) (pStmt : SCreateTableStmt) : Code × SQuery × STranslateContext :=
  let h := getTableHashVgroup env pCxt pStmt.dbName pStmt.tableName
  if h.1 = TSDB_CODE_SUCCESS then
    let d := buildCreateTableDataBlock env renv h.2.2.pParseCxt.acctId pStmt h.2.1
    if d.1 = TSDB_CODE_SUCCESS then
      let r := rewriteToVnodeModifOpStmt pQuery d.2
      (r.1, r.2, h.2.2)
    else (d.1, pQuery, h.2.2)
  else (h.1, pQuery, h.2.2)

/-! ### CREATE TABLE for several sub-tables -/

/-- Modelled from the spec: `taosHashGet` on the map of section 4.6 that is "keyed by vgroup
id"; the map is the list of its entries, each with its key. -/
def taosHashGet (pVgroupHashmap : List (Int × SVgroupTablesBatch)) (vgId : Int) :
    Option SVgroupTablesBatch :=
  (pVgroupHashmap.find? fun e => decide (e.1 = vgId)).map Prod.snd

/-- Modelled from the spec: `taosHashPut` on the map keyed by vgroup id; a key that is not
in the map gets a new entry, which the iteration visits after the entries put before it. -/
def taosHashPut (pVgroupHashmap : List (Int × SVgroupTablesBatch)) (vgId : Int)
    (tBatch : SVgroupTablesBatch) : List (Int × SVgroupTablesBatch) :=
  if (taosHashGet pVgroupHashmap vgId).isSome then
    pVgroupHashmap.map fun e => if e.1 = vgId then (e.1, tBatch) else e
  else pVgroupHashmap ++ [(vgId, tBatch)]

/-- Source lines 2253-2280. The request is pushed to the array of the batch that the map
holds for the vgroup. -/
def addCreateTbReqIntoVgroup (env : Env) (acctId : Int)
    (pVgroupHashmap : List (Int × SVgroupTablesBatch)) (pDbName pTableName : String)
    (row : SKVRow) (suid : Nat) (pVgInfo : SVgroupInfo) : List (Int × SVgroupTablesBatch) :=
  let dbFName := env.tNameGetFullDbName { acctId := acctId, dbname := pDbName }
  let req : SVCreateTbReq :=
    { type := TD_CHILD_TABLE, dbFName := dbFName, name := pTableName,
      ctbCfg := { suid := suid, pTag := row } }
  match taosHashGet pVgroupHashmap pVgInfo.vgId with
  | none =>
    taosHashPut pVgroupHashmap pVgInfo.vgId
      { info := pVgInfo, dbName := pDbName, req := { pArray := [req] } }
  | some _ =>
    pVgroupHashmap.map fun e =>
      if e.1 = pVgInfo.vgId then
        (e.1, { e.2 with req := { pArray := e.2.req.pArray ++ [req] } })
      else e

/-- Source lines 2282-2320. A field that the code does not set keeps its default. -/
def valueNodeToVariant (pNode : SValueNode) : SVariant :=
  let v : SVariant := { nType := pNode.node.resType.type, nLen := pNode.node.resType.bytes }
  match pNode.node.resType.type with
  | TSDB_DATA_TYPE_NULL => v
  | TSDB_DATA_TYPE_BOOL => { v with i := if pNode.datum.b then 1 else 0 }
  | TSDB_DATA_TYPE_TINYINT | TSDB_DATA_TYPE_SMALLINT | TSDB_DATA_TYPE_INT
  | TSDB_DATA_TYPE_BIGINT | TSDB_DATA_TYPE_TIMESTAMP => { v with i := pNode.datum.i }
  | TSDB_DATA_TYPE_UTINYINT | TSDB_DATA_TYPE_USMALLINT | TSDB_DATA_TYPE_UINT
  | TSDB_DATA_TYPE_UBIGINT => { v with u := pNode.datum.u }
  | TSDB_DATA_TYPE_FLOAT | TSDB_DATA_TYPE_DOUBLE => { v with d := pNode.datum.d }
  | TSDB_DATA_TYPE_NCHAR | TSDB_DATA_TYPE_VARCHAR | TSDB_DATA_TYPE_VARBINARY =>
    { v with pz := pNode.datum.p }
  | TSDB_DATA_TYPE_JSON | TSDB_DATA_TYPE_DECIMAL | TSDB_DATA_TYPE_BLOB => v

/-- Source lines 2322-2334. Modelled from the spec: `tdAddColToKVRow` adds the triple
`(column_id, type, value)` of the glossary to the row under construction. The translated
value node is not kept: the clause is not read again. -/
def addValToKVRow (env : Env) (renv : RewriteEnv) (pCxt : STranslateContext)
    (pVal : SValueNode) (pSchema : SSchema) (pBuilder : SKVRow) :
    Code × SKVRow × STranslateContext :=
  let r := translateValue env pCxt pVal
  if r.1 = DEAL_RES_ERROR then (r.2.2.errCode, pBuilder, r.2.2)
  else
    let d := renv.taosVariantDump (valueNodeToVariant r.2.1) pSchema.type
    if d.1 = TSDB_CODE_SUCCESS then
      (d.1, pBuilder ++ [{ colId := pSchema.colId, type := pSchema.type, value := d.2 }], r.2.2)
    else (d.1, pBuilder, r.2.2)

/-- Modelled from the spec: `getNumOfTags` is not part of the translator; it is the number of
tags of the table descriptor. -/
def getNumOfTags (pTableMeta : STableMeta) : Nat := pTableMeta.tableInfo.numOfTags

/-- Modelled from the spec: `getTableTagSchema` is not part of the translator; the tags of a
table follow its columns in the schema. -/
def getTableTagSchema (pTableMeta : STableMeta) : List SSchema :=
  pTableMeta.schema.drop pTableMeta.tableInfo.numOfColumns

/-- The loop of lines 2344-2360 over the bound names and values that remain. -/
def buildKVRowForBindTagsLoop (env : Env) (renv : RewriteEnv) (pTagSchema : List SSchema)
    (numOfTags : Nat) :
    List SColumnNode → List SValueNode → STranslateContext → SKVRow →
      Code × SKVRow × STranslateContext
  | pCol :: tags, pVal :: vals, pCxt, pBuilder =>
    match findSchema pCol.colName pTagSchema 0 numOfTags with
    | none =>
      let e := generateSyntaxErrMsg pCxt TSDB_CODE_PAR_INVALID_TAG_NAME
      (e.1, pBuilder, e.2)
    | some (_, pSchema) =>
      let a := addValToKVRow env renv pCxt pVal pSchema pBuilder
      if a.1 ≠ TSDB_CODE_SUCCESS then a
      else buildKVRowForBindTagsLoop env renv pTagSchema numOfTags tags vals a.2.2 a.2.1
  | _, _, pCxt, pBuilder => (TSDB_CODE_SUCCESS, pBuilder, pCxt)

/-- Source lines 2336-2363. -/
def buildKVRowForBindTags (env : Env) (renv : RewriteEnv) (pCxt : STranslateContext)
    (pStmt : SCreateSubTableClause) (pSuperTableMeta : STableMeta) (pBuilder : SKVRow) :
    Code × SKVRow × STranslateContext :=
  let numOfTags := getNumOfTags pSuperTableMeta
  let pSpecificTags := pStmt.pSpecificTags.getD []
  if pStmt.pValsOfTags.length ≠ pSpecificTags.length ∨
      numOfTags < pStmt.pValsOfTags.length then
    let e := generateSyntaxErrMsg pCxt TSDB_CODE_PAR_TAGS_NOT_MATCHED
    (e.1, pBuilder, e.2)
  else
    buildKVRowForBindTagsLoop env renv (getTableTagSchema pSuperTableMeta) numOfTags
      pSpecificTags pStmt.pValsOfTags pCxt pBuilder

/-- The loop of lines 2373-2378 over the values from position `index` on. An entry beyond
the end of the schema reads as the empty entry. -/
def buildKVRowForAllTagsLoop (env : Env) (renv : RewriteEnv) (pTagSchema : List SSchema) :
    List SValueNode → Nat → STranslateContext → SKVRow → Code × SKVRow × STranslateContext
  | [], _, pCxt, pBuilder => (TSDB_CODE_SUCCESS, pBuilder, pCxt)
  | pVal :: vals, index, pCxt, pBuilder =>
    let a := addValToKVRow env renv pCxt pVal (pTagSchema.getD index {}) pBuilder
    if a.1 ≠ TSDB_CODE_SUCCESS then a
    else buildKVRowForAllTagsLoop env renv pTagSchema vals (index + 1) a.2.2 a.2.1

/-- Source lines 2365-2381. -/
def buildKVRowForAllTags (env : Env) (renv : RewriteEnv) (pCxt : STranslateContext)
    (pStmt : SCreateSubTableClause) (pSuperTableMeta : STableMeta) (pBuilder : SKVRow) :
    Code × SKVRow × STranslateContext :=
  if getNumOfTags pSuperTableMeta ≠ pStmt.pValsOfTags.length then
    let e := generateSyntaxErrMsg pCxt TSDB_CODE_PAR_TAGS_NOT_MATCHED
    (e.1, pBuilder, e.2)
  else
    buildKVRowForAllTagsLoop env renv (getTableTagSchema pSuperTableMeta) pStmt.pValsOfTags 0
      pCxt pBuilder

/-- Source lines 2383-2421. The builder starts empty (`tdInitKVRowBuilder`) and the row is
what it holds (`tdGetKVRowFromBuilder`), sorted by `tdSortKVRowByColIdx`; a catalog that
reports success stores a descriptor, a missing one reads as the empty descriptor. -/
def rewriteCreateSubTable (env : Env) (renv : RewriteEnv) (pCxt : STranslateContext)
    (pStmt : SCreateSubTableClause) (pVgroupHashmap : List (Int × SVgroupTablesBatch)) :
    Code × List (Int × SVgroupTablesBatch) × STranslateContext :=
  let m := getTableMeta env pCxt pStmt.useDbName pStmt.useTableName
  if m.1 ≠ TSDB_CODE_SUCCESS then (m.1, pVgroupHashmap, m.2.2)
  else
    let pSuperTableMeta := m.2.1.getD {}
    let b :=
      if pStmt.pSpecificTags.isSome then
        buildKVRowForBindTags env renv m.2.2 pStmt pSuperTableMeta []
      else buildKVRowForAllTags env renv m.2.2 pStmt pSuperTableMeta []
    if b.1 ≠ TSDB_CODE_SUCCESS then (b.1, pVgroupHashmap, b.2.2)
    else
      let row := renv.tdSortKVRowByColIdx b.2.1
      let h := getTableHashVgroup env b.2.2 pStmt.dbName pStmt.tableName
      if h.1 ≠ TSDB_CODE_SUCCESS then (h.1, pVgroupHashmap, h.2.2)
      else
        (TSDB_CODE_SUCCESS,
          addCreateTbReqIntoVgroup env h.2.2.pParseCxt.acctId pVgroupHashmap pStmt.dbName
            pStmt.tableName row pSuperTableMeta.uid h.2.1,
          h.2.2)

/-- Source lines 2423-2442. The order in which `taosHashIterate` visits the entries of the
map is the order of the list. -/
def serializeVgroupsTablesBatch (renv : RewriteEnv)
    (pVgroupHashmap : List (Int × SVgroupTablesBatch)) : List SVgDataBlocks :=
  pVgroupHashmap.foldl
    (fun pBufArray e => (serializeVgroupTablesBatch renv e.2 pBufArray).2) []

/-- The loop of lines 2454-2460 over the clauses that remain. -/
def rewriteCreateMultiTableLoop (env : Env) (renv : RewriteEnv) :
    List SCreateSubTableClause → STranslateContext → List (Int × SVgroupTablesBatch) →
      Code × List (Int × SVgroupTablesBatch) × STranslateContext
  | [], pCxt, pVgroupHashmap => (TSDB_CODE_SUCCESS, pVgroupHashmap, pCxt)
  | pNode :: rest, pCxt, pVgroupHashmap =>
    let r := rewriteCreateSubTable env renv pCxt pNode pVgroupHashmap
    if r.1 ≠ TSDB_CODE_SUCCESS then r
    else rewriteCreateMultiTableLoop env renv rest r.2.2 r.2.1

/-- Source lines 2444-2469, for a root that is the statement `pStmt`. -/
def rewriteCreateMultiTable (env : Env) (renv : RewriteEnv) (pCxt : STranslateContext)
    (pQuery : SQuery) (pStmt : SCreateMultiTableStmt) : Code × SQuery × STranslateContext :=
  let l := rewriteCreateMultiTableLoop env renv pStmt.pSubTables pCxt []
  if l.1 ≠ TSDB_CODE_SUCCESS then (l.1, pQuery, l.2.2)
  else
    let pBufArray := serializeVgroupsTablesBatch renv l.2.1
    let r := rewriteToVnodeModifOpStmt pQuery pBufArray
    (r.1, r.2, l.2.2)

/-- Source lines 2476-2510. The result is `none` when the code reads through a NULL pointer.
An ALTER TABLE statement is not a root of this model; `rewriteAlterTable` leaves it as it
is. -/
def rewriteQuery (env : Env) (renv : RewriteEnv) (pCxt : STranslateContext) (pQuery : SQuery) :
    Option (Code × SQuery × STranslateContext) :=
  match pQuery.pRoot with
  | .showStmt type pShow =>
    match type with
    | QUERY_NODE_SHOW_DATABASES_STMT | QUERY_NODE_SHOW_TABLES_STMT
    | QUERY_NODE_SHOW_STABLES_STMT | QUERY_NODE_SHOW_USERS_STMT
    | QUERY_NODE_SHOW_DNODES_STMT | QUERY_NODE_SHOW_VGROUPS_STMT
    | QUERY_NODE_SHOW_MNODES_STMT | QUERY_NODE_SHOW_MODULES_STMT
    | QUERY_NODE_SHOW_QNODES_STMT | QUERY_NODE_SHOW_FUNCTIONS_STMT
    | QUERY_NODE_SHOW_INDEXES_STMT | QUERY_NODE_SHOW_STREAMS_STMT =>
      (rewriteShow env renv pQuery type pShow).map fun r => (r.1, r.2, pCxt)
    | _ => some (TSDB_CODE_SUCCESS, pQuery, pCxt)
  | .createTableStmt pStmt =>
    if pStmt.pTags.isNone then some (rewriteCreateTable env renv pCxt pQuery pStmt)
    else some (TSDB_CODE_SUCCESS, pQuery, pCxt)
  | .createMultiTableStmt pStmt => some (rewriteCreateMultiTable env renv pCxt pQuery pStmt)
  | _ => some (TSDB_CODE_SUCCESS, pQuery, pCxt)

/-! ### The translators of the administrative statements -/

/-- What the translators of the administrative statements have in common: the request is
serialized into a new envelope of the given message type, addressed to the management
nodes, which becomes the pending envelope of the context. -/
def setCmdMsg (pCxt : STranslateContext) (msgType : TMsgType) : STranslateContext :=
  { pCxt with pCmdMsg := some { msgType := msgType, epSet := SEpSet.mgmtEpSet } }

/-- Source lines 1016-1037. -/
def translateDropDatabase (pCxt : STranslateContext) : Code × STranslateContext :=
  (TSDB_CODE_SUCCESS, setCmdMsg pCxt TDMT_MND_DROP_DB)

/-- Source lines 1054-1072. -/
def translateAlterDatabase (pCxt : STranslateContext) : Code × STranslateContext :=
  (TSDB_CODE_SUCCESS, setCmdMsg pCxt TDMT_MND_ALTER_DB)

/-- Source lines 1112-1120. -/
def findColDef (pCols : List SColumnDefNode) (pCol : SColumnNode) : Option SColumnDefNode :=
  pCols.find? fun pColDef => decide (pCol.colName = pColDef.colName)

/-- The loop of lines 1125-1132 over the columns that remain. -/
def checkCreateTableSma (pCols : List SColumnDefNode) :
    List SColumnNode → STranslateContext → Code × List SColumnNode × STranslateContext
  | [], pCxt => (TSDB_CODE_SUCCESS, [], pCxt)
  | pSmaCol :: rest, pCxt =>
    match findColDef pCols pSmaCol with
    | none =>
      let e := generateSyntaxErrMsg pCxt TSDB_CODE_PAR_INVALID_COLUMN
      (e.1, pSmaCol :: rest, e.2)
    | some pColDef =>
      let r := checkCreateTableSma pCols rest pCxt
      (r.1, { pSmaCol with node := { pSmaCol.node with resType := pColDef.dataType } } :: r.2.1,
        r.2.2)

/-- Source lines 1122-1141. A failure of `fmGetFuncInfo` returns the answer
`DEAL_RES_ERROR` of `generateDealNodeErrMsg` as the result code. A list of functions that
does not start with a function node is not checked. -/
def checkCreateTable (env : Env) (renv : RewriteEnv) (pCxt : STranslateContext)
    (pStmt : SCreateTableStmt) : Code × SCreateTableStmt × STranslateContext :=
  let a : Code × Option (List SColumnNode) × STranslateContext :=
    match pStmt.pOptions.pSma with
    | none => (TSDB_CODE_SUCCESS, none, pCxt)
    | some pSma =>
      let r := checkCreateTableSma pStmt.pCols pSma pCxt
      (r.1, some r.2.1, r.2.2)
  let s1 := { pStmt with pOptions := { pStmt.pOptions with pSma := a.2.1 } }
  if a.1 ≠ TSDB_CODE_SUCCESS then (a.1, s1, a.2.2)
  else
    match s1.pOptions.pFuncs with
    | some (.function e functionName _ _ pParameterList :: rest) =>
      match env.fmGetFuncInfo functionName with
      | none =>
        let r := generateDealNodeErrMsg a.2.2 TSDB_CODE_PAR_INVALID_FUNTION
        (external renv.DEAL_RES_ERROR, s1, r.2)
      | some (id, ty) =>
        (TSDB_CODE_SUCCESS,
          { s1 with pOptions := { s1.pOptions with
              pFuncs := some (.function e functionName id ty pParameterList :: rest) } },
          a.2.2)
    | _ => (TSDB_CODE_SUCCESS, s1, a.2.2)

/-- Source lines 1150-1190. -/
def translateCreateSuperTable (env : Env) (renv : RewriteEnv) (pCxt : STranslateContext)
    (pStmt : SCreateTableStmt) : Code × SCreateTableStmt × STranslateContext :=
  let c := checkCreateTable env renv pCxt pStmt
  if c.1 ≠ TSDB_CODE_SUCCESS then c
  else (TSDB_CODE_SUCCESS, c.2.1, setCmdMsg c.2.2 TDMT_MND_CREATE_STB)

/-- Source lines 1192-1211. -/
def doTranslateDropSuperTable (pCxt : STranslateContext) : Code × STranslateContext :=
  (TSDB_CODE_SUCCESS, setCmdMsg pCxt TDMT_MND_DROP_STB)

/-- Source lines 1233-1238. -/
def translateDropSuperTable (pCxt : STranslateContext) : Code × STranslateContext :=
  doTranslateDropSuperTable pCxt

/-- Source lines 1333-1354. -/
def translateCreateUser (pCxt : STranslateContext) : Code × STranslateContext :=
  (TSDB_CODE_SUCCESS, setCmdMsg pCxt TDMT_MND_CREATE_USER)

/-- Source lines 1356-1380. -/
def translateAlterUser (pCxt : STranslateContext) : Code × STranslateContext :=
  (TSDB_CODE_SUCCESS, setCmdMsg pCxt TDMT_MND_ALTER_USER)

/-- Source lines 1382-1400. -/
def translateDropUser (pCxt : STranslateContext) : Code × STranslateContext :=
  (TSDB_CODE_SUCCESS, setCmdMsg pCxt TDMT_MND_DROP_USER)

/-- Source lines 1402-1421. -/
def translateCreateDnode (pCxt : STranslateContext) : Code × STranslateContext :=
  (TSDB_CODE_SUCCESS, setCmdMsg pCxt TDMT_MND_CREATE_DNODE)

/-- Source lines 1423-1443. -/
def translateDropDnode (pCxt : STranslateContext) : Code × STranslateContext :=
  (TSDB_CODE_SUCCESS, setCmdMsg pCxt TDMT_MND_DROP_DNODE)

/-- Source lines 1445-1465. -/
def translateAlterDnode (pCxt : STranslateContext) : Code × STranslateContext :=
  (TSDB_CODE_SUCCESS, setCmdMsg pCxt TDMT_MND_CONFIG_DNODE)

/-- Source lines 1489-1512. -/
def translateShow (pCxt : STranslateContext) : Code × STranslateContext :=
  (TSDB_CODE_SUCCESS, setCmdMsg pCxt TDMT_MND_SHOW)

/-- Source lines 1514-1536. The result is `none` when the database has no vgroup: the code
then reads the first element of an empty array. -/
def translateShowTables (env : Env) (pCxt : STranslateContext) :
    Option (Code × STranslateContext) :=
  let r := getDBVgInfo env pCxt pCxt.pParseCxt.db
  if r.1 ≠ TSDB_CODE_SUCCESS then some (r.1, r.2.2)
  else
    match r.2.1 with
    | [] => none
    | info :: _ =>
      some (TSDB_CODE_SUCCESS,
        { r.2.2 with
          pCmdMsg := some { msgType := TDMT_VND_SHOW_TABLES
                            epSet := SEpSet.vgroupEpSet info } })

/-- Source lines 1681-1700. -/
def translateDropIndex (pCxt : STranslateContext) : Code × STranslateContext :=
  (TSDB_CODE_SUCCESS, setCmdMsg pCxt TDMT_VND_DROP_SMA)

/-- Source lines 1702-1719. -/
def translateCreateQnode (pCxt : STranslateContext) : Code × STranslateContext :=
  (TSDB_CODE_SUCCESS, setCmdMsg pCxt TDMT_DND_CREATE_QNODE)

/-- Source lines 1721-1738. -/
def translateDropQnode (pCxt : STranslateContext) : Code × STranslateContext :=
  (TSDB_CODE_SUCCESS, setCmdMsg pCxt TDMT_DND_DROP_QNODE)

/-- Source lines 1784-1807. -/
def translateDropTopic (pCxt : STranslateContext) : Code × STranslateContext :=
  (TSDB_CODE_SUCCESS, setCmdMsg pCxt TDMT_MND_DROP_TOPIC)

/-- Source lines 1809-1812: the body is `// todo` and `return TSDB_CODE_SUCCESS;`. -/
def translateAlterLocal (pCxt : STranslateContext) : Code × STranslateContext :=
  (TSDB_CODE_SUCCESS, pCxt)

/-- Source lines 1814-1899 (`translateQuery`) on the root of a query; `translateSubqueries`
translates the subqueries of a select. The result is `none` when the code reads through a
NULL pointer. A statement without a case of its own takes the default branch. -/
def translateQueryStmt (env : Env) (renv : RewriteEnv) (translateSubqueries : QueryTranslator)
    (pCxt : STranslateContext) (pRoot : Stmt) : Option (Code × Stmt × STranslateContext) :=
  match pRoot with
  | .selectStmt pSelect =>
    let r := translateSelect env translateSubqueries pCxt pSelect
    some (r.1, .selectStmt r.2.1, r.2.2)
  | .dropDatabaseStmt =>
    some ((translateDropDatabase pCxt).1, pRoot, (translateDropDatabase pCxt).2)
  | .alterDatabaseStmt =>
    some ((translateAlterDatabase pCxt).1, pRoot, (translateAlterDatabase pCxt).2)
  | .createTableStmt pStmt =>
    let r := translateCreateSuperTable env renv pCxt pStmt
    some (r.1, .createTableStmt r.2.1, r.2.2)
  | .dropSuperTableStmt =>
    some ((translateDropSuperTable pCxt).1, pRoot, (translateDropSuperTable pCxt).2)
  | .createUserStmt => some ((translateCreateUser pCxt).1, pRoot, (translateCreateUser pCxt).2)
  | .alterUserStmt => some ((translateAlterUser pCxt).1, pRoot, (translateAlterUser pCxt).2)
  | .dropUserStmt => some ((translateDropUser pCxt).1, pRoot, (translateDropUser pCxt).2)
  | .createDnodeStmt =>
    some ((translateCreateDnode pCxt).1, pRoot, (translateCreateDnode pCxt).2)
  | .dropDnodeStmt => some ((translateDropDnode pCxt).1, pRoot, (translateDropDnode pCxt).2)
  | .alterDnodeStmt => some ((translateAlterDnode pCxt).1, pRoot, (translateAlterDnode pCxt).2)
  | .showStmt type _ =>
    match type with
    | QUERY_NODE_SHOW_DATABASES_STMT | QUERY_NODE_SHOW_STABLES_STMT
    | QUERY_NODE_SHOW_USERS_STMT | QUERY_NODE_SHOW_DNODES_STMT
    | QUERY_NODE_SHOW_VGROUPS_STMT | QUERY_NODE_SHOW_MNODES_STMT
    | QUERY_NODE_SHOW_QNODES_STMT =>
      some ((translateShow pCxt).1, pRoot, (translateShow pCxt).2)
    | QUERY_NODE_SHOW_TABLES_STMT =>
      (translateShowTables env pCxt).map fun r => (r.1, pRoot, r.2)
    | _ => some (TSDB_CODE_SUCCESS, pRoot, pCxt)
  | .dropIndexStmt => some ((translateDropIndex pCxt).1, pRoot, (translateDropIndex pCxt).2)
  | .createQnodeStmt =>
    some ((translateCreateQnode pCxt).1, pRoot, (translateCreateQnode pCxt).2)
  | .dropQnodeStmt => some ((translateDropQnode pCxt).1, pRoot, (translateDropQnode pCxt).2)
  | .dropTopicStmt => some ((translateDropTopic pCxt).1, pRoot, (translateDropTopic pCxt).2)
  | .alterLocalStmt => some ((translateAlterLocal pCxt).1, pRoot, (translateAlterLocal pCxt).2)
  | .vnodeModifStmt _ => some (TSDB_CODE_SUCCESS, pRoot, pCxt)
  | .createMultiTableStmt _ => some (TSDB_CODE_SUCCESS, pRoot, pCxt)

/-! ### The finalizer -/

/-- The loop of lines 1922-1930 over the projections from position `index` on. -/
def extractResultSchema : List Node → Nat → List SSchema
  | [], _ => []
  | pNode :: rest, index =>
    { type := pNode.exprNode.resType.type, bytes := pNode.exprNode.resType.bytes,
      colId := index + 1, name := pNode.exprNode.aliasName } ::
      extractResultSchema rest (index + 1)

/-- Source lines 1912-1934: the code, `*numOfCols` and `*pSchema` after the call. The
allocation of the schema does not fail. -/
def qExtractResultSchema (pRoot : Stmt) (numOfCols : Nat) (pSchema : Option (List SSchema)) :
    Code × Nat × Option (List SSchema) :=
  match pRoot with
  | .selectStmt pSelect =>
    (TSDB_CODE_SUCCESS, (pSelect.pProjectionList.getD []).length,
      some (extractResultSchema (pSelect.pProjectionList.getD []) 0))
  | _ => (TSDB_CODE_SUCCESS, numOfCols, pSchema)

/-- Source lines 2512-2561. The result is `none` when the code reads the message type of a
pending envelope that is NULL. The sets of the databases and tables used are copied in the
order of their lists. -/
def setQuery (pCxt : STranslateContext) (pQuery : SQuery) :
    Option (Code × SQuery × STranslateContext) :=
  let a : Option (Code × SQuery × STranslateContext) :=
    match pQuery.pRoot with
    | .selectStmt _ =>
      let q1 := { pQuery with haveResultSet := true, directRpc := false,
                              msgType := some TDMT_VND_QUERY }
      let e := qExtractResultSchema q1.pRoot q1.numOfResCols q1.pResSchema
      let q2 := { q1 with numOfResCols := e.2.1, pResSchema := e.2.2 }
      if e.1 ≠ TSDB_CODE_SUCCESS then some (TSDB_CODE_OUT_OF_MEMORY, q2, pCxt)
      else some (TSDB_CODE_SUCCESS, q2, pCxt)
    | .vnodeModifStmt _ =>
      some (TSDB_CODE_SUCCESS,
        { pQuery with haveResultSet := false, directRpc := false,
                      msgType := some TDMT_VND_CREATE_TABLE }, pCxt)
    | _ =>
      match pCxt.pCmdMsg with
      | none => none
      | some pCmdMsg =>
        some (TSDB_CODE_SUCCESS,
          { pQuery with haveResultSet := false, directRpc := true, pCmdMsg := some pCmdMsg,
                        msgType := some pCmdMsg.msgType },
          { pCxt with pCmdMsg := none })
  match a with
  | none => none
  | some r =>
    if r.1 ≠ TSDB_CODE_SUCCESS then some r
    else
      some (TSDB_CODE_SUCCESS,
        { r.2.1 with pDbList := some r.2.2.pDbs, pTableList := some r.2.2.pTables }, r.2.2)

/-- Source lines 2563-2589: the code and the query; `none` when the code reads through a
NULL pointer. -/
def doTranslate (env : Env) (renv : RewriteEnv) (translateSubqueries : QueryTranslator)
    (pParseCxt : SParseContext) (pQuery : SQuery) : Option (Code × SQuery) :=
  let cxt : STranslateContext := { pParseCxt := pParseCxt }
  if renv.fmFuncMgtInit ≠ TSDB_CODE_SUCCESS then some (renv.fmFuncMgtInit, pQuery)
  else
    match rewriteQuery env renv cxt pQuery with
    | none => none
    | some a =>
      if a.1 ≠ TSDB_CODE_SUCCESS then some (a.1, a.2.1)
      else
        match translateQueryStmt env renv translateSubqueries a.2.2 a.2.1.pRoot with
        | none => none
        | some b =>
          let q := { a.2.1 with pRoot := b.2.1 }
          if b.1 ≠ TSDB_CODE_SUCCESS then some (b.1, q)
          else (setQuery b.2.2 q).map fun c => (c.1, c.2.1)

/-! ## The rewriter and the finalizer, in the words of the specification -/

/-- The twelve kinds of SHOW statements that `rewriteQuery` hands to `rewriteShow`. -/
def showKinds : List ENodeType :=
  [QUERY_NODE_SHOW_DATABASES_STMT, QUERY_NODE_SHOW_TABLES_STMT, QUERY_NODE_SHOW_STABLES_STMT,
   QUERY_NODE_SHOW_USERS_STMT, QUERY_NODE_SHOW_DNODES_STMT, QUERY_NODE_SHOW_VGROUPS_STMT,
   QUERY_NODE_SHOW_MNODES_STMT, QUERY_NODE_SHOW_MODULES_STMT, QUERY_NODE_SHOW_QNODES_STMT,
   QUERY_NODE_SHOW_FUNCTIONS_STMT, QUERY_NODE_SHOW_INDEXES_STMT, QUERY_NODE_SHOW_STREAMS_STMT]

/-- The condition `db_name = <db>`. -/
def showDbCond (renv : RewriteEnv) (pDbName : Node) : Node :=
  .operator {} renv.OP_TYPE_EQUAL (some (.column { colName := "db_name" })) (some pDbName)

/-- The condition `<tbname-col> LIKE <pattern>`, where the column is `stable_name` for
SHOW STABLES and `table_name` for every other kind. -/
def showTbCond (renv : RewriteEnv) (type : ENodeType) (pTbNamePattern : Node) : Node :=
  .operator {} renv.OP_TYPE_LIKE
    (some (.column { colName := if type = QUERY_NODE_SHOW_STABLES_STMT then "stable_name"
                                else "table_name" }))
    (some pTbNamePattern)

/-- The WHERE clause of the select that stands for a SHOW statement: absent without
database and pattern, the condition on the database or on the pattern when only that one is
given, and the AND of the two, in this order, when both are given. -/
def showWhere (renv : RewriteEnv) (type : ENodeType) (pDbName pTbNamePattern : Option Node) :
    Option Node :=
  match pDbName, pTbNamePattern with
  | none, none => none
  | some db, none => some (showDbCond renv db)
  | none, some pattern => some (showTbCond renv type pattern)
  | some db, some pattern =>
    some (.logicCondition {} renv.LOGIC_COND_TYPE_AND
      [showDbCond renv db, showTbCond renv type pattern])

/-- The batch of a CREATE TABLE statement: one request for a normal table whose schema lists
the declared columns in order, the column at position `i` (from 0) with the id `i + 1`. -/
def createTableBatch (env : Env) (acctId : Int) (s : SCreateTableStmt) : SVCreateTbBatchReq :=
  { pArray := [
      { type := TD_NORMAL_TABLE
        dbFName := env.tNameGetFullDbName { acctId := acctId, dbname := s.dbName }
        name := s.tableName
        ntbCfg :=
          { nCols := s.pCols.length
            pSchema := (s.pCols.enumFrom 0).map fun p =>
              { colId := (p.1 : Int) + 1, type := p.2.dataType.type,
                bytes := p.2.dataType.bytes, name := p.2.colName } } }] }

/-- The data block of a batch for the vgroup `g`: its size is the size of the header plus
the length of the serialized batch, its header holds the vgroup id and the size in network
byte order. -/
def dataBlockOf (renv : RewriteEnv) (g : SVgroupInfo) (req : SVCreateTbBatchReq) :
    SVgDataBlocks :=
  { vg := g
    numOfTables := req.pArray.length
    size := renv.sizeofSMsgHead + renv.tSerializeSVCreateTbBatchReq req
    pData :=
      { head :=
          { vgId := renv.htonl g.vgId
            contLen := renv.htonl
              ((renv.sizeofSMsgHead + renv.tSerializeSVCreateTbBatchReq req : Nat) : Int) }
        req := req } }

/-- The result schema of a projection list: one entry per projection, in order, the entry at
position `i` (from 0) with the result type and byte width of the projection, the column id
`i + 1` and the alias of the projection as its name. -/
def resultSchemaOf (pProjectionList : List Node) : List SSchema :=
  (pProjectionList.enumFrom 0).map fun p =>
    { type := p.2.exprNode.resType.type, bytes := p.2.exprNode.resType.bytes,
      colId := (p.1 : Int) + 1, name := p.2.exprNode.aliasName }

/-- The vgroup that the catalog routes the table of a sub-table clause to. -/
def routedVgroup (env : Env) (acctId : Int) (c : SCreateSubTableClause) : SVgroupInfo :=
  (env.catalogGetTableHashVgroup (toName acctId c.dbName c.tableName)).2

/-- The number of the clauses that are routed to the vgroup with the id `g`. -/
def routedCount (env : Env) (acctId : Int) (l : List SCreateSubTableClause) (g : Int) : Nat :=
  (l.filter fun c => decide ((routedVgroup env acctId c).vgId = g)).length

/-! ## Collaborators and statements for the examples of the rewriter -/

/-- Collaborators of the rewriter for the examples: a serialized batch takes 4 bytes and 100
bytes for each request, the header 8 bytes, and the host is big-endian. -/
def demoRewriteEnv : RewriteEnv where
  fmFuncMgtInit := TSDB_CODE_SUCCESS
  tSerializeSVCreateTbBatchReq := fun req => 4 + 100 * req.pArray.length
  htonl := fun x => x
  sizeofSMsgHead := 8
  taosVariantDump := fun v _ => (TSDB_CODE_SUCCESS, (v.pz.map Prod.snd).getD "")
  tdSortKVRowByColIdx := fun row => row
  DEAL_RES_ERROR := 3
  TSDB_INFORMATION_SCHEMA_DB := "information_schema"
  TSDB_INS_TABLE_USER_DATABASES := "user_databases"
  TSDB_INS_TABLE_USER_STABLES := "user_stables"
  TSDB_INS_TABLE_USER_USERS := "user_users"
  TSDB_INS_TABLE_DNODES := "dnodes"
  TSDB_INS_TABLE_VGROUPS := "vgroups"
  TSDB_INS_TABLE_MNODES := "mnodes"
  TSDB_INS_TABLE_MODULES := "modules"
  TSDB_INS_TABLE_QNODES := "qnodes"
  TSDB_INS_TABLE_USER_FUNCTIONS := "user_functions"
  TSDB_INS_TABLE_USER_INDEXES := "user_indexes"
  TSDB_INS_TABLE_USER_STREAMS := "user_streams"
  OP_TYPE_EQUAL := 10
  OP_TYPE_LIKE := 20
  LOGIC_COND_TYPE_AND := 1

/-- The pattern `'x%'` as the parser delivers it. -/
def demoPattern : Node :=
  .value { node := { resType := { type := TSDB_DATA_TYPE_VARCHAR, bytes := 2 } },
           literal := "x%" }

/-- The query `SHOW STABLES LIKE 'x%'`. -/
def demoShowStables : SQuery :=
  { pRoot := .showStmt QUERY_NODE_SHOW_STABLES_STMT { pTbNamePattern := some demoPattern } }

/-- The statement `CREATE TABLE db1.t1 (ts TIMESTAMP, a INT)`. -/
def demoCreateTable : SCreateTableStmt :=
  { dbName := "db1", tableName := "t1",
    pCols := [{ colName := "ts", dataType := { type := TSDB_DATA_TYPE_TIMESTAMP, bytes := 8 } },
              { colName := "a", dataType := { type := TSDB_DATA_TYPE_INT, bytes := 4 } }] }

/-- The descriptor of the super table `st`: the columns `ts` and `a` and the tag `loc`. -/
def demoSuperMeta : STableMeta :=
  { tableType := TSDB_SUPER_TABLE, uid := 9,
    tableInfo := { numOfTags := 1, numOfColumns := 2 },
    schema := [{ type := TSDB_DATA_TYPE_TIMESTAMP, colId := 1, bytes := 8, name := "ts" },
               { type := TSDB_DATA_TYPE_INT, colId := 2, bytes := 4, name := "a" },
               { type := TSDB_DATA_TYPE_VARCHAR, colId := 3, bytes := 8, name := "loc" }] }

/-- The collaborators of `demoEnv` with a catalog that knows the super table `st` and routes
the table `c2` to vgroup 3 and every other table to vgroup 2. -/
def demoMultiEnv : Env :=
  { demoEnv with
    catalogGetTableMeta := fun n =>
      if n.tname = "st" then (TSDB_CODE_SUCCESS, some demoSuperMeta) else (external 1, none)
    catalogGetTableHashVgroup := fun n =>
      (TSDB_CODE_SUCCESS, { vgId := if n.tname = "c2" then 3 else 2 }) }

/-- The clause `db1.<name> USING db1.st TAGS ('<loc>')`. -/
def demoSubTable (name loc : String) : SCreateSubTableClause :=
  { dbName := "db1", tableName := name, useDbName := "db1", useTableName := "st",
    pValsOfTags := [{ node := { resType := { type := TSDB_DATA_TYPE_VARCHAR, bytes := 8 } },
                      literal := loc }] }

/-- The statement `CREATE TABLE c1 USING st TAGS ('x') c2 USING st TAGS ('y') c3 USING st
TAGS ('z')`. -/
def demoCreateMultiTable : SCreateMultiTableStmt :=
  { pSubTables := [demoSubTable "c1" "x", demoSubTable "c2" "y", demoSubTable "c3" "z"] }

/-- What the map of the batches holds after the clauses `done` are rewritten: one entry for
each vgroup id that a clause of `done` is routed to and no other entry; the batch of an
entry belongs to the vgroup of its key and holds as many requests as clauses are routed to
that vgroup. -/
def VgroupMapInv (env : Env) (acctId : Int) (pVgroupHashmap : List (Int × SVgroupTablesBatch))
    (done : List SCreateSubTableClause) : Prop :=
  (pVgroupHashmap.map Prod.fst).Nodup ∧
  (∀ e ∈ pVgroupHashmap,
    e.2.info.vgId = e.1 ∧ e.2.req.pArray.length = routedCount env acctId done e.1 ∧
    0 < routedCount env acctId done e.1) ∧
  (∀ c ∈ done, (routedVgroup env acctId c).vgId ∈ pVgroupHashmap.map Prod.fst)

/-! ## Further statements, for the examples -/

/-- The statement `SELECT a FROM nosuch` over a table the catalog of `demoCatalogEnv` does not
know, as the parser delivers it. -/
def parsedSelectMissingTable : Node :=
  .selectStmt { pProjectionList := some [parsedCol "a"],
                pFromTable := some (.realTable
                  { table := { dbName := "db1", tableName := "nosuch", tableAlias := "nosuch" } }) }

/-- The statement `SELECT a FROM t WHERE (SELECT a FROM nosuch) > a` as the parser delivers
it; the operator type 10 is a comparison for `demoEnv`. -/
def parsedSelectMissingTableInWhere : Node :=
  .selectStmt { pProjectionList := some [parsedCol "a"],
                pFromTable := some parsedTable,
                pWhere := some (.operator {} 10
                  (some (.tempTable {} (some parsedSelectMissingTable)))
                  (some (parsedCol "a"))) }

/-- The call `count(*)` with the projection alias `c`, as the parser delivers it. -/
def parsedCountStarAsC : Node :=
  .function { aliasName := "c" } "count" 0 0 [parsedCol "*"]

/-- The statement `SELECT count(*) AS c FROM t ORDER BY 1` as the parser delivers it. -/
def parsedSelectCountOrderByPosition : Node :=
  .selectStmt { pProjectionList := some [parsedCountStarAsC],
                pFromTable := some parsedTable,
                pOrderByList := some [demoPositionKey "1"] }

/-- The statement `SELECT count(*) AS c FROM t ORDER BY c` as the parser delivers it. -/
def parsedSelectCountOrderByAlias : Node :=
  .selectStmt { pProjectionList := some [parsedCountStarAsC],
                pFromTable := some parsedTable,
                pOrderByList := some [.orderByExpr (some (parsedCol "c")) 1 1] }

/-- The statement `SELECT count(*) AS c FROM t` as the parser delivers it. -/
def parsedSelectCount : Node :=
  .selectStmt { pProjectionList := some [parsedCountStarAsC],
                pFromTable := some parsedTable }

/-- A column without table alias and with a projection alias, as the parser delivers it. -/
def parsedColAs (colName aliasName : String) : Node :=
  .column { node := { aliasName := aliasName }, colName := colName }

/-- The statement `SELECT a AS x, ts AS x FROM t ORDER BY 2, a` as the parser delivers it. -/
def parsedSelectSharedAlias : Node :=
  .selectStmt { pProjectionList := some [parsedColAs "a" "x", parsedColAs "ts" "x"],
                pFromTable := some parsedTable,
                pOrderByList := some [demoPositionKey "2",
                                      .orderByExpr (some (parsedCol "a")) 1 1] }

/-- The statement `SELECT a AS x, ts AS x FROM t ORDER BY 2` as the parser delivers it. -/
def parsedSelectSharedAliasPositionOnly : Node :=
  .selectStmt { pProjectionList := some [parsedColAs "a" "x", parsedColAs "ts" "x"],
                pFromTable := some parsedTable,
                pOrderByList := some [demoPositionKey "2"] }

/-- The projection each ORDER BY key of a select statement references (`pProjectRef` of the
column that is the key expression, as an index into the projection list); `none` for a key
that is not a column or references no projection. -/
def Node.orderByProjectRefs : Node → List (Option Nat)
  | .selectStmt s =>
    (s.pOrderByList.getD []).map fun k =>
      match k with
      | .orderByExpr (some (.column c)) _ _ => c.pProjectRef
      | _ => none
  | _ => []

/-- The value node of the literal `abc` declared as `BIGINT`. -/
def demoValueAbc : SValueNode :=
  { node := { resType := { type := TSDB_DATA_TYPE_BIGINT, bytes := 8 } }, literal := "abc" }

/-- The data type of a literal is parsed as a radix-10 or floating point number: the signed
and unsigned integer types, `FLOAT` and `DOUBLE`. -/
def isNumericType (t : DataType) : Bool :=
  match t with
  | TSDB_DATA_TYPE_TINYINT | TSDB_DATA_TYPE_SMALLINT | TSDB_DATA_TYPE_INT
  | TSDB_DATA_TYPE_BIGINT | TSDB_DATA_TYPE_UTINYINT | TSDB_DATA_TYPE_USMALLINT
  | TSDB_DATA_TYPE_UINT | TSDB_DATA_TYPE_UBIGINT | TSDB_DATA_TYPE_FLOAT
  | TSDB_DATA_TYPE_DOUBLE => true
  | _ => false

/-- The name is the name of one of the tags of the super table: of one of the first
`getNumOfTags` entries of its tag schema. -/
def isTagName (pSuperTableMeta : STableMeta) (name : String) : Bool :=
  decide (name ∈ ((getTableTagSchema pSuperTableMeta).take
    (getNumOfTags pSuperTableMeta)).map fun s => s.name)

/-- The column of a KV row that pairs a tag value with a tag: the id and the type of the tag
and the value, translated and dumped in the type of the tag. -/
def tagColOf (env : Env) (renv : RewriteEnv) (pVal : SValueNode) (pSchema : SSchema) : SKVCol :=
  { colId := pSchema.colId, type := pSchema.type,
    value := (renv.taosVariantDump
      (valueNodeToVariant (translateValue env {} pVal).2.1) pSchema.type).2 }

/-- The descriptor of the super table `st2`: the columns `ts` and `a` and the tags `since` and
`loc`. -/
def demoSuperMetaTwoTags : STableMeta :=
  { tableType := TSDB_SUPER_TABLE, uid := 10,
    tableInfo := { numOfTags := 2, numOfColumns := 2 },
    schema := [{ type := TSDB_DATA_TYPE_TIMESTAMP, colId := 1, bytes := 8, name := "ts" },
               { type := TSDB_DATA_TYPE_INT, colId := 2, bytes := 4, name := "a" },
               { type := TSDB_DATA_TYPE_TIMESTAMP, colId := 3, bytes := 8, name := "since" },
               { type := TSDB_DATA_TYPE_VARCHAR, colId := 4, bytes := 8, name := "loc" }] }

/-- The clause `db1.c1 USING db1.st2 (since, bogus) TAGS (TIMESTAMP 'garbage', 'x')`: the
second bound name is not a tag, and the value bound to the first is not a timestamp for
`demoEnv`. -/
def demoSubTableBadValue : SCreateSubTableClause :=
  { dbName := "db1", tableName := "c1", useDbName := "db1", useTableName := "st2",
    pSpecificTags := some [{ colName := "since" }, { colName := "bogus" }],
    pValsOfTags := [{ node := { resType := { type := TSDB_DATA_TYPE_TIMESTAMP, bytes := 8 } },
                      literal := "garbage" },
                    { node := { resType := { type := TSDB_DATA_TYPE_VARCHAR, bytes := 8 } },
                      literal := "x" }] }

/-- The clause `db1.c1 USING db1.st2 (loc, bogus) TAGS ('x', 'y')`: the second bound name is
not a tag. -/
def demoSubTableBadName : SCreateSubTableClause :=
  { dbName := "db1", tableName := "c1", useDbName := "db1", useTableName := "st2",
    pSpecificTags := some [{ colName := "loc" }, { colName := "bogus" }],
    pValsOfTags := [{ node := { resType := { type := TSDB_DATA_TYPE_VARCHAR, bytes := 8 } },
                      literal := "x" },
                    { node := { resType := { type := TSDB_DATA_TYPE_VARCHAR, bytes := 8 } },
                      literal := "y" }] }

/-- The table type `setTableVgroupList` looks at; a real table without descriptor is treated
as a normal table. -/
def realTableType (pRealTable : SRealTableNode) : ETableType :=
  (pRealTable.pMeta.map fun m => m.tableType).getD TSDB_NORMAL_TABLE

/-- The full name of the database whose vgroup list the tables-catalog is given: the
database `useDbName` of the account when it is set, the database of the name otherwise. -/
def sysTableDbName (env : Env) (pCxt : STranslateContext) (pName : SName)
    (pRealTable : SRealTableNode) : String :=
  if pRealTable.useDbName ≠ "" then
    env.tNameGetFullDbName { acctId := pCxt.pParseCxt.acctId, dbname := pRealTable.useDbName }
  else env.tNameGetFullDbName pName

/-- The collaborators of `demoEnv` with a catalog whose super tables are distributed over the
vgroups 2 and 3. -/
def demoDistEnv : Env :=
  { demoEnv with
    catalogGetTableDistVgInfo := fun _ => (TSDB_CODE_SUCCESS, [{ vgId := 2 }, { vgId := 3 }]) }

/-- The super table `db1.st` with its descriptor, before a vgroup list is attached. -/
def demoSuperTable : SRealTableNode :=
  { table := { dbName := "db1", tableName := "st", tableAlias := "st" },
    pMeta := some demoSuperMeta }

/-- The context of a translation for a topic, for the current database `db1`. -/
def demoTopicCxt : STranslateContext := { pParseCxt := { db := "db1", topicQuery := true } }

/-! ## CREATE DATABASE and ALTER TABLE -/

/-- The options of a CREATE DATABASE statement (`SDatabaseOptions`), as far as
`buildCreateDbReq` reads them; `pRetentions` is `none` for a NULL list, and its nodes are
value nodes. -/
structure SDatabaseOptions where
  numOfVgroups : Int := 0
  cacheBlockSize : Int := 0
  numOfBlocks : Int := 0
  daysPerFile : Int := 0
  keep : Int := 0
  minRowsPerBlock : Int := 0
  maxRowsPerBlock : Int := 0
  fsyncPeriod : Int := 0
  walLevel : Int := 0
  precision : Int := 0
  compressionLevel : Int := 0
  replica : Int := 0
  quorum : Int := 0
  cachelast : Int := 0
  streamMode : Int := 0
  pRetentions : Option (List SValueNode) := none
  deriving DecidableEq

instance : Repr SDatabaseOptions where
  reprPrec o _ :=
    repr ((o.numOfVgroups, o.cacheBlockSize, o.numOfBlocks, o.daysPerFile, o.keep),
      (o.minRowsPerBlock, o.maxRowsPerBlock, o.fsyncPeriod, o.walLevel, o.precision),
      (o.compressionLevel, o.replica, o.quorum, o.cachelast, o.streamMode), o.pRetentions)

/-- A CREATE DATABASE statement (`SCreateDatabaseStmt`). -/
structure SCreateDatabaseStmt where
  dbName : String := ""
  ignoreExists : Bool := false
  pOptions : SDatabaseOptions := {}
  deriving DecidableEq, Repr

/-- An ALTER TABLE statement (`SAlterTableStmt`), as far as `translateAlterTable` reads it. -/
structure SAlterTableStmt where
  dbName : String := ""
  tableName : String := ""
  alterType : EAlterTableType := TSDB_ALTER_TABLE_UPDATE_OPTIONS
  colName : String := ""
  newColName : String := ""
  dataType : SDataType := {}
  deriving DecidableEq, Repr

/-- The sizing calls of the serializers of the requests, which are not part of
`parTranslater.c`: the value of `tSerialize...(NULL, 0, &req)`. -/
structure SerializeEnv where
  /-- `tSerializeSCreateDbReq(NULL, 0, &req)`. -/
  tSerializeSCreateDbReq : SCreateDbReq → Int
  /-- `tSerializeSMAlterStbReq(NULL, 0, &req)`. -/
  tSerializeSMAlterStbReq : SMAltertbReq → Int

/-- The loop of lines 933-946 over the nodes that remain; `index`, `pFreq` and the array are
the local variables of these names as they stand. No statement of the loop changes `index`.
`pFreq` is `none` while it is NULL; the fields of a NULL `pFreq` read as those of the empty
node. `taosArrayPush` appends a copy of the element. -/
def buildCreateDbRetentionsLoop :
    List SValueNode → Int → Option SValueNode → List SRetention → List SRetention
  | [], _, _, pRetensions => pRetensions
  | pNode :: rest, index, pFreq, pRetensions =>
    if 0 = index % 2 then
      buildCreateDbRetentionsLoop rest index (some pNode) pRetensions
    else
      let pKeep := pNode
      let retention : SRetention :=
        { freq := (pFreq.getD {}).datum.i, freqUnit := (pFreq.getD {}).unit,
          keep := pKeep.datum.i, keepUnit := pKeep.unit }
      buildCreateDbRetentionsLoop rest index pFreq (pRetensions ++ [retention])

/-- Source lines 923-949. -/
def buildCreateDbRetentions (pRetentions : Option (List SValueNode)) (pReq : SCreateDbReq) :
    Code × SCreateDbReq :=
  match pRetentions with
  | some l =>
    (TSDB_CODE_SUCCESS,
      { pReq with pRetensions := some (buildCreateDbRetentionsLoop l 0 none []) })
  | none => (TSDB_CODE_SUCCESS, pReq)

/-- Source lines 951-976; `tNameSetDbName` fills the account and the database of the name. -/
def buildCreateDbReq (env : Env) (pCxt : STranslateContext) (pStmt : SCreateDatabaseStmt)
    (pReq : SCreateDbReq) : Code × SCreateDbReq :=
  let name : SName := { acctId := pCxt.pParseCxt.acctId, dbname := pStmt.dbName }
  buildCreateDbRetentions pStmt.pOptions.pRetentions
    { pReq with
      db := env.tNameGetFullDbName name
      numOfVgroups := pStmt.pOptions.numOfVgroups
      cacheBlockSize := pStmt.pOptions.cacheBlockSize
      totalBlocks := pStmt.pOptions.numOfBlocks
      daysPerFile := pStmt.pOptions.daysPerFile
      daysToKeep0 := pStmt.pOptions.keep
      daysToKeep1 := -1
      daysToKeep2 := -1
      minRows := pStmt.pOptions.minRowsPerBlock
      maxRows := pStmt.pOptions.maxRowsPerBlock
      commitTime := -1
      fsyncPeriod := pStmt.pOptions.fsyncPeriod
      walLevel := pStmt.pOptions.walLevel
      precision := pStmt.pOptions.precision
      compression := pStmt.pOptions.compressionLevel
      replications := pStmt.pOptions.replica
      quorum := pStmt.pOptions.quorum
      update := -1
      cacheLastRow := pStmt.pOptions.cachelast
      ignoreExist := pStmt.ignoreExists
      streamMode := pStmt.pOptions.streamMode }

/-- The loop of lines 981-985 over the nodes that remain; the result holds the list with the
nodes as `translateValue` leaves them. -/
def checkCreateDatabaseLoop (env : Env) :
    List SValueNode → STranslateContext → Code × List SValueNode × STranslateContext
  | [], pCxt => (TSDB_CODE_SUCCESS, [], pCxt)
  | pNode :: rest, pCxt =>
    let r := translateValue env pCxt pNode
    if r.1 = DEAL_RES_ERROR then (r.2.2.errCode, r.2.1 :: rest, r.2.2)
    else
      let t := checkCreateDatabaseLoop env rest r.2.2
      (t.1, r.2.1 :: t.2.1, t.2.2)

/-- Source lines 978-988. -/
def checkCreateDatabase (env : Env) (pCxt : STranslateContext) (pStmt : SCreateDatabaseStmt) :
    Code × SCreateDatabaseStmt × STranslateContext :=
  match pStmt.pOptions.pRetentions with
  | some l =>
    let r := checkCreateDatabaseLoop env l pCxt
    (r.1, { pStmt with pOptions := { pStmt.pOptions with pRetentions := some r.2.1 } }, r.2.2)
  | none => (TSDB_CODE_SUCCESS, pStmt, pCxt)

/-- Source lines 990-1014. -/
def translateCreateDatabase (env : Env) (senv : SerializeEnv) (pCxt : STranslateContext)
    (pStmt : SCreateDatabaseStmt) : Code × SCreateDatabaseStmt × STranslateContext :=
  let createReq : SCreateDbReq := {}
  let k := checkCreateDatabase env pCxt pStmt
  let b : Code × SCreateDbReq :=
    if k.1 = TSDB_CODE_SUCCESS then buildCreateDbReq env k.2.2 k.2.1 createReq
    else (k.1, createReq)
  if b.1 = TSDB_CODE_SUCCESS then
    (b.1, k.2.1,
      { k.2.2 with
        pCmdMsg := some { epSet := SEpSet.mgmtEpSet
                          msgType := TDMT_MND_CREATE_DB
                          msgLen := some (senv.tSerializeSCreateDbReq b.2)
                          pMsg := some (.createDbReq b.2) } })
  else (b.1, k.2.1, k.2.2)

/-- Source lines 1240-1273. `taosArrayPush` appends a copy of the element: what is written
to `oldField` after it was pushed does not reach the array. -/
def setAlterTableField (pStmt : SAlterTableStmt) (pAlterReq : SMAltertbReq) :
    Code × SMAltertbReq :=
  let pFields : List TAOS_FIELD := []
  match pStmt.alterType with
  | TSDB_ALTER_TABLE_ADD_TAG | TSDB_ALTER_TABLE_DROP_TAG | TSDB_ALTER_TABLE_ADD_COLUMN
  | TSDB_ALTER_TABLE_DROP_COLUMN | TSDB_ALTER_TABLE_UPDATE_COLUMN_BYTES
  | TSDB_ALTER_TABLE_UPDATE_TAG_BYTES =>
    let field : TAOS_FIELD := { type := pStmt.dataType.type, bytes := pStmt.dataType.bytes }
    let field := { field with name := pStmt.colName }
    (TSDB_CODE_SUCCESS, { pAlterReq with pFields := some (pFields ++ [field]) })
  | TSDB_ALTER_TABLE_UPDATE_TAG_NAME | TSDB_ALTER_TABLE_UPDATE_COLUMN_NAME =>
    let oldField : TAOS_FIELD := {}
    let oldField := { oldField with name := pStmt.colName }
    let pFields := pFields ++ [oldField]
    let newField : TAOS_FIELD := {}
    let _oldField := { oldField with name := pStmt.newColName }
    (TSDB_CODE_SUCCESS, { pAlterReq with pFields := some (pFields ++ [newField]) })
  | _ => (TSDB_CODE_SUCCESS, { pAlterReq with pFields := some pFields })

/-- Source lines 1275-1305; the type 0 of the name is `TSDB_TABLE_NAME_T`, as in `toName`. -/
def translateAlterTable (env : Env) (senv : SerializeEnv) (pCxt : STranslateContext)
    (pStmt : SAlterTableStmt) : Code × STranslateContext :=
  let alterReq : SMAltertbReq := {}
  let tableName : SName :=
    { type := 0, acctId := pCxt.pParseCxt.acctId, dbname := pStmt.dbName,
      tname := pStmt.tableName }
  let alterReq :=
    { alterReq with
      name := env.tNameExtractFullName tableName
      alterType := pStmt.alterType
      numOfFields := 1 }
  let f : Code × SMAltertbReq :=
    if pStmt.alterType = TSDB_ALTER_TABLE_UPDATE_OPTIONS then (TSDB_CODE_SUCCESS, alterReq)
    else setAlterTableField pStmt alterReq
  if f.1 ≠ TSDB_CODE_SUCCESS then (TSDB_CODE_OUT_OF_MEMORY, pCxt)
  else
    (TSDB_CODE_SUCCESS,
      { pCxt with
        pCmdMsg := some { epSet := SEpSet.mgmtEpSet
                          msgType := TDMT_MND_ALTER_STB
                          msgLen := some (senv.tSerializeSMAlterStbReq f.2)
                          pMsg := some (.alterStbReq f.2) } })

/-- The retention entries that the pairs `(freq_1, keep_1), ..., (freq_k, keep_k)` of a list
of value nodes stand for, as the specification describes them: one entry for each pair, in
order, with `freq` and `freqUnit` of the first node and `keep` and `keepUnit` of the second.
A node left over at the end stands for no entry. -/
def specRetentionPairs : List SValueNode → List SRetention
  | pFreq :: pKeep :: rest =>
    { freq := pFreq.datum.i, freqUnit := pFreq.unit,
      keep := pKeep.datum.i, keepUnit := pKeep.unit } :: specRetentionPairs rest
  | _ => []

/-- The alter types that rename a column or a tag. -/
def isRenameAlterType (alterType : EAlterTableType) : Bool :=
  match alterType with
  | TSDB_ALTER_TABLE_UPDATE_TAG_NAME | TSDB_ALTER_TABLE_UPDATE_COLUMN_NAME => true
  | _ => false

/-- The alter types that add, drop or resize a column or a tag. -/
def isFieldAlterType (alterType : EAlterTableType) : Bool :=
  match alterType with
  | TSDB_ALTER_TABLE_ADD_TAG | TSDB_ALTER_TABLE_DROP_TAG | TSDB_ALTER_TABLE_ADD_COLUMN
  | TSDB_ALTER_TABLE_DROP_COLUMN | TSDB_ALTER_TABLE_UPDATE_COLUMN_BYTES
  | TSDB_ALTER_TABLE_UPDATE_TAG_BYTES => true
  | _ => false

/-- The request of the pending envelope of a context, when it is a request to create a
database. -/
def STranslateContext.createDbReqOf (pCxt : STranslateContext) : Option SCreateDbReq :=
  match pCxt.pCmdMsg.bind fun m => m.pMsg with
  | some (.createDbReq req) => some req
  | _ => none

/-- The request of the pending envelope of a context, when it is a request to alter a
table. -/
def STranslateContext.alterStbReqOf (pCxt : STranslateContext) : Option SMAltertbReq :=
  match pCxt.pCmdMsg.bind fun m => m.pMsg with
  | some (.alterStbReq req) => some req
  | _ => none

/-! ## Collaborators and statements for the examples of CREATE DATABASE and ALTER TABLE -/

/-- The collaborators of `demoEnv` with a parser of durations that reads the digits in front
as the value and the last character as the unit. -/
def demoDurationEnv : Env :=
  { demoEnv with
    parseNatualDuration := fun s _ =>
      match s.data.getLast? with
      | some c => some ((digitsValue s.data 0 : Int), c.toNat)
      | none => none }

/-- Sizing calls for the examples: a request to create a database takes 100 bytes and 18 for
each retention, a request to alter a table 60 bytes and 70 for each field it counts. -/
def demoSerializeEnv : SerializeEnv where
  tSerializeSCreateDbReq := fun req => 100 + 18 * ((req.pRetensions.getD []).length : Int)
  tSerializeSMAlterStbReq := fun req => 60 + 70 * req.numOfFields

/-- A duration literal as the parser delivers it. -/
def parsedDuration (literal : String) : SValueNode :=
  { node := { resType := { type := TSDB_DATA_TYPE_BIGINT, bytes := 8 } }, literal := literal,
    isDuration := true }

/-- The statement `CREATE DATABASE d KEEP 30`. -/
def demoCreateDatabaseKeep : SCreateDatabaseStmt :=
  { dbName := "d", pOptions := { keep := 30 } }

/-- The statement `CREATE DATABASE d KEEP 30 RETENTIONS 15s:7d`. -/
def demoCreateDatabaseRetentions : SCreateDatabaseStmt :=
  { dbName := "d",
    pOptions := { keep := 30, pRetentions := some [parsedDuration "15s", parsedDuration "7d"] } }

/-- The value nodes of `15s` and `7d` as `translateValue` leaves them with `demoDurationEnv`:
15 in the unit `s` (character 115) and 7 in the unit `d` (character 100). -/
def demoTranslatedRetentions : List SValueNode :=
  [{ parsedDuration "15s" with datum := { i := 15 }, unit := 115, translate := true },
   { parsedDuration "7d" with datum := { i := 7 }, unit := 100, translate := true }]

/-- The statement `ALTER TABLE db1.t RENAME COLUMN a b`. -/
def demoAlterRenameColumn : SAlterTableStmt :=
  { dbName := "db1", tableName := "t", alterType := TSDB_ALTER_TABLE_UPDATE_COLUMN_NAME,
    colName := "a", newColName := "b" }

/-- The statement `ALTER TABLE db1.t ADD COLUMN c INT`. -/
def demoAlterAddColumn : SAlterTableStmt :=
  { dbName := "db1", tableName := "t", alterType := TSDB_ALTER_TABLE_ADD_COLUMN,
    colName := "c", dataType := { type := TSDB_DATA_TYPE_INT, bytes := 4 } }

/-! # Theorems -/

theorem findSchema_isSome (name : String) (schema : List SSchema) (i nums : Nat) :
    (findSchema name schema i nums).isSome = true ↔
      name ∈ (schema.take (nums - i)).map fun s => s.name := by
  induction schema generalizing i with
  | nil => simp [findSchema]
  | cons s rest ih =>
    unfold findSchema
    by_cases hi : i < nums
    · have h1 : nums - i = (nums - (i + 1)) + 1 := by omega
      by_cases hn : name = s.name
      · simp [hi, hn, h1]
      · simp only [hi, hn, if_true, if_false, ih (i + 1), h1, List.take_succ_cons,
          List.map_cons, List.mem_cons, false_or]
    · have h0 : nums - i = 0 := by omega
      simp [hi, h0]

theorem findSchema_name (name : String) (schema : List SSchema) (i nums : Nat)
    (j : Nat) (s : SSchema) (h : findSchema name schema i nums = some (j, s)) :
    s.name = name := by
  induction schema generalizing i with
  | nil => simp [findSchema] at h
  | cons s0 rest ih =>
    unfold findSchema at h
    by_cases hi : i < nums
    · by_cases hn : name = s0.name
      · simp [hi, hn] at h
        rw [← h.2, hn]
      · simp only [hi, hn, if_true, if_false] at h
        exact ih (i + 1) h
    · simp [hi] at h

theorem findAlias_isSome (name : String) (l : List Node) (i : Nat) :
    (findAlias name l i).isSome = true ↔ name ∈ l.map fun n => n.exprNode.aliasName := by
  induction l generalizing i with
  | nil => simp [findAlias]
  | cons n rest ih =>
    unfold findAlias
    by_cases hn : name = n.exprNode.aliasName
    · simp [hn]
    · simp only [hn, if_false, ih (i + 1), List.map_cons, List.mem_cons, false_or]

theorem findAlias_name (name : String) (l : List Node) (i j : Nat) (e : SExprNode)
    (h : findAlias name l i = some (j, e)) : e.aliasName = name := by
  induction l generalizing i with
  | nil => simp [findAlias] at h
  | cons n rest ih =>
    unfold findAlias at h
    by_cases hn : name = n.exprNode.aliasName
    · simp [hn] at h
      rw [← h.2, hn]
    · simp only [hn, if_false] at h
      exact ih (i + 1) h

/-- What `findAndSetColumn` answers. -/
theorem findAndSetColumn_found (env : Env) (pCol : SColumnNode) (pTable : Node) :
    (findAndSetColumn env pCol pTable).1 = columnFound env pCol pTable := by
  cases pTable with
  | realTable t =>
    cases hm : t.pMeta with
    | none => simp [findAndSetColumn, columnFound, isPrimaryKeyRef, hasColumn, tableColumnNames, hm]
    | some m =>
      by_cases hpk : env.PRIMARYKEY_TIMESTAMP_COL_ID = pCol.colId ∧
          pCol.colName = env.PK_TS_COL_INTERNAL_NAME
      · simp [findAndSetColumn, columnFound, isPrimaryKeyRef, hm, hpk]
      · have hpk2 : (decide (env.PRIMARYKEY_TIMESTAMP_COL_ID = pCol.colId) &&
            decide (pCol.colName = env.PK_TS_COL_INTERNAL_NAME)) = false := by
          simpa using hpk
        have key := findSchema_isSome pCol.colName m.schema 0
          (m.tableInfo.numOfTags + m.tableInfo.numOfColumns)
        simp only [findAndSetColumn, hm, hpk, if_false, columnFound, isPrimaryKeyRef,
          Option.isSome_some, Bool.true_and, hpk2, Bool.false_or, hasColumn,
          tableColumnNames]
        cases hf : findSchema pCol.colName m.schema 0
            (m.tableInfo.numOfTags + m.tableInfo.numOfColumns) with
        | none =>
          rw [hf] at key
          simp at key
          simp [key]
        | some r =>
          rw [hf] at key
          simp at key
          simp [key]
  | tempTable t sub =>
    have key := findAlias_isSome pCol.colName ((getProjectList sub).getD []) 0
    simp only [findAndSetColumn, columnFound, isPrimaryKeyRef, Bool.false_or, hasColumn,
      tableColumnNames]
    cases hf : findAlias pCol.colName ((getProjectList sub).getD []) 0 with
    | none =>
      rw [hf] at key
      simp at key
      simpa using key
    | some r =>
      rw [hf] at key
      simp at key
      simpa using key
  | _ => simp [findAndSetColumn, columnFound, isPrimaryKeyRef, hasColumn, tableColumnNames]

theorem columnFound_eq_hasColumn (env : Env) (pCol : SColumnNode) (pTable : Node)
    (h : pCol.colName ≠ env.PK_TS_COL_INTERNAL_NAME) :
    columnFound env pCol pTable = hasColumn pTable pCol.colName := by
  cases pTable <;> simp [columnFound, isPrimaryKeyRef, h]

theorem findAndSetColumn_not_found (env : Env) (pCol : SColumnNode) (pTable : Node)
    (h : (findAndSetColumn env pCol pTable).1 = false) :
    (findAndSetColumn env pCol pTable).2 = pCol := by
  cases pTable with
  | realTable t =>
    cases hm : t.pMeta with
    | none => simp [findAndSetColumn, hm]
    | some m =>
      simp only [findAndSetColumn, hm] at h ⊢
      split at h
      · simp at h
      · split at h
        · simp at h
        · rename_i hnone
          simp [*]
  | tempTable t sub =>
    simp only [findAndSetColumn] at h ⊢
    split at h
    · simp at h
    · simp [*]
  | _ => simp [findAndSetColumn]

theorem findAndSetColumn_colName (env : Env) (pCol : SColumnNode) (pTable : Node)
    (h : pCol.colName ≠ env.PK_TS_COL_INTERNAL_NAME) :
    (findAndSetColumn env pCol pTable).2.colName = pCol.colName := by
  cases pTable with
  | realTable t =>
    cases hm : t.pMeta with
    | none => simp [findAndSetColumn, hm]
    | some m =>
      simp only [findAndSetColumn, hm, h, and_false, if_false]
      split
      · rename_i i s hf
        simp [setColumnInfoBySchema, findSchema_name _ _ _ _ _ _ hf]
      · rfl
  | tempTable t sub =>
    simp only [findAndSetColumn]
    split
    · rename_i i e hf
      simp [setColumnInfoByExpr, findAlias_name _ _ _ _ _ hf]
    · rfl
  | _ => simp [findAndSetColumn]

/-- The scan of the tables, by the number of tables that have the column. -/
theorem translateColumnWithoutPrefixLoop_spec (env : Env) (pCxt : STranslateContext)
    (tables : List Node) (found : Bool) (pCol : SColumnNode)
    (h : pCol.colName ≠ env.PK_TS_COL_INTERNAL_NAME) :
    ((if found then 1 else 0) + matchCount tables pCol.colName = 0 →
      (translateColumnWithoutPrefixLoop env pCxt tables found pCol).1 = DEAL_RES_ERROR ∧
      (translateColumnWithoutPrefixLoop env pCxt tables found pCol).2.2 =
        (generateDealNodeErrMsg pCxt TSDB_CODE_PAR_INVALID_COLUMN).2) ∧
    ((if found then 1 else 0) + matchCount tables pCol.colName = 1 →
      (translateColumnWithoutPrefixLoop env pCxt tables found pCol).1 = DEAL_RES_CONTINUE ∧
      (translateColumnWithoutPrefixLoop env pCxt tables found pCol).2.2 = pCxt) ∧
    (2 ≤ (if found then 1 else 0) + matchCount tables pCol.colName →
      (translateColumnWithoutPrefixLoop env pCxt tables found pCol).1 = DEAL_RES_ERROR ∧
      (translateColumnWithoutPrefixLoop env pCxt tables found pCol).2.2 =
        (generateDealNodeErrMsg pCxt TSDB_CODE_PAR_AMBIGUOUS_COLUMN).2) := by
  induction tables generalizing found pCol with
  | nil =>
    cases found <;> simp [translateColumnWithoutPrefixLoop, matchCount, generateDealNodeErrMsg]
  | cons t rest ih =>
    have hfound := findAndSetColumn_found env pCol t
    rw [columnFound_eq_hasColumn env pCol t h] at hfound
    have hname := findAndSetColumn_colName env pCol t h
    have hne : (findAndSetColumn env pCol t).2.colName ≠ env.PK_TS_COL_INTERNAL_NAME := by
      rw [hname]; exact h
    unfold translateColumnWithoutPrefixLoop
    cases hc : hasColumn t pCol.colName with
    | false =>
      have ih1 := ih found (findAndSetColumn env pCol t).2 hne
      rw [hname] at ih1
      simp only [hfound, hc, matchCount, List.filter_cons, Bool.false_eq_true, if_false]
      simpa [matchCount] using ih1
    | true =>
      cases found with
      | true =>
        simp [hfound, hc, matchCount, List.filter_cons, generateDealNodeErrMsg]
      | false =>
        have ih1 := ih true (findAndSetColumn env pCol t).2 hne
        rw [hname] at ih1
        simp only [hfound, hc, matchCount, List.filter_cons, if_true, Bool.false_eq_true,
          if_false, List.length_cons]
        simp only [matchCount, if_true] at ih1
        have e : 0 + ((List.filter (fun t => hasColumn t pCol.colName) rest).length + 1)
            = 1 + (List.filter (fun t => hasColumn t pCol.colName) rest).length := by omega
        rw [e]
        exact ih1

theorem matchCount_zero (tables : List Node) (name : String)
    (h : matchCount tables name = 0) : ∀ t ∈ tables, hasColumn t name = false := by
  intro t ht
  unfold matchCount at h
  rw [List.length_eq_zero, List.filter_eq_nil_iff] at h
  simpa using h t ht

/-- The column the scan of the tables leaves behind. -/
theorem translateColumnWithoutPrefixLoop_bind (env : Env) (pCxt : STranslateContext)
    (tables : List Node) (found : Bool) (pCol : SColumnNode)
    (h : pCol.colName ≠ env.PK_TS_COL_INTERNAL_NAME) :
    (matchCount tables pCol.colName = 0 →
      (translateColumnWithoutPrefixLoop env pCxt tables found pCol).2.1 = pCol) ∧
    (found = false → matchCount tables pCol.colName = 1 →
      ∀ t ∈ tables, hasColumn t pCol.colName = true →
        (translateColumnWithoutPrefixLoop env pCxt tables found pCol).2.1 =
          (findAndSetColumn env pCol t).2) := by
  induction tables generalizing found pCol with
  | nil =>
    cases found <;> simp [translateColumnWithoutPrefixLoop, matchCount, generateDealNodeErrMsg]
  | cons t0 rest ih =>
    have hfound := findAndSetColumn_found env pCol t0
    rw [columnFound_eq_hasColumn env pCol t0 h] at hfound
    have hname := findAndSetColumn_colName env pCol t0 h
    have hne : (findAndSetColumn env pCol t0).2.colName ≠ env.PK_TS_COL_INTERNAL_NAME := by
      rw [hname]; exact h
    cases hc : hasColumn t0 pCol.colName with
    | false =>
      have hsame : (findAndSetColumn env pCol t0).2 = pCol :=
        findAndSetColumn_not_found env pCol t0 (by rw [hfound, hc])
      have hcount : matchCount (t0 :: rest) pCol.colName = matchCount rest pCol.colName := by
        simp [matchCount, List.filter_cons, hc]
      have ih1 := ih found pCol h
      unfold translateColumnWithoutPrefixLoop
      simp only [hfound, hc, Bool.false_eq_true, if_false, hsame, hcount]
      refine ⟨ih1.1, ?_⟩
      intro hf h1 t ht hct
      rcases List.mem_cons.mp ht with rfl | ht
      · rw [hc] at hct; exact absurd hct (by simp)
      · exact ih1.2 hf h1 t ht hct
    | true =>
      have hcount : matchCount (t0 :: rest) pCol.colName
          = matchCount rest pCol.colName + 1 := by
        simp [matchCount, List.filter_cons, hc]
      refine ⟨fun h0 => by omega, ?_⟩
      intro hf h1 t ht hct
      subst hf
      have hrest : matchCount rest pCol.colName = 0 := by omega
      have ih1 := (ih true (findAndSetColumn env pCol t0).2 hne).1
      rw [hname] at ih1
      have ht0 : t = t0 := by
        rcases List.mem_cons.mp ht with rfl | ht
        · rfl
        · have := matchCount_zero rest pCol.colName hrest t ht
          rw [this] at hct; exact absurd hct (by simp)
      subst ht0
      unfold translateColumnWithoutPrefixLoop
      simp only [hfound, hc, if_true, Bool.false_eq_true, if_false]
      exact ih1 hrest

/-- C4 (amended): for every column whose name is not the internal primary-key timestamp name,
`translateColumnWithoutPrefix` scans all tables registered at the current namespace level and
succeeds, leaving the context untouched, if and only if exactly one of them has a column or
projection alias of that name; the column is then bound by that table. It fails with
`TSDB_CODE_PAR_INVALID_COLUMN` when no table has it and with `TSDB_CODE_PAR_AMBIGUOUS_COLUMN`
when more than one table has it. -/
theorem translateColumnWithoutPrefix_exactly_one (env : Env) (pCxt : STranslateContext)
    (pCol : SColumnNode) (h : pCol.colName ≠ env.PK_TS_COL_INTERNAL_NAME) :
    ((translateColumnWithoutPrefix env pCxt pCol).1 = DEAL_RES_CONTINUE ↔
      matchCount (currTables pCxt) pCol.colName = 1) ∧
    (matchCount (currTables pCxt) pCol.colName = 1 →
      (translateColumnWithoutPrefix env pCxt pCol).2.2 = pCxt ∧
      ∀ t ∈ currTables pCxt, hasColumn t pCol.colName = true →
        (translateColumnWithoutPrefix env pCxt pCol).2.1 = (findAndSetColumn env pCol t).2) ∧
    (matchCount (currTables pCxt) pCol.colName = 0 →
      (translateColumnWithoutPrefix env pCxt pCol).1 = DEAL_RES_ERROR ∧
      (translateColumnWithoutPrefix env pCxt pCol).2.2.errCode = TSDB_CODE_PAR_INVALID_COLUMN) ∧
    (2 ≤ matchCount (currTables pCxt) pCol.colName →
      (translateColumnWithoutPrefix env pCxt pCol).1 = DEAL_RES_ERROR ∧
      (translateColumnWithoutPrefix env pCxt pCol).2.2.errCode =
        TSDB_CODE_PAR_AMBIGUOUS_COLUMN) := by
  have hs := translateColumnWithoutPrefixLoop_spec env pCxt (currTables pCxt) false pCol h
  have hb := translateColumnWithoutPrefixLoop_bind env pCxt (currTables pCxt) false pCol h
  simp only [Bool.false_eq_true, if_false, Nat.zero_add] at hs
  unfold translateColumnWithoutPrefix
  refine ⟨⟨?_, fun h1 => (hs.2.1 h1).1⟩, ?_, ?_, ?_⟩
  · intro hres
    by_contra hne
    rcases Nat.lt_or_ge (matchCount (currTables pCxt) pCol.colName) 1 with h0 | h2
    · have := (hs.1 (by omega)).1
      rw [this] at hres; exact absurd hres (by decide)
    · have := (hs.2.2 (by omega)).1
      rw [this] at hres; exact absurd hres (by decide)
  · intro h1
    exact ⟨(hs.2.1 h1).2, hb.2 rfl h1⟩
  · intro h0
    refine ⟨(hs.1 h0).1, ?_⟩
    rw [(hs.1 h0).2]; rfl
  · intro h2
    refine ⟨(hs.2.2 h2).1, ?_⟩
    rw [(hs.2.2 h2).2]; rfl

/-- Witness of C4 (amended): the column `a` in the scope of the single table `db1.t`. -/
theorem translateColumnWithoutPrefix_exactly_one_witness :
    ((translateColumnWithoutPrefix demoEnv demoCxt { colName := "a" }).1 = DEAL_RES_CONTINUE ↔
      matchCount (currTables demoCxt) "a" = 1) ∧
    matchCount (currTables demoCxt) "a" = 1 ∧
    (translateColumnWithoutPrefix demoEnv demoCxt { colName := "a" }).2.1.colId = 2 :=
  ⟨(translateColumnWithoutPrefix_exactly_one demoEnv demoCxt { colName := "a" }
      (by decide)).1, by decide, by decide⟩

/-- C4 (counterexample): the internal primary-key timestamp reference (column id 1, name
`_rowts`) resolves against the table `db1.t` although no table in scope has a column of
that name. -/
theorem translateColumnWithoutPrefix_primary_key_counterexample :
    matchCount (currTables demoCxt) "_rowts" = 0 ∧
    (translateColumnWithoutPrefix demoEnv demoCxt { colName := "_rowts", colId := 1 }).1 =
      DEAL_RES_CONTINUE ∧
    (translateColumnWithoutPrefix demoEnv demoCxt { colName := "_rowts", colId := 1 }).2.2.errCode
      = TSDB_CODE_SUCCESS := by
  decide

/-- The loop of `translateColumnWithPrefix`, by the first table the column belongs to. -/
theorem translateColumnWithPrefixLoop_spec (env : Env) (pCxt : STranslateContext)
    (tables : List Node) (pCol : SColumnNode) :
    translateColumnWithPrefixLoop env pCxt tables false pCol =
      match tables.find? (fun t => belongTable pCxt.pParseCxt.db pCol t) with
      | none => (DEAL_RES_ERROR, pCol,
          (generateDealNodeErrMsg pCxt TSDB_CODE_PAR_TABLE_NOT_EXIST).2)
      | some t =>
        if columnFound env pCol t then
          (DEAL_RES_CONTINUE, (findAndSetColumn env pCol t).2, pCxt)
        else (DEAL_RES_ERROR, pCol,
          (generateDealNodeErrMsg pCxt TSDB_CODE_PAR_INVALID_COLUMN).2) := by
  induction tables with
  | nil => simp [translateColumnWithPrefixLoop, generateDealNodeErrMsg]
  | cons t rest ih =>
    unfold translateColumnWithPrefixLoop
    by_cases hb : belongTable pCxt.pParseCxt.db pCol t = true
    · have hf := findAndSetColumn_found env pCol t
      cases hc : columnFound env pCol t with
      | true => simp [hb, hf, hc, List.find?_cons]
      | false =>
        have hsame := findAndSetColumn_not_found env pCol t (by rw [hf, hc])
        simp [hb, hf, hc, List.find?_cons, hsame, generateDealNodeErrMsg]
    · simp only [Bool.not_eq_true] at hb
      simp only [hb, List.find?_cons, Bool.false_eq_true, if_false]
      exact ih

/-- C5 (amended): `translateColumnWithPrefix` fails with `TSDB_CODE_PAR_TABLE_NOT_EXIST`
exactly when no table registered at the current namespace level belongs to the column in the
sense of `belongTable` (same table alias and same database: the database name of the column
when it has one, otherwise the current database for a real table). Otherwise the column is
resolved within the first such table only: it succeeds, bound by that table and with the
context untouched, if the column is found there (the table has a column of that name, or the
column is the internal primary-key timestamp reference of a real table) and fails with
`TSDB_CODE_PAR_INVALID_COLUMN` if it is not. -/
theorem translateColumnWithPrefix_spec (env : Env) (pCxt : STranslateContext)
    (pCol : SColumnNode) :
    (((translateColumnWithPrefix env pCxt pCol).1 = DEAL_RES_ERROR ∧
        (translateColumnWithPrefix env pCxt pCol).2.2.errCode = TSDB_CODE_PAR_TABLE_NOT_EXIST) ↔
      ∀ t ∈ currTables pCxt, belongTable pCxt.pParseCxt.db pCol t = false) ∧
    (∀ t, (currTables pCxt).find? (fun t => belongTable pCxt.pParseCxt.db pCol t) = some t →
      (columnFound env pCol t = true →
        translateColumnWithPrefix env pCxt pCol =
          (DEAL_RES_CONTINUE, (findAndSetColumn env pCol t).2, pCxt)) ∧
      (columnFound env pCol t = false →
        (translateColumnWithPrefix env pCxt pCol).1 = DEAL_RES_ERROR ∧
        (translateColumnWithPrefix env pCxt pCol).2.2.errCode =
          TSDB_CODE_PAR_INVALID_COLUMN)) := by
  have hs := translateColumnWithPrefixLoop_spec env pCxt (currTables pCxt) pCol
  unfold translateColumnWithPrefix
  rw [hs]
  constructor
  · cases hf : (currTables pCxt).find? (fun t => belongTable pCxt.pParseCxt.db pCol t) with
    | none =>
      have := List.find?_eq_none.mp hf
      simp only [generateDealNodeErrMsg, true_and, true_iff]
      intro t ht
      simpa using this t ht
    | some t =>
      have hmem := List.mem_of_find?_eq_some hf
      have hbel := List.find?_some hf
      constructor
      · intro h
        exfalso
        cases hc : columnFound env pCol t with
        | true => simp [hc] at h
        | false => simp [hc, generateDealNodeErrMsg] at h
      · intro h
        have := h t hmem
        rw [this] at hbel
        exact absurd hbel (by simp)
  · intro t hf
    rw [hf]
    constructor
    · intro hc; simp [hc]
    · intro hc; simp [hc, generateDealNodeErrMsg]

/-- C5 (counterexample): with current database `db1`, the column `t.a` is rejected with
`TSDB_CODE_PAR_TABLE_NOT_EXIST` although the table `db2.t`, which carries the table alias `t`
and has the column `a`, is registered at the current level. -/
theorem translateColumnWithPrefix_alias_counterexample :
    (∃ t ∈ currTables demoCxtOtherDb,
      t.tableNode.tableAlias = "t" ∧ hasColumn t "a" = true) ∧
    (translateColumnWithPrefix demoEnv demoCxtOtherDb
      { tableAlias := "t", colName := "a" }).1 = DEAL_RES_ERROR ∧
    (translateColumnWithPrefix demoEnv demoCxtOtherDb
      { tableAlias := "t", colName := "a" }).2.2.errCode = TSDB_CODE_PAR_TABLE_NOT_EXIST := by
  refine ⟨⟨demoTableOtherDb, by simp [currTables, demoCxtOtherDb], by decide, by decide⟩, ?_, ?_⟩
  · decide
  · decide

theorem findAlias_first (name : String) (l : List Node) (k i : Nat) (n : Node)
    (hn : l[i]? = some n) (ha : n.exprNode.aliasName = name)
    (hfirst : ∀ j m, j < i → l[j]? = some m → m.exprNode.aliasName ≠ name) :
    findAlias name l k = some (k + i, n.exprNode) := by
  induction l generalizing k i with
  | nil => simp at hn
  | cons a rest ih =>
    unfold findAlias
    cases i with
    | zero =>
      simp at hn
      subst hn
      simp [ha]
    | succ i =>
      have h0 := hfirst 0 a (by omega) (by simp)
      have h0' : ¬ name = a.exprNode.aliasName := fun h => h0 h.symm
      simp only [h0', if_false]
      have := ih (k + 1) i (by simpa using hn)
        (fun j m hj hm => hfirst (j + 1) m (by omega) (by simpa using hm))
      rw [this]
      congr 2
      omega

theorem translateColumnWithoutPrefixLoop_cxt (env : Env) (c1 c2 : STranslateContext)
    (tables : List Node) (found : Bool) (pCol : SColumnNode) :
    (translateColumnWithoutPrefixLoop env c1 tables found pCol).1 =
      (translateColumnWithoutPrefixLoop env c2 tables found pCol).1 ∧
    (translateColumnWithoutPrefixLoop env c1 tables found pCol).2.1 =
      (translateColumnWithoutPrefixLoop env c2 tables found pCol).2.1 := by
  induction tables generalizing found pCol with
  | nil => cases found <;> simp [translateColumnWithoutPrefixLoop, generateDealNodeErrMsg]
  | cons t rest ih =>
    unfold translateColumnWithoutPrefixLoop
    cases hf : (findAndSetColumn env pCol t).1 <;> cases found <;>
      simp [hf, generateDealNodeErrMsg, ih]

theorem translateColumnWithoutPrefixLoop_none (env : Env) (pCxt : STranslateContext)
    (tables : List Node) (pCol : SColumnNode)
    (h : ∀ t ∈ tables, columnFound env pCol t = false) :
    (translateColumnWithoutPrefixLoop env pCxt tables false pCol).1 = DEAL_RES_ERROR ∧
    (translateColumnWithoutPrefixLoop env pCxt tables false pCol).2.2.errCode =
      TSDB_CODE_PAR_INVALID_COLUMN := by
  induction tables with
  | nil => simp [translateColumnWithoutPrefixLoop, generateDealNodeErrMsg]
  | cons t rest ih =>
    have hf := findAndSetColumn_found env pCol t
    rw [h t (List.mem_cons_self _ _)] at hf
    have hsame := findAndSetColumn_not_found env pCol t hf
    unfold translateColumnWithoutPrefixLoop
    simp only [hf, Bool.false_eq_true, if_false, hsame]
    exact ih (fun t ht => h t (List.mem_cons_of_mem _ ht))

/-- C7: for a non-wildcard column without a table alias, `translateColumn` consults the
projection aliases of the current select exactly in the ORDER BY clause. There, if some
projection alias equals the column name, the column is bound to the first such projection
(back-reference set, name and result type copied from it) and neither the tables nor the
context play a part; if no alias matches, the tables are scanned. In every other clause the
outcome is that of the table scan and does not depend on the current select, so a name that
no table in scope matches fails with `TSDB_CODE_PAR_INVALID_COLUMN` whatever the projection
aliases are. -/
theorem translateColumn_projection_alias (env : Env) (pCxt : STranslateContext)
    (pCol : SColumnNode) (hstar : pCol.colName ≠ "*") (halias : pCol.tableAlias = "") :
    (pCxt.currClause = some SQL_CLAUSE_ORDER_BY →
      ∀ i n, (currProjectionList pCxt)[i]? = some n →
        n.exprNode.aliasName = pCol.colName →
        (∀ j m, j < i → (currProjectionList pCxt)[j]? = some m →
          m.exprNode.aliasName ≠ pCol.colName) →
        translateColumn env pCxt pCol =
          (DEAL_RES_CONTINUE,
            { pCol with pProjectRef := some i
                        colName := n.exprNode.aliasName
                        node := { pCol.node with resType := n.exprNode.resType } },
            pCxt)) ∧
    (pCxt.currClause = some SQL_CLAUSE_ORDER_BY →
      (∀ n ∈ currProjectionList pCxt, n.exprNode.aliasName ≠ pCol.colName) →
      translateColumn env pCxt pCol = translateColumnWithoutPrefix env pCxt pCol) ∧
    (pCxt.currClause ≠ some SQL_CLAUSE_ORDER_BY →
      translateColumn env pCxt pCol = translateColumnWithoutPrefix env pCxt pCol ∧
      (∀ pStmt, (translateColumn env { pCxt with pCurrStmt := pStmt } pCol).1 =
          (translateColumn env pCxt pCol).1 ∧
        (translateColumn env { pCxt with pCurrStmt := pStmt } pCol).2.1 =
          (translateColumn env pCxt pCol).2.1) ∧
      ((∀ t ∈ currTables pCxt, columnFound env pCol t = false) →
        (translateColumn env pCxt pCol).1 = DEAL_RES_ERROR ∧
        (translateColumn env pCxt pCol).2.2.errCode = TSDB_CODE_PAR_INVALID_COLUMN)) := by
  refine ⟨?_, ?_, ?_⟩
  · intro hc i n hn ha hfirst
    have hf := findAlias_first pCol.colName (currProjectionList pCxt) 0 i n hn ha hfirst
    simp only [Nat.zero_add] at hf
    simp [translateColumn, hstar, halias, hc, translateColumnUseAlias, hf, setColumnInfoByExpr]
  · intro hc hno
    have hf : findAlias pCol.colName (currProjectionList pCxt) 0 = none := by
      have := findAlias_isSome pCol.colName (currProjectionList pCxt) 0
      cases hfa : findAlias pCol.colName (currProjectionList pCxt) 0 with
      | none => rfl
      | some r =>
        rw [hfa] at this
        simp at this
        obtain ⟨x, hx, hxa⟩ := this
        exact absurd hxa (hno x hx)
    simp [translateColumn, hstar, halias, hc, translateColumnUseAlias, hf]
  · intro hc
    have heq : ∀ c : STranslateContext, c.currClause = pCxt.currClause →
        translateColumn env c pCol = translateColumnWithoutPrefix env c pCol := by
      intro c hcc
      simp [translateColumn, hstar, halias, hcc, hc]
    refine ⟨heq pCxt rfl, ?_, ?_⟩
    · intro pStmt
      rw [heq pCxt rfl, heq { pCxt with pCurrStmt := pStmt } rfl]
      exact translateColumnWithoutPrefixLoop_cxt env _ _ _ _ _
    · intro hnone
      rw [heq pCxt rfl]
      exact translateColumnWithoutPrefixLoop_none env pCxt _ pCol hnone

/-- Witness of C7: in the ORDER BY clause of `SELECT t.ts AS x, t.a AS y`, the column `y`
is bound to the second projection. -/
theorem translateColumn_projection_alias_witness :
    translateColumn demoEnv demoCxtOrderBy { colName := "y" } =
      (DEAL_RES_CONTINUE,
        { colName := "y", pProjectRef := some 1,
          node := { resType := { type := TSDB_DATA_TYPE_INT, bytes := 4 } } },
        demoCxtOrderBy) :=
  (translateColumn_projection_alias demoEnv demoCxtOrderBy { colName := "y" }
    (by decide) (by decide)).1 rfl 1 _ rfl rfl
    (by
      intro j m hj hm
      have hj0 : j = 0 := by omega
      subst hj0
      simp [currProjectionList, demoCxtOrderBy, demoSelectXY] at hm
      subst hm
      simp [Node.exprNode])

theorem toInt32_of_range (x : Int) (h1 : -(2 ^ 31) ≤ x) (h2 : x < 2 ^ 31) : toInt32 x = x := by
  unfold toInt32
  have : (x + 2 ^ 31) % 2 ^ 32 = x + 2 ^ 31 := by
    apply Int.emod_eq_of_lt <;> omega
  omega

/-- A numeric literal with integer value `v` is translated without error and without a change
of the context, and its position value is `v` converted to `int32_t`. -/
theorem translateValue_literalValue (env : Env) (pCxt : STranslateContext) (pVal : SValueNode)
    (v : Int) (h : literalValue env pVal = some v) :
    (translateValue env pCxt pVal).1 = DEAL_RES_CONTINUE ∧
    (translateValue env pCxt pVal).2.2 = pCxt ∧
    getPositionValue (translateValue env pCxt pVal).2.1 = toInt32 v := by
  unfold literalValue at h
  unfold translateValue
  cases hd : pVal.isDuration with
  | true => simp [hd] at h
  | false =>
    simp only [hd, Bool.false_eq_true, if_false] at h ⊢
    cases ht : pVal.node.resType.type <;> simp only [ht] at h ⊢ <;> simp at h <;>
      simp [getPositionValue, ht, h]

/-- The rewrite of one key by position, wherever the loop reaches it. -/
theorem translateOrderByPositionLoop_position (env : Env) (pProjectionList rest : List Node)
    (pCxt : STranslateContext) (other : Bool) (pVal : SValueNode) (order nullOrder : Nat)
    (v : Int) (hlen : pProjectionList.length < 2 ^ 31)
    (hval : literalValue env pVal = some v) (h1 : 1 ≤ v)
    (hN : v ≤ (pProjectionList.length : Int)) :
    translateOrderByPositionLoop env pProjectionList
        (.orderByExpr (some (.value pVal)) order nullOrder :: rest) pCxt other =
      ((translateOrderByPositionLoop env pProjectionList rest pCxt other).1,
        .orderByExpr (some (.column
          (positionColumn (pProjectionList.getD (v.toNat - 1) (.otherStmt 0)) (v.toNat - 1))))
          order nullOrder ::
          (translateOrderByPositionLoop env pProjectionList rest pCxt other).2.1,
        (translateOrderByPositionLoop env pProjectionList rest pCxt other).2.2.1,
        (translateOrderByPositionLoop env pProjectionList rest pCxt other).2.2.2) := by
  obtain ⟨hres, hcxt, hpos⟩ := translateValue_literalValue env pCxt pVal v hval
  have hv : toInt32 v = v := toInt32_of_range v (by omega) (by
    have : (pProjectionList.length : Int) < 2 ^ 31 := by exact_mod_cast hlen
    omega)
  rw [hv] at hpos
  conv_lhs => unfold translateOrderByPositionLoop
  simp only [hres, hcxt, hpos]
  have hn0 : ¬ v < 0 := by omega
  have hn1 : ¬ (v = 0 ∨ v > (pProjectionList.length : Int)) := by omega
  simp [hn0, hn1, positionColumn, setColumnInfoByExpr]

theorem rewritePositionKey_other (env : Env) (pProjectionList : List Node) (k : Node)
    (h : ∀ pVal order nullOrder, k ≠ .orderByExpr (some (.value pVal)) order nullOrder) :
    rewritePositionKey env pProjectionList k = k := by
  unfold rewritePositionKey
  split
  · rename_i pVal order nullOrder
    exact absurd rfl (h pVal order nullOrder)
  · rfl

/-- A list whose value keys are all positions `1..N`: every key is kept, in order. -/
theorem translateOrderByPositionLoop_keeps (env : Env) (pProjectionList : List Node)
    (hlen : pProjectionList.length < 2 ^ 31) (keys : List Node) (pCxt : STranslateContext)
    (other : Bool)
    (hkeys : ∀ k ∈ keys, isPositionKey env pProjectionList k ∨
      ∀ pVal order nullOrder, k ≠ .orderByExpr (some (.value pVal)) order nullOrder) :
    (translateOrderByPositionLoop env pProjectionList keys pCxt other).1 = TSDB_CODE_SUCCESS ∧
    (translateOrderByPositionLoop env pProjectionList keys pCxt other).2.1 =
      keys.map (rewritePositionKey env pProjectionList) ∧
    (translateOrderByPositionLoop env pProjectionList keys pCxt other).2.2.2 = pCxt := by
  induction keys generalizing other with
  | nil => simp [translateOrderByPositionLoop]
  | cons k rest ih =>
    have hrest : ∀ k ∈ rest, isPositionKey env pProjectionList k ∨
        ∀ pVal order nullOrder, k ≠ .orderByExpr (some (.value pVal)) order nullOrder :=
      fun k hk => hkeys k (List.mem_cons_of_mem _ hk)
    rcases hkeys k (List.mem_cons_self _ _) with hpos | hother
    · unfold isPositionKey at hpos
      split at hpos
      · rename_i pVal order nullOrder
        obtain ⟨v, hval, h1, hN⟩ := hpos
        rw [translateOrderByPositionLoop_position env pProjectionList rest pCxt other pVal
          order nullOrder v hlen hval h1 hN]
        obtain ⟨a, b, c⟩ := ih other hrest
        refine ⟨a, ?_, c⟩
        simp [b, rewritePositionKey, hval]
      · exact absurd hpos id
    · rw [translateOrderByPositionLoop.eq_3 env pProjectionList pCxt other k rest
        (fun pVal order nullOrder h => hother pVal order nullOrder h)]
      obtain ⟨a, b, c⟩ := ih true hrest
      simp [a, b, c, rewritePositionKey_other env pProjectionList _ hother]

/-- C8: let the projection list have length `N` (an `int32_t` length) and let an ORDER BY key
be a numeric literal with integer value `v`, `1 <= v <= N`. Wherever the loop of
`translateOrderByPosition` reaches the key, it replaces the expression of the key by a new
alias-only column that refers to the `v`-th projection (back-reference to that projection,
name equal to its alias, result type equal to its result type); the key keeps its place and
its ordering attributes. On a list whose literal keys are all such positions,
`translateOrderByPosition` succeeds and returns the keys rewritten one by one, so their
number and order are unchanged. -/
theorem translateOrderByPosition_by_position (env : Env) (pProjectionList rest : List Node)
    (pCxt : STranslateContext) (other : Bool) (pVal : SValueNode) (order nullOrder : Nat)
    (v : Int) (hlen : pProjectionList.length < 2 ^ 31)
    (hval : literalValue env pVal = some v) (h1 : 1 ≤ v)
    (hN : v ≤ (pProjectionList.length : Int)) :
    ∃ p, pProjectionList[v.toNat - 1]? = some p ∧
      (positionColumn p (v.toNat - 1)).tableAlias = "" ∧
      (positionColumn p (v.toNat - 1)).pProjectRef = some (v.toNat - 1) ∧
      (positionColumn p (v.toNat - 1)).colName = p.exprNode.aliasName ∧
      (positionColumn p (v.toNat - 1)).node.resType = p.exprNode.resType ∧
      translateOrderByPositionLoop env pProjectionList
          (.orderByExpr (some (.value pVal)) order nullOrder :: rest) pCxt other =
        ((translateOrderByPositionLoop env pProjectionList rest pCxt other).1,
          .orderByExpr (some (.column (positionColumn p (v.toNat - 1)))) order nullOrder ::
            (translateOrderByPositionLoop env pProjectionList rest pCxt other).2.1,
          (translateOrderByPositionLoop env pProjectionList rest pCxt other).2.2.1,
          (translateOrderByPositionLoop env pProjectionList rest pCxt other).2.2.2) ∧
      ∀ (keys : List Node) (c : STranslateContext),
        (∀ k ∈ keys, isPositionKey env pProjectionList k ∨
          ∀ pVal order nullOrder, k ≠ .orderByExpr (some (.value pVal)) order nullOrder) →
        (translateOrderByPosition env c (some pProjectionList) (some keys)).1 =
          TSDB_CODE_SUCCESS ∧
        (translateOrderByPosition env c (some pProjectionList) (some keys)).2.1 =
          some (keys.map (rewritePositionKey env pProjectionList)) ∧
        ((translateOrderByPosition env c (some pProjectionList) (some keys)).2.1.map
          List.length) = some keys.length := by
  have hidx : v.toNat - 1 < pProjectionList.length := by omega
  refine ⟨pProjectionList[v.toNat - 1], List.getElem?_eq_getElem hidx, rfl, rfl, rfl, rfl, ?_, ?_⟩
  · rw [translateOrderByPositionLoop_position env pProjectionList rest pCxt other pVal order
      nullOrder v hlen hval h1 hN]
    simp [List.getD_eq_getElem?_getD, List.getElem?_eq_getElem hidx]
  · intro keys c hkeys
    obtain ⟨a, b, _⟩ := translateOrderByPositionLoop_keeps env pProjectionList hlen keys c
      false hkeys
    simp [translateOrderByPosition, a, b]

/-- Witness of C8: `ORDER BY 2` on `SELECT t.ts AS x, t.a AS y`. -/
theorem translateOrderByPosition_by_position_witness :
    ∃ p, (currProjectionList demoCxtOrderBy)[1]? = some p ∧
      translateOrderByPositionLoop demoEnv (currProjectionList demoCxtOrderBy)
          [demoPositionKey "2"] demoCxtOrderBy false =
        (TSDB_CODE_SUCCESS, [.orderByExpr (some (.column (positionColumn p 1))) 1 1], false,
          demoCxtOrderBy) := by
  obtain ⟨p, hp, _, _, _, _, h, _⟩ :=
    translateOrderByPosition_by_position demoEnv (currProjectionList demoCxtOrderBy) []
      demoCxtOrderBy false
      { node := { resType := { type := TSDB_DATA_TYPE_BIGINT, bytes := 8 } }, literal := "2" }
      1 1 2 (by decide) (by decide) (by decide) (by decide)
  exact ⟨p, hp, h⟩

/-- C9 (the code at the failing input): with two projections, the key `ORDER BY 4294967297`
has the integer value 4294967297 > 2, yet `translateOrderByPosition` succeeds and rewrites
the key to the first projection, because `getPositionValue` returns the value converted to
`int32_t`, which is 1; the key `ORDER BY 2147483648` is dropped without an error, its
position value being negative. -/
theorem translateOrderByPosition_truncates_position :
    literalValue demoEnv { node := { resType := { type := TSDB_DATA_TYPE_BIGINT, bytes := 8 } },
                           literal := "4294967297" } = some 4294967297 ∧
    (currProjectionList demoCxtOrderBy).length = 2 ∧
    translateOrderByPosition demoEnv demoCxtOrderBy (some (currProjectionList demoCxtOrderBy))
        (some [demoPositionKey "4294967297"]) =
      (TSDB_CODE_SUCCESS,
        some [.orderByExpr (some (.column
          { pProjectRef := some 0, colName := "x",
            node := { resType := { type := TSDB_DATA_TYPE_TIMESTAMP, bytes := 8 } } })) 1 1],
        false, demoCxtOrderBy) ∧
    translateOrderByPosition demoEnv demoCxtOrderBy (some (currProjectionList demoCxtOrderBy))
        (some [demoPositionKey "2147483648"]) =
      (TSDB_CODE_SUCCESS, some [], false, demoCxtOrderBy) := by
  refine ⟨by decide, by decide, ?_, ?_⟩ <;> rfl

theorem translateValue_success_cxt (env : Env) (pCxt : STranslateContext) (pVal : SValueNode)
    (h : (translateValue env pCxt pVal).1 ≠ DEAL_RES_ERROR) :
    (translateValue env pCxt pVal).2.2 = pCxt := by
  unfold translateValue at h ⊢
  split_ifs at h ⊢
  · cases hp : env.parseNatualDuration pVal.literal pVal.node.resType.precision <;>
      simp [hp, generateDealNodeErrMsg] at h ⊢
  · cases ht : pVal.node.resType.type <;>
      cases hp : env.taosParseTime pVal.literal pVal.node.resType.bytes
        pVal.node.resType.precision <;> simp [ht, hp, generateDealNodeErrMsg] at h ⊢

/-- C10 (amended): a value key on which `translateValue` succeeds and whose position value
(`getPositionValue`, an `int32_t`) is negative is dropped from the ORDER BY list and the loop
of `translateOrderByPosition` goes on, no error being reported. This is so for every literal
of type NULL, NCHAR, VARCHAR, VARBINARY, JSON, DECIMAL or BLOB, for every timestamp literal
that parses, and for every numeric literal whose integer value lies in `-2^31 .. -1`. Every
value key on which `translateValue` succeeds and whose position value is zero is not dropped,
whatever the type of the literal: the function returns `TSDB_CODE_PAR_WRONG_NUMBER_OF_SELECT`
(writing the diagnostic, without setting the error code of the context) and keeps the key,
translated, in front of the keys that follow; this holds in particular for a numeric literal
whose integer value is zero. A floating point literal is judged by the integer part of its
value. -/
theorem translateOrderByPosition_sanitizer (env : Env) (pProjectionList rest : List Node)
    (pCxt : STranslateContext) (other : Bool) (pVal : SValueNode) (order nullOrder : Nat) :
    ((translateValue env pCxt pVal).1 ≠ DEAL_RES_ERROR →
      getPositionValue (translateValue env pCxt pVal).2.1 < 0 →
      translateOrderByPositionLoop env pProjectionList
          (.orderByExpr (some (.value pVal)) order nullOrder :: rest) pCxt other =
        translateOrderByPositionLoop env pProjectionList rest
          (translateValue env pCxt pVal).2.2 other) ∧
    (pVal.isDuration = false →
      pVal.node.resType.type ∈ [TSDB_DATA_TYPE_NULL, TSDB_DATA_TYPE_NCHAR,
        TSDB_DATA_TYPE_VARCHAR, TSDB_DATA_TYPE_VARBINARY, TSDB_DATA_TYPE_JSON,
        TSDB_DATA_TYPE_DECIMAL, TSDB_DATA_TYPE_BLOB] ∨
      (pVal.node.resType.type = TSDB_DATA_TYPE_TIMESTAMP ∧
        (env.taosParseTime pVal.literal pVal.node.resType.bytes
          pVal.node.resType.precision).isSome = true) →
      translateOrderByPositionLoop env pProjectionList
          (.orderByExpr (some (.value pVal)) order nullOrder :: rest) pCxt other =
        translateOrderByPositionLoop env pProjectionList rest pCxt other) ∧
    (∀ v : Int, literalValue env pVal = some v → -(2 ^ 31) ≤ v → v < 0 →
      translateOrderByPositionLoop env pProjectionList
          (.orderByExpr (some (.value pVal)) order nullOrder :: rest) pCxt other =
        translateOrderByPositionLoop env pProjectionList rest pCxt other) ∧
    ((translateValue env pCxt pVal).1 ≠ DEAL_RES_ERROR →
      getPositionValue (translateValue env pCxt pVal).2.1 = 0 →
      translateOrderByPositionLoop env pProjectionList
          (.orderByExpr (some (.value pVal)) order nullOrder :: rest) pCxt other =
        (TSDB_CODE_PAR_WRONG_NUMBER_OF_SELECT,
          .orderByExpr (some (.value (translateValue env pCxt pVal).2.1)) order nullOrder ::
            rest,
          other,
          { pCxt with msgBuf := pCxt.msgBuf ++ [TSDB_CODE_PAR_WRONG_NUMBER_OF_SELECT] })) ∧
    (literalValue env pVal = some 0 →
      (translateOrderByPositionLoop env pProjectionList
          (.orderByExpr (some (.value pVal)) order nullOrder :: rest) pCxt other).1 =
        TSDB_CODE_PAR_WRONG_NUMBER_OF_SELECT ∧
      (translateOrderByPositionLoop env pProjectionList
          (.orderByExpr (some (.value pVal)) order nullOrder :: rest) pCxt other).2.1.length =
        rest.length + 1 ∧
      (translateOrderByPositionLoop env pProjectionList
          (.orderByExpr (some (.value pVal)) order nullOrder :: rest) pCxt other).2.2.2.errCode =
        pCxt.errCode) ∧
    (pVal.isDuration = false →
      pVal.node.resType.type = TSDB_DATA_TYPE_FLOAT ∨
        pVal.node.resType.type = TSDB_DATA_TYPE_DOUBLE →
      getPositionValue (translateValue env pCxt pVal).2.1 =
        toInt32 (env.strtold pVal.literal).intPart) := by
  refine ⟨?_, ?_, ?_, ?_, ?_, ?_⟩
  · intro hres hneg
    rw [translateOrderByPositionLoop.eq_2]
    simp [hres, hneg]
  · intro hd ht
    rw [translateOrderByPositionLoop.eq_2]
    rcases ht with ht | ⟨ht, hp⟩
    · simp only [List.mem_cons, List.mem_singleton, List.not_mem_nil, or_false] at ht
      rcases ht with ht | ht | ht | ht | ht | ht | ht <;>
        simp [translateValue, hd, ht, getPositionValue]
    · cases hpt : env.taosParseTime pVal.literal pVal.node.resType.bytes
          pVal.node.resType.precision with
      | none => rw [hpt] at hp; simp at hp
      | some i => simp [translateValue, hd, ht, hpt, getPositionValue]
  · intro v hval hlo hneg
    obtain ⟨hres, hcxt, hpos⟩ := translateValue_literalValue env pCxt pVal v hval
    rw [toInt32_of_range v hlo (by omega)] at hpos
    rw [translateOrderByPositionLoop.eq_2]
    simp [hres, hcxt, hpos, hneg]
  · intro hres hzero
    rw [translateOrderByPositionLoop.eq_2]
    simp [hres, hzero, generateSyntaxErrMsg, translateValue_success_cxt env pCxt pVal hres]
  · intro hval
    obtain ⟨hres, hcxt, hpos⟩ := translateValue_literalValue env pCxt pVal 0 hval
    rw [toInt32_of_range 0 (by norm_num) (by norm_num)] at hpos
    rw [translateOrderByPositionLoop.eq_2]
    simp [hres, hcxt, hpos, generateSyntaxErrMsg]
  · intro hd ht
    rcases ht with ht | ht <;> simp [translateValue, hd, ht, getPositionValue]

/-- C10 (counterexample): the key `ORDER BY 0`, a numeric literal whose value is zero, is not
dropped: `translateOrderByPosition` reports `TSDB_CODE_PAR_WRONG_NUMBER_OF_SELECT` and the
key is still in the list. -/
theorem translateOrderByPosition_zero_counterexample :
    literalValue demoEnv { node := { resType := { type := TSDB_DATA_TYPE_BIGINT, bytes := 8 } },
                           literal := "0" } = some 0 ∧
    (translateOrderByPosition demoEnv demoCxtOrderBy (some (currProjectionList demoCxtOrderBy))
        (some [demoPositionKey "0"])).1 = TSDB_CODE_PAR_WRONG_NUMBER_OF_SELECT ∧
    ((translateOrderByPosition demoEnv demoCxtOrderBy (some (currProjectionList demoCxtOrderBy))
        (some [demoPositionKey "0"])).2.1.map List.length) = some 1 := by
  decide

theorem Node.sizeOf_children (n c : Node) (h : c ∈ n.children) : sizeOf c < sizeOf n := by
  cases n <;> simp only [Node.children, List.mem_append, Option.mem_toList, Option.mem_def,
    List.not_mem_nil] at h
  case operator e op l r =>
    rcases h with h | h <;> subst h <;> simp <;> omega
  case function e name id ty ps =>
    have := List.sizeOf_lt_of_mem h
    simp; omega
  case logicCondition e ct ps =>
    have := List.sizeOf_lt_of_mem h
    simp; omega
  case joinTable t jt l r oc =>
    rcases h with (h | h) | h <;> subst h <;> simp <;> omega
  case groupingSet g ps =>
    have := List.sizeOf_lt_of_mem h
    simp; omega
  case orderByExpr e o no =>
    subst h; simp; omega
  case intervalWindow col i o s f =>
    rcases h with (((h | h) | h) | h) | h <;> subst h <;> simp <;> omega

theorem Node.induction_children_aux (P : Node → Prop)
    (h : ∀ n, (∀ c ∈ n.children, P c) → P n) : ∀ k n, sizeOf n < k → P n := by
  intro k
  induction k with
  | zero => intro n hn; omega
  | succ k ih =>
    intro n hn
    apply h
    intro c hc
    have := Node.sizeOf_children n c hc
    exact ih c (by omega)

/-- Induction over a node by its children. -/
theorem Node.induction_children (P : Node → Prop)
    (h : ∀ n, (∀ c ∈ n.children, P c) → P n) : ∀ n, P n :=
  fun n => Node.induction_children_aux P h (sizeOf n + 1) n (by omega)

theorem nodesWalkList_nil {σ : Type} (w : Node → σ → EDealRes × σ) (s : σ) :
    nodesWalkList w [] s = (DEAL_RES_CONTINUE, s) := by
  rw [nodesWalkList]

theorem nodesWalkList_cons {σ : Type} (w : Node → σ → EDealRes × σ) (n : Node)
    (rest : List Node) (s : σ) :
    nodesWalkList w (n :: rest) s =
      if (nodesWalkNode w n s).1 = DEAL_RES_ERROR then nodesWalkNode w n s
      else nodesWalkList w rest (nodesWalkNode w n s).2 := by
  rw [nodesWalkList]

theorem nodesWalkOpt_eq_list {σ : Type} (w : Node → σ → EDealRes × σ) (o : Option Node)
    (rest : List Node) (s : σ) :
    nodesWalkList w (o.toList ++ rest) s =
      if (nodesWalkOpt w o s).1 = DEAL_RES_ERROR then nodesWalkOpt w o s
      else nodesWalkList w rest (nodesWalkOpt w o s).2 := by
  cases o with
  | none => simp [nodesWalkOpt]
  | some n => simp [nodesWalkOpt, nodesWalkList_cons]

theorem nodesWalkOpt_toList {σ : Type} (w : Node → σ → EDealRes × σ) (o : Option Node)
    (s : σ) :
    (nodesWalkList w o.toList s).2 = (nodesWalkOpt w o s).2 ∧
    ((nodesWalkList w o.toList s).1 = DEAL_RES_ERROR ↔
      (nodesWalkOpt w o s).1 = DEAL_RES_ERROR) := by
  have h := nodesWalkOpt_eq_list w o [] s
  simp only [List.append_nil, nodesWalkList_nil] at h
  rw [h]
  by_cases he : (nodesWalkOpt w o s).1 = DEAL_RES_ERROR <;> simp [he]

/-- A walk from a node is the callback on the node followed, when it answers
`DEAL_RES_CONTINUE`, by the walk of the children. -/
theorem nodesWalkNode_children {σ : Type} (w : Node → σ → EDealRes × σ) (n : Node) (s : σ) :
    (nodesWalkNode w n s).2 =
      (if (w n s).1 = DEAL_RES_CONTINUE then (nodesWalkList w n.children (w n s).2).2
       else (w n s).2) ∧
    ((nodesWalkNode w n s).1 = DEAL_RES_ERROR ↔
      (if (w n s).1 = DEAL_RES_CONTINUE then
        (nodesWalkList w n.children (w n s).2).1 = DEAL_RES_ERROR
       else (w n s).1 = DEAL_RES_ERROR)) := by
  cases n with
  | column c =>
    unfold nodesWalkNode
    by_cases hc : (w (Node.column c) s).1 = DEAL_RES_CONTINUE <;> simp [hc, Node.children, nodesWalkList_nil]
  | value v =>
    unfold nodesWalkNode
    by_cases hc : (w (Node.value v) s).1 = DEAL_RES_CONTINUE <;> simp [hc, Node.children, nodesWalkList_nil]
  | realTable t =>
    unfold nodesWalkNode
    by_cases hc : (w (Node.realTable t) s).1 = DEAL_RES_CONTINUE <;> simp [hc, Node.children, nodesWalkList_nil]
  | tempTable t q =>
    unfold nodesWalkNode
    by_cases hc : (w (Node.tempTable t q) s).1 = DEAL_RES_CONTINUE <;> simp [hc, Node.children, nodesWalkList_nil]
  | selectStmt q =>
    unfold nodesWalkNode
    by_cases hc : (w (Node.selectStmt q) s).1 = DEAL_RES_CONTINUE <;> simp [hc, Node.children, nodesWalkList_nil]
  | otherStmt k =>
    unfold nodesWalkNode
    by_cases hc : (w (Node.otherStmt k) s).1 = DEAL_RES_CONTINUE <;> simp [hc, Node.children, nodesWalkList_nil]
  | function e name id ty ps =>
    rw [nodesWalkNode]
    by_cases hc : (w (Node.function e name id ty ps) s).1 = DEAL_RES_CONTINUE <;> simp [hc, Node.children]
  | logicCondition e ct ps =>
    rw [nodesWalkNode]
    by_cases hc : (w (Node.logicCondition e ct ps) s).1 = DEAL_RES_CONTINUE <;> simp [hc, Node.children]
  | groupingSet g ps =>
    rw [nodesWalkNode]
    by_cases hc : (w (Node.groupingSet g ps) s).1 = DEAL_RES_CONTINUE <;> simp [hc, Node.children]
  | operator e op l r =>
    rw [nodesWalkNode]
    by_cases hc : (w (Node.operator e op l r) s).1 = DEAL_RES_CONTINUE
    · simp only [hc, ne_eq, not_true_eq_false, if_false, if_true, Node.children]
      rw [nodesWalkOpt_eq_list]
      have h2 := nodesWalkOpt_toList w r (nodesWalkOpt w l (w (Node.operator e op l r) s).2).2
      by_cases he : (nodesWalkOpt w l (w (Node.operator e op l r) s).2).1 = DEAL_RES_ERROR
      · simp [he]
      · simp [he, h2]
    · simp [hc]
  | joinTable t jt l r oc =>
    rw [nodesWalkNode]
    by_cases hc : (w (Node.joinTable t jt l r oc) s).1 = DEAL_RES_CONTINUE
    · simp only [hc, ne_eq, not_true_eq_false, if_false, if_true, Node.children]
      rw [List.append_assoc, nodesWalkOpt_eq_list, nodesWalkOpt_eq_list]
      by_cases he : (nodesWalkOpt w l (w (Node.joinTable t jt l r oc) s).2).1 = DEAL_RES_ERROR
      · simp [he]
      · by_cases he2 : (nodesWalkOpt w r
            (nodesWalkOpt w l (w (Node.joinTable t jt l r oc) s).2).2).1 = DEAL_RES_ERROR
        · simp [he, he2]
        · have h3 := nodesWalkOpt_toList w oc (nodesWalkOpt w r
            (nodesWalkOpt w l (w (Node.joinTable t jt l r oc) s).2).2).2
          simp [he, he2, h3]
    · simp [hc]
  | orderByExpr e o no =>
    rw [nodesWalkNode]
    by_cases hc : (w (Node.orderByExpr e o no) s).1 = DEAL_RES_CONTINUE
    · simp only [hc, ne_eq, not_true_eq_false, if_false, if_true, Node.children]
      exact ⟨(nodesWalkOpt_toList w e _).1.symm, (nodesWalkOpt_toList w e _).2.symm⟩
    · simp [hc]
  | intervalWindow col i o sl f =>
    rw [nodesWalkNode]
    by_cases hc : (w (Node.intervalWindow col i o sl f) s).1 = DEAL_RES_CONTINUE
    · simp only [hc, ne_eq, not_true_eq_false, if_false, if_true, Node.children]
      rw [List.append_assoc, List.append_assoc, List.append_assoc, nodesWalkOpt_eq_list,
        nodesWalkOpt_eq_list, nodesWalkOpt_eq_list, nodesWalkOpt_eq_list]
      generalize (w (Node.intervalWindow col i o sl f) s).2 = s0
      by_cases h1 : (nodesWalkOpt w i s0).1 = DEAL_RES_ERROR
      · simp [h1]
      · by_cases h2 : (nodesWalkOpt w o (nodesWalkOpt w i s0).2).1 = DEAL_RES_ERROR
        · simp [h1, h2]
        · by_cases h3 : (nodesWalkOpt w sl
              (nodesWalkOpt w o (nodesWalkOpt w i s0).2).2).1 = DEAL_RES_ERROR
          · simp [h1, h2, h3]
          · by_cases h4 : (nodesWalkOpt w f (nodesWalkOpt w sl
                (nodesWalkOpt w o (nodesWalkOpt w i s0).2).2).2).1 = DEAL_RES_ERROR
            · simp [h1, h2, h3, h4]
            · have h5 := nodesWalkOpt_toList w col (nodesWalkOpt w f (nodesWalkOpt w sl
                (nodesWalkOpt w o (nodesWalkOpt w i s0).2).2).2).2
              simp [h1, h2, h3, h4, h5]
    · simp [hc]

theorem hasAggCall_iff (env : Env) (n : Node) :
    HasAggCall env n ↔ isAggFuncNode env n = true ∨ ∃ c ∈ n.children, HasAggCall env c := by
  constructor
  · intro h
    cases h with
    | here _ h => exact Or.inl h
    | child _ c hc h => exact Or.inr ⟨c, hc, h⟩
  · rintro (h | ⟨c, hc, h⟩)
    · exact HasAggCall.here n h
    · exact HasAggCall.child n c hc h

theorem hasBareColumn_iff (env : Env) (n : Node) :
    HasBareColumn env n ↔ isColumnNode n = true ∨
      (isAggFuncNode env n = false ∧ ∃ c ∈ n.children, HasBareColumn env c) := by
  constructor
  · intro h
    cases h with
    | here _ h => exact Or.inl h
    | child _ c ha hc h => exact Or.inr ⟨ha, c, hc, h⟩
  · rintro (h | ⟨ha, c, hc, h⟩)
    · exact HasBareColumn.here n h
    · exact HasBareColumn.child n c ha hc h

theorem coexist_walkList (env : Env) (l : List Node) (h : ∀ c ∈ l, CoexistWalkSpec env c)
    (s : CheckAggColCoexistCxt) :
    (nodesWalkList (doCheckAggColCoexist env) l s).1 ≠ DEAL_RES_ERROR ∧
    ((nodesWalkList (doCheckAggColCoexist env) l s).2.existAggFunc = true ↔
      s.existAggFunc = true ∨ ∃ c ∈ l, HasAggCall env c) ∧
    ((nodesWalkList (doCheckAggColCoexist env) l s).2.existCol = true ↔
      s.existCol = true ∨ ∃ c ∈ l, HasBareColumn env c) := by
  induction l generalizing s with
  | nil => simp [nodesWalkList_nil]
  | cons n rest ih =>
    obtain ⟨h1, h2, h3⟩ := h n (List.mem_cons_self _ _) s
    obtain ⟨i1, i2, i3⟩ := ih (fun c hc => h c (List.mem_cons_of_mem _ hc))
      (nodesWalkNode (doCheckAggColCoexist env) n s).2
    rw [nodesWalkList_cons]
    simp only [h1, if_false]
    refine ⟨i1, ?_, ?_⟩
    · rw [i2, h2]; simp only [List.mem_cons, exists_eq_or_imp, or_assoc]
    · rw [i3, h3]; simp only [List.mem_cons, exists_eq_or_imp, or_assoc]

theorem coexist_walkNode (env : Env) : ∀ n, CoexistWalkSpec env n := by
  apply Node.induction_children
  intro n ih s
  have hW := nodesWalkNode_children (doCheckAggColCoexist env) n s
  have hA := hasAggCall_iff env n
  have hB := hasBareColumn_iff env n
  by_cases hagg : isAggFuncNode env n = true
  · have hcol : isColumnNode n = false := by
      cases n <;> simp_all [isAggFuncNode, isColumnNode]
    have hw : doCheckAggColCoexist env n s =
        (DEAL_RES_IGNORE_CHILD, { s with existAggFunc := true }) := by
      simp [doCheckAggColCoexist, hagg]
    rw [hw] at hW
    simp only [reduceCtorEq, if_false] at hW
    refine ⟨fun he => by simpa using hW.2.mp he, ?_, ?_⟩
    · rw [hW.1]; simp [hA, hagg]
    · rw [hW.1, hB]; simp [hagg, hcol]
  · simp only [Bool.not_eq_true] at hagg
    by_cases hcol : isColumnNode n = true
    · have hch : n.children = [] := by
        cases n <;> simp_all [isColumnNode, Node.children]
      have hw : doCheckAggColCoexist env n s =
          (DEAL_RES_CONTINUE, { s with existCol := true }) := by
        simp [doCheckAggColCoexist, hagg, hcol]
      rw [hw] at hW
      simp only [if_true, hch, nodesWalkList_nil] at hW
      refine ⟨fun he => by simpa using hW.2.mp he, ?_, ?_⟩
      · rw [hW.1, hA]; simp [hagg, hch]
      · rw [hW.1, hB]; simp [hcol]
    · simp only [Bool.not_eq_true] at hcol
      have hw : doCheckAggColCoexist env n s = (DEAL_RES_CONTINUE, s) := by
        simp [doCheckAggColCoexist, hagg, hcol]
      rw [hw] at hW
      simp only [if_true] at hW
      obtain ⟨l1, l2, l3⟩ := coexist_walkList env n.children ih s
      refine ⟨fun he => l1 (hW.2.mp he), ?_, ?_⟩
      · rw [hW.1, l2, hA]; simp [hagg]
      · rw [hW.1, l3, hB]; simp [hagg, hcol]

theorem checkAggColCoexist_demo :
    (checkAggColCoexist demoEnv demoCxt demoSelectAggCol).1 =
      TSDB_CODE_PAR_NOT_SINGLE_GROUP ∧
    (translateQueryDepth demoCatalogEnv 0 demoInitCxt parsedSelectAggCol).1 =
      TSDB_CODE_PAR_NOT_SINGLE_GROUP := by
  decide!

/-- C3: `checkAggColCoexist` fails with `TSDB_CODE_PAR_NOT_SINGLE_GROUP` if and only if the
select has no GROUP BY list and its projection list together with its ORDER BY list (skipped
for a DISTINCT select) contains both a call of an aggregate function and a bare column, that
is a column node not inside an aggregate call; in every other case it returns success and
leaves the context as it is. In particular `SELECT a, count(*) FROM t` is rejected, by the
check on its translated projections and so by the translation of the statement. -/
theorem checkAggColCoexist_spec (env : Env) (pCxt : STranslateContext) (pSelect : SSelectStmt) :
    ((checkAggColCoexist env pCxt pSelect).1 = TSDB_CODE_PAR_NOT_SINGLE_GROUP ↔
      pSelect.pGroupByList = none ∧
      (∃ n ∈ coexistExprs pSelect, HasAggCall env n) ∧
      (∃ n ∈ coexistExprs pSelect, HasBareColumn env n)) ∧
    ((checkAggColCoexist env pCxt pSelect).1 ≠ TSDB_CODE_PAR_NOT_SINGLE_GROUP →
      checkAggColCoexist env pCxt pSelect = (TSDB_CODE_SUCCESS, pCxt)) ∧
    ((checkAggColCoexist demoEnv demoCxt demoSelectAggCol).1 =
        TSDB_CODE_PAR_NOT_SINGLE_GROUP ∧
      (translateQueryDepth demoCatalogEnv 0 demoInitCxt parsedSelectAggCol).1 =
        TSDB_CODE_PAR_NOT_SINGLE_GROUP) := by
  refine And.intro ?_ (And.intro ?_ checkAggColCoexist_demo)
  · unfold checkAggColCoexist
    cases hg : pSelect.pGroupByList with
    | some g => simp
    | none =>
      obtain ⟨_, a2, a3⟩ := coexist_walkList env (pSelect.pProjectionList.getD [])
        (fun c _ => coexist_walkNode env c) {}
      cases hd : pSelect.isDistinct with
      | true =>
        simp only [Option.isSome_none, Bool.false_eq_true, if_false, Bool.not_true,
          coexistExprs, hd, if_true, List.append_nil]
        split
        · rename_i hb
          simp only [Bool.and_eq_true] at hb
          rw [a2, a3] at hb
          simpa [generateSyntaxErrMsg] using hb
        · rename_i hb
          simp only [Bool.and_eq_true] at hb
          rw [a2, a3] at hb
          simpa using hb
      | false =>
        obtain ⟨_, b2, b3⟩ := coexist_walkList env (pSelect.pOrderByList.getD [])
          (fun c _ => coexist_walkNode env c)
          (nodesWalkList (doCheckAggColCoexist env) (pSelect.pProjectionList.getD []) {}).2
        simp only [Option.isSome_none, Bool.false_eq_true, if_false, Bool.not_false,
          coexistExprs, hd, if_true]
        split
        · rename_i hb
          simp only [Bool.and_eq_true] at hb
          rw [b2, b3, a2, a3] at hb
          simp only [generateSyntaxErrMsg, true_and, true_iff, List.mem_append] at hb ⊢
          obtain ⟨h1, h2⟩ := hb
          constructor
          · rcases h1 with (h1 | ⟨c, hc, h⟩) | ⟨c, hc, h⟩
            · simp at h1
            · exact ⟨c, Or.inl hc, h⟩
            · exact ⟨c, Or.inr hc, h⟩
          · rcases h2 with (h2 | ⟨c, hc, h⟩) | ⟨c, hc, h⟩
            · simp at h2
            · exact ⟨c, Or.inl hc, h⟩
            · exact ⟨c, Or.inr hc, h⟩
        · rename_i hb
          simp only [Bool.and_eq_true] at hb
          rw [b2, b3, a2, a3] at hb
          simp only [reduceCtorEq, false_iff, true_and, List.mem_append]
          rintro ⟨⟨c, hc, h⟩, ⟨c2, hc2, h2⟩⟩
          apply hb
          constructor
          · rcases hc with hc | hc
            · exact Or.inl (Or.inr ⟨c, hc, h⟩)
            · exact Or.inr ⟨c, hc, h⟩
          · rcases hc2 with hc2 | hc2
            · exact Or.inl (Or.inr ⟨c2, hc2, h2⟩)
            · exact Or.inr ⟨c2, hc2, h2⟩
  · intro hne
    unfold checkAggColCoexist at hne ⊢
    dsimp only at hne ⊢
    split_ifs at hne ⊢ <;> first | rfl | (simp [generateSyntaxErrMsg] at hne)

theorem hasUngroupedColumn_iff (env : Env) (keys : List Node) (n : Node) :
    HasUngroupedColumn env keys n ↔
      matchesGroupByKey env keys n = false ∧
      ((isColumnNode n = true ∧ isAliasColumnNode n = false) ∨
       (isAggFuncNode env n = false ∧ ∃ c ∈ n.children, HasUngroupedColumn env keys c)) := by
  constructor
  · intro h
    cases h with
    | column c ha hm =>
      exact ⟨hm, Or.inl ⟨rfl, by simpa [isAliasColumnNode, isAliasColumn] using ha⟩⟩
    | child _ c hm ha hc h => exact ⟨hm, Or.inr ⟨ha, c, hc, h⟩⟩
  · rintro ⟨hm, (⟨hcol, hal⟩ | ⟨ha, c, hc, h⟩)⟩
    · cases n <;> simp [isColumnNode] at hcol
      case column c =>
        exact HasUngroupedColumn.column c
          (by simpa [isAliasColumnNode, isAliasColumn] using hal) hm
    · exact HasUngroupedColumn.child n c hm ha hc h

theorem groupBy_walkList (env : Env) (keys : List Node) (pCxt : STranslateContext)
    (l : List Node) (h : ∀ c ∈ l, GroupByWalkSpec env keys pCxt c) :
    ((∃ c ∈ l, HasUngroupedColumn env keys c) →
      (nodesWalkList (doCheckExprForGroupBy env) l pCxt).1 = DEAL_RES_ERROR ∧
      (nodesWalkList (doCheckExprForGroupBy env) l pCxt).2 =
        (generateDealNodeErrMsg pCxt TSDB_CODE_PAR_GROUPBY_LACK_EXPRESSION).2) ∧
    ((∀ c ∈ l, ¬ HasUngroupedColumn env keys c) →
      (nodesWalkList (doCheckExprForGroupBy env) l pCxt).1 ≠ DEAL_RES_ERROR ∧
      (nodesWalkList (doCheckExprForGroupBy env) l pCxt).2 = pCxt) := by
  induction l with
  | nil => simp [nodesWalkList_nil]
  | cons n rest ih =>
    have hn := h n (List.mem_cons_self _ _)
    have ihr := ih (fun c hc => h c (List.mem_cons_of_mem _ hc))
    rw [nodesWalkList_cons]
    by_cases hex : HasUngroupedColumn env keys n
    · obtain ⟨h1, h2⟩ := hn.1 hex
      rw [if_pos h1]
      exact ⟨fun _ => ⟨h1, h2⟩, fun hall => absurd hex (hall n (List.mem_cons_self _ _))⟩
    · obtain ⟨h1, h2⟩ := hn.2 hex
      rw [if_neg h1, h2]
      constructor
      · rintro ⟨c, hc, hcx⟩
        rcases List.mem_cons.mp hc with rfl | hc
        · exact absurd hcx hex
        · exact ihr.1 ⟨c, hc, hcx⟩
      · intro hall
        exact ihr.2 (fun c hc => hall c (List.mem_cons_of_mem _ hc))

theorem groupBy_walkNode (env : Env) (keys : List Node) (pCxt : STranslateContext)
    (hcol : ∀ c, env.nodesIsExprNode (.column c) = true)
    (hfun : ∀ e name id ty ps, env.nodesIsExprNode (.function e name id ty ps) = true)
    (hkeys : getGroupByList pCxt = some keys) (hmode : isDistinctOrderBy pCxt = false) :
    ∀ n, GroupByWalkSpec env keys pCxt n := by
  apply Node.induction_children
  intro n ih
  have hW := nodesWalkNode_children (doCheckExprForGroupBy env) n pCxt
  have hL := groupBy_walkList env keys pCxt n.children ih
  have hI := hasUngroupedColumn_iff env keys n
  have hcode : getGroupByErrorCode pCxt = TSDB_CODE_PAR_GROUPBY_LACK_EXPRESSION := by
    simp [getGroupByErrorCode, hmode]
  have hmatch : matchesGroupByKey env keys n =
      (env.nodesIsExprNode n && ((getGroupByList pCxt).getD []).any
        (fun pGroupNode => env.nodesEqualNode (getGroupByNode pGroupNode) (some n))) := by
    simp [matchesGroupByKey, hkeys]
  have hcolE : isColumnNode n = true → env.nodesIsExprNode n = true := by
    cases n <;> simp [isColumnNode]
    exact hcol _
  have haggE : isAggFuncNode env n = true → env.nodesIsExprNode n = true := by
    cases n <;> simp [isAggFuncNode]
    intro _; exact hfun _ _ _ _ _
  have halC : isAliasColumnNode n = true → isColumnNode n = true ∧ n.children = [] ∧
      isAggFuncNode env n = false := by
    cases n <;> simp [isAliasColumnNode, isColumnNode, Node.children, isAggFuncNode]
  have hcolC : isColumnNode n = true → n.children = [] ∧ isAggFuncNode env n = false := by
    cases n <;> simp [isColumnNode, Node.children, isAggFuncNode]
  -- the answer of the callback, by cases
  by_cases hE : env.nodesIsExprNode n = true
  · by_cases hal : isAliasColumnNode n = true
    · obtain ⟨hc1, hc2, hc3⟩ := halC hal
      have hw : doCheckExprForGroupBy env n pCxt = (DEAL_RES_CONTINUE, pCxt) := by
        simp [doCheckExprForGroupBy, hal]
      rw [hw] at hW
      simp only [if_true, hc2, nodesWalkList_nil] at hW
      have hnot : ¬ HasUngroupedColumn env keys n := by
        rw [hI]; simp [hal, hc2]
      exact ⟨fun hx => absurd hx hnot, fun _ => ⟨fun he => by simpa using hW.2.mp he, hW.1⟩⟩
    · simp only [Bool.not_eq_true] at hal
      by_cases hag : isAggFuncNode env n = true
      · have hw : doCheckExprForGroupBy env n pCxt = (DEAL_RES_IGNORE_CHILD, pCxt) := by
          simp [doCheckExprForGroupBy, hE, hal, hag, hmode]
        rw [hw] at hW
        simp only [reduceCtorEq, if_false] at hW
        have hncol : isColumnNode n = false := by
          cases n <;> simp_all [isAggFuncNode, isColumnNode]
        have hnot : ¬ HasUngroupedColumn env keys n := by
          rw [hI]; simp [hag, hncol]
        exact ⟨fun hx => absurd hx hnot, fun _ => ⟨fun he => by simpa using hW.2.mp he, hW.1⟩⟩
      · simp only [Bool.not_eq_true] at hag
        by_cases hm : matchesGroupByKey env keys n = true
        · have hm2 := hm
          rw [hmatch, hE, Bool.true_and] at hm2
          have hw : doCheckExprForGroupBy env n pCxt = (DEAL_RES_IGNORE_CHILD, pCxt) := by
            simp only [doCheckExprForGroupBy, hE, hal, hag, hm2]
            simp
          rw [hw] at hW
          simp only [reduceCtorEq, if_false] at hW
          have hnot : ¬ HasUngroupedColumn env keys n := by
            rw [hI]; simp [hm]
          exact ⟨fun hx => absurd hx hnot,
            fun _ => ⟨fun he => by simpa using hW.2.mp he, hW.1⟩⟩
        · simp only [Bool.not_eq_true] at hm
          have hm2 := hm
          rw [hmatch, hE, Bool.true_and] at hm2
          by_cases hc : isColumnNode n = true
          · have hw : doCheckExprForGroupBy env n pCxt =
                generateDealNodeErrMsg pCxt TSDB_CODE_PAR_GROUPBY_LACK_EXPRESSION := by
              simp only [doCheckExprForGroupBy, hE, hal, hag, hm2, hc, hcode]
              simp
            rw [hw] at hW
            have hyes : HasUngroupedColumn env keys n := by
              rw [hI]; exact ⟨hm, Or.inl ⟨hc, hal⟩⟩
            simp only [generateDealNodeErrMsg, reduceCtorEq, if_false] at hW
            exact ⟨fun _ => ⟨by simpa using hW.2, by simpa [generateDealNodeErrMsg] using hW.1⟩,
              fun hx => absurd hyes hx⟩
          · simp only [Bool.not_eq_true] at hc
            have hw : doCheckExprForGroupBy env n pCxt = (DEAL_RES_CONTINUE, pCxt) := by
              simp only [doCheckExprForGroupBy, hE, hal, hag, hm2, hc]
              simp
            rw [hw] at hW
            simp only [if_true] at hW
            have hiff : HasUngroupedColumn env keys n ↔
                ∃ c ∈ n.children, HasUngroupedColumn env keys c := by
              rw [hI]; simp [hm, hc, hag]
            constructor
            · intro hx
              obtain ⟨a, b⟩ := hL.1 (hiff.mp hx)
              exact ⟨hW.2.mpr a, by rw [hW.1, b]⟩
            · intro hx
              have hall : ∀ c ∈ n.children, ¬ HasUngroupedColumn env keys c :=
                fun c hc hcx => hx (hiff.mpr ⟨c, hc, hcx⟩)
              obtain ⟨a, b⟩ := hL.2 hall
              exact ⟨fun he => a (hW.2.mp he), by rw [hW.1, b]⟩
  · simp only [Bool.not_eq_true] at hE
    have hc : isColumnNode n = false := by
      cases hc : isColumnNode n with
      | false => rfl
      | true => rw [hcolE hc] at hE; exact absurd hE (by simp)
    have hag : isAggFuncNode env n = false := by
      cases hag : isAggFuncNode env n with
      | false => rfl
      | true => rw [haggE hag] at hE; exact absurd hE (by simp)
    have hm : matchesGroupByKey env keys n = false := by
      simp [matchesGroupByKey, hE]
    have hw : doCheckExprForGroupBy env n pCxt = (DEAL_RES_CONTINUE, pCxt) := by
      simp [doCheckExprForGroupBy, hE]
    rw [hw] at hW
    simp only [if_true] at hW
    have hiff : HasUngroupedColumn env keys n ↔
        ∃ c ∈ n.children, HasUngroupedColumn env keys c := by
      rw [hI]; simp [hm, hc, hag]
    constructor
    · intro hx
      obtain ⟨a, b⟩ := hL.1 (hiff.mp hx)
      exact ⟨hW.2.mpr a, by rw [hW.1, b]⟩
    · intro hx
      have hall : ∀ c ∈ n.children, ¬ HasUngroupedColumn env keys c :=
        fun c hc hcx => hx (hiff.mpr ⟨c, hc, hcx⟩)
      obtain ⟨a, b⟩ := hL.2 hall
      exact ⟨fun he => a (hW.2.mp he), by rw [hW.1, b]⟩

/-- C2: in a select with a GROUP BY list `keys`, outside the DISTINCT-order-by mode and with
no error recorded in the context, `checkExprForGroupBy` and `checkExprListForGroupBy` succeed
if and only if no column that carries a table alias is left ungrouped, that is every such
column of the expression lies inside a subtree equal to some GROUP BY key (a grouping set
standing for its first parameter) or inside a call of an aggregate function; otherwise they
fail with `TSDB_CODE_PAR_GROUPBY_LACK_EXPRESSION`. A column without table alias is never
ungrouped. Column and function nodes are expression nodes for `nodesIsExprNode`. -/
theorem checkExprForGroupBy_closure (env : Env) (pCxt : STranslateContext)
    (pSelect : SSelectStmt) (keys : List Node)
    (hcol : ∀ c, env.nodesIsExprNode (.column c) = true)
    (hfun : ∀ e name id ty ps, env.nodesIsExprNode (.function e name id ty ps) = true)
    (hstmt : pCxt.pCurrStmt = some pSelect) (hkeys : pSelect.pGroupByList = some keys)
    (hmode : isDistinctOrderBy pCxt = false) (herr : pCxt.errCode = TSDB_CODE_SUCCESS) :
    (∀ E : Node,
      ((checkExprForGroupBy env pCxt (some E)).1 = TSDB_CODE_SUCCESS ↔
        ¬ HasUngroupedColumn env keys E) ∧
      (HasUngroupedColumn env keys E →
        (checkExprForGroupBy env pCxt (some E)).1 = TSDB_CODE_PAR_GROUPBY_LACK_EXPRESSION)) ∧
    (∀ l : List Node,
      ((checkExprListForGroupBy env pCxt (some l)).1 = TSDB_CODE_SUCCESS ↔
        ∀ E ∈ l, ¬ HasUngroupedColumn env keys E) ∧
      ((∃ E ∈ l, HasUngroupedColumn env keys E) →
        (checkExprListForGroupBy env pCxt (some l)).1 =
          TSDB_CODE_PAR_GROUPBY_LACK_EXPRESSION)) ∧
    (∀ c : SColumnNode, c.tableAlias = "" → ¬ HasUngroupedColumn env keys (.column c)) := by
  have hgl : getGroupByList pCxt = some keys := by
    simp [getGroupByList, hmode, hstmt, hkeys]
  have hnode := groupBy_walkNode env keys pCxt hcol hfun hgl hmode
  refine ⟨?_, ?_, ?_⟩
  · intro E
    have hE := hnode E
    simp only [checkExprForGroupBy, nodesWalkOpt]
    by_cases hx : HasUngroupedColumn env keys E
    · obtain ⟨_, b⟩ := hE.1 hx
      rw [b]
      simp [generateDealNodeErrMsg, hx]
    · obtain ⟨_, b⟩ := hE.2 hx
      rw [b, herr]
      simp [hx]
  · intro l
    have hl := groupBy_walkList env keys pCxt l (fun c _ => hnode c)
    simp only [checkExprListForGroupBy, hgl, Option.isNone_some, Bool.false_eq_true, if_false,
      Option.getD_some]
    by_cases hx : ∃ E ∈ l, HasUngroupedColumn env keys E
    · obtain ⟨_, b⟩ := hl.1 hx
      rw [b]
      simp only [generateDealNodeErrMsg, reduceCtorEq, false_iff, not_forall, not_not]
      obtain ⟨E, hE, hEx⟩ := hx
      exact ⟨⟨E, hE, hEx⟩, fun _ => trivial⟩
    · have hall : ∀ E ∈ l, ¬ HasUngroupedColumn env keys E :=
        fun E hE hEx => hx ⟨E, hE, hEx⟩
      obtain ⟨_, b⟩ := hl.2 hall
      rw [b, herr]
      exact ⟨⟨fun _ => hall, fun _ => rfl⟩, fun h => absurd h hx⟩
  · intro c hc hx
    rw [hasUngroupedColumn_iff] at hx
    simp [isColumnNode, isAliasColumnNode, isAliasColumn, hc, Node.children] at hx

/-- Witness of C2: in `SELECT ... FROM t GROUP BY t.a`, the expression `t.ts` is rejected with
`TSDB_CODE_PAR_GROUPBY_LACK_EXPRESSION`, while the list `t.a, count(*)` is accepted. -/
theorem checkExprForGroupBy_closure_witness :
    (checkExprForGroupBy demoEnv demoCxtGroupBy (some demoColTs)).1 =
      TSDB_CODE_PAR_GROUPBY_LACK_EXPRESSION ∧
    ((checkExprListForGroupBy demoEnv demoCxtGroupBy (some [demoColA, demoCountStar])).1 =
        TSDB_CODE_SUCCESS ↔
      ∀ E ∈ [demoColA, demoCountStar], ¬ HasUngroupedColumn demoEnv [demoColA] E) ∧
    (checkExprListForGroupBy demoEnv demoCxtGroupBy (some [demoColA, demoCountStar])).1 =
        TSDB_CODE_SUCCESS :=
  ⟨((checkExprForGroupBy_closure demoEnv demoCxtGroupBy _ [demoColA]
      (fun _ => rfl) (fun _ _ _ _ _ => rfl) rfl rfl (by decide) rfl).1 demoColTs).2
      (HasUngroupedColumn.column _ (by decide) (by decide)),
    ((checkExprForGroupBy_closure demoEnv demoCxtGroupBy _ [demoColA]
      (fun _ => rfl) (fun _ _ _ _ _ => rfl) rfl rfl (by decide) rfl).2.1
      [demoColA, demoCountStar]).1,
    by decide!⟩

theorem runInOrder_cons (f : SelectStep) (rest : List SelectStep) (s : SelectState)
    (hrest : rest ≠ []) :
    runInOrder (f :: rest) s =
      if (f s).1 = TSDB_CODE_SUCCESS then runInOrder rest (f s).2 else f s := by
  cases rest with
  | nil => exact absurd rfl hrest
  | cons g rest => rw [runInOrder]

theorem runInOrder_success (steps : List SelectStep) (s : SelectState) (h : steps ≠ []) :
    (runInOrder steps s).1 = TSDB_CODE_SUCCESS ↔ allSucceed steps s := by
  induction steps generalizing s with
  | nil => exact absurd rfl h
  | cons f rest ih =>
    cases rest with
    | nil => simp [runInOrder, allSucceed]
    | cons g rest =>
      rw [runInOrder_cons f (g :: rest) s (by simp)]
      by_cases hf : (f s).1 = TSDB_CODE_SUCCESS
      · simp only [hf, if_true]
        rw [ih (f s).2 (by simp)]
        simp [allSucceed, hf]
      · simp [hf, allSucceed]

/-- The result of a run is the result of one of its steps, the first that fails if one
fails: the steps before it returned success and the state is the one that step left. -/
theorem runInOrder_first_failure (steps : List SelectStep) (s : SelectState)
    (h : (runInOrder steps s).1 ≠ TSDB_CODE_SUCCESS) :
    ∃ (before : List SelectStep) (f : SelectStep) (after : List SelectStep) (s1 : SelectState),
      steps = before ++ f :: after ∧ allSucceed before s ∧
      (before = [] → s1 = s) ∧
      (before ≠ [] → (runInOrder before s) = (TSDB_CODE_SUCCESS, s1)) ∧
      (f s1).1 ≠ TSDB_CODE_SUCCESS ∧ runInOrder steps s = f s1 := by
  induction steps generalizing s with
  | nil => simp [runInOrder] at h
  | cons f rest ih =>
    by_cases hf : (f s).1 = TSDB_CODE_SUCCESS
    · cases rest with
      | nil => simp [runInOrder, hf] at h
      | cons g rest =>
        rw [runInOrder_cons f (g :: rest) s (by simp)] at h ⊢
        simp only [hf, if_true] at h ⊢
        obtain ⟨before, f1, after, s1, e1, e2, e3, e4, e5, e6⟩ := ih (f s).2 h
        refine ⟨f :: before, f1, after, s1, by simp [e1], ⟨hf, e2⟩, by simp, ?_, e5, e6⟩
        intro _
        cases before with
        | nil =>
          have := e3 rfl
          subst this
          simp only [runInOrder]
          exact Prod.ext hf rfl
        | cons b bs =>
          rw [runInOrder_cons f (b :: bs) s (by simp)]
          simp only [hf, if_true]
          exact e4 (by simp)
    · refine ⟨[], f, rest, s, rfl, trivial, fun _ => rfl, fun hne => absurd rfl hne, hf, ?_⟩
      cases rest with
      | nil => rfl
      | cons g rest =>
        rw [runInOrder_cons f (g :: rest) s (by simp)]
        simp [hf]

theorem foldl_guard (steps : List SelectStep) (r : Code × SelectState) (h : steps ≠ []) :
    List.foldl (fun r f => if r.1 = TSDB_CODE_SUCCESS then f r.2 else r) r steps =
      if r.1 = TSDB_CODE_SUCCESS then runInOrder steps r.2 else r := by
  induction steps generalizing r with
  | nil => exact absurd rfl h
  | cons f rest ih =>
    cases rest with
    | nil => simp [runInOrder]
    | cons g rest =>
      rw [List.foldl_cons, ih _ (by simp), runInOrder_cons f (g :: rest) _ (by simp)]
      by_cases hr : r.1 = TSDB_CODE_SUCCESS
      · simp [hr]
      · simp [hr]

/-- C1: `translateSelect` runs its steps in exactly the order FROM, WHERE, PARTITION BY,
WINDOW, GROUP BY, HAVING, SELECT list, ORDER BY, aggregate/column coexistence check: its result
is that of running these nine steps in order and stopping at the first that does not return
success. It returns success if and only if all nine steps return success; otherwise the steps
before some step all returned success, that step failed, its code is the code returned and
the state it left is the final one (no later step ran). -/
theorem translateSelect_order (env : Env) (translateQuery : QueryTranslator)
    (pCxt : STranslateContext) (pSelect : SSelectStmt) :
    translateSelect env translateQuery pCxt pSelect =
      ((runInOrder (selectSteps env translateQuery)
          ⟨setCurrStmt pCxt pSelect, pSelect⟩).1,
        (runInOrder (selectSteps env translateQuery)
          ⟨setCurrStmt pCxt pSelect, pSelect⟩).2.pSelect,
        (runInOrder (selectSteps env translateQuery)
          ⟨setCurrStmt pCxt pSelect, pSelect⟩).2.pCxt) ∧
    ((translateSelect env translateQuery pCxt pSelect).1 = TSDB_CODE_SUCCESS ↔
      allSucceed (selectSteps env translateQuery) ⟨setCurrStmt pCxt pSelect, pSelect⟩) ∧
    ((translateSelect env translateQuery pCxt pSelect).1 ≠ TSDB_CODE_SUCCESS →
      ∃ (before : List SelectStep) (f : SelectStep) (after : List SelectStep)
        (s1 : SelectState),
        selectSteps env translateQuery = before ++ f :: after ∧
        allSucceed before ⟨setCurrStmt pCxt pSelect, pSelect⟩ ∧
        (before = [] → s1 = ⟨setCurrStmt pCxt pSelect, pSelect⟩) ∧
        (before ≠ [] →
          runInOrder before ⟨setCurrStmt pCxt pSelect, pSelect⟩ = (TSDB_CODE_SUCCESS, s1)) ∧
        (f s1).1 ≠ TSDB_CODE_SUCCESS ∧
        translateSelect env translateQuery pCxt pSelect =
          ((f s1).1, (f s1).2.pSelect, (f s1).2.pCxt)) := by
  have hrun : translateSelectRun env translateQuery ⟨setCurrStmt pCxt pSelect, pSelect⟩ =
      runInOrder (selectSteps env translateQuery) ⟨setCurrStmt pCxt pSelect, pSelect⟩ := by
    have hfold : translateSelectRun env translateQuery ⟨setCurrStmt pCxt pSelect, pSelect⟩ =
        List.foldl (fun r f => if r.1 = TSDB_CODE_SUCCESS then f r.2 else r)
          (stepFrom env translateQuery ⟨setCurrStmt pCxt pSelect, pSelect⟩)
          ((selectSteps env translateQuery).tail) := rfl
    rw [hfold, foldl_guard _ _ (by simp [selectSteps])]
    rw [show selectSteps env translateQuery =
      stepFrom env translateQuery :: (selectSteps env translateQuery).tail from rfl,
      runInOrder_cons _ _ _ (by simp [selectSteps])]
    rfl
  have heq : translateSelect env translateQuery pCxt pSelect =
      ((runInOrder (selectSteps env translateQuery)
          ⟨setCurrStmt pCxt pSelect, pSelect⟩).1,
        (runInOrder (selectSteps env translateQuery)
          ⟨setCurrStmt pCxt pSelect, pSelect⟩).2.pSelect,
        (runInOrder (selectSteps env translateQuery)
          ⟨setCurrStmt pCxt pSelect, pSelect⟩).2.pCxt) := by
    simp only [translateSelect, hrun]
  refine ⟨heq, ?_, ?_⟩
  · rw [heq]
    exact runInOrder_success _ _ (by simp [selectSteps])
  · rw [heq]
    intro hne
    obtain ⟨before, f, after, s1, e1, e2, e3, e4, e5, e6⟩ :=
      runInOrder_first_failure _ _ hne
    exact ⟨before, f, after, s1, e1, e2, e3, e4, e5, by rw [e6]⟩

/-- Where `translateFunction` accepts an aggregate: for a function whose name the function
manager resolves and whose result type it derives, the call fails with
`TSDB_CODE_PAR_ILLEGAL_USE_AGG_FUNCTION` if and only if the function is an aggregate and the
current clause is FROM, WHERE, PARTITION BY, WINDOW or GROUP BY; in HAVING, SELECT and
ORDER BY an aggregate is accepted. A name the function manager does not know fails with
`TSDB_CODE_PAR_INVALID_FUNTION` in every clause. -/
theorem translateFunction_placement (env : Env) (pCxt : STranslateContext) (e : SExprNode)
    (functionName : String) (funcId funcType : Int) (pParameterList : List Node)
    (clause : ESqlClause) (hclause : pCxt.currClause = some clause) :
    (∀ id ty,
      env.fmGetFuncInfo functionName = some (id, ty) →
      (env.fmGetFuncResultType (.function e functionName id ty pParameterList)).1 =
        TSDB_CODE_SUCCESS →
      (((translateFunction env pCxt e functionName funcId funcType pParameterList).1 =
            DEAL_RES_ERROR ∧
          (translateFunction env pCxt e functionName funcId funcType
            pParameterList).2.2.errCode = TSDB_CODE_PAR_ILLEGAL_USE_AGG_FUNCTION) ↔
        (env.fmIsAggFunc id = true ∧
          clause ∈ [SQL_CLAUSE_FROM, SQL_CLAUSE_WHERE, SQL_CLAUSE_PARTITION_BY,
            SQL_CLAUSE_WINDOW, SQL_CLAUSE_GROUP_BY])) ∧
      (clause ∈ [SQL_CLAUSE_HAVING, SQL_CLAUSE_SELECT, SQL_CLAUSE_ORDER_BY] →
        (translateFunction env pCxt e functionName funcId funcType pParameterList).1 =
            DEAL_RES_CONTINUE ∧
        (translateFunction env pCxt e functionName funcId funcType pParameterList).2.2 =
            pCxt) ∧
      ((translateFunction env pCxt e functionName funcId funcType pParameterList).1 ≠
          DEAL_RES_ERROR →
        (translateFunction env pCxt e functionName funcId funcType pParameterList).2.2 =
          pCxt)) ∧
    (env.fmGetFuncInfo functionName = none →
      (translateFunction env pCxt e functionName funcId funcType pParameterList).1 =
          DEAL_RES_ERROR ∧
      (translateFunction env pCxt e functionName funcId funcType pParameterList).2.2.errCode =
          TSDB_CODE_PAR_INVALID_FUNTION) := by
  constructor
  · intro id ty hinfo hres
    cases hagg : env.fmIsAggFunc id <;> cases clause <;>
      simp [translateFunction, hinfo, hres, hagg, hclause, beforeHaving, ESqlClause.toNat,
        generateDealNodeErrMsg]
  · intro hinfo
    simp [translateFunction, hinfo, generateDealNodeErrMsg]

/-- C6 (the code at the failing input): for `SELECT a FROM t WHERE (SELECT a, count(*) FROM t)
> count(a)`, the subquery fails with `TSDB_CODE_PAR_NOT_SINGLE_GROUP`, a code that is returned
without being recorded in the context; the walk of the WHERE clause stops there, yet
`translateExpr` reports the unchanged error code of the context, success. The select is
translated with success although its WHERE clause holds the call `count(a)` of an aggregate
function, which was never visited (its function id is still 0). -/
theorem translateSelect_aggregate_in_where :
    isAggFuncName demoCatalogEnv "count" = true ∧
    (translateQueryDepth demoCatalogEnv 0 { demoInitCxt with currLevel := 1 }
      parsedSelectAggCol).1 = TSDB_CODE_PAR_NOT_SINGLE_GROUP ∧
    (translateQueryDepth demoCatalogEnv 1 demoInitCxt parsedSelectAggInWhere).1 =
      TSDB_CODE_SUCCESS ∧
    (translateQueryDepth demoCatalogEnv 1 demoInitCxt parsedSelectAggInWhere).2.2.errCode =
      TSDB_CODE_SUCCESS ∧
    ((translateQueryDepth demoCatalogEnv 1 demoInitCxt
        parsedSelectAggInWhere).2.1.whereOf.bind Node.rightOperand).bind Node.functionNameOf =
      some "count" ∧
    ((translateQueryDepth demoCatalogEnv 1 demoInitCxt
        parsedSelectAggInWhere).2.1.whereOf.bind Node.rightOperand).bind Node.funcIdOf =
      some 0 := by
  decide!

theorem createColumnsBySchema_tags (t : SRealTableNode) (pMeta : STableMeta)
    (l : List SSchema) (i nums : Nat) (hi : pMeta.tableInfo.numOfColumns ≤ i) :
    createColumnsBySchema t pMeta l i nums =
      (l.take (nums - i)).map (starSchemaColumn t pMeta COLUMN_TYPE_TAG) := by
  induction l generalizing i with
  | nil => simp [createColumnsBySchema]
  | cons s rest ih =>
    unfold createColumnsBySchema
    by_cases h : i < nums
    · rw [if_pos h, ih (i + 1) (by omega)]
      obtain ⟨k, hk⟩ : ∃ k, nums - i = k + 1 := ⟨nums - i - 1, by omega⟩
      have hk2 : nums - (i + 1) = k := by omega
      rw [hk, hk2, List.take_succ_cons, List.map_cons]
      congr 1
      simp [setColumnInfoBySchema, starSchemaColumn, hi]
    · rw [if_neg h]
      have : nums - i = 0 := by omega
      simp [this]

theorem createColumnsBySchema_columns (t : SRealTableNode) (pMeta : STableMeta)
    (l : List SSchema) (i k : Nat) (hi : i ≤ pMeta.tableInfo.numOfColumns) :
    createColumnsBySchema t pMeta l i (pMeta.tableInfo.numOfColumns + k) =
      (l.take (pMeta.tableInfo.numOfColumns - i)).map
          (starSchemaColumn t pMeta COLUMN_TYPE_COLUMN) ++
        ((l.drop (pMeta.tableInfo.numOfColumns - i)).take k).map
          (starSchemaColumn t pMeta COLUMN_TYPE_TAG) := by
  induction l generalizing i with
  | nil => simp [createColumnsBySchema]
  | cons s rest ih =>
    by_cases hlt : i < pMeta.tableInfo.numOfColumns
    · unfold createColumnsBySchema
      rw [if_pos (by omega), ih (i + 1) (by omega)]
      obtain ⟨j, hj⟩ : ∃ j, pMeta.tableInfo.numOfColumns - i = j + 1 :=
        ⟨pMeta.tableInfo.numOfColumns - i - 1, by omega⟩
      have hj2 : pMeta.tableInfo.numOfColumns - (i + 1) = j := by omega
      rw [hj, hj2, List.take_succ_cons, List.map_cons, List.drop_succ_cons, List.cons_append]
      congr 1
      simp [setColumnInfoBySchema, starSchemaColumn, hlt]
    · have hz : pMeta.tableInfo.numOfColumns - i = 0 := by omega
      rw [createColumnsBySchema_tags t pMeta (s :: rest) i _ (by omega), hz]
      have : pMeta.tableInfo.numOfColumns + k - i = k := by omega
      simp [this]

theorem createColumnsByExpr_enum (t : STableNode) (l : List Node) (i : Nat) :
    createColumnsByExpr t l i =
      (l.enumFrom i).map fun p => starProjectionColumn t p.1 p.2 := by
  induction l generalizing i with
  | nil => simp [createColumnsByExpr]
  | cons n rest ih =>
    unfold createColumnsByExpr
    rw [ih (i + 1)]
    simp [List.enumFrom_cons, setColumnInfoByExpr, starProjectionColumn]

/-- C19: for a select without projection list, `translateStar` succeeds, reports
`isSelectStar = true` and makes the projection list the concatenation, over the tables of the
current namespace level in the order of their registration, of the columns of each table;
the columns of a real table are its first `numOfColumns` schema entries in schema order as
columns, followed only for a super table by its `numOfTags` tag entries marked as tags; the
columns of a subquery table are one per projection of the subquery, in order, named by the
alias of the projection and bound to it. A select with a projection list is returned unchanged
with `isSelectStar = false`. -/
theorem translateStar_expansion (pCxt : STranslateContext) (pSelect : SSelectStmt) :
    (pSelect.pProjectionList = none →
      translateStar pCxt pSelect =
        (TSDB_CODE_SUCCESS,
          { pSelect with
            pProjectionList := some ((currTables pCxt).map createColumnNodeByTable).flatten },
          true)) ∧
    (∀ (t : SRealTableNode) (pMeta : STableMeta), t.pMeta = some pMeta →
      createColumnNodeByTable (.realTable t) = starRealTableColumns t pMeta) ∧
    (∀ (t : STableNode) (s : SSelectStmt),
      createColumnNodeByTable (.tempTable t (some (.selectStmt s))) =
        starTempTableColumns t (s.pProjectionList.getD [])) ∧
    (∀ l, pSelect.pProjectionList = some l →
      translateStar pCxt pSelect = (TSDB_CODE_SUCCESS, pSelect, false)) := by
  refine ⟨?_, ?_, ?_, ?_⟩
  · intro h
    simp [translateStar, h]
  · intro t pMeta h
    simp only [createColumnNodeByTable, h, starRealTableColumns]
    by_cases hs : pMeta.tableType = TSDB_SUPER_TABLE
    · simp only [hs, if_true]
      have := createColumnsBySchema_columns t pMeta pMeta.schema 0
        pMeta.tableInfo.numOfTags (Nat.zero_le _)
      simpa using this
    · simp only [hs, if_false]
      have := createColumnsBySchema_columns t pMeta pMeta.schema 0 0 (Nat.zero_le _)
      simpa using this
  · intro t s
    simp [createColumnNodeByTable, getProjectList, starTempTableColumns,
      createColumnsByExpr_enum]
  · intro l h
    simp [translateStar, h]

/-- C20: translating a value node a second time, in any context, succeeds again and gives
back the node the first translation produced, hence the same datum (scalar or
length-prefixed string) and the same unit; every successful translation sets `translate`;
a failing translation leaves the node as it is; so the flag of a node that is already
translated is never reset. -/
theorem translateValue_idempotent (env : Env) (c1 c2 : STranslateContext) (pVal : SValueNode) :
    ((translateValue env c1 pVal).1 = DEAL_RES_CONTINUE →
      (translateValue env c2 (translateValue env c1 pVal).2.1).1 = DEAL_RES_CONTINUE ∧
      (translateValue env c2 (translateValue env c1 pVal).2.1).2.1 =
        (translateValue env c1 pVal).2.1 ∧
      (translateValue env c2 (translateValue env c1 pVal).2.1).2.1.datum =
        (translateValue env c1 pVal).2.1.datum ∧
      (translateValue env c2 (translateValue env c1 pVal).2.1).2.1.unit =
        (translateValue env c1 pVal).2.1.unit ∧
      (translateValue env c1 pVal).2.1.translate = true) ∧
    ((translateValue env c1 pVal).1 ≠ DEAL_RES_CONTINUE →
      (translateValue env c1 pVal).1 = DEAL_RES_ERROR ∧
      (translateValue env c1 pVal).2.1 = pVal) ∧
    (pVal.translate = true → (translateValue env c1 pVal).2.1.translate = true) := by
  have key : (translateValue env c1 pVal).1 = DEAL_RES_CONTINUE →
      translateValue env c2 (translateValue env c1 pVal).2.1 =
        (DEAL_RES_CONTINUE, (translateValue env c1 pVal).2.1, c2) ∧
      (translateValue env c1 pVal).2.1.translate = true := by
    unfold translateValue
    by_cases hd : pVal.isDuration = true
    · simp only [hd, if_true]
      cases hp : env.parseNatualDuration pVal.literal pVal.node.resType.precision with
      | none => simp [generateDealNodeErrMsg]
      | some r =>
        obtain ⟨i, u⟩ := r
        simp [hd, hp]
    · simp only [hd, Bool.false_eq_true, if_false]
      cases ht : pVal.node.resType.type <;> simp only [ht] <;>
        cases hp : env.taosParseTime pVal.literal pVal.node.resType.bytes
          pVal.node.resType.precision <;> simp [hd, ht, hp, generateDealNodeErrMsg]
  refine ⟨?_, ?_, ?_⟩
  · intro h
    obtain ⟨a, b⟩ := key h
    rw [a]
    exact ⟨rfl, rfl, rfl, rfl, b⟩
  · unfold translateValue
    by_cases hd : pVal.isDuration = true
    · simp only [hd, if_true]
      cases hp : env.parseNatualDuration pVal.literal pVal.node.resType.precision with
      | none => simp [generateDealNodeErrMsg]
      | some r => simp
    · simp only [hd, Bool.false_eq_true, if_false]
      cases ht : pVal.node.resType.type <;> simp only [ht] <;>
        cases hp : env.taosParseTime pVal.literal pVal.node.resType.bytes
          pVal.node.resType.precision <;> simp [generateDealNodeErrMsg]
  · intro htr
    unfold translateValue
    by_cases hd : pVal.isDuration = true
    · simp only [hd, if_true]
      cases hp : env.parseNatualDuration pVal.literal pVal.node.resType.precision with
      | none => simpa using htr
      | some r => simp
    · simp only [hd, Bool.false_eq_true, if_false]
      cases ht : pVal.node.resType.type <;>
        cases hp : env.taosParseTime pVal.literal pVal.node.resType.bytes
          pVal.node.resType.precision <;> simp [htr]

theorem nodesWalkOptPostOrder_invariant {σ : Type} (w : Node → σ → EDealRes × Node × σ)
    (P : σ → Prop) (o : Option Node)
    (h : ∀ c ∈ o.toList, ∀ s, P s → P (nodesWalkNodePostOrder w c s).2.2)
    (s : σ) (hs : P s) :
    P (nodesWalkOptPostOrder w o s).2.2 := by
  cases o with
  | none => simpa [nodesWalkOptPostOrder] using hs
  | some n =>
    simp only [nodesWalkOptPostOrder]
    exact h n (by simp) s hs

theorem nodesWalkListPostOrder_invariant {σ : Type} (w : Node → σ → EDealRes × Node × σ)
    (P : σ → Prop) (l : List Node)
    (h : ∀ c ∈ l, ∀ s, P s → P (nodesWalkNodePostOrder w c s).2.2) (s : σ) (hs : P s) :
    P (nodesWalkListPostOrder w l s).2.2 := by
  induction l generalizing s with
  | nil => simpa [nodesWalkListPostOrder] using hs
  | cons n rest ih =>
    rw [nodesWalkListPostOrder]
    have hn := h n (List.mem_cons_self _ _) s hs
    have hr := ih (fun c hc => h c (List.mem_cons_of_mem _ hc)) _ hn
    dsimp only
    split_ifs
    · exact hn
    · exact hr

/-- A property of the state that the callback keeps is kept by the post-order walk. -/
theorem nodesWalkNodePostOrder_invariant {σ : Type} (w : Node → σ → EDealRes × Node × σ)
    (P : σ → Prop) (hw : ∀ n s, P s → P (w n s).2.2) :
    ∀ n s, P s → P (nodesWalkNodePostOrder w n s).2.2 := by
  apply Node.induction_children
  intro n ih s hs
  have hO : ∀ o : Option Node, (∀ c ∈ o.toList, c ∈ n.children) → ∀ s, P s →
      P (nodesWalkOptPostOrder w o s).2.2 :=
    fun o ho s hs => nodesWalkOptPostOrder_invariant w P o (fun c hc => ih c (ho c hc)) s hs
  have hL : ∀ l : List Node, (∀ c ∈ l, c ∈ n.children) → ∀ s, P s →
      P (nodesWalkListPostOrder w l s).2.2 :=
    fun l hl s hs => nodesWalkListPostOrder_invariant w P l (fun c hc => ih c (hl c hc)) s hs
  cases n with
  | column c => unfold nodesWalkNodePostOrder; exact hw _ _ hs
  | value v => unfold nodesWalkNodePostOrder; exact hw _ _ hs
  | realTable t => unfold nodesWalkNodePostOrder; exact hw _ _ hs
  | tempTable t q => unfold nodesWalkNodePostOrder; exact hw _ _ hs
  | selectStmt q => unfold nodesWalkNodePostOrder; exact hw _ _ hs
  | otherStmt k => unfold nodesWalkNodePostOrder; exact hw _ _ hs
  | function e name id ty ps =>
    rw [nodesWalkNodePostOrder]
    have ha := hL ps (fun c hc => by simpa [Node.children] using hc) s hs
    split_ifs
    · exact ha
    · exact hw _ _ ha
  | logicCondition e ct ps =>
    rw [nodesWalkNodePostOrder]
    have ha := hL ps (fun c hc => by simpa [Node.children] using hc) s hs
    split_ifs
    · exact ha
    · exact hw _ _ ha
  | groupingSet g ps =>
    rw [nodesWalkNodePostOrder]
    have ha := hL ps (fun c hc => by simpa [Node.children] using hc) s hs
    split_ifs
    · exact ha
    · exact hw _ _ ha
  | orderByExpr e o no =>
    rw [nodesWalkNodePostOrder]
    have ha := hO e (fun c hc => by simpa [Node.children] using hc) s hs
    split_ifs
    · exact ha
    · exact hw _ _ ha
  | operator e op l r =>
    rw [nodesWalkNodePostOrder]
    have ha := hO l (fun c hc => by
      simp only [Node.children, List.mem_append]; exact Or.inl hc) s hs
    have hb := hO r (fun c hc => by
      simp only [Node.children, List.mem_append]; exact Or.inr hc) _ ha
    dsimp only
    split_ifs
    · exact ha
    · exact hb
    · exact hw _ _ hb
  | joinTable t jt l r oc =>
    rw [nodesWalkNodePostOrder]
    have ha := hO l (fun c hc => by
      simp only [Node.children, List.mem_append]; exact Or.inl (Or.inl hc)) s hs
    have hb := hO r (fun c hc => by
      simp only [Node.children, List.mem_append]; exact Or.inl (Or.inr hc)) _ ha
    have hc := hO oc (fun c hc => by
      simp only [Node.children, List.mem_append]; exact Or.inr hc) _ hb
    dsimp only
    split_ifs
    · exact ha
    · exact hb
    · exact hc
    · exact hw _ _ hc
  | intervalWindow col i o sl f =>
    rw [nodesWalkNodePostOrder]
    have ha := hO i (fun c hc => by
      simp only [Node.children, List.mem_append]
      exact Or.inl (Or.inl (Or.inl (Or.inl hc)))) s hs
    have hb := hO o (fun c hc => by
      simp only [Node.children, List.mem_append]
      exact Or.inl (Or.inl (Or.inl (Or.inr hc)))) _ ha
    have hc := hO sl (fun c hc => by
      simp only [Node.children, List.mem_append]
      exact Or.inl (Or.inl (Or.inr hc))) _ hb
    have hd := hO f (fun c hc => by
      simp only [Node.children, List.mem_append]
      exact Or.inl (Or.inr hc)) _ hc
    have hf := hO col (fun c hc => by
      simp only [Node.children, List.mem_append]
      exact Or.inr hc) _ hd
    dsimp only
    split_ifs
    · exact ha
    · exact hb
    · exact hc
    · exact hd
    · exact hf
    · exact hw _ _ hf

theorem translateColumnWithPrefixLoop_currClause (env : Env) (pCxt : STranslateContext)
    (l : List Node) (found : Bool) (pCol : SColumnNode) :
    (translateColumnWithPrefixLoop env pCxt l found pCol).2.2.currClause = pCxt.currClause := by
  induction l generalizing found pCol with
  | nil =>
    unfold translateColumnWithPrefixLoop
    split_ifs <;> simp [generateDealNodeErrMsg]
  | cons t rest ih =>
    unfold translateColumnWithPrefixLoop
    dsimp only
    split_ifs
    · rfl
    · simp [generateDealNodeErrMsg]
    · exact ih _ _

theorem translateColumnWithoutPrefixLoop_currClause (env : Env) (pCxt : STranslateContext)
    (l : List Node) (found : Bool) (pCol : SColumnNode) :
    (translateColumnWithoutPrefixLoop env pCxt l found pCol).2.2.currClause =
      pCxt.currClause := by
  induction l generalizing found pCol with
  | nil =>
    unfold translateColumnWithoutPrefixLoop
    split_ifs <;> simp [generateDealNodeErrMsg]
  | cons t rest ih =>
    unfold translateColumnWithoutPrefixLoop
    dsimp only
    split_ifs
    · simp [generateDealNodeErrMsg]
    · exact ih _ _
    · exact ih _ _

theorem translateColumn_currClause (env : Env) (pCxt : STranslateContext) (pCol : SColumnNode) :
    (translateColumn env pCxt pCol).2.2.currClause = pCxt.currClause := by
  unfold translateColumn
  dsimp only
  split_ifs <;>
    first
    | rfl
    | exact translateColumnWithPrefixLoop_currClause env pCxt _ _ _
    | exact translateColumnWithoutPrefixLoop_currClause env pCxt _ _ _

theorem translateValue_currClause (env : Env) (pCxt : STranslateContext) (pVal : SValueNode) :
    (translateValue env pCxt pVal).2.2.currClause = pCxt.currClause := by
  unfold translateValue
  split_ifs
  · cases env.parseNatualDuration pVal.literal pVal.node.resType.precision <;>
      simp [generateDealNodeErrMsg]
  · cases pVal.node.resType.type <;>
      cases env.taosParseTime pVal.literal pVal.node.resType.bytes
        pVal.node.resType.precision <;> simp [generateDealNodeErrMsg]

/-- The callback of the expression translator leaves the current clause as it is, whatever
the translator of the subqueries does. -/
theorem doTranslateExpr_currClause (env : Env) (translateQuery : QueryTranslator) (n : Node)
    (pCxt : STranslateContext) :
    (doTranslateExpr env translateQuery n pCxt).2.2.currClause = pCxt.currClause := by
  cases n with
  | column c => simp only [doTranslateExpr]; exact translateColumn_currClause env pCxt c
  | value v => simp only [doTranslateExpr]; exact translateValue_currClause env pCxt v
  | operator e op l r =>
    simp only [doTranslateExpr, translateOperator]
    split_ifs <;> simp [generateDealNodeErrMsg]
  | function e name id ty ps =>
    simp only [doTranslateExpr, translateFunction]
    cases env.fmGetFuncInfo name with
    | none => simp [generateDealNodeErrMsg]
    | some r =>
      dsimp only
      split_ifs <;> simp [generateDealNodeErrMsg]
  | logicCondition e ct ps => simp [doTranslateExpr, translateLogicCond]
  | tempTable t q =>
    cases q with
    | none => simp [doTranslateExpr, translateExprSubquery]
    | some q => simp [doTranslateExpr, translateExprSubquery, translateSubquery]
  | realTable t => simp [doTranslateExpr]
  | joinTable t jt l r oc => simp [doTranslateExpr]
  | groupingSet g ps => simp [doTranslateExpr]
  | orderByExpr e o no => simp [doTranslateExpr]
  | intervalWindow col i o sl f => simp [doTranslateExpr]
  | selectStmt q => simp [doTranslateExpr]
  | otherStmt k => simp [doTranslateExpr]

theorem translateExpr_currClause (env : Env) (translateQuery : QueryTranslator)
    (pCxt : STranslateContext) (pNode : Option Node) :
    (translateExpr env translateQuery pCxt pNode).2.2.currClause = pCxt.currClause := by
  simp only [translateExpr]
  exact nodesWalkOptPostOrder_invariant (doTranslateExpr env translateQuery)
    (fun s => s.currClause = pCxt.currClause) pNode
    (fun c _ => nodesWalkNodePostOrder_invariant (doTranslateExpr env translateQuery)
      (fun s => s.currClause = pCxt.currClause)
      (fun n s hs => by
        show (doTranslateExpr env translateQuery n s).2.2.currClause = pCxt.currClause
        rw [doTranslateExpr_currClause]; exact hs) c) pCxt rfl

/-- C12: a select with a HAVING expression and no GROUP BY list is rejected by
`translateHaving` with `TSDB_CODE_PAR_GROUPBY_LACK_EXPRESSION`; the statement, and with it the
HAVING expression, is returned as it was and only the diagnostic is added to the context.
With a GROUP BY list `keys`, the HAVING expression is translated by `translateExpr` in the
context whose current clause is HAVING; when that fails its code is the result; when it
succeeds the result is that of `checkExprForGroupBy` on the translated expression, run in a
context whose clause is still HAVING, which is not the DISTINCT-order-by mode and whose
GROUP BY list is `keys`. Under the clause HAVING `translateFunction` accepts every function
that the function manager knows and types, aggregate or not. -/
theorem translateHaving_requires_group_by (env : Env) (translateQuery : QueryTranslator)
    (pCxt : STranslateContext) (pSelect : SSelectStmt) :
    (∀ h, pSelect.pGroupByList = none → pSelect.pHaving = some h →
      translateHaving env translateQuery pCxt pSelect =
        (TSDB_CODE_PAR_GROUPBY_LACK_EXPRESSION, pSelect,
          { pCxt with msgBuf := pCxt.msgBuf ++ [TSDB_CODE_PAR_GROUPBY_LACK_EXPRESSION] })) ∧
    (∀ keys, pSelect.pGroupByList = some keys →
      (translateHaving env translateQuery pCxt pSelect).2.1 =
        { pSelect with
          pHaving := (translateExpr env translateQuery
            { pCxt with currClause := some SQL_CLAUSE_HAVING } pSelect.pHaving).2.1 } ∧
      ((translateExpr env translateQuery
          { pCxt with currClause := some SQL_CLAUSE_HAVING } pSelect.pHaving).1 ≠
            TSDB_CODE_SUCCESS →
        (translateHaving env translateQuery pCxt pSelect).1 =
          (translateExpr env translateQuery
            { pCxt with currClause := some SQL_CLAUSE_HAVING } pSelect.pHaving).1) ∧
      ((translateExpr env translateQuery
          { pCxt with currClause := some SQL_CLAUSE_HAVING } pSelect.pHaving).1 =
            TSDB_CODE_SUCCESS →
        ∃ c : STranslateContext,
          c.currClause = some SQL_CLAUSE_HAVING ∧ isDistinctOrderBy c = false ∧
          getGroupByList c = some keys ∧
          (translateHaving env translateQuery pCxt pSelect).1 =
            (checkExprForGroupBy env c (translateExpr env translateQuery
              { pCxt with currClause := some SQL_CLAUSE_HAVING } pSelect.pHaving).2.1).1 ∧
          (translateHaving env translateQuery pCxt pSelect).2.2 =
            (checkExprForGroupBy env c (translateExpr env translateQuery
              { pCxt with currClause := some SQL_CLAUSE_HAVING } pSelect.pHaving).2.1).2)) ∧
    (∀ (c : STranslateContext) (e : SExprNode) (name : String) (funcId funcType id ty : Int)
        (ps : List Node),
      c.currClause = some SQL_CLAUSE_HAVING → env.fmGetFuncInfo name = some (id, ty) →
      (env.fmGetFuncResultType (.function e name id ty ps)).1 = TSDB_CODE_SUCCESS →
      (translateFunction env c e name funcId funcType ps).1 = DEAL_RES_CONTINUE) := by
  refine ⟨?_, ?_, ?_⟩
  · intro h hg hh
    simp [translateHaving, hg, hh, generateSyntaxErrMsg]
  · intro keys hk
    have hcl := translateExpr_currClause env translateQuery
      { pCxt with currClause := some SQL_CLAUSE_HAVING } pSelect.pHaving
    refine ⟨?_, ?_, ?_⟩
    · simp only [translateHaving, hk, Option.isNone_some, Bool.false_eq_true, false_and,
        if_false]
      split_ifs <;> rfl
    · intro hne
      simp only [translateHaving, hk, Option.isNone_some, Bool.false_eq_true, false_and,
        if_false]
      rw [if_neg hne]
    · intro heq
      refine ⟨setCurrStmt (translateExpr env translateQuery
          { pCxt with currClause := some SQL_CLAUSE_HAVING } pSelect.pHaving).2.2
        { pSelect with pHaving := (translateExpr env translateQuery
          { pCxt with currClause := some SQL_CLAUSE_HAVING } pSelect.pHaving).2.1 },
        ?_, ?_, ?_, ?_, ?_⟩
      · simpa [setCurrStmt] using hcl
      · simp [isDistinctOrderBy, setCurrStmt, hcl]
      · simp [getGroupByList, isDistinctOrderBy, setCurrStmt, hcl, hk]
      · simp only [translateHaving, hk, Option.isNone_some, Bool.false_eq_true, false_and,
          if_false]
        rw [if_pos heq]
      · simp only [translateHaving, hk, Option.isNone_some, Bool.false_eq_true, false_and,
          if_false]
        rw [if_pos heq]
  · intro c e name funcId funcType id ty ps hc hf hr
    simp [translateFunction, hf, hr, hc, beforeHaving, ESqlClause.toNat]

theorem hasUnselectedNode_iff (env : Env) (keys : List Node) (n : Node) :
    HasUnselectedNode env keys n ↔
      matchesGroupByKey env keys n = false ∧
      ((isColumnNode n = true ∧ isAliasColumnNode n = false) ∨ isAggFuncNode env n = true ∨
       ∃ c ∈ n.children, HasUnselectedNode env keys c) := by
  constructor
  · intro h
    cases h with
    | column c ha hm =>
      exact ⟨hm, Or.inl ⟨rfl, by simpa [isAliasColumnNode, isAliasColumn] using ha⟩⟩
    | aggFunc _ ha hm => exact ⟨hm, Or.inr (Or.inl ha)⟩
    | child _ c hm hc h => exact ⟨hm, Or.inr (Or.inr ⟨c, hc, h⟩)⟩
  · rintro ⟨hm, (⟨hcol, hal⟩ | ha | ⟨c, hc, h⟩)⟩
    · cases n <;> simp [isColumnNode] at hcol
      case column c =>
        exact HasUnselectedNode.column c
          (by simpa [isAliasColumnNode, isAliasColumn] using hal) hm
    · exact HasUnselectedNode.aggFunc n ha hm
    · exact HasUnselectedNode.child n c hm hc h

theorem distinct_walkList (env : Env) (keys : List Node) (pCxt : STranslateContext)
    (l : List Node) (h : ∀ c ∈ l, DistinctWalkSpec env keys pCxt c) :
    ((∃ c ∈ l, HasUnselectedNode env keys c) →
      (nodesWalkList (doCheckExprForGroupBy env) l pCxt).1 = DEAL_RES_ERROR ∧
      (nodesWalkList (doCheckExprForGroupBy env) l pCxt).2 =
        (generateDealNodeErrMsg pCxt TSDB_CODE_PAR_NOT_SELECTED_EXPRESSION).2) ∧
    ((∀ c ∈ l, ¬ HasUnselectedNode env keys c) →
      (nodesWalkList (doCheckExprForGroupBy env) l pCxt).1 ≠ DEAL_RES_ERROR ∧
      (nodesWalkList (doCheckExprForGroupBy env) l pCxt).2 = pCxt) := by
  induction l with
  | nil => simp [nodesWalkList_nil]
  | cons n rest ih =>
    have hn := h n (List.mem_cons_self _ _)
    have ihr := ih (fun c hc => h c (List.mem_cons_of_mem _ hc))
    rw [nodesWalkList_cons]
    by_cases hex : HasUnselectedNode env keys n
    · obtain ⟨h1, h2⟩ := hn.1 hex
      rw [if_pos h1]
      exact ⟨fun _ => ⟨h1, h2⟩, fun hall => absurd hex (hall n (List.mem_cons_self _ _))⟩
    · obtain ⟨h1, h2⟩ := hn.2 hex
      rw [if_neg h1, h2]
      constructor
      · rintro ⟨c, hc, hcx⟩
        rcases List.mem_cons.mp hc with rfl | hc
        · exact absurd hcx hex
        · exact ihr.1 ⟨c, hc, hcx⟩
      · intro hall
        exact ihr.2 (fun c hc => hall c (List.mem_cons_of_mem _ hc))

theorem distinct_walkNode (env : Env) (keys : List Node) (pCxt : STranslateContext)
    (hcol : ∀ c, env.nodesIsExprNode (.column c) = true)
    (hfun : ∀ e name id ty ps, env.nodesIsExprNode (.function e name id ty ps) = true)
    (hkeys : getGroupByList pCxt = some keys) (hmode : isDistinctOrderBy pCxt = true) :
    ∀ n, DistinctWalkSpec env keys pCxt n := by
  apply Node.induction_children
  intro n ih
  have hW := nodesWalkNode_children (doCheckExprForGroupBy env) n pCxt
  have hL := distinct_walkList env keys pCxt n.children ih
  have hI := hasUnselectedNode_iff env keys n
  have hcode : getGroupByErrorCode pCxt = TSDB_CODE_PAR_NOT_SELECTED_EXPRESSION := by
    simp [getGroupByErrorCode, hmode]
  have hmatch : matchesGroupByKey env keys n =
      (env.nodesIsExprNode n && ((getGroupByList pCxt).getD []).any
        (fun pGroupNode => env.nodesEqualNode (getGroupByNode pGroupNode) (some n))) := by
    simp [matchesGroupByKey, hkeys]
  have hcolE : isColumnNode n = true → env.nodesIsExprNode n = true := by
    cases n <;> simp [isColumnNode]
    exact hcol _
  have haggE : isAggFuncNode env n = true → env.nodesIsExprNode n = true := by
    cases n <;> simp [isAggFuncNode]
    intro _; exact hfun _ _ _ _ _
  have halC : isAliasColumnNode n = true → isColumnNode n = true ∧ n.children = [] ∧
      isAggFuncNode env n = false := by
    cases n <;> simp [isAliasColumnNode, isColumnNode, Node.children, isAggFuncNode]
  -- the children decide when the callback answers `DEAL_RES_CONTINUE`
  have hdescend : doCheckExprForGroupBy env n pCxt = (DEAL_RES_CONTINUE, pCxt) →
      (HasUnselectedNode env keys n ↔ ∃ c ∈ n.children, HasUnselectedNode env keys c) →
      DistinctWalkSpec env keys pCxt n := by
    intro hw hiff
    rw [hw] at hW
    simp only [if_true] at hW
    constructor
    · intro hx
      obtain ⟨a, b⟩ := hL.1 (hiff.mp hx)
      exact ⟨hW.2.mpr a, by rw [hW.1, b]⟩
    · intro hx
      have hall : ∀ c ∈ n.children, ¬ HasUnselectedNode env keys c :=
        fun c hc hcx => hx (hiff.mpr ⟨c, hc, hcx⟩)
      obtain ⟨a, b⟩ := hL.2 hall
      exact ⟨fun he => a (hW.2.mp he), by rw [hW.1, b]⟩
  by_cases hE : env.nodesIsExprNode n = true
  · by_cases hal : isAliasColumnNode n = true
    · obtain ⟨hc1, hc2, hc3⟩ := halC hal
      apply hdescend
      · simp [doCheckExprForGroupBy, hal]
      · rw [hI]; simp [hal, hc2, hc3]
    · simp only [Bool.not_eq_true] at hal
      by_cases hm : matchesGroupByKey env keys n = true
      · have hm2 := hm
        rw [hmatch, hE, Bool.true_and] at hm2
        have hw : doCheckExprForGroupBy env n pCxt = (DEAL_RES_IGNORE_CHILD, pCxt) := by
          simp only [doCheckExprForGroupBy, hE, hal, hmode, hm2]
          simp
        rw [hw] at hW
        simp only [reduceCtorEq, if_false] at hW
        have hnot : ¬ HasUnselectedNode env keys n := by
          rw [hI]; simp [hm]
        exact ⟨fun hx => absurd hx hnot,
          fun _ => ⟨fun he => by simpa using hW.2.mp he, hW.1⟩⟩
      · simp only [Bool.not_eq_true] at hm
        have hm2 := hm
        rw [hmatch, hE, Bool.true_and] at hm2
        by_cases hc : isColumnNode n = true ∨ isAggFuncNode env n = true
        · have hw : doCheckExprForGroupBy env n pCxt =
              generateDealNodeErrMsg pCxt TSDB_CODE_PAR_NOT_SELECTED_EXPRESSION := by
            simp only [doCheckExprForGroupBy, hE, hal, hmode, hm2, hcode]
            rcases hc with hc | hc <;> simp [hc]
          rw [hw] at hW
          have hyes : HasUnselectedNode env keys n := by
            rw [hI]
            rcases hc with hc | hc
            · exact ⟨hm, Or.inl ⟨hc, hal⟩⟩
            · exact ⟨hm, Or.inr (Or.inl hc)⟩
          simp only [generateDealNodeErrMsg, reduceCtorEq, if_false] at hW
          exact ⟨fun _ => ⟨by simpa using hW.2, by simpa [generateDealNodeErrMsg] using hW.1⟩,
            fun hx => absurd hyes hx⟩
        · simp only [not_or, Bool.not_eq_true] at hc
          apply hdescend
          · simp only [doCheckExprForGroupBy, hE, hal, hmode, hm2, hc.1, hc.2]
            simp
          · rw [hI]; simp [hm, hc.1, hc.2]
  · simp only [Bool.not_eq_true] at hE
    have hc : isColumnNode n = false := by
      cases hc : isColumnNode n with
      | false => rfl
      | true => rw [hcolE hc] at hE; exact absurd hE (by simp)
    have hag : isAggFuncNode env n = false := by
      cases hag : isAggFuncNode env n with
      | false => rfl
      | true => rw [haggE hag] at hE; exact absurd hE (by simp)
    have hm : matchesGroupByKey env keys n = false := by
      simp [matchesGroupByKey, hE]
    apply hdescend
    · simp [doCheckExprForGroupBy, hE]
    · rw [hI]; simp [hm, hc, hag]

/-- C11: while the current clause is ORDER BY and the current statement is a DISTINCT select
with projection list `keys` (whatever its GROUP BY list is), the list `getGroupByList` gives
to the closure check is `keys`; with no error recorded in the context,
`checkExprListForGroupBy` and `checkExprForGroupBy` succeed if and only if no column with a
table alias and no call of an aggregate function is left unselected, that is each of them
lies inside a subtree equal to some projection; otherwise they fail with
`TSDB_CODE_PAR_NOT_SELECTED_EXPRESSION`. In a context that is not in this mode an error of the
callback of the check is `TSDB_CODE_PAR_GROUPBY_LACK_EXPRESSION`. Column and function nodes
are expression nodes for `nodesIsExprNode`. -/
theorem checkExprListForGroupBy_distinct_order_by (env : Env) (pCxt : STranslateContext)
    (pSelect : SSelectStmt) (keys : List Node)
    (hcol : ∀ c, env.nodesIsExprNode (.column c) = true)
    (hfun : ∀ e name id ty ps, env.nodesIsExprNode (.function e name id ty ps) = true)
    (hstmt : pCxt.pCurrStmt = some pSelect) (hdistinct : pSelect.isDistinct = true)
    (hclause : pCxt.currClause = some SQL_CLAUSE_ORDER_BY)
    (hkeys : pSelect.pProjectionList = some keys)
    (herr : pCxt.errCode = TSDB_CODE_SUCCESS) :
    getGroupByList pCxt = some keys ∧
    (∀ l : List Node,
      ((checkExprListForGroupBy env pCxt (some l)).1 = TSDB_CODE_SUCCESS ↔
        ∀ E ∈ l, ¬ HasUnselectedNode env keys E) ∧
      ((∃ E ∈ l, HasUnselectedNode env keys E) →
        (checkExprListForGroupBy env pCxt (some l)).1 =
          TSDB_CODE_PAR_NOT_SELECTED_EXPRESSION)) ∧
    (∀ E : Node,
      ((checkExprForGroupBy env pCxt (some E)).1 = TSDB_CODE_SUCCESS ↔
        ¬ HasUnselectedNode env keys E) ∧
      (HasUnselectedNode env keys E →
        (checkExprForGroupBy env pCxt (some E)).1 = TSDB_CODE_PAR_NOT_SELECTED_EXPRESSION)) ∧
    (∀ (c : STranslateContext) (n : Node), isDistinctOrderBy c = false →
      (doCheckExprForGroupBy env n c).1 = DEAL_RES_ERROR →
      (doCheckExprForGroupBy env n c).2.errCode = TSDB_CODE_PAR_GROUPBY_LACK_EXPRESSION) := by
  have hmode : isDistinctOrderBy pCxt = true := by
    simp [isDistinctOrderBy, hclause, hstmt, hdistinct]
  have hgl : getGroupByList pCxt = some keys := by
    simp [getGroupByList, hmode, hstmt, hkeys]
  have hnode := distinct_walkNode env keys pCxt hcol hfun hgl hmode
  refine ⟨hgl, ?_, ?_, ?_⟩
  · intro l
    have hl := distinct_walkList env keys pCxt l (fun c _ => hnode c)
    simp only [checkExprListForGroupBy, hgl, Option.isNone_some, Bool.false_eq_true, if_false,
      Option.getD_some]
    by_cases hx : ∃ E ∈ l, HasUnselectedNode env keys E
    · obtain ⟨_, b⟩ := hl.1 hx
      rw [b]
      simp only [generateDealNodeErrMsg, reduceCtorEq, false_iff, not_forall, not_not]
      obtain ⟨E, hE, hEx⟩ := hx
      exact ⟨⟨E, hE, hEx⟩, fun _ => trivial⟩
    · have hall : ∀ E ∈ l, ¬ HasUnselectedNode env keys E :=
        fun E hE hEx => hx ⟨E, hE, hEx⟩
      obtain ⟨_, b⟩ := hl.2 hall
      rw [b, herr]
      exact ⟨⟨fun _ => hall, fun _ => rfl⟩, fun h => absurd h hx⟩
  · intro E
    have hE := hnode E
    simp only [checkExprForGroupBy, nodesWalkOpt]
    by_cases hx : HasUnselectedNode env keys E
    · obtain ⟨_, b⟩ := hE.1 hx
      rw [b]
      simp [generateDealNodeErrMsg, hx]
    · obtain ⟨_, b⟩ := hE.2 hx
      rw [b, herr]
      simp [hx]
  · intro c n hc he
    unfold doCheckExprForGroupBy at he ⊢
    split_ifs at he ⊢
    simp [generateDealNodeErrMsg, getGroupByErrorCode, hc]

/-- Witness of C11: in the ORDER BY clause of `SELECT DISTINCT t.a FROM t GROUP BY t.ts`, the
key `t.a` is accepted, while the key `t.ts` (a GROUP BY key that is not selected) and the key
`count(*)` are rejected with `TSDB_CODE_PAR_NOT_SELECTED_EXPRESSION`. -/
theorem checkExprListForGroupBy_distinct_order_by_witness :
    (checkExprListForGroupBy demoEnv demoCxtDistinctOrderBy (some [demoColA])).1 =
      TSDB_CODE_SUCCESS ∧
    (checkExprListForGroupBy demoEnv demoCxtDistinctOrderBy (some [demoColA, demoColTs])).1 =
      TSDB_CODE_PAR_NOT_SELECTED_EXPRESSION ∧
    (checkExprForGroupBy demoEnv demoCxtDistinctOrderBy (some demoCountStar)).1 =
      TSDB_CODE_PAR_NOT_SELECTED_EXPRESSION :=
  ⟨by decide!,
    ((checkExprListForGroupBy_distinct_order_by demoEnv demoCxtDistinctOrderBy _ [demoColA]
      (fun _ => rfl) (fun _ _ _ _ _ => rfl) rfl rfl rfl rfl rfl).2.1
      [demoColA, demoColTs]).2
      ⟨demoColTs, by simp, HasUnselectedNode.column _ (by decide) (by decide)⟩,
    ((checkExprListForGroupBy_distinct_order_by demoEnv demoCxtDistinctOrderBy _ [demoColA]
      (fun _ => rfl) (fun _ _ _ _ _ => rfl) rfl rfl rfl rfl rfl).2.2.1 demoCountStar).2
      (HasUnselectedNode.aggFunc _ (by decide) (by decide))⟩

/-- C18: `translateSubquery` restores the enclosing clause and the current statement, but it
does not remove the tables the subquery registered: after the translation of the subquery
`SELECT a FROM t` from level 0 the current level is 0 again and level 1 still holds the table
`t`. So `SELECT * FROM (SELECT a FROM t) x` is accepted, while in
`SELECT * FROM (SELECT a FROM t) x JOIN (SELECT a FROM t) y` the column `a` of the second
subquery is resolved against the tables of both subqueries and the statement is rejected
with `TSDB_CODE_PAR_AMBIGUOUS_COLUMN`. -/
theorem translateSubquery_keeps_tables :
    (∀ (translateQuery : QueryTranslator) (pCxt : STranslateContext) (pNode : Node),
      (translateSubquery translateQuery pCxt pNode).2.2.currClause = pCxt.currClause ∧
      (translateSubquery translateQuery pCxt pNode).2.2.pCurrStmt = pCxt.pCurrStmt) ∧
    (translateSubquery (translateQueryDepth demoCatalogEnv 0) demoInitCxt parsedSelectA).1 =
      TSDB_CODE_SUCCESS ∧
    (translateSubquery (translateQueryDepth demoCatalogEnv 0) demoInitCxt
      parsedSelectA).2.2.currLevel = 0 ∧
    (translateSubquery (translateQueryDepth demoCatalogEnv 0) demoInitCxt
      parsedSelectA).2.2.pNsLevel.map List.length = [0, 1] ∧
    (translateQueryDepth demoCatalogEnv 1 demoInitCxt parsedSelectOneSubquery).1 =
      TSDB_CODE_SUCCESS ∧
    (translateQueryDepth demoCatalogEnv 1 demoInitCxt parsedSelectSiblingSubqueries).1 =
      TSDB_CODE_PAR_AMBIGUOUS_COLUMN :=
  ⟨fun _ _ _ => ⟨rfl, rfl⟩, by decide!, by decide!, by decide!, by decide!, by decide!⟩

theorem buildNormalTableSchema_enum (l : List SColumnDefNode) (i : Nat) :
    buildNormalTableSchema l i =
      (l.enumFrom i).map fun p =>
        ({ colId := (p.1 : Int) + 1, type := p.2.dataType.type, bytes := p.2.dataType.bytes,
           name := p.2.colName } : SSchema) := by
  induction l generalizing i with
  | nil => simp [buildNormalTableSchema]
  | cons c rest ih =>
    unfold buildNormalTableSchema
    rw [ih (i + 1)]
    simp [List.enumFrom_cons, toSchema]

/-- C14: a CREATE TABLE statement without tag list whose table the catalog routes to the
vgroup `g` is replaced by `rewriteQuery` with a statement for the vnodes that remembers the
node type of CREATE TABLE and carries exactly one data block; the block is the data block of
`g` for the batch of the statement, so it targets `g`, counts one table, has the size of the
header plus the length of the serialized batch and the header `htonl` of the id of `g` and
`htonl` of that size, and the batch holds one normal-table request whose schema lists the
declared columns in order with the ids 1 to n. A CREATE TABLE statement with a tag list is
left as it is. -/
theorem rewriteCreateTable_single_block (env : Env) (renv : RewriteEnv)
    (pCxt : STranslateContext) (pQuery : SQuery) (s : SCreateTableStmt)
    (hroot : pQuery.pRoot = .createTableStmt s) :
    (s.pTags = none → ∀ g : SVgroupInfo,
      env.catalogGetTableHashVgroup (toName pCxt.pParseCxt.acctId s.dbName s.tableName) =
        (TSDB_CODE_SUCCESS, g) →
      (∃ c : STranslateContext,
        rewriteQuery env renv pCxt pQuery =
          some (TSDB_CODE_SUCCESS,
            { pQuery with
              pRoot := .vnodeModifStmt
                { sqlNodeType := QUERY_NODE_CREATE_TABLE_STMT
                  pDataBlocks :=
                    [dataBlockOf renv g (createTableBatch env pCxt.pParseCxt.acctId s)] } },
            c)) ∧
      (dataBlockOf renv g (createTableBatch env pCxt.pParseCxt.acctId s)).vg = g ∧
      (dataBlockOf renv g (createTableBatch env pCxt.pParseCxt.acctId s)).numOfTables = 1 ∧
      (dataBlockOf renv g (createTableBatch env pCxt.pParseCxt.acctId s)).size =
        renv.sizeofSMsgHead +
          renv.tSerializeSVCreateTbBatchReq (createTableBatch env pCxt.pParseCxt.acctId s) ∧
      (dataBlockOf renv g (createTableBatch env pCxt.pParseCxt.acctId s)).pData.head =
        { vgId := renv.htonl g.vgId
          contLen := renv.htonl
            (dataBlockOf renv g (createTableBatch env pCxt.pParseCxt.acctId s)).size } ∧
      (createTableBatch env pCxt.pParseCxt.acctId s).pArray.map (fun r => r.type) =
        [TD_NORMAL_TABLE] ∧
      (createTableBatch env pCxt.pParseCxt.acctId s).pArray.map
        (fun r => r.ntbCfg.pSchema.map fun c => c.colId) =
          [(List.range s.pCols.length).map fun (i : Nat) => (i : Int) + 1]) ∧
    (∀ tags, s.pTags = some tags →
      rewriteQuery env renv pCxt pQuery = some (TSDB_CODE_SUCCESS, pQuery, pCxt)) := by
  constructor
  · intro htags g hg
    refine ⟨?_, rfl, rfl, rfl, rfl, rfl, ?_⟩
    · refine ⟨(getTableHashVgroup env pCxt s.dbName s.tableName).2.2, ?_⟩
      simp only [rewriteQuery, hroot, htags, Option.isNone_none, if_true, rewriteCreateTable,
        getTableHashVgroup, getTableHashVgroupImpl, collectUseDatabase,
        collectUseDatabaseImpl, collectUseTable, hg, buildCreateTableDataBlock,
        buildNormalTableBatchReq, serializeVgroupTablesBatch, rewriteToVnodeModifOpStmt,
        buildNormalTableSchema_enum, Stmt.nodeType, dataBlockOf, createTableBatch,
        ne_eq, not_true_eq_false, if_false, List.nil_append, List.length_singleton]
    · simp only [createTableBatch, List.map_cons, List.map_nil, List.map_map]
      congr 1
      apply List.ext_getElem
      · simp
      · intro i h1 h2
        simp
  · intro tags htags
    simp [rewriteQuery, hroot, htags]

/-- Witness of C14: `CREATE TABLE db1.t1 (ts TIMESTAMP, a INT)`, routed to vgroup 2, becomes
a statement for the vnodes with one data block for vgroup 2 that counts one table. -/
theorem rewriteCreateTable_single_block_witness :
    (∃ c : STranslateContext,
      rewriteQuery demoCatalogEnv demoRewriteEnv demoInitCxt
          { pRoot := .createTableStmt demoCreateTable } =
        some (TSDB_CODE_SUCCESS,
          { pRoot := .vnodeModifStmt
              { sqlNodeType := QUERY_NODE_CREATE_TABLE_STMT
                pDataBlocks := [dataBlockOf demoRewriteEnv { vgId := 2 }
                  (createTableBatch demoCatalogEnv 0 demoCreateTable)] } },
          c)) ∧
    (dataBlockOf demoRewriteEnv { vgId := 2 }
      (createTableBatch demoCatalogEnv 0 demoCreateTable)).size = 112 :=
  ⟨((rewriteCreateTable_single_block demoCatalogEnv demoRewriteEnv demoInitCxt
      { pRoot := .createTableStmt demoCreateTable } demoCreateTable rfl).1 rfl
      { vgId := 2 } rfl).1,
    by decide⟩

/-- C15: for each of the twelve kinds of SHOW statements, `rewriteQuery` succeeds, sets
`showRewrite` and replaces the root by a select without projection list over the real table
of the database `TSDB_INFORMATION_SCHEMA_DB` whose name `getSysTableName` gives for the kind
(it gives one for each of the twelve); the WHERE clause of the select is `showWhere`: absent
without database and pattern, `db_name = <db>` with the database only,
`<tbname-col> LIKE <pattern>` with the pattern only and the AND of the two, in this order,
with both, the column being `stable_name` for SHOW STABLES and `table_name` otherwise. The
table also records the literal of the database, when one is given, in `useDbName`. -/
theorem rewriteShow_select (env : Env) (renv : RewriteEnv) (pCxt : STranslateContext)
    (pQuery : SQuery) (type : ENodeType) (pShow : SShowStmt)
    (hroot : pQuery.pRoot = .showStmt type pShow) (hkind : type ∈ showKinds) :
    ∃ tableName : String,
      getSysTableName env renv type = some tableName ∧
      rewriteQuery env renv pCxt pQuery =
        some (TSDB_CODE_SUCCESS,
          { pQuery with
            showRewrite := true
            pRoot := .selectStmt
              { pProjectionList := none
                pFromTable := some (.realTable
                  { table := { dbName := renv.TSDB_INFORMATION_SCHEMA_DB
                               tableName := tableName
                               tableAlias := tableName }
                    useDbName := (pShow.pDbName.map Node.literalOf).getD "" })
                pWhere := showWhere renv type pShow.pDbName pShow.pTbNamePattern } },
          pCxt) := by
  simp only [showKinds, List.mem_cons, List.mem_singleton, List.not_mem_nil, or_false] at hkind
  rcases hkind with h | h | h | h | h | h | h | h | h | h | h | h <;> subst h <;>
    refine ⟨_, rfl, ?_⟩ <;>
    cases hd : pShow.pDbName <;> cases ht : pShow.pTbNamePattern <;>
    simp [rewriteQuery, hroot, rewriteShow, createSelectStmtForShow, getSysTableName,
      createShowCondition, createOperatorNode, createLogicCondNode, getTbNameColName,
      showWhere, showDbCond, showTbCond, hd, ht]

/-- Witness of C15: `SHOW STABLES LIKE 'x%'` becomes
`SELECT * FROM information_schema.user_stables WHERE stable_name LIKE 'x%'`. -/
theorem rewriteShow_select_witness :
    ∃ tableName : String,
      getSysTableName demoEnv demoRewriteEnv QUERY_NODE_SHOW_STABLES_STMT = some tableName ∧
      rewriteQuery demoEnv demoRewriteEnv demoInitCxt demoShowStables =
        some (TSDB_CODE_SUCCESS,
          { demoShowStables with
            showRewrite := true
            pRoot := .selectStmt
              { pProjectionList := none
                pFromTable := some (.realTable
                  { table := { dbName := "information_schema"
                               tableName := tableName
                               tableAlias := tableName }
                    useDbName := "" })
                pWhere := some (.operator {} 20 (some (.column { colName := "stable_name" }))
                  (some demoPattern)) } },
          demoInitCxt) :=
  rewriteShow_select demoEnv demoRewriteEnv demoInitCxt demoShowStables
    QUERY_NODE_SHOW_STABLES_STMT { pTbNamePattern := some demoPattern } rfl (by decide)

theorem extractResultSchema_enum (l : List Node) (i : Nat) :
    extractResultSchema l i =
      (l.enumFrom i).map fun p =>
        ({ type := p.2.exprNode.resType.type, bytes := p.2.exprNode.resType.bytes,
           colId := (p.1 : Int) + 1, name := p.2.exprNode.aliasName } : SSchema) := by
  induction l generalizing i with
  | nil => simp [extractResultSchema]
  | cons c rest ih =>
    unfold extractResultSchema
    rw [ih (i + 1)]
    simp [List.enumFrom_cons]

/-- C16: for a root that is a select with the projections `p_1 .. p_N`, `setQuery` succeeds
and sets `haveResultSet = true`, `directRpc = false`, the message type `TDMT_VND_QUERY`, the
number of result columns `N` and the result schema `resultSchemaOf`: `N` entries in the order
of the projections, the entry at position `i` (from 0) with the type and the byte width of
the result type of `p_(i+1)`, the column id `i + 1` and the alias of `p_(i+1)` as name. For a
root that is a statement for the vnodes it succeeds and sets `haveResultSet = false`,
`directRpc = false` and the message type `TDMT_VND_CREATE_TABLE`. -/
theorem setQuery_select_and_vnode_modif (pCxt : STranslateContext) (pQuery : SQuery) :
    (∀ s : SSelectStmt, pQuery.pRoot = .selectStmt s →
      setQuery pCxt pQuery =
        some (TSDB_CODE_SUCCESS,
          { pQuery with
            haveResultSet := true, directRpc := false, msgType := some TDMT_VND_QUERY
            numOfResCols := (s.pProjectionList.getD []).length
            pResSchema := some (resultSchemaOf (s.pProjectionList.getD []))
            pDbList := some pCxt.pDbs, pTableList := some pCxt.pTables },
          pCxt) ∧
      (resultSchemaOf (s.pProjectionList.getD [])).length =
        (s.pProjectionList.getD []).length ∧
      (∀ (i : Nat) (p : Node), (s.pProjectionList.getD [])[i]? = some p →
        (resultSchemaOf (s.pProjectionList.getD []))[i]? =
          some { type := p.exprNode.resType.type, bytes := p.exprNode.resType.bytes,
                 colId := (i : Int) + 1, name := p.exprNode.aliasName })) ∧
    (∀ v : SVnodeModifOpStmt, pQuery.pRoot = .vnodeModifStmt v →
      setQuery pCxt pQuery =
        some (TSDB_CODE_SUCCESS,
          { pQuery with
            haveResultSet := false, directRpc := false
            msgType := some TDMT_VND_CREATE_TABLE
            pDbList := some pCxt.pDbs, pTableList := some pCxt.pTables },
          pCxt)) := by
  constructor
  · intro s hs
    refine ⟨?_, ?_, ?_⟩
    · simp [setQuery, hs, qExtractResultSchema, extractResultSchema_enum, resultSchemaOf]
    · simp [resultSchemaOf]
    · intro i p hp
      simp only [resultSchemaOf, List.getElem?_map, List.getElem?_enumFrom, hp]
      simp
  · intro v hv
    simp [setQuery, hv]

/-- C17: for the statement ALTER LOCAL, `translateQueryStmt` reports success and leaves the
pending envelope of the context as it is, and `setQuery`, given that root and a context
without pending envelope, reads the message type of the missing envelope; so `doTranslate`
on ALTER LOCAL runs into that read. For CREATE USER, in contrast, the translation stores an
envelope and the query gets `haveResultSet = false`, `directRpc = true` and the message
type and the envelope of the command, which the context no longer holds. -/
theorem setQuery_alter_local_missing_envelope :
    (∀ (env : Env) (renv : RewriteEnv) (translateSubqueries : QueryTranslator)
        (pCxt : STranslateContext),
      (translateQueryStmt env renv translateSubqueries pCxt .alterLocalStmt).map
          (fun r => (r.1, r.2.2.pCmdMsg)) =
        some (TSDB_CODE_SUCCESS, pCxt.pCmdMsg)) ∧
    (∀ (pCxt : STranslateContext) (pQuery : SQuery), pQuery.pRoot = .alterLocalStmt →
      pCxt.pCmdMsg = none → (setQuery pCxt pQuery).isNone = true) ∧
    (doTranslate demoEnv demoRewriteEnv (translateQueryDepth demoEnv 0) { db := "db1" }
      { pRoot := .alterLocalStmt }).isNone = true ∧
    (doTranslate demoEnv demoRewriteEnv (translateQueryDepth demoEnv 0) { db := "db1" }
        { pRoot := .createUserStmt }).map
        (fun r => (r.1, r.2.haveResultSet, r.2.directRpc, r.2.msgType, r.2.pCmdMsg)) =
      some (TSDB_CODE_SUCCESS, false, true, some TDMT_MND_CREATE_USER,
        some { msgType := TDMT_MND_CREATE_USER, epSet := SEpSet.mgmtEpSet }) ∧
    ((translateQueryStmt demoEnv demoRewriteEnv (translateQueryDepth demoEnv 0) demoInitCxt
        .createUserStmt).bind fun r =>
          (setQuery r.2.2 { pRoot := r.2.1 }).map fun q => q.2.2.pCmdMsg) = some none := by
  refine ⟨?_, ?_, ?_, ?_, ?_⟩
  · intro env renv tq pCxt
    rfl
  · intro pCxt pQuery hroot hmsg
    simp [setQuery, hroot, hmsg]
  · rfl
  · rfl
  · rfl

theorem translateValue_pParseCxt (env : Env) (pCxt : STranslateContext) (pVal : SValueNode) :
    (translateValue env pCxt pVal).2.2.pParseCxt = pCxt.pParseCxt := by
  unfold translateValue
  split_ifs
  · cases env.parseNatualDuration pVal.literal pVal.node.resType.precision <;>
      simp [generateDealNodeErrMsg]
  · cases pVal.node.resType.type <;>
      cases env.taosParseTime pVal.literal pVal.node.resType.bytes
        pVal.node.resType.precision <;> simp [generateDealNodeErrMsg]

theorem addValToKVRow_pParseCxt (env : Env) (renv : RewriteEnv) (pCxt : STranslateContext)
    (pVal : SValueNode) (pSchema : SSchema) (pBuilder : SKVRow) :
    (addValToKVRow env renv pCxt pVal pSchema pBuilder).2.2.pParseCxt = pCxt.pParseCxt := by
  unfold addValToKVRow
  dsimp only
  split_ifs <;> exact translateValue_pParseCxt env pCxt pVal

theorem buildKVRowForBindTagsLoop_pParseCxt (env : Env) (renv : RewriteEnv)
    (pTagSchema : List SSchema) (numOfTags : Nat) (tags : List SColumnNode)
    (vals : List SValueNode) (pCxt : STranslateContext) (pBuilder : SKVRow) :
    (buildKVRowForBindTagsLoop env renv pTagSchema numOfTags tags vals pCxt
      pBuilder).2.2.pParseCxt = pCxt.pParseCxt := by
  induction tags generalizing vals pCxt pBuilder with
  | nil => simp [buildKVRowForBindTagsLoop]
  | cons pCol tags ih =>
    cases vals with
    | nil => simp [buildKVRowForBindTagsLoop]
    | cons pVal vals =>
      unfold buildKVRowForBindTagsLoop
      cases findSchema pCol.colName pTagSchema 0 numOfTags with
      | none => simp [generateSyntaxErrMsg]
      | some r =>
        dsimp only
        split_ifs
        · exact addValToKVRow_pParseCxt env renv pCxt pVal r.2 pBuilder
        · rw [ih]
          exact addValToKVRow_pParseCxt env renv pCxt pVal r.2 pBuilder

theorem buildKVRowForAllTagsLoop_pParseCxt (env : Env) (renv : RewriteEnv)
    (pTagSchema : List SSchema) (vals : List SValueNode) (index : Nat)
    (pCxt : STranslateContext) (pBuilder : SKVRow) :
    (buildKVRowForAllTagsLoop env renv pTagSchema vals index pCxt pBuilder).2.2.pParseCxt =
      pCxt.pParseCxt := by
  induction vals generalizing index pCxt pBuilder with
  | nil => simp [buildKVRowForAllTagsLoop]
  | cons pVal vals ih =>
    unfold buildKVRowForAllTagsLoop
    dsimp only
    split_ifs
    · exact addValToKVRow_pParseCxt env renv pCxt pVal _ pBuilder
    · rw [ih]
      exact addValToKVRow_pParseCxt env renv pCxt pVal _ pBuilder

theorem getTableHashVgroup_spec (env : Env) (pCxt : STranslateContext)
    (pDbName pTableName : String) :
    (getTableHashVgroup env pCxt pDbName pTableName).1 =
        (env.catalogGetTableHashVgroup (toName pCxt.pParseCxt.acctId pDbName pTableName)).1 ∧
    (getTableHashVgroup env pCxt pDbName pTableName).2.1 =
        (env.catalogGetTableHashVgroup (toName pCxt.pParseCxt.acctId pDbName pTableName)).2 ∧
    (getTableHashVgroup env pCxt pDbName pTableName).2.2.pParseCxt = pCxt.pParseCxt := by
  simp [getTableHashVgroup, getTableHashVgroupImpl, collectUseDatabase, collectUseDatabaseImpl,
    collectUseTable]

/-- The context with which `rewriteCreateSubTable` asks for the vgroup of the table has the
parse context of the start. -/
theorem rewriteCreateSubTable_spec (env : Env) (renv : RewriteEnv) (pCxt : STranslateContext)
    (c : SCreateSubTableClause) (m : List (Int × SVgroupTablesBatch)) :
    (rewriteCreateSubTable env renv pCxt c m).2.2.pParseCxt = pCxt.pParseCxt ∧
    ((rewriteCreateSubTable env renv pCxt c m).1 = TSDB_CODE_SUCCESS →
      ∃ (row : SKVRow) (suid : Nat),
        (rewriteCreateSubTable env renv pCxt c m).2.1 =
          addCreateTbReqIntoVgroup env pCxt.pParseCxt.acctId m c.dbName c.tableName row suid
            (routedVgroup env pCxt.pParseCxt.acctId c)) := by
  have hm : (getTableMeta env pCxt c.useDbName c.useTableName).2.2.pParseCxt =
      pCxt.pParseCxt := by
    simp [getTableMeta, getTableMetaImpl, collectUseDatabase, collectUseDatabaseImpl,
      collectUseTable]
  have hb : ∀ (c0 : STranslateContext) (meta : STableMeta),
      (if c.pSpecificTags.isSome = true then buildKVRowForBindTags env renv c0 c meta []
        else buildKVRowForAllTags env renv c0 c meta []).2.2.pParseCxt = c0.pParseCxt := by
    intro c0 meta
    split_ifs
    · unfold buildKVRowForBindTags
      dsimp only
      split_ifs
      · simp [generateSyntaxErrMsg]
      · exact buildKVRowForBindTagsLoop_pParseCxt _ _ _ _ _ _ _ _
    · unfold buildKVRowForAllTags
      split_ifs
      · simp [generateSyntaxErrMsg]
      · exact buildKVRowForAllTagsLoop_pParseCxt _ _ _ _ _ _ _
  unfold rewriteCreateSubTable
  dsimp only
  have hb1 := hb (getTableMeta env pCxt c.useDbName c.useTableName).2.2
    ((getTableMeta env pCxt c.useDbName c.useTableName).2.1.getD {})
  generalize (if c.pSpecificTags.isSome = true then
      buildKVRowForBindTags env renv (getTableMeta env pCxt c.useDbName c.useTableName).2.2 c
        ((getTableMeta env pCxt c.useDbName c.useTableName).2.1.getD {}) []
    else
      buildKVRowForAllTags env renv (getTableMeta env pCxt c.useDbName c.useTableName).2.2 c
        ((getTableMeta env pCxt c.useDbName c.useTableName).2.1.getD {}) []) = b at hb1 ⊢
  have hp := getTableHashVgroup_spec env b.2.2 c.dbName c.tableName
  split_ifs with h1 h2 h3
  · exact ⟨hm, fun h => absurd h h1⟩
  · exact ⟨by rw [hb1, hm], fun h => absurd h h2⟩
  · exact ⟨by rw [hp.2.2, hb1, hm], fun h => absurd h h3⟩
  · refine ⟨by rw [hp.2.2, hb1, hm], fun _ => ⟨renv.tdSortKVRowByColIdx b.2.1,
      ((getTableMeta env pCxt c.useDbName c.useTableName).2.1.getD {}).uid, ?_⟩⟩
    dsimp only
    rw [hp.2.2, hp.2.1, hb1, hm]
    rfl

theorem routedCount_append (env : Env) (acctId : Int) (done : List SCreateSubTableClause)
    (c : SCreateSubTableClause) (g : Int) :
    routedCount env acctId (done ++ [c]) g =
      routedCount env acctId done g +
        (if (routedVgroup env acctId c).vgId = g then 1 else 0) := by
  simp only [routedCount, List.filter_append, List.length_append, List.filter_cons,
    List.filter_nil]
  split_ifs <;> simp_all

theorem taosHashGet_none (m : List (Int × SVgroupTablesBatch)) (g : Int) :
    taosHashGet m g = none ↔ g ∉ m.map Prod.fst := by
  simp [taosHashGet, List.find?_eq_none]
  constructor
  · intro h x hx
    exact h g x hx rfl
  · intro h a b hab heq
    subst heq
    exact h b hab

/-- One step of the loop keeps what the map holds. -/
theorem addCreateTbReqIntoVgroup_inv (env : Env) (acctId : Int)
    (m : List (Int × SVgroupTablesBatch)) (done : List SCreateSubTableClause)
    (c : SCreateSubTableClause) (row : SKVRow) (suid : Nat)
    (h : VgroupMapInv env acctId m done) :
    VgroupMapInv env acctId
      (addCreateTbReqIntoVgroup env acctId m c.dbName c.tableName row suid
        (routedVgroup env acctId c)) (done ++ [c]) := by
  obtain ⟨hnd, hent, hkeys⟩ := h
  unfold addCreateTbReqIntoVgroup
  dsimp only
  cases hg : taosHashGet m (routedVgroup env acctId c).vgId with
  | none =>
    have hnot := (taosHashGet_none m _).mp hg
    have hzero : routedCount env acctId done (routedVgroup env acctId c).vgId = 0 := by
      simp only [routedCount, List.length_eq_zero, List.filter_eq_nil_iff, decide_eq_true_eq]
      intro c' hc' heq
      exact hnot (heq ▸ hkeys c' hc')
    simp only [taosHashPut, hg, Option.isSome_none, Bool.false_eq_true, if_false]
    refine ⟨?_, ?_, ?_⟩
    · rw [List.map_append, List.map_singleton]
      exact List.Nodup.append hnd (List.nodup_singleton _)
        (by simpa [List.disjoint_singleton] using hnot)
    · intro e he
      rcases List.mem_append.mp he with he | he
      · obtain ⟨a, b, _⟩ := hent e he
        have hne : (routedVgroup env acctId c).vgId ≠ e.1 := by
          intro heq
          exact hnot (heq ▸ List.mem_map_of_mem Prod.fst he)
        rw [routedCount_append, if_neg hne]
        exact ⟨a, by simpa using b, by omega⟩
      · simp only [List.mem_singleton] at he
        subst he
        rw [routedCount_append, hzero]
        simp
    · intro c' hc'
      rw [List.map_append, List.map_singleton]
      rcases List.mem_append.mp hc' with hc' | hc'
      · exact List.mem_append_left _ (hkeys c' hc')
      · simp only [List.mem_singleton] at hc'
        subst hc'
        simp
  | some b0 =>
    have hin : (routedVgroup env acctId c).vgId ∈ m.map Prod.fst := by
      by_contra hcon
      rw [(taosHashGet_none m _).mpr hcon] at hg
      exact absurd hg (by simp)
    have hfst : (m.map fun e =>
        if e.1 = (routedVgroup env acctId c).vgId then
          (e.1, { e.2 with req := { pArray := e.2.req.pArray ++
            [{ type := TD_CHILD_TABLE
               dbFName := env.tNameGetFullDbName { acctId := acctId, dbname := c.dbName }
               name := c.tableName
               ctbCfg := { suid := suid, pTag := row } }] } })
        else e).map Prod.fst = m.map Prod.fst := by
      rw [List.map_map]
      apply List.map_congr_left
      intro e _
      simp only [Function.comp]
      split_ifs <;> rfl
    refine ⟨?_, ?_, ?_⟩
    · rw [hfst]; exact hnd
    · intro e' he'
      obtain ⟨e, he, rfl⟩ := List.mem_map.mp he'
      obtain ⟨a, b, _⟩ := hent e he
      by_cases hk : e.1 = (routedVgroup env acctId c).vgId
      · rw [if_pos hk]
        dsimp only
        rw [routedCount_append, if_pos hk.symm]
        refine ⟨a, ?_, by omega⟩
        simp [b]
      · rw [if_neg hk, routedCount_append, if_neg (fun h => hk h.symm)]
        exact ⟨a, by simpa using b, by omega⟩
    · intro c' hc'
      rw [hfst]
      rcases List.mem_append.mp hc' with hc' | hc'
      · exact hkeys c' hc'
      · simp only [List.mem_singleton] at hc'
        subst hc'
        exact hin

/-- The loop over the clauses keeps what the map holds. -/
theorem rewriteCreateMultiTableLoop_inv (env : Env) (renv : RewriteEnv)
    (rest : List SCreateSubTableClause) (pCxt : STranslateContext)
    (m : List (Int × SVgroupTablesBatch)) (done : List SCreateSubTableClause)
    (h : VgroupMapInv env pCxt.pParseCxt.acctId m done)
    (hok : (rewriteCreateMultiTableLoop env renv rest pCxt m).1 = TSDB_CODE_SUCCESS) :
    VgroupMapInv env pCxt.pParseCxt.acctId
      (rewriteCreateMultiTableLoop env renv rest pCxt m).2.1 (done ++ rest) := by
  induction rest generalizing pCxt m done with
  | nil => simpa [rewriteCreateMultiTableLoop] using h
  | cons c rest ih =>
    unfold rewriteCreateMultiTableLoop at hok ⊢
    dsimp only at hok ⊢
    have hs := rewriteCreateSubTable_spec env renv pCxt c m
    by_cases h1 : (rewriteCreateSubTable env renv pCxt c m).1 = TSDB_CODE_SUCCESS
    · rw [if_neg (by simpa using h1)] at hok ⊢
      obtain ⟨row, suid, hmap⟩ := hs.2 h1
      have hstep := addCreateTbReqIntoVgroup_inv env pCxt.pParseCxt.acctId m done c row suid h
      rw [← hmap, ← hs.1] at hstep
      have := ih _ _ (done ++ [c]) hstep hok
      rw [hs.1] at this
      simpa using this
    · rw [if_pos h1] at hok
      exact absurd hok h1

theorem serializeVgroupsTablesBatch_map (renv : RewriteEnv)
    (m : List (Int × SVgroupTablesBatch)) :
    serializeVgroupsTablesBatch renv m = m.map fun e => dataBlockOf renv e.2.info e.2.req := by
  have key : ∀ (l : List (Int × SVgroupTablesBatch)) (acc : List SVgDataBlocks),
      l.foldl (fun pBufArray e => (serializeVgroupTablesBatch renv e.2 pBufArray).2) acc =
        acc ++ l.map fun e => dataBlockOf renv e.2.info e.2.req := by
    intro l
    induction l with
    | nil => simp
    | cons e l ih =>
      intro acc
      rw [List.foldl_cons, ih]
      simp [serializeVgroupTablesBatch, dataBlockOf]
  simpa [serializeVgroupsTablesBatch] using key m []

theorem sum_indicator_zero (keys : List Int) (x : Int) (h : x ∉ keys) :
    (keys.map fun k => if x = k then 1 else 0).sum = 0 := by
  induction keys with
  | nil => simp
  | cons k ks ih =>
    have hk : x ≠ k := fun heq => h (heq ▸ List.mem_cons_self _ _)
    have := ih (fun hx => h (List.mem_cons_of_mem _ hx))
    simp [hk, this]

theorem sum_indicator_one (keys : List Int) (x : Int) (hnd : keys.Nodup) (h : x ∈ keys) :
    (keys.map fun k => if x = k then 1 else 0).sum = 1 := by
  induction keys with
  | nil => simp at h
  | cons k ks ih =>
    obtain ⟨hk, hks⟩ := List.nodup_cons.mp hnd
    by_cases hx : x = k
    · subst hx
      simp [sum_indicator_zero ks x hk]
    · have hmem : x ∈ ks := by
        rcases List.mem_cons.mp h with h | h
        · exact absurd h hx
        · exact h
      simp [hx, ih hks hmem]

theorem sum_routedCount (env : Env) (acctId : Int) (keys : List Int) (hnd : keys.Nodup)
    (l : List SCreateSubTableClause)
    (h : ∀ c ∈ l, (routedVgroup env acctId c).vgId ∈ keys) :
    (keys.map (routedCount env acctId l)).sum = l.length := by
  induction l with
  | nil =>
    have hz : routedCount env acctId [] = fun _ => 0 := by
      funext k
      simp [routedCount]
    simp [hz]
  | cons c l ih =>
    have hc := h c (List.mem_cons_self _ _)
    have ihl := ih (fun c' hc' => h c' (List.mem_cons_of_mem _ hc'))
    have hsplit : ∀ k, routedCount env acctId (c :: l) k =
        (if (routedVgroup env acctId c).vgId = k then 1 else 0) +
          routedCount env acctId l k := by
      intro k
      simp only [routedCount, List.filter_cons]
      by_cases hk : (routedVgroup env acctId c).vgId = k
      · simp [hk]
        omega
      · simp [hk]
    have : (keys.map (routedCount env acctId (c :: l))) =
        keys.map fun k => (if (routedVgroup env acctId c).vgId = k then 1 else 0) +
          routedCount env acctId l k := List.map_congr_left (fun k _ => hsplit k)
    rw [this, List.sum_map_add, sum_indicator_one keys _ hnd hc, ihl]
    simp [Nat.add_comm]

/-- C13: when `rewriteCreateMultiTable` succeeds on a statement with the sub-table clauses
`l`, the root is replaced by a statement for the vnodes that remembers the node type of the
statement and carries data blocks such that: no two blocks are for the same vgroup id; the
vgroup ids of the blocks are exactly the ids of the vgroups that the catalog routes the
tables of the clauses to; `numOfTables` of each block is the number of clauses routed to
the vgroup of the block; and `numOfTables` of all blocks sum to the number of clauses. -/
theorem rewriteCreateMultiTable_partition (env : Env) (renv : RewriteEnv)
    (pCxt : STranslateContext) (pQuery : SQuery) (s : SCreateMultiTableStmt)
    (hroot : pQuery.pRoot = .createMultiTableStmt s)
    (hok : (rewriteCreateMultiTable env renv pCxt pQuery s).1 = TSDB_CODE_SUCCESS) :
    ∃ blocks : List SVgDataBlocks,
      (rewriteCreateMultiTable env renv pCxt pQuery s).2.1 =
        { pQuery with
          pRoot := .vnodeModifStmt
            { sqlNodeType := QUERY_NODE_CREATE_MULTI_TABLE_STMT, pDataBlocks := blocks } } ∧
      (blocks.map fun b => b.vg.vgId).Nodup ∧
      (∀ g : Int, g ∈ (blocks.map fun b => b.vg.vgId) ↔
        ∃ c ∈ s.pSubTables, (routedVgroup env pCxt.pParseCxt.acctId c).vgId = g) ∧
      (∀ b ∈ blocks,
        b.numOfTables = routedCount env pCxt.pParseCxt.acctId s.pSubTables b.vg.vgId) ∧
      (blocks.map fun b => b.numOfTables).sum = s.pSubTables.length := by
  have hloop : (rewriteCreateMultiTableLoop env renv s.pSubTables pCxt []).1 =
      TSDB_CODE_SUCCESS := by
    by_contra hne
    simp only [rewriteCreateMultiTable, ne_eq, hne, not_false_eq_true, if_true] at hok
  have hinv := rewriteCreateMultiTableLoop_inv env renv s.pSubTables pCxt [] []
    ⟨by simp, by simp, by simp⟩ hloop
  rw [List.nil_append] at hinv
  obtain ⟨hnd, hent, hkeys⟩ := hinv
  have hids : ((rewriteCreateMultiTableLoop env renv s.pSubTables pCxt []).2.1.map
      fun e => dataBlockOf renv e.2.info e.2.req).map (fun b => b.vg.vgId) =
      (rewriteCreateMultiTableLoop env renv s.pSubTables pCxt []).2.1.map Prod.fst := by
    rw [List.map_map]
    apply List.map_congr_left
    intro e he
    simpa [dataBlockOf] using (hent e he).1
  refine ⟨(rewriteCreateMultiTableLoop env renv s.pSubTables pCxt []).2.1.map
    fun e => dataBlockOf renv e.2.info e.2.req, ?_, ?_, ?_, ?_, ?_⟩
  · simp only [rewriteCreateMultiTable, ne_eq, hloop, not_true_eq_false, if_false,
      rewriteToVnodeModifOpStmt, serializeVgroupsTablesBatch_map, hroot, Stmt.nodeType]
  · rw [hids]; exact hnd
  · intro g
    rw [hids]
    constructor
    · intro hg
      obtain ⟨e, he, rfl⟩ := List.mem_map.mp hg
      have hpos := (hent e he).2.2
      simp only [routedCount] at hpos
      obtain ⟨c, hc⟩ := List.exists_mem_of_length_pos hpos
      obtain ⟨hc1, hc2⟩ := List.mem_filter.mp hc
      exact ⟨c, hc1, by simpa using hc2⟩
    · rintro ⟨c, hc, rfl⟩
      exact hkeys c hc
  · intro b hb
    obtain ⟨e, he, rfl⟩ := List.mem_map.mp hb
    obtain ⟨h1, h2, _⟩ := hent e he
    simp only [dataBlockOf]
    rw [h2, h1]
  · have hnum : ((rewriteCreateMultiTableLoop env renv s.pSubTables pCxt []).2.1.map
        fun e => dataBlockOf renv e.2.info e.2.req).map (fun b => b.numOfTables) =
        ((rewriteCreateMultiTableLoop env renv s.pSubTables pCxt []).2.1.map Prod.fst).map
          (routedCount env pCxt.pParseCxt.acctId s.pSubTables) := by
      rw [List.map_map, List.map_map]
      apply List.map_congr_left
      intro e he
      simpa [dataBlockOf] using (hent e he).2.1
    rw [hnum]
    exact sum_routedCount env _ _ hnd _ hkeys

/-- Witness of C13: of the three clauses for the tables `c1`, `c2` and `c3`, the first and
the third are routed to vgroup 2 and the second to vgroup 3; the statement is replaced by
one with two data blocks, which count three tables. -/
theorem rewriteCreateMultiTable_partition_witness :
    ∃ blocks : List SVgDataBlocks,
      (rewriteCreateMultiTable demoMultiEnv demoRewriteEnv demoInitCxt
          { pRoot := .createMultiTableStmt demoCreateMultiTable } demoCreateMultiTable).2.1 =
        { pRoot := .vnodeModifStmt
            { sqlNodeType := QUERY_NODE_CREATE_MULTI_TABLE_STMT, pDataBlocks := blocks } } ∧
      (blocks.map fun b => b.vg.vgId).Nodup ∧
      (∀ g : Int, g ∈ (blocks.map fun b => b.vg.vgId) ↔
        ∃ c ∈ demoCreateMultiTable.pSubTables, (routedVgroup demoMultiEnv 0 c).vgId = g) ∧
      (∀ b ∈ blocks,
        b.numOfTables = routedCount demoMultiEnv 0 demoCreateMultiTable.pSubTables b.vg.vgId) ∧
      (blocks.map fun b => b.numOfTables).sum = 3 :=
  rewriteCreateMultiTable_partition demoMultiEnv demoRewriteEnv demoInitCxt
    { pRoot := .createMultiTableStmt demoCreateMultiTable } demoCreateMultiTable rfl
    (by decide!)

/-- C21 (the code at the failing input): a value node that is not a duration and whose
declared type is a signed or unsigned integer or a floating point type is translated with
`DEAL_RES_CONTINUE` and marked translated whatever its literal is, with the context
untouched: the end pointer of `strtoll`, `strtoull` and `strtold` is never looked at. So the
literal `abc` declared `BIGINT` is accepted. Only an unparsable duration and an unparsable
timestamp fail with `TSDB_CODE_PAR_WRONG_VALUE_TYPE`, leaving the node as it was (not marked
translated). -/
theorem translateValue_unparsable_number_accepted :
    (∀ (env : Env) (pCxt : STranslateContext) (pVal : SValueNode),
      pVal.isDuration = false → isNumericType pVal.node.resType.type = true →
        (translateValue env pCxt pVal).1 = DEAL_RES_CONTINUE ∧
        (translateValue env pCxt pVal).2.1.translate = true ∧
        (translateValue env pCxt pVal).2.2 = pCxt) ∧
    (translateValue demoEnv demoInitCxt demoValueAbc).1 = DEAL_RES_CONTINUE ∧
    (translateValue demoEnv demoInitCxt demoValueAbc).2.1.translate = true ∧
    (translateValue demoEnv demoInitCxt demoValueAbc).2.2.errCode = TSDB_CODE_SUCCESS ∧
    (∀ (env : Env) (pCxt : STranslateContext) (pVal : SValueNode),
      pVal.isDuration = true →
      env.parseNatualDuration pVal.literal pVal.node.resType.precision = none →
        translateValue env pCxt pVal =
          (DEAL_RES_ERROR, pVal,
            { pCxt with msgBuf := pCxt.msgBuf ++ [TSDB_CODE_PAR_WRONG_VALUE_TYPE],
                        errCode := TSDB_CODE_PAR_WRONG_VALUE_TYPE })) ∧
    (∀ (env : Env) (pCxt : STranslateContext) (pVal : SValueNode),
      pVal.isDuration = false → pVal.node.resType.type = TSDB_DATA_TYPE_TIMESTAMP →
      env.taosParseTime pVal.literal pVal.node.resType.bytes pVal.node.resType.precision =
        none →
        translateValue env pCxt pVal =
          (DEAL_RES_ERROR, pVal,
            { pCxt with msgBuf := pCxt.msgBuf ++ [TSDB_CODE_PAR_WRONG_VALUE_TYPE],
                        errCode := TSDB_CODE_PAR_WRONG_VALUE_TYPE })) := by
  refine ⟨?_, by decide, by decide, by decide, ?_, ?_⟩
  · intro env pCxt pVal hd ht
    unfold translateValue
    rw [hd]
    cases h : pVal.node.resType.type <;> simp [h, isNumericType] at ht ⊢
  · intro env pCxt pVal hd hp
    simp [translateValue, hd, hp, generateDealNodeErrMsg]
  · intro env pCxt pVal hd ht hp
    simp [translateValue, hd, ht, hp, generateDealNodeErrMsg]

/-- C26 (the code at the failing input): `translateExpr` on a subquery expression returns
the error code recorded in the context after the subquery was translated, not the code the
subquery returned. The subquery `SELECT a FROM nosuch` fails with
`TSDB_CODE_PAR_TABLE_NOT_EXIST`, which is returned without being recorded in the context, so
`translateExpr` and `translateExprList` on the expression that embeds it return success, and
the select `SELECT a FROM t WHERE (SELECT a FROM nosuch) > a` around it is translated with
success. -/
theorem translateExpr_drops_subquery_failure :
    (∀ (env : Env) (tq : QueryTranslator) (pCxt : STranslateContext) (t : STableNode)
        (q : Node),
      (translateExpr env tq pCxt (some (.tempTable t (some q)))).1 =
        (tq { pCxt with currLevel := pCxt.currLevel + 1 } q).2.2.errCode) ∧
    (translateQueryDepth demoCatalogEnv 0 { demoInitCxt with currLevel := 1 }
      parsedSelectMissingTable).1 = TSDB_CODE_PAR_TABLE_NOT_EXIST ∧
    (translateExpr demoCatalogEnv (translateQueryDepth demoCatalogEnv 0) demoInitCxt
      (some (.tempTable {} (some parsedSelectMissingTable)))).1 = TSDB_CODE_SUCCESS ∧
    (translateExprList demoCatalogEnv (translateQueryDepth demoCatalogEnv 0) demoInitCxt
      (some [.tempTable {} (some parsedSelectMissingTable)])).1 = TSDB_CODE_SUCCESS ∧
    (translateQueryDepth demoCatalogEnv 1 demoInitCxt parsedSelectMissingTableInWhere).1 =
      TSDB_CODE_SUCCESS := by
  refine ⟨?_, by decide!, by decide!, by decide!, by decide!⟩
  intro env tq pCxt t q
  simp [translateExpr, nodesWalkOptPostOrder, nodesWalkNodePostOrder, doTranslateExpr,
    translateExprSubquery, translateSubquery]

/-- C27 (the code at the failing input): `SELECT count(*) AS c FROM t` is translated with
success, but with `ORDER BY 1` and with `ORDER BY c` the select fails with
`TSDB_CODE_PAR_NOT_SINGLE_GROUP`: the key is a column node that references the projection,
and the walk of `checkAggColCoexist` over the ORDER BY list counts it as a column beside the
aggregate function. -/
theorem translateSelect_aggregate_order_by_own_projection :
    (translateQueryDepth demoCatalogEnv 0 demoInitCxt parsedSelectCount).1 =
      TSDB_CODE_SUCCESS ∧
    (translateQueryDepth demoCatalogEnv 0 demoInitCxt parsedSelectCountOrderByPosition).1 =
      TSDB_CODE_PAR_NOT_SINGLE_GROUP ∧
    (translateQueryDepth demoCatalogEnv 0 demoInitCxt parsedSelectCountOrderByAlias).1 =
      TSDB_CODE_PAR_NOT_SINGLE_GROUP := by
  decide!

/-- C28 (the code at the failing input): for `SELECT a AS x, ts AS x FROM t ORDER BY 2, a`
the translation succeeds and the first key, the positional literal 2, ends up referencing
the first projection (index 0), not the second: the first pass rewrites it to a column named
by the alias `x` of the second projection, and the second pass resolves that name again to
the first projection with the alias `x`. Without another key (`ORDER BY 2`) there is no
second pass and the key references the second projection (index 1). -/
theorem translateOrderBy_rebinds_position :
    (translateQueryDepth demoCatalogEnv 0 demoInitCxt parsedSelectSharedAlias).1 =
      TSDB_CODE_SUCCESS ∧
    (translateQueryDepth demoCatalogEnv 0 demoInitCxt
      parsedSelectSharedAlias).2.1.orderByProjectRefs = [some 0, none] ∧
    (translateQueryDepth demoCatalogEnv 0 demoInitCxt
      parsedSelectSharedAliasPositionOnly).1 = TSDB_CODE_SUCCESS ∧
    (translateQueryDepth demoCatalogEnv 0 demoInitCxt
      parsedSelectSharedAliasPositionOnly).2.1.orderByProjectRefs = [some 1] := by
  decide!

theorem translateValue_error_errCode (env : Env) (pCxt : STranslateContext)
    (pVal : SValueNode) (h : (translateValue env pCxt pVal).1 = DEAL_RES_ERROR) :
    (translateValue env pCxt pVal).2.2.errCode = TSDB_CODE_PAR_WRONG_VALUE_TYPE := by
  unfold translateValue at h ⊢
  split_ifs at h ⊢
  · cases hp : env.parseNatualDuration pVal.literal pVal.node.resType.precision <;>
      simp [hp, generateDealNodeErrMsg] at h ⊢
  · cases ht : pVal.node.resType.type <;>
      cases hp : env.taosParseTime pVal.literal pVal.node.resType.bytes
        pVal.node.resType.precision <;> simp [ht, hp, generateDealNodeErrMsg] at h ⊢

theorem translateValue_node_indep (env : Env) (c1 c2 : STranslateContext) (pVal : SValueNode) :
    (translateValue env c1 pVal).1 = (translateValue env c2 pVal).1 ∧
    (translateValue env c1 pVal).2.1 = (translateValue env c2 pVal).2.1 := by
  unfold translateValue
  split_ifs
  · cases env.parseNatualDuration pVal.literal pVal.node.resType.precision <;>
      simp [generateDealNodeErrMsg]
  · cases pVal.node.resType.type <;>
      cases env.taosParseTime pVal.literal pVal.node.resType.bytes
        pVal.node.resType.precision <;> simp [generateDealNodeErrMsg]

theorem addValToKVRow_code (env : Env) (renv : RewriteEnv) (pCxt : STranslateContext)
    (pVal : SValueNode) (pSchema : SSchema) (pBuilder : SKVRow)
    (hdump : ∀ v t, (renv.taosVariantDump v t).1 ≠ TSDB_CODE_PAR_TAGS_NOT_MATCHED) :
    (addValToKVRow env renv pCxt pVal pSchema pBuilder).1 ≠ TSDB_CODE_PAR_TAGS_NOT_MATCHED := by
  unfold addValToKVRow
  dsimp only
  split_ifs with h1 h2
  · rw [translateValue_error_errCode env pCxt pVal h1]
    simp
  · exact hdump _ _
  · exact hdump _ _

theorem addValToKVRow_success (env : Env) (renv : RewriteEnv) (pCxt : STranslateContext)
    (pVal : SValueNode) (pSchema : SSchema) (pBuilder : SKVRow)
    (h : (addValToKVRow env renv pCxt pVal pSchema pBuilder).1 = TSDB_CODE_SUCCESS) :
    (addValToKVRow env renv pCxt pVal pSchema pBuilder).2.1 =
      pBuilder ++ [tagColOf env renv pVal pSchema] := by
  unfold addValToKVRow at h ⊢
  dsimp only at h ⊢
  split_ifs at h ⊢ with h1 h2
  · rw [translateValue_error_errCode env pCxt pVal h1] at h
    simp at h
  · simp only [tagColOf, (translateValue_node_indep env pCxt {} pVal).2]
  · exact absurd h h2

theorem buildKVRowForAllTagsLoop_code (env : Env) (renv : RewriteEnv)
    (pTagSchema : List SSchema) (vals : List SValueNode) (index : Nat)
    (pCxt : STranslateContext) (pBuilder : SKVRow)
    (hdump : ∀ v t, (renv.taosVariantDump v t).1 ≠ TSDB_CODE_PAR_TAGS_NOT_MATCHED) :
    (buildKVRowForAllTagsLoop env renv pTagSchema vals index pCxt pBuilder).1 ≠
      TSDB_CODE_PAR_TAGS_NOT_MATCHED := by
  induction vals generalizing index pCxt pBuilder with
  | nil => simp [buildKVRowForAllTagsLoop]
  | cons pVal vals ih =>
    unfold buildKVRowForAllTagsLoop
    dsimp only
    split_ifs with h
    · exact addValToKVRow_code env renv pCxt pVal _ pBuilder hdump
    · exact ih _ _ _

theorem buildKVRowForAllTagsLoop_row (env : Env) (renv : RewriteEnv)
    (pTagSchema : List SSchema) (vals : List SValueNode) (index : Nat)
    (pCxt : STranslateContext) (pBuilder : SKVRow)
    (h : (buildKVRowForAllTagsLoop env renv pTagSchema vals index pCxt pBuilder).1 =
      TSDB_CODE_SUCCESS) :
    (buildKVRowForAllTagsLoop env renv pTagSchema vals index pCxt pBuilder).2.1 =
      pBuilder ++ (vals.enumFrom index).map fun p =>
        tagColOf env renv p.2 (pTagSchema.getD p.1 {}) := by
  induction vals generalizing index pCxt pBuilder with
  | nil => simp [buildKVRowForAllTagsLoop]
  | cons pVal vals ih =>
    unfold buildKVRowForAllTagsLoop at h ⊢
    dsimp only at h ⊢
    split_ifs at h ⊢ with h1
    · exact absurd h h1
    · rw [ih _ _ _ h, addValToKVRow_success env renv pCxt pVal _ pBuilder (not_not.mp h1)]
      simp [List.enumFrom]

theorem buildKVRowForBindTagsLoop_names (env : Env) (renv : RewriteEnv)
    (pTagSchema : List SSchema) (numOfTags : Nat) (tags : List SColumnNode)
    (vals : List SValueNode) (pCxt : STranslateContext) (pBuilder : SKVRow)
    (hlen : tags.length ≤ vals.length)
    (h : (buildKVRowForBindTagsLoop env renv pTagSchema numOfTags tags vals pCxt
      pBuilder).1 = TSDB_CODE_SUCCESS) :
    ∀ c ∈ tags, (findSchema c.colName pTagSchema 0 numOfTags).isSome = true := by
  induction tags generalizing vals pCxt pBuilder with
  | nil => simp
  | cons pCol tags ih =>
    cases vals with
    | nil => simp at hlen
    | cons pVal vals =>
      unfold buildKVRowForBindTagsLoop at h
      cases hf : findSchema pCol.colName pTagSchema 0 numOfTags with
      | none => simp [hf, generateSyntaxErrMsg] at h
      | some p =>
        simp only [hf] at h
        split_ifs at h with h1
        · exact absurd h h1
        · intro c hc
          rcases List.mem_cons.mp hc with rfl | hc
          · simp [hf]
          · exact ih vals _ _ (by simpa using hlen) h c hc

theorem buildKVRowForBindTagsLoop_cons (env : Env) (renv : RewriteEnv)
    (pTagSchema : List SSchema) (numOfTags : Nat) (pCol : SColumnNode)
    (tags : List SColumnNode) (pVal : SValueNode) (vals : List SValueNode)
    (pCxt : STranslateContext) (pBuilder : SKVRow) (p : Nat × SSchema)
    (hf : findSchema pCol.colName pTagSchema 0 numOfTags = some p) :
    buildKVRowForBindTagsLoop env renv pTagSchema numOfTags (pCol :: tags) (pVal :: vals)
        pCxt pBuilder =
      if (addValToKVRow env renv pCxt pVal p.2 pBuilder).1 ≠ TSDB_CODE_SUCCESS then
        addValToKVRow env renv pCxt pVal p.2 pBuilder
      else
        buildKVRowForBindTagsLoop env renv pTagSchema numOfTags tags vals
          (addValToKVRow env renv pCxt pVal p.2 pBuilder).2.2
          (addValToKVRow env renv pCxt pVal p.2 pBuilder).2.1 := by
  rw [buildKVRowForBindTagsLoop]
  simp only [hf]

theorem buildKVRowForBindTagsLoop_append (env : Env) (renv : RewriteEnv)
    (pTagSchema : List SSchema) (numOfTags : Nat) (pre rest : List SColumnNode)
    (vals : List SValueNode) (pCxt : STranslateContext) (pBuilder : SKVRow)
    (hlen : pre.length ≤ vals.length)
    (h : (buildKVRowForBindTagsLoop env renv pTagSchema numOfTags pre
      (vals.take pre.length) pCxt pBuilder).1 = TSDB_CODE_SUCCESS) :
    buildKVRowForBindTagsLoop env renv pTagSchema numOfTags (pre ++ rest) vals pCxt pBuilder =
      buildKVRowForBindTagsLoop env renv pTagSchema numOfTags rest (vals.drop pre.length)
        (buildKVRowForBindTagsLoop env renv pTagSchema numOfTags pre
          (vals.take pre.length) pCxt pBuilder).2.2
        (buildKVRowForBindTagsLoop env renv pTagSchema numOfTags pre
          (vals.take pre.length) pCxt pBuilder).2.1 := by
  induction pre generalizing vals pCxt pBuilder with
  | nil => simp [buildKVRowForBindTagsLoop]
  | cons pCol pre ih =>
    cases vals with
    | nil => simp at hlen
    | cons pVal vals =>
      simp only [List.length_cons, List.take_succ_cons, List.drop_succ_cons,
        List.cons_append] at h ⊢
      cases hf : findSchema pCol.colName pTagSchema 0 numOfTags with
      | none => simp [buildKVRowForBindTagsLoop, hf, generateSyntaxErrMsg] at h
      | some p =>
        rw [buildKVRowForBindTagsLoop_cons env renv _ _ _ _ _ _ _ _ p hf] at h ⊢
        rw [buildKVRowForBindTagsLoop_cons env renv _ _ _ _ _ _ _ _ p hf]
        by_cases h1 : (addValToKVRow env renv pCxt pVal p.2 pBuilder).1 = TSDB_CODE_SUCCESS
        · simp only [ne_eq, h1, not_true_eq_false, if_false] at h ⊢
          exact ih vals _ _ (by simpa using hlen) h
        · rw [if_pos h1] at h
          exact absurd h h1

theorem isTagName_iff (pSuperTableMeta : STableMeta) (name : String) :
    isTagName pSuperTableMeta name = true ↔
      (findSchema name (getTableTagSchema pSuperTableMeta) 0
        (getNumOfTags pSuperTableMeta)).isSome = true := by
  rw [findSchema_isSome]
  simp [isTagName]

/-- C23, amended: with bound tag names, `buildKVRowForBindTags` succeeds only if there are as
many values as bound names and every bound name is a tag of the super table; it fails with
`TSDB_CODE_PAR_TAGS_NOT_MATCHED`, adding nothing to the row, when the counts differ or there
are more values than tags; otherwise, when the values bound to the names before it are added
without error, it fails with `TSDB_CODE_PAR_INVALID_TAG_NAME` at the first bound name that is
not a tag. Without bound names, `buildKVRowForAllTags` fails with
`TSDB_CODE_PAR_TAGS_NOT_MATCHED` if and only if the number of values differs from the number
of tags (the dump of a value never reports that code), and a row built with success holds,
after what the builder held, the i-th value paired with the i-th tag, for every i. -/
theorem buildKVRow_tag_binding (env : Env) (renv : RewriteEnv) (pCxt : STranslateContext)
    (pStmt : SCreateSubTableClause) (pSuperTableMeta : STableMeta) (pBuilder : SKVRow)
    (hdump : ∀ v t, (renv.taosVariantDump v t).1 ≠ TSDB_CODE_PAR_TAGS_NOT_MATCHED) :
    (∀ tags, pStmt.pSpecificTags = some tags →
      ((buildKVRowForBindTags env renv pCxt pStmt pSuperTableMeta pBuilder).1 =
          TSDB_CODE_SUCCESS →
        pStmt.pValsOfTags.length = tags.length ∧
        ∀ c ∈ tags, isTagName pSuperTableMeta c.colName = true) ∧
      ((pStmt.pValsOfTags.length ≠ tags.length ∨
          getNumOfTags pSuperTableMeta < pStmt.pValsOfTags.length) →
        buildKVRowForBindTags env renv pCxt pStmt pSuperTableMeta pBuilder =
          (TSDB_CODE_PAR_TAGS_NOT_MATCHED, pBuilder,
            { pCxt with msgBuf := pCxt.msgBuf ++ [TSDB_CODE_PAR_TAGS_NOT_MATCHED] })) ∧
      (pStmt.pValsOfTags.length = tags.length →
        pStmt.pValsOfTags.length ≤ getNumOfTags pSuperTableMeta →
        ∀ pre bad post, tags = pre ++ bad :: post →
          (∀ c ∈ pre, isTagName pSuperTableMeta c.colName = true) →
          isTagName pSuperTableMeta bad.colName = false →
          (buildKVRowForBindTagsLoop env renv (getTableTagSchema pSuperTableMeta)
            (getNumOfTags pSuperTableMeta) pre (pStmt.pValsOfTags.take pre.length) pCxt
            pBuilder).1 = TSDB_CODE_SUCCESS →
          (buildKVRowForBindTags env renv pCxt pStmt pSuperTableMeta pBuilder).1 =
            TSDB_CODE_PAR_INVALID_TAG_NAME)) ∧
    ((buildKVRowForAllTags env renv pCxt pStmt pSuperTableMeta pBuilder).1 =
        TSDB_CODE_PAR_TAGS_NOT_MATCHED ↔
      getNumOfTags pSuperTableMeta ≠ pStmt.pValsOfTags.length) ∧
    ((buildKVRowForAllTags env renv pCxt pStmt pSuperTableMeta pBuilder).1 =
        TSDB_CODE_SUCCESS →
      (buildKVRowForAllTags env renv pCxt pStmt pSuperTableMeta pBuilder).2.1 =
        pBuilder ++ pStmt.pValsOfTags.enum.map fun p =>
          tagColOf env renv p.2 ((getTableTagSchema pSuperTableMeta).getD p.1 {})) := by
  refine ⟨?_, ?_, ?_⟩
  · intro tags htags
    refine ⟨?_, ?_, ?_⟩
    · intro hok
      unfold buildKVRowForBindTags at hok
      simp only [htags, Option.getD_some] at hok
      split_ifs at hok with hc
      · simp [generateSyntaxErrMsg] at hok
      · have hlen : pStmt.pValsOfTags.length = tags.length := by
          by_contra hne
          exact hc (Or.inl hne)
        refine ⟨hlen, fun c hmem => ?_⟩
        rw [isTagName_iff]
        exact buildKVRowForBindTagsLoop_names env renv _ _ tags pStmt.pValsOfTags pCxt
          pBuilder (by omega) hok c hmem
    · intro hc
      unfold buildKVRowForBindTags
      simp only [htags, Option.getD_some]
      rw [if_pos hc]
      rfl
    · intro hlen hnum pre bad post hsplit _ hbad hpre
      have hc : ¬ (pStmt.pValsOfTags.length ≠ tags.length ∨
          getNumOfTags pSuperTableMeta < pStmt.pValsOfTags.length) := by
        intro h
        rcases h with h | h
        · exact h hlen
        · omega
      have hl : pre.length < pStmt.pValsOfTags.length := by
        rw [hlen, hsplit]
        simp
      have hnone : findSchema bad.colName (getTableTagSchema pSuperTableMeta) 0
          (getNumOfTags pSuperTableMeta) = none := by
        cases hf : findSchema bad.colName (getTableTagSchema pSuperTableMeta) 0
          (getNumOfTags pSuperTableMeta) with
        | none => rfl
        | some p =>
          have := (isTagName_iff pSuperTableMeta bad.colName).mpr (by simp [hf])
          rw [hbad] at this
          exact absurd this (by decide)
      unfold buildKVRowForBindTags
      simp only [htags, Option.getD_some]
      rw [if_neg hc, hsplit,
        buildKVRowForBindTagsLoop_append env renv _ _ pre (bad :: post) pStmt.pValsOfTags
          pCxt pBuilder (by omega) hpre]
      cases hd : pStmt.pValsOfTags.drop pre.length with
      | nil =>
        have := congrArg List.length hd
        simp at this
        omega
      | cons v vs =>
        unfold buildKVRowForBindTagsLoop
        simp [hnone, generateSyntaxErrMsg]
  · constructor
    · intro h
      by_contra hne
      unfold buildKVRowForAllTags at h
      rw [if_neg (not_not.mpr hne)] at h
      exact buildKVRowForAllTagsLoop_code env renv _ _ _ _ _ hdump h
    · intro hne
      unfold buildKVRowForAllTags
      rw [if_pos hne]
      rfl
  · intro hok
    unfold buildKVRowForAllTags at hok ⊢
    split_ifs at hok ⊢ with hc
    · simp [generateSyntaxErrMsg] at hok
    · exact buildKVRowForAllTagsLoop_row env renv _ _ _ _ _ hok

theorem buildKVRow_tag_binding_witness :
    (∀ v t, (demoRewriteEnv.taosVariantDump v t).1 ≠ TSDB_CODE_PAR_TAGS_NOT_MATCHED) ∧
    (buildKVRowForBindTags demoEnv demoRewriteEnv demoInitCxt demoSubTableBadName
      demoSuperMetaTwoTags []).1 = TSDB_CODE_PAR_INVALID_TAG_NAME :=
  have h : ∀ v t, (demoRewriteEnv.taosVariantDump v t).1 ≠ TSDB_CODE_PAR_TAGS_NOT_MATCHED := by
    intro v t
    simp [demoRewriteEnv]
  ⟨h, ((buildKVRow_tag_binding demoEnv demoRewriteEnv demoInitCxt demoSubTableBadName
    demoSuperMetaTwoTags [] h).1 _ rfl).2.2 (by decide) (by decide)
    [{ colName := "loc" }] { colName := "bogus" } [] rfl (by decide) (by decide)
    (by decide)⟩

/-- C23, the claim as it stands fails: in `db1.c1 USING db1.st2 (since, bogus) TAGS
(TIMESTAMP 'garbage', 'x')` the counts match (two values, two bound names, two tags) and the
bound name `bogus` is not a tag, yet `buildKVRowForBindTags` does not fail with
`TSDB_CODE_PAR_INVALID_TAG_NAME`: the value bound to the tag `since` before it is not a
timestamp, and the loop stops there with `TSDB_CODE_PAR_WRONG_VALUE_TYPE`. -/
theorem buildKVRowForBindTags_value_error_counterexample :
    demoSubTableBadValue.pValsOfTags.length =
      (demoSubTableBadValue.pSpecificTags.getD []).length ∧
    demoSubTableBadValue.pValsOfTags.length ≤ getNumOfTags demoSuperMetaTwoTags ∧
    isTagName demoSuperMetaTwoTags "since" = true ∧
    isTagName demoSuperMetaTwoTags "bogus" = false ∧
    (buildKVRowForBindTags demoEnv demoRewriteEnv demoInitCxt demoSubTableBadValue
      demoSuperMetaTwoTags []).1 = TSDB_CODE_PAR_WRONG_VALUE_TYPE := by
  decide

/-- C24, amended: when the topic-query flag is set, `setTableVgroupList` returns success and
leaves the table and the context as they are, whatever the type of the table, a super table
included. Without the flag, a super table gets the distributed vgroup list of the catalog
when the catalog reports success (its code is returned otherwise), a normal or child table
gets a list of exactly one entry, the vgroup the catalog routes it to by hash, and a system
table gets the vgroup list of the database (of `useDbName` when that is set, of the database
of the name otherwise) when its name is the tables-catalog and the catalog reports success,
and is left without a list, with success, when it is another system table. -/
theorem setTableVgroupList_population (env : Env) (pCxt : STranslateContext) (pName : SName)
    (pRealTable : SRealTableNode) :
    (pCxt.pParseCxt.topicQuery = true →
      setTableVgroupList env pCxt pName pRealTable = (TSDB_CODE_SUCCESS, pRealTable, pCxt)) ∧
    (pCxt.pParseCxt.topicQuery = false →
      (realTableType pRealTable = TSDB_SUPER_TABLE →
        (setTableVgroupList env pCxt pName pRealTable).1 =
          (env.catalogGetTableDistVgInfo pName).1 ∧
        ((env.catalogGetTableDistVgInfo pName).1 = TSDB_CODE_SUCCESS →
          (setTableVgroupList env pCxt pName pRealTable).2.1 =
            { pRealTable with
              pVgroupList := some (env.catalogGetTableDistVgInfo pName).2 }) ∧
        ((env.catalogGetTableDistVgInfo pName).1 ≠ TSDB_CODE_SUCCESS →
          (setTableVgroupList env pCxt pName pRealTable).2.1 = pRealTable)) ∧
      ((realTableType pRealTable = TSDB_NORMAL_TABLE ∨
          realTableType pRealTable = TSDB_CHILD_TABLE) →
        (setTableVgroupList env pCxt pName pRealTable).1 =
          (env.catalogGetTableHashVgroup pName).1 ∧
        (setTableVgroupList env pCxt pName pRealTable).2.1 =
          { pRealTable with
            pVgroupList := some [(env.catalogGetTableHashVgroup pName).2] }) ∧
      (realTableType pRealTable = TSDB_SYSTEM_TABLE →
        (pRealTable.table.tableName ≠ env.TSDB_INS_TABLE_USER_TABLES →
          setTableVgroupList env pCxt pName pRealTable =
            (TSDB_CODE_SUCCESS, pRealTable, pCxt)) ∧
        (pRealTable.table.tableName = env.TSDB_INS_TABLE_USER_TABLES →
          (setTableVgroupList env pCxt pName pRealTable).1 =
            (env.catalogGetDBVgInfo (sysTableDbName env pCxt pName pRealTable)).1 ∧
          ((env.catalogGetDBVgInfo (sysTableDbName env pCxt pName pRealTable)).1 =
              TSDB_CODE_SUCCESS →
            (setTableVgroupList env pCxt pName pRealTable).2.1 =
              { pRealTable with
                pVgroupList :=
                  some (env.catalogGetDBVgInfo
                    (sysTableDbName env pCxt pName pRealTable)).2 }) ∧
          ((env.catalogGetDBVgInfo (sysTableDbName env pCxt pName pRealTable)).1 ≠
              TSDB_CODE_SUCCESS →
            (setTableVgroupList env pCxt pName pRealTable).2.1 = pRealTable)))) := by
  refine ⟨?_, ?_⟩
  · intro ht
    simp [setTableVgroupList, ht]
  · intro ht
    refine ⟨?_, ?_, ?_⟩
    · intro hty
      simp only [realTableType] at hty
      simp only [setTableVgroupList, ht, hty, getTableDistVgInfo, collectUseDatabase,
        collectUseDatabaseImpl, collectUseTable, toVgroupsInfo]
      by_cases hc : (env.catalogGetTableDistVgInfo pName).1 = TSDB_CODE_SUCCESS <;>
        simp [hc]
    · intro hty
      simp only [realTableType] at hty
      rcases hty with hty | hty <;>
        simp [setTableVgroupList, ht, hty, getTableHashVgroupImpl, collectUseDatabase,
          collectUseDatabaseImpl, collectUseTable]
    · intro hty
      simp only [realTableType] at hty
      refine ⟨?_, ?_⟩
      · intro hn
        simp [setTableVgroupList, ht, hty, setSysTableVgroupList, hn]
      · intro hn
        simp only [setTableVgroupList, ht, hty, setSysTableVgroupList, hn, sysTableDbName,
          getDBVgInfo, getDBVgInfoImpl, collectUseDatabaseImpl, toVgroupsInfo]
        by_cases hu : pRealTable.useDbName = ""
        · by_cases hc : (env.catalogGetDBVgInfo (env.tNameGetFullDbName pName)).1 =
              TSDB_CODE_SUCCESS <;> simp [hu, hc]
        · by_cases hc : (env.catalogGetDBVgInfo (env.tNameGetFullDbName
              { acctId := pCxt.pParseCxt.acctId, dbname := pRealTable.useDbName })).1 =
              TSDB_CODE_SUCCESS <;> simp [hu, hc]

/-- C24, the claim as it stands fails: with the topic-query flag set, the super table
`db1.st` gets no vgroup list although the catalog has the distributed list of the vgroups 2
and 3 for it, the list it gets without the flag. -/
theorem setTableVgroupList_topic_super_table_counterexample :
    realTableType demoSuperTable = TSDB_SUPER_TABLE ∧
    demoTopicCxt.pParseCxt.topicQuery = true ∧
    (setTableVgroupList demoDistEnv demoTopicCxt (toName 0 "db1" "st")
      demoSuperTable).2.1.pVgroupList = none ∧
    (setTableVgroupList demoDistEnv demoInitCxt (toName 0 "db1" "st")
      demoSuperTable).2.1.pVgroupList = some [{ vgId := 2 }, { vgId := 3 }] := by
  decide

theorem buildCreateDbRetentionsLoop_index_zero (l : List SValueNode)
    (pFreq : Option SValueNode) (pRetensions : List SRetention) :
    buildCreateDbRetentionsLoop l 0 pFreq pRetensions = pRetensions := by
  induction l generalizing pFreq with
  | nil => rfl
  | cons pNode rest ih =>
    unfold buildCreateDbRetentionsLoop
    simp [ih]

theorem checkCreateDatabaseLoop_pParseCxt (env : Env) (l : List SValueNode)
    (pCxt : STranslateContext) :
    (checkCreateDatabaseLoop env l pCxt).2.2.pParseCxt = pCxt.pParseCxt := by
  induction l generalizing pCxt with
  | nil => rfl
  | cons pNode rest ih =>
    unfold checkCreateDatabaseLoop
    dsimp only
    split_ifs
    · exact translateValue_pParseCxt env pCxt pNode
    · rw [ih, translateValue_pParseCxt]

theorem checkCreateDatabase_stmt (env : Env) (pCxt : STranslateContext)
    (pStmt : SCreateDatabaseStmt) :
    ∃ r : Option (List SValueNode),
      (checkCreateDatabase env pCxt pStmt).2.1 =
        { pStmt with pOptions := { pStmt.pOptions with pRetentions := r } } ∧
      r.isSome = pStmt.pOptions.pRetentions.isSome ∧
      (checkCreateDatabase env pCxt pStmt).2.2.pParseCxt = pCxt.pParseCxt := by
  unfold checkCreateDatabase
  cases h : pStmt.pOptions.pRetentions with
  | none =>
    refine ⟨none, ?_, rfl, rfl⟩
    obtain ⟨dbName, ignoreExists, pOptions⟩ := pStmt
    obtain ⟨_, _, _, _, _, _, _, _, _, _, _, _, _, _, _, pRetentions⟩ := pOptions
    simp only at h
    subst h
    rfl
  | some l =>
    exact ⟨some (checkCreateDatabaseLoop env l pCxt).2.1, rfl, rfl,
      checkCreateDatabaseLoop_pParseCxt env l pCxt⟩

theorem buildCreateDbReq_spec (env : Env) (pCxt : STranslateContext)
    (pStmt : SCreateDatabaseStmt) :
    buildCreateDbReq env pCxt pStmt {} =
      (TSDB_CODE_SUCCESS,
        { db := env.tNameGetFullDbName
            { acctId := pCxt.pParseCxt.acctId, dbname := pStmt.dbName }
          numOfVgroups := pStmt.pOptions.numOfVgroups
          cacheBlockSize := pStmt.pOptions.cacheBlockSize
          totalBlocks := pStmt.pOptions.numOfBlocks
          daysPerFile := pStmt.pOptions.daysPerFile
          daysToKeep0 := pStmt.pOptions.keep
          daysToKeep1 := -1
          daysToKeep2 := -1
          minRows := pStmt.pOptions.minRowsPerBlock
          maxRows := pStmt.pOptions.maxRowsPerBlock
          commitTime := -1
          fsyncPeriod := pStmt.pOptions.fsyncPeriod
          walLevel := pStmt.pOptions.walLevel
          precision := pStmt.pOptions.precision
          compression := pStmt.pOptions.compressionLevel
          replications := pStmt.pOptions.replica
          quorum := pStmt.pOptions.quorum
          update := -1
          cacheLastRow := pStmt.pOptions.cachelast
          ignoreExist := pStmt.ignoreExists
          streamMode := pStmt.pOptions.streamMode
          pRetensions := pStmt.pOptions.pRetentions.map fun _ => [] }) := by
  unfold buildCreateDbReq
  cases h : pStmt.pOptions.pRetentions with
  | none => simp [buildCreateDbRetentions]
  | some l => simp [buildCreateDbRetentions, buildCreateDbRetentionsLoop_index_zero]

/-- C25 (the code at the failing input): a CREATE DATABASE statement without retentions
passes `checkCreateDatabase`, and whenever that check succeeds `translateCreateDatabase`
returns success with one pending envelope of message type `TDMT_MND_CREATE_DB` for the
management end points, whose length is the sizing call of the serializer on the request and
whose request holds the full name of the database, `daysToKeep0` equal to the option KEEP,
-1 in `daysToKeep1`, `daysToKeep2`, `commitTime` and `update`, and every scalar option of the
statement. The retentions are the exception: a statement that has them gets a request with an
empty array of retentions, as for `CREATE DATABASE d KEEP 30 RETENTIONS 15s:7d`, whose
request has `daysToKeep0 = 30` and no retention. -/
theorem translateCreateDatabase_request :
    (∀ (env : Env) (pCxt : STranslateContext) (pStmt : SCreateDatabaseStmt),
      pStmt.pOptions.pRetentions = none →
        (checkCreateDatabase env pCxt pStmt).1 = TSDB_CODE_SUCCESS) ∧
    (∀ (env : Env) (senv : SerializeEnv) (pCxt : STranslateContext)
        (pStmt : SCreateDatabaseStmt),
      (checkCreateDatabase env pCxt pStmt).1 = TSDB_CODE_SUCCESS →
        ∃ req : SCreateDbReq,
          (translateCreateDatabase env senv pCxt pStmt).1 = TSDB_CODE_SUCCESS ∧
          (translateCreateDatabase env senv pCxt pStmt).2.2.pCmdMsg =
            some { msgType := TDMT_MND_CREATE_DB, epSet := SEpSet.mgmtEpSet,
                   msgLen := some (senv.tSerializeSCreateDbReq req),
                   pMsg := some (.createDbReq req) } ∧
          req =
            { db := env.tNameGetFullDbName
                { acctId := pCxt.pParseCxt.acctId, dbname := pStmt.dbName }
              numOfVgroups := pStmt.pOptions.numOfVgroups
              cacheBlockSize := pStmt.pOptions.cacheBlockSize
              totalBlocks := pStmt.pOptions.numOfBlocks
              daysPerFile := pStmt.pOptions.daysPerFile
              daysToKeep0 := pStmt.pOptions.keep
              daysToKeep1 := -1
              daysToKeep2 := -1
              minRows := pStmt.pOptions.minRowsPerBlock
              maxRows := pStmt.pOptions.maxRowsPerBlock
              commitTime := -1
              fsyncPeriod := pStmt.pOptions.fsyncPeriod
              walLevel := pStmt.pOptions.walLevel
              precision := pStmt.pOptions.precision
              compression := pStmt.pOptions.compressionLevel
              replications := pStmt.pOptions.replica
              quorum := pStmt.pOptions.quorum
              update := -1
              cacheLastRow := pStmt.pOptions.cachelast
              ignoreExist := pStmt.ignoreExists
              streamMode := pStmt.pOptions.streamMode
              pRetensions := pStmt.pOptions.pRetentions.map fun _ => [] }) ∧
    (checkCreateDatabase demoDurationEnv demoInitCxt demoCreateDatabaseRetentions).1 =
      TSDB_CODE_SUCCESS ∧
    (checkCreateDatabase demoDurationEnv demoInitCxt
      demoCreateDatabaseRetentions).2.1.pOptions.pRetentions =
      some demoTranslatedRetentions ∧
    ((translateCreateDatabase demoDurationEnv demoSerializeEnv demoInitCxt
      demoCreateDatabaseRetentions).2.2.createDbReqOf.map fun req => req.daysToKeep0) =
      some 30 ∧
    ((translateCreateDatabase demoDurationEnv demoSerializeEnv demoInitCxt
      demoCreateDatabaseRetentions).2.2.createDbReqOf.map fun req => req.pRetensions) =
      some (some []) ∧
    specRetentionPairs demoTranslatedRetentions =
      [{ freq := 15, freqUnit := 115, keep := 7, keepUnit := 100 }] := by
  refine ⟨?_, ?_, by decide, by decide, by decide, by decide, by decide⟩
  · intro env pCxt pStmt h
    simp [checkCreateDatabase, h]
  · intro env senv pCxt pStmt hk
    obtain ⟨r, hr, hs, hp⟩ := checkCreateDatabase_stmt env pCxt pStmt
    have hmap : (r.map fun _ => ([] : List SRetention)) =
        pStmt.pOptions.pRetentions.map fun _ => [] := by
      cases r <;> cases h2 : pStmt.pOptions.pRetentions <;> simp [h2] at hs ⊢
    refine ⟨_, ?_, ?_, rfl⟩
    · simp only [translateCreateDatabase, hk, if_true, buildCreateDbReq_spec]
    · simp only [translateCreateDatabase, hk, if_true, buildCreateDbReq_spec, hr, hp, hmap]

/-- C29 (the code at the failing input): for the alter types that rename a column or a tag,
`setAlterTableField` stores two fields of which the first carries the old name and the
second carries no name at all (the new name is written to the local copy of the first field
after that was pushed), and the request `translateAlterTable` sends has `numOfFields = 1`
although it carries two fields. For the alter types that add, drop or resize a column or a
tag the request carries exactly one field, with the column name, the type and the byte width
of the statement, and `numOfFields = 1`. -/
theorem translateAlterTable_fields :
    (∀ (env : Env) (senv : SerializeEnv) (pCxt : STranslateContext)
        (pStmt : SAlterTableStmt),
      isRenameAlterType pStmt.alterType = true →
        (translateAlterTable env senv pCxt pStmt).1 = TSDB_CODE_SUCCESS ∧
        (translateAlterTable env senv pCxt pStmt).2.alterStbReqOf =
          some { name := env.tNameExtractFullName
                   { type := 0, acctId := pCxt.pParseCxt.acctId, dbname := pStmt.dbName,
                     tname := pStmt.tableName }
                 alterType := pStmt.alterType
                 numOfFields := 1
                 pFields := some [{ name := pStmt.colName }, { name := "" }] }) ∧
    (∀ (env : Env) (senv : SerializeEnv) (pCxt : STranslateContext)
        (pStmt : SAlterTableStmt),
      isFieldAlterType pStmt.alterType = true →
        (translateAlterTable env senv pCxt pStmt).1 = TSDB_CODE_SUCCESS ∧
        (translateAlterTable env senv pCxt pStmt).2.alterStbReqOf =
          some { name := env.tNameExtractFullName
                   { type := 0, acctId := pCxt.pParseCxt.acctId, dbname := pStmt.dbName,
                     tname := pStmt.tableName }
                 alterType := pStmt.alterType
                 numOfFields := 1
                 pFields := some [{ name := pStmt.colName, type := pStmt.dataType.type,
                                    bytes := pStmt.dataType.bytes }] }) ∧
    ((translateAlterTable demoEnv demoSerializeEnv demoInitCxt
      demoAlterRenameColumn).2.alterStbReqOf.map fun req => req.pFields) =
      some (some [{ name := "a" }, { name := "" }]) ∧
    ((translateAlterTable demoEnv demoSerializeEnv demoInitCxt
      demoAlterRenameColumn).2.alterStbReqOf.map fun req => req.numOfFields) = some 1 := by
  refine ⟨?_, ?_, by decide, by decide⟩
  · intro env senv pCxt pStmt h
    cases ht : pStmt.alterType <;>
      simp [ht, isRenameAlterType] at h <;>
      simp [translateAlterTable, setAlterTableField, ht, STranslateContext.alterStbReqOf]
  · intro env senv pCxt pStmt h
    cases ht : pStmt.alterType <;>
      simp [ht, isFieldAlterType] at h <;>
      simp [translateAlterTable, setAlterTableField, ht, STranslateContext.alterStbReqOf]

/-- C30 (the code at the failing input): for a list of retentions that is present,
`buildCreateDbRetentions` creates the array and puts no entry into it, whatever the list
holds: the loop tests `index`, which stays 0, so every node is taken as a `freq` and none as
a `keep`. For the translated nodes of `15s:7d` the array is empty, where the pairs of the
list stand for one entry (15 `s`, 7 `d`). For a missing list the request is left as it is,
without an array. -/
theorem buildCreateDbRetentions_no_entries :
    (∀ (l : List SValueNode) (pReq : SCreateDbReq),
      buildCreateDbRetentions (some l) pReq =
        (TSDB_CODE_SUCCESS, { pReq with pRetensions := some [] })) ∧
    (∀ pReq : SCreateDbReq, buildCreateDbRetentions none pReq = (TSDB_CODE_SUCCESS, pReq)) ∧
    (buildCreateDbRetentions (some demoTranslatedRetentions) {}).2.pRetensions = some [] ∧
    specRetentionPairs demoTranslatedRetentions =
      [{ freq := 15, freqUnit := 115, keep := 7, keepUnit := 100 }] := by
  refine ⟨?_, ?_, by decide, by decide⟩
  · intro l pReq
    simp [buildCreateDbRetentions, buildCreateDbRetentionsLoop_index_zero]
  · intro pReq
    rfl

end ParTranslater
